import Mathlib

/-!
# Selection and manipulator core of `radiant/selection.cpp`

A shallow embedding of the picking pool (`SelectionPool`), of the drag
behaviours (`RotateFree`, `RotateAxis`, `TranslateAxis`, `TranslateFree`,
`ScaleAxis`, `ScaleFree`, `SkewAxis`), of the primitive test `BestPoint` with
its point-in-polygon test, of `testSelect` of the rotate, translate and scale
manipulators, of `SelectionPool_Select`, of the mouse bookkeeping of
`RadiantWindowObserver`, of `RadiantSelectionSystem::SelectPoint`, of
`aabb_snap_translation` and of the drag behaviours `DragNewBrush` and
`TransformOriginTranslate`, all of `radiant/selection.cpp`; of
`aabb_classify_plane`, `aabb_corners`, `aabb_for_minmax` and
`aabb_extend_by_aabb` of `libs/math/aabb.h`; and of `StringTokeniser`,
`string_in_string_nocase`, the string comparisons and `std::less<CopiedString>`
of `libs/string/string.h`.

Numbers: `float` and `double` values are embedded as rationals with exact
arithmetic (every finite float is a rational); rounding error is not modelled,
except for the box of `DragNewBrush::Transform`, which is also embedded with
every operation rounded to `float`.
Stateful classes are embedded as structures holding the members, and each
method returns the new member values together with what it passed to its sink.
-/

namespace Radiant

/-! ## SelectionIntersection (include/selectable.h) -/

/-- Modelled from the spec: `include/selectable.h` (class `SelectionIntersection`)
is not among the sources. Per the spec an intersection "is either universally
invalid or has three finite numeric fields" `(depth, distance, distance2)`;
`invalid` is the default-constructed value `SelectionIntersection()`. -/
inductive SelectionIntersection where
  | invalid : SelectionIntersection
  | hit (depth distance distance2 : ℚ) : SelectionIntersection
  deriving DecidableEq

/-- Modelled from the spec: the widths of the two epsilon bands of the ordering
rule ("if the two differ beyond a small epsilon band", "if depth also ties
within a band"); the spec names no values for them, so they are parameters.
Width `0` on both gives the plain lexicographic order. -/
structure Bands where
  distance : ℚ
  depth : ℚ
  deriving DecidableEq

namespace SelectionIntersection

/-- Modelled from the spec: `SelectionIntersection::valid()`; the invalid
intersection is the only one that is not valid. -/
def valid : SelectionIntersection → Bool
  | invalid => false
  | hit _ _ _ => true

/-- Modelled from the spec: `SelectionIntersection::operator<`, the ordering
rule of the data model. "1. Prefer smaller distance if the two differ beyond a
small epsilon band. 2. Within that band, prefer smaller depth. 3. If depth also
ties within a band, prefer smaller distance2." An invalid intersection "never
compares as closer than a valid one" and "sorts strictly after any valid one". -/
def lt (e : Bands) : SelectionIntersection → SelectionIntersection → Bool
  | invalid, _ => false
  | hit _ _ _, invalid => true
  | hit z d d2, hit z' d' d2' =>
    if |d - d'| > e.distance then decide (d < d')
    else if |z - z'| > e.depth then decide (z < z')
    else decide (d2 < d2')

/-- Modelled from the spec: `SelectionIntersection::equalEpsilon`. "Two
intersections are equal within epsilon when their depth differs by ≤ a
depth-epsilon and distance by ≤ a distance-epsilon"; the invalid intersection
carries the same sentinel values every time, so it equals only itself. -/
def equalEpsilon (a b : SelectionIntersection) (distanceEpsilon depthEpsilon : ℚ) : Bool :=
  match a, b with
  | invalid, invalid => true
  | invalid, hit _ _ _ => false
  | hit _ _ _, invalid => false
  | hit z d _, hit z' d' _ =>
    decide (|d - d'| ≤ distanceEpsilon) && decide (|z - z'| ≤ depthEpsilon)

end SelectionIntersection

/-- Modelled from the spec: `SelectionIntersection_closer( self, other )` of
`include/selectable.h`, "returns true if self is closer than other". -/
def SelectionIntersection_closer (e : Bands) (self other : SelectionIntersection) : Bool :=
  SelectionIntersection.lt e self other

/-- Modelled from the spec: `assign_if_closer( best, other )` of
`include/selectable.h`, "records `i` if it beats the running best"; the result
is the new value of `best`. -/
def assign_if_closer (e : Bands) (best other : SelectionIntersection) : SelectionIntersection :=
  if SelectionIntersection_closer e other best then other else best

/-! ## SelectionPool (selection.cpp:1829-1867) -/

/-- The identity of a `Selectable` object (the pointer stored in the pool). -/
abbrev Selectable := Nat

/-- One `SelectableSortedSet::value_type`: the key and the stored pointer
(`none` is the pointer member before any `pushSelectable`). -/
abbrev PoolEntry := SelectionIntersection × Option Selectable

/-- `std::multimap::insert`: the entries are kept in iteration order, a new
entry goes before the first entry whose key it is less than, so after every
entry with an equivalent key. This is the iteration order of `std::multimap`
when the comparison is a strict weak ordering on the keys present; on keys
that the banded ordering compares cyclically the standard leaves the position
to the implementation, and the list is then one of the possible orders. -/
def multimap_insert (e : Bands) (kv : PoolEntry) : List PoolEntry → List PoolEntry
  | [] => [kv]
  | x :: rest =>
    if SelectionIntersection.lt e kv.1 x.1 then kv :: x :: rest
    else x :: multimap_insert e kv rest

/-- `class SelectionPool`: `m_pool` in iteration order, `m_intersection`,
`m_selectable`. -/
structure SelectionPool where
  m_pool : List PoolEntry
  m_intersection : SelectionIntersection
  m_selectable : Option Selectable
  deriving DecidableEq

namespace SelectionPool

/-- A freshly constructed pool: empty map, default-constructed intersection,
pointer not yet set. -/
def fresh : SelectionPool :=
  { m_pool := [], m_intersection := SelectionIntersection.invalid, m_selectable := none }

/-- `SelectionPool::addSelectable`. -/
def addSelectable (e : Bands) (p : SelectionPool) (intersection : SelectionIntersection)
    (selectable : Option Selectable) : SelectionPool :=
  if intersection.valid then
    { p with m_pool := multimap_insert e (intersection, selectable) p.m_pool }
  else p

/-- `SelectionPool::pushSelectable`. -/
def pushSelectable (p : SelectionPool) (selectable : Selectable) : SelectionPool :=
  { p with m_intersection := SelectionIntersection.invalid, m_selectable := some selectable }

/-- `SelectionPool::popSelectable`. -/
def popSelectable (e : Bands) (p : SelectionPool) : SelectionPool :=
  { addSelectable e p p.m_intersection p.m_selectable with
    m_intersection := SelectionIntersection.invalid }

/-- `SelectionPool::addIntersection`. -/
def addIntersection (e : Bands) (p : SelectionPool) (intersection : SelectionIntersection) :
    SelectionPool :=
  { p with m_intersection := assign_if_closer e p.m_intersection intersection }

/-- `SelectionPool::failed`. -/
def failed (p : SelectionPool) : Bool := p.m_pool.isEmpty

end SelectionPool

/-- One call on a `SelectionPool`. -/
inductive PoolCall where
  | pushSelectable (s : Selectable)
  | popSelectable
  | addIntersection (i : SelectionIntersection)
  | addSelectable (i : SelectionIntersection) (s : Option Selectable)
  deriving DecidableEq

/-- The intersection a call supplies, if it supplies one. -/
def PoolCall.supplied : PoolCall → Option SelectionIntersection
  | .pushSelectable _ => none
  | .popSelectable => none
  | .addIntersection i => some i
  | .addSelectable i _ => some i

/-- The effect of one call. -/
def SelectionPool.call (e : Bands) (p : SelectionPool) : PoolCall → SelectionPool
  | .pushSelectable s => p.pushSelectable s
  | .popSelectable => p.popSelectable e
  | .addIntersection i => p.addIntersection e i
  | .addSelectable i s => p.addSelectable e i s

/-- The effect of a sequence of calls, first call first. -/
def SelectionPool.calls (e : Bands) (p : SelectionPool) (cs : List PoolCall) : SelectionPool :=
  cs.foldl (SelectionPool.call e) p

/-- The closest of `i1 .. in`: folded with `assign_if_closer` from the
default-constructed intersection. -/
def closestOf (e : Bands) (is : List SelectionIntersection) : SelectionIntersection :=
  is.foldl (assign_if_closer e) SelectionIntersection.invalid

/-- One bracket: `pushSelectable(s)`, `addIntersection(i1)` .. `addIntersection(in)`,
`popSelectable()`. -/
def SelectionPool.bracket (e : Bands) (p : SelectionPool) (s : Selectable)
    (is : List SelectionIntersection) : SelectionPool :=
  (is.foldl (SelectionPool.addIntersection e) (p.pushSelectable s)).popSelectable e

/-! ## Scalars, vectors, matrices (libs/math)

The headers `math/vector.h`, `math/matrix.h`, `math/line.h`, `math/plane.h`,
`math/quaternion.h` and `math/pi.h` are not among the sources. Their functions
are embedded under the names the source calls them by, as the usual vector and
4x4 column-major matrix algebra. Division is the total division of `ℚ`; the
divisions written in the body of `ScaleAxis::Transform` are embedded with
`checked_div`, which reports a zero denominator. -/

/-- The functions of the C math library (`<cmath>`) whose values are not rational:
they are parameters of everything that calls them. -/
structure CMath where
  sqrt : ℚ → ℚ
  atan2 : ℚ → ℚ → ℚ

/-- Modelled from the spec: `c_pi` of `math/pi.h`, which is not among the
sources ("shift snaps the angle to 15° increments": `c_pi / 12`); embedded as
the decimal expansion of π to twenty places. -/
def c_pi : ℚ := 314159265358979323846 / 100000000000000000000

/-- Newton iteration for the integer square root of `n` from the estimate `x`,
at most `fuel` steps. -/
def nat_sqrt_iter (n : ℕ) : ℕ → ℕ → ℕ
  | 0, x => x
  | fuel + 1, x =>
    let y := (x + n / x) / 2
    if y < x then nat_sqrt_iter n fuel y else x

/-- The integer square root (rounded down). -/
def nat_sqrt (n : ℕ) : ℕ := if n = 0 then 0 else nat_sqrt_iter n n n

/-- A square root on the rationals that is exact on the squares of rationals
(numerator and denominator are rooted separately, each rounded down). -/
def rat_sqrt (q : ℚ) : ℚ := (nat_sqrt q.num.toNat : ℚ) / (nat_sqrt q.den : ℚ)

/-- A `CMath` for evaluating on concrete inputs: `sqrt` is `rat_sqrt`, exact on
the squares of rationals, and `atan2` is the function given. -/
def CMath.exactSqrt (atan2 : ℚ → ℚ → ℚ) : CMath := ⟨rat_sqrt, atan2⟩

/-- Modelled from the spec: `Vector2` of `math/vector.h` (not among the sources),
two components. -/
structure Vector2 where
  x : ℚ
  y : ℚ
  deriving DecidableEq

/-- `typedef Vector2 DeviceVector` (selection.cpp:55). -/
abbrev DeviceVector := Vector2

/-- Modelled from the spec: `Vector3` of `math/vector.h` (not among the sources),
three components. -/
structure Vector3 where
  x : ℚ
  y : ℚ
  z : ℚ
  deriving DecidableEq

/-- Modelled from the spec: `Vector4` of `math/vector.h` (not among the sources),
four components. -/
structure Vector4 where
  x : ℚ
  y : ℚ
  z : ℚ
  w : ℚ
  deriving DecidableEq

/-- Modelled from the spec: `Vector3::operator[]` of `math/vector.h`, read. -/
def Vector3.get (v : Vector3) (i : Fin 3) : ℚ :=
  match i with
  | 0 => v.x
  | 1 => v.y
  | 2 => v.z

/-- Modelled from the spec: `Vector3::operator[]` of `math/vector.h`, write. -/
def Vector3.set (v : Vector3) (i : Fin 3) (a : ℚ) : Vector3 :=
  match i with
  | 0 => { v with x := a }
  | 1 => { v with y := a }
  | 2 => { v with z := a }

/-- Modelled from the spec: `g_vector3_axes[i]` of `math/vector.h`, the unit
vector of axis `i`. -/
def g_vector3_axes (i : Fin 3) : Vector3 :=
  match i with
  | 0 => ⟨1, 0, 0⟩
  | 1 => ⟨0, 1, 0⟩
  | 2 => ⟨0, 0, 1⟩

/-- Modelled from the spec: `g_vector3_identity` of `math/vector.h`, the zero
vector. -/
def g_vector3_identity : Vector3 := ⟨0, 0, 0⟩

/-- Modelled from the spec: `vector3_added` of `math/vector.h`. -/
def vector3_added (a b : Vector3) : Vector3 := ⟨a.x + b.x, a.y + b.y, a.z + b.z⟩

/-- Modelled from the spec: `vector3_subtracted` of `math/vector.h`. -/
def vector3_subtracted (a b : Vector3) : Vector3 := ⟨a.x - b.x, a.y - b.y, a.z - b.z⟩

/-- Modelled from the spec: `vector3_scaled( v, scalar )` of `math/vector.h`. -/
def vector3_scaled (a : Vector3) (s : ℚ) : Vector3 := ⟨a.x * s, a.y * s, a.z * s⟩

/-- Modelled from the spec: `vector3_scaled( v, Vector3 )`, `vector3_scale( v, Vector3 )`
and `v *= Vector3` of `math/vector.h`, the component-wise product. -/
def vector3_scaled_vec (a b : Vector3) : Vector3 := ⟨a.x * b.x, a.y * b.y, a.z * b.z⟩

/-- Modelled from the spec: `vector3_dot` of `math/vector.h`. -/
def vector3_dot (a b : Vector3) : ℚ := a.x * b.x + a.y * b.y + a.z * b.z

/-- Modelled from the spec: `vector3_cross` of `math/vector.h`. -/
def vector3_cross (a b : Vector3) : Vector3 :=
  ⟨a.y * b.z - a.z * b.y, a.z * b.x - a.x * b.z, a.x * b.y - a.y * b.x⟩

/-- Modelled from the spec: `vector3_length` of `math/vector.h`. -/
def vector3_length (cm : CMath) (a : Vector3) : ℚ := cm.sqrt (vector3_dot a a)

/-- Modelled from the spec: `vector3_normalised` / `vector3_normalise` of
`math/vector.h`, the vector scaled by the inverse of its length. -/
def vector3_normalised (cm : CMath) (a : Vector3) : Vector3 :=
  vector3_scaled a (1 / vector3_length cm a)

/-- Modelled from the spec: `vector3_max_abs_component_index` of `math/vector.h`,
the index of a component of largest magnitude (the first one on ties). -/
def vector3_max_abs_component_index (v : Vector3) : Fin 3 :=
  let maxi : Fin 3 := if |v.y| > |v.x| then 1 else 0
  if |v.z| > |v.get maxi| then 2 else maxi

/-- Modelled from the spec: `vector3_min_abs_component_index` of `math/vector.h`,
the index of a component of smallest magnitude (the first one on ties). -/
def vector3_min_abs_component_index (v : Vector3) : Fin 3 :=
  let mini : Fin 3 := if |v.y| < |v.x| then 1 else 0
  if |v.z| < |v.get mini| then 2 else mini

/-- Modelled from the spec: `float_snapped( f, snap )` of `math/vector.h`, which
is not among the sources: `f` rounded to the nearest multiple of `snap` ("snaps
the angle to 15° increments", grid snap). A snap of `0` (grid snapping off, see
selection.cpp:729) leaves the value as it is. -/
def float_snapped (f snap : ℚ) : ℚ :=
  if snap = 0 then f else (round (f / snap) : ℚ) * snap

/-- Modelled from the spec: `vector3_snapped` / `vector3_snap` of `math/vector.h`,
`float_snapped` on each component. -/
def vector3_snapped (v : Vector3) (snap : ℚ) : Vector3 :=
  ⟨float_snapped v.x snap, float_snapped v.y snap, float_snapped v.z snap⟩

/-- Modelled from the spec: `vector4_projected` of `math/vector.h`, the
perspective divide. -/
def vector4_projected (v : Vector4) : Vector3 := ⟨v.x / v.w, v.y / v.w, v.z / v.w⟩

/-- Modelled from the spec: `Matrix4` of `math/matrix.h` (not among the sources),
column-major: `xx xy xz xw` is the first column (elements 0..3), `tx ty tz tw`
the last (elements 12..15). -/
structure Matrix4 where
  xx : ℚ
  xy : ℚ
  xz : ℚ
  xw : ℚ
  yx : ℚ
  yy : ℚ
  yz : ℚ
  yw : ℚ
  zx : ℚ
  zy : ℚ
  zz : ℚ
  zw : ℚ
  tx : ℚ
  ty : ℚ
  tz : ℚ
  tw : ℚ
  deriving DecidableEq

/-- Modelled from the spec: `g_matrix4_identity` of `math/matrix.h`. -/
def g_matrix4_identity : Matrix4 :=
  ⟨1, 0, 0, 0,  0, 1, 0, 0,  0, 0, 1, 0,  0, 0, 0, 1⟩

/-- Modelled from the spec: `matrix4_transformed_vector4` of `math/matrix.h`. -/
def matrix4_transformed_vector4 (m : Matrix4) (v : Vector4) : Vector4 :=
  ⟨m.xx * v.x + m.yx * v.y + m.zx * v.z + m.tx * v.w,
   m.xy * v.x + m.yy * v.y + m.zy * v.z + m.ty * v.w,
   m.xz * v.x + m.yz * v.y + m.zz * v.z + m.tz * v.w,
   m.xw * v.x + m.yw * v.y + m.zw * v.z + m.tw * v.w⟩

/-- Modelled from the spec: `matrix4_multiplied_by_matrix4( self, other )` of
`math/matrix.h`, `self` post-multiplied by `other` (each column of `other`
transformed by `self`). -/
def matrix4_multiplied_by_matrix4 (self other : Matrix4) : Matrix4 :=
  let cx := matrix4_transformed_vector4 self ⟨other.xx, other.xy, other.xz, other.xw⟩
  let cy := matrix4_transformed_vector4 self ⟨other.yx, other.yy, other.yz, other.yw⟩
  let cz := matrix4_transformed_vector4 self ⟨other.zx, other.zy, other.zz, other.zw⟩
  let ct := matrix4_transformed_vector4 self ⟨other.tx, other.ty, other.tz, other.tw⟩
  ⟨cx.x, cx.y, cx.z, cx.w,  cy.x, cy.y, cy.z, cy.w,  cz.x, cz.y, cz.z, cz.w,
   ct.x, ct.y, ct.z, ct.w⟩

/-- Modelled from the spec: `matrix4_translation_for_vec3` of `math/matrix.h`. -/
def matrix4_translation_for_vec3 (t : Vector3) : Matrix4 :=
  ⟨1, 0, 0, 0,  0, 1, 0, 0,  0, 0, 1, 0,  t.x, t.y, t.z, 1⟩

/-- Modelled from the spec: `matrix4_translated_by_vec3` of `math/matrix.h`,
`self` post-multiplied by the translation. -/
def matrix4_translated_by_vec3 (self : Matrix4) (t : Vector3) : Matrix4 :=
  matrix4_multiplied_by_matrix4 self (matrix4_translation_for_vec3 t)

/-- Modelled from the spec: `matrix4_get_translation_vec3` of `math/matrix.h`. -/
def matrix4_get_translation_vec3 (m : Matrix4) : Vector3 := ⟨m.tx, m.ty, m.tz⟩

/-- Modelled from the spec: `matrix4_determinant` of `math/matrix.h` (expansion by
the 2x2 minors of the upper and of the lower row pair). -/
def matrix4_determinant (m : Matrix4) : ℚ :=
  (m.xx * m.yy - m.xy * m.yx) * (m.zz * m.tw - m.zw * m.tz)
  - (m.xx * m.zy - m.xy * m.zx) * (m.yz * m.tw - m.yw * m.tz)
  + (m.xx * m.ty - m.xy * m.tx) * (m.yz * m.zw - m.yw * m.zz)
  + (m.yx * m.zy - m.yy * m.zx) * (m.xz * m.tw - m.xw * m.tz)
  - (m.yx * m.ty - m.yy * m.tx) * (m.xz * m.zw - m.xw * m.zz)
  + (m.zx * m.ty - m.zy * m.tx) * (m.xz * m.yw - m.xw * m.yz)

/-- Modelled from the spec: `matrix4_full_inverse` of `math/matrix.h`, the
adjugate divided by the determinant. -/
def matrix4_full_inverse (m : Matrix4) : Matrix4 :=
  let s0 := m.xx * m.yy - m.xy * m.yx
  let s1 := m.xx * m.zy - m.xy * m.zx
  let s2 := m.xx * m.ty - m.xy * m.tx
  let s3 := m.yx * m.zy - m.yy * m.zx
  let s4 := m.yx * m.ty - m.yy * m.tx
  let s5 := m.zx * m.ty - m.zy * m.tx
  let c5 := m.zz * m.tw - m.zw * m.tz
  let c4 := m.yz * m.tw - m.yw * m.tz
  let c3 := m.yz * m.zw - m.yw * m.zz
  let c2 := m.xz * m.tw - m.xw * m.tz
  let c1 := m.xz * m.zw - m.xw * m.zz
  let c0 := m.xz * m.yw - m.xw * m.yz
  let det := matrix4_determinant m
  { xx := (m.yy * c5 - m.zy * c4 + m.ty * c3) / det
    xy := (-m.xy * c5 + m.zy * c2 - m.ty * c1) / det
    xz := (m.xy * c4 - m.yy * c2 + m.ty * c0) / det
    xw := (-m.xy * c3 + m.yy * c1 - m.zy * c0) / det
    yx := (-m.yx * c5 + m.zx * c4 - m.tx * c3) / det
    yy := (m.xx * c5 - m.zx * c2 + m.tx * c1) / det
    yz := (-m.xx * c4 + m.yx * c2 - m.tx * c0) / det
    yw := (m.xx * c3 - m.yx * c1 + m.zx * c0) / det
    zx := (m.yw * s5 - m.zw * s4 + m.tw * s3) / det
    zy := (-m.xw * s5 + m.zw * s2 - m.tw * s1) / det
    zz := (m.xw * s4 - m.yw * s2 + m.tw * s0) / det
    zw := (-m.xw * s3 + m.yw * s1 - m.zw * s0) / det
    tx := (-m.yz * s5 + m.zz * s4 - m.tz * s3) / det
    ty := (m.xz * s5 - m.zz * s2 + m.tz * s1) / det
    tz := (-m.xz * s4 + m.yz * s2 - m.tz * s0) / det
    tw := (m.xz * s3 - m.yz * s1 + m.zz * s0) / det }

/-- Modelled from the spec: `Ray` of `math/line.h` (not among the sources), an
origin and a direction. -/
structure Ray where
  origin : Vector3
  direction : Vector3
  deriving DecidableEq

/-- Modelled from the spec: `ray_for_points` of `math/line.h`, the ray from
`origin` towards `p2` with normalised direction. -/
def ray_for_points (cm : CMath) (origin p2 : Vector3) : Ray :=
  ⟨origin, vector3_normalised cm (vector3_subtracted p2 origin)⟩

/-- Modelled from the spec: `Plane3` of `math/plane.h` (not among the sources):
`a b c` is the normal, `d` the distance. -/
structure Plane3 where
  a : ℚ
  b : ℚ
  c : ℚ
  d : ℚ
  deriving DecidableEq

/-- Modelled from the spec: `Plane3::normal()` of `math/plane.h`. -/
def Plane3.normal (p : Plane3) : Vector3 := ⟨p.a, p.b, p.c⟩

/-- Modelled from the spec: the constructor `Plane3( normal, dist )` of
`math/plane.h`. -/
def Plane3.ofNormalDist (n : Vector3) (dist : ℚ) : Plane3 := ⟨n.x, n.y, n.z, dist⟩

/-- Modelled from the spec: `ray_intersect_plane` of `math/line.h`, the point of
the ray on the plane `normal . p = d`. -/
def ray_intersect_plane (ray : Ray) (plane : Plane3) : Vector3 :=
  vector3_added ray.origin
    (vector3_scaled ray.direction
      (-(vector3_dot plane.normal ray.origin - plane.d) / vector3_dot ray.direction plane.normal))

/-- `class AABB` (aabb.h:31). -/
structure AABB where
  origin : Vector3
  extents : Vector3
  deriving DecidableEq

/-- Modelled from the spec: `Quaternion` of `math/quaternion.h` (not among the
sources), kept as the call that made it: `quaternion_for_axisangle( axis, angle )`
or `quaternion_for_unit_vectors( from, to )`. -/
inductive Quaternion where
  | for_axisangle (axis : Vector3) (angle : ℚ)
  | for_unit_vectors (a b : Vector3)
  deriving DecidableEq

/-- Modelled from the spec: `Skew( index, amount )` (declared outside the
sources): the index of a matrix element and the coefficient put there. -/
structure Skew where
  index : Int
  amount : ℚ
  deriving DecidableEq

/-- Division that reports a zero denominator (the float result would not be finite). -/
def checked_div (a b : ℚ) : Option ℚ := if b = 0 then none else some (a / b)

/-! ## Device rays and the drag helpers (selection.cpp:74-185) -/

/-- `point_for_device_point` (selection.cpp:74). -/
def point_for_device_point (device2object : Matrix4) (xy : DeviceVector) (z : ℚ) : Vector3 :=
  vector4_projected (matrix4_transformed_vector4 device2object ⟨xy.x, xy.y, z, 1⟩)

/-- `ray_for_device_point` (selection.cpp:79). -/
def ray_for_device_point (cm : CMath) (device2object : Matrix4) (xy : DeviceVector) : Ray :=
  ray_for_points cm (point_for_device_point device2object xy (-1))
    (point_for_device_point device2object xy 0)

/-- `sphere_intersect_ray` (selection.cpp:86). -/
def sphere_intersect_ray (cm : CMath) (origin : Vector3) (radius : ℚ) (ray : Ray) : Vector3 :=
  let intersection := vector3_subtracted origin ray.origin
  let a := vector3_dot intersection ray.direction
  let d := radius * radius - (vector3_dot intersection intersection - a * a)
  if d > 0 then
    vector3_added ray.origin (vector3_scaled ray.direction (a - cm.sqrt d))
  else
    vector3_added ray.origin (vector3_scaled ray.direction a)

/-- `ray_intersect_ray` (selection.cpp:102). -/
def ray_intersect_ray (ray other : Ray) : Vector3 :=
  let intersection := vector3_subtracted ray.origin other.origin
  let dot := vector3_dot ray.direction other.direction
  let d := vector3_dot ray.direction intersection
  let e := vector3_dot other.direction intersection
  let D := 1 - dot * dot
  if D < 1 / 1000000 then
    vector3_added other.origin (vector3_scaled other.direction e)
  else
    vector3_added other.origin (vector3_scaled other.direction ((e - dot * d) / D))

/-- `g_origin` (selection.cpp:121). -/
def g_origin : Vector3 := ⟨0, 0, 0⟩

/-- `g_radius` (selection.cpp:122). -/
def g_radius : ℚ := 64

/-- `point_on_sphere` (selection.cpp:124). -/
def point_on_sphere (cm : CMath) (device2object : Matrix4) (xy : DeviceVector) (radius : ℚ) :
    Vector3 :=
  sphere_intersect_ray cm g_origin radius (ray_for_device_point cm device2object xy)

/-- `point_on_axis` (selection.cpp:130). -/
def point_on_axis (cm : CMath) (axis : Vector3) (device2object : Matrix4) (xy : DeviceVector) :
    Vector3 :=
  ray_intersect_ray (ray_for_device_point cm device2object xy) ⟨⟨0, 0, 0⟩, axis⟩

/-- `point_on_plane( device2object, xy )` (selection.cpp:135). -/
def point_on_plane (device2object : Matrix4) (xy : DeviceVector) : Vector3 :=
  let object2device := matrix4_full_inverse device2object
  vector4_projected
    (matrix4_transformed_vector4 device2object
      ⟨xy.x, xy.y, object2device.tz / object2device.tw, 1⟩)

/-- `point_on_plane( plane, object2device, xy )` (selection.cpp:140). -/
def point_on_plane_of (cm : CMath) (plane : Plane3) (object2device : Matrix4)
    (xy : DeviceVector) : Vector3 :=
  ray_intersect_plane (ray_for_device_point cm (matrix4_full_inverse object2device) xy) plane

/-- `angle_between` (selection.cpp:146). -/
def angle_between (cm : CMath) (a b : Vector3) : ℚ :=
  2 * cm.atan2 (vector3_length cm (vector3_subtracted a b)) (vector3_length cm (vector3_added a b))

/-- `constrain_to_axis` (selection.cpp:169); the result is the new `vec`. -/
def constrain_to_axis (cm : CMath) (vec axis : Vector3) : Vector3 :=
  vector3_normalised cm (vector3_added vec (vector3_scaled axis (-vector3_dot vec axis)))

/-- `angle_for_axis` (selection.cpp:174). -/
def angle_for_axis (cm : CMath) (a b axis : Vector3) : ℚ :=
  if vector3_dot axis (vector3_cross a b) > 0 then angle_between cm a b
  else -angle_between cm a b

/-- `distance_for_axis` (selection.cpp:183). -/
def distance_for_axis (a b axis : Vector3) : ℚ :=
  vector3_dot b axis - vector3_dot a axis

/-- `ModifierFlagsExt` (selection.cpp:188): the three modifier bits. -/
structure ModifierFlagsExt where
  shift : Bool
  ctrl : Bool
  alt : Bool
  deriving DecidableEq

/-- Modelled from the spec: `c_modifierNone` of `windowobserver.h` (not among the
sources), no modifier held. -/
def c_modifierNone : ModifierFlagsExt := ⟨false, false, false⟩

/-- Modelled from the spec: `View` of `view.h` (not among the sources), as far as
the drag behaviours read it. -/
structure View where
  fill : Bool
  getViewer : Vector3
  getViewDir : Vector3
  GetViewMatrix : Matrix4
  deriving DecidableEq

/-- The global state a drag behaviour reads: `g_modifiers` (selection.cpp:203),
`GetSnapGridSize()` (grid.h) and `Manipulatable::m_view` (selection.cpp:211). -/
structure Globals where
  g_modifiers : ModifierFlagsExt
  GetSnapGridSize : ℚ
  m_view : View
  deriving DecidableEq

/-- `for ( std::size_t i = 0; i < 3; ++i )` over a state. -/
def for3 {α : Type} (body : Fin 3 → α → α) (a : α) : α :=
  body 2 (body 1 (body 0 a))

/-- `for ( std::size_t i = 0; i < 3; ++i )` over a state, with a body that can
meet a zero denominator. -/
def for3_checked {α : Type} (body : Fin 3 → α → Option α) (a : α) : Option α :=
  (body 0 a).bind fun a1 => (body 1 a1).bind fun a2 => body 2 a2

/-- `aabb_snap_translation` (selection.cpp:324); the result is the new `move`. -/
def aabb_snap_translation (grid : ℚ) (move : Vector3) (bounds : AABB) : Vector3 :=
  let maxs := vector3_added bounds.origin bounds.extents
  let mins := vector3_subtracted bounds.origin bounds.extents
  for3 (fun i move =>
    if |move.get i| > 1 / 100 then
      let snapto1 := float_snapped (maxs.get i + move.get i) grid
      let snapto2 := float_snapped (mins.get i + move.get i) grid
      let dist1 := abs (abs (maxs.get i + move.get i) - abs snapto1)
      let dist2 := abs (abs (mins.get i + move.get i) - abs snapto2)
      move.set i (if dist2 > dist1 then snapto1 - maxs.get i else snapto2 - mins.get i)
    else move) move

/-- `translation_local2object( local, local2object )` (selection.cpp:343). -/
def translation_local2object (local_ : Vector3) (local2object : Matrix4) : Vector3 :=
  matrix4_get_translation_vec3
    (matrix4_multiplied_by_matrix4
      (matrix4_translated_by_vec3 local2object local_)
      (matrix4_full_inverse local2object))

/-! ## The drag behaviours (selection.cpp:240-902)

Each class is a structure of its members; `Construct` returns the new members,
`Transform` returns the new members and the value passed to the sink
(`Rotatable::rotate`, `Translatable::translate`, `Scalable::scale`,
`Skewable::skew`). -/

/-- `class RotateFree` (selection.cpp:240). -/
structure RotateFree where
  m_start : Vector3
  deriving DecidableEq

/-- `RotateFree::Construct` (selection.cpp:248). -/
def RotateFree.Construct (cm : CMath) (_g : Globals) (_self : RotateFree) (device2manip : Matrix4)
    (device_point : DeviceVector) (_bounds : AABB) (_transform_origin : Vector3) : RotateFree :=
  { m_start := vector3_normalised cm (point_on_sphere cm device2manip device_point g_radius) }

/-- `RotateFree::Transform` (selection.cpp:252). With shift, the loop returns at
the first `i` with `current[i] == 0`. -/
def RotateFree.Transform (cm : CMath) (g : Globals) (self : RotateFree) (_manip2object : Matrix4)
    (device2manip : Matrix4) (device_point : DeviceVector) : RotateFree × Quaternion :=
  let current := vector3_normalised cm (point_on_sphere cm device2manip device_point g_radius)
  if g.g_modifiers.shift then
    match ([0, 1, 2] : List (Fin 3)).find? (fun i => decide (current.get i = 0)) with
    | some i =>
      (self, Quaternion.for_axisangle (g_vector3_axes i)
        (float_snapped (angle_for_axis cm self.m_start current (g_vector3_axes i)) (c_pi / 12)))
    | none => (self, Quaternion.for_unit_vectors self.m_start current)
  else
    (self, Quaternion.for_unit_vectors self.m_start current)

/-- `class RotateAxis` (selection.cpp:266). -/
structure RotateAxis where
  m_axis : Vector3
  m_start : Vector3
  m_radius : ℚ
  m_plane_way : Bool
  m_plane : Plane3
  m_origin : Vector3
  deriving DecidableEq

/-- `RotateAxis::Construct` (selection.cpp:279). -/
def RotateAxis.Construct (cm : CMath) (g : Globals) (self : RotateAxis) (device2manip : Matrix4)
    (device_point : DeviceVector) (_bounds : AABB) (transform_origin : Vector3) : RotateAxis :=
  let dot := vector3_dot self.m_axis
    (if g.m_view.fill then
      vector3_normalised cm (vector3_subtracted g.m_view.getViewer transform_origin)
     else g.m_view.getViewDir)
  let plane_way : Bool := decide (|dot| > 1 / 10)
  if plane_way then
    let origin := transform_origin
    let plane := Plane3.ofNormalDist self.m_axis (vector3_dot self.m_axis origin)
    { self with
      m_plane_way := plane_way
      m_origin := origin
      m_plane := plane
      m_start := vector3_normalised cm
        (vector3_subtracted (point_on_plane_of cm plane g.m_view.GetViewMatrix device_point) origin) }
  else
    { self with
      m_plane_way := plane_way
      m_start := constrain_to_axis cm
        (point_on_sphere cm device2manip device_point self.m_radius) self.m_axis }

/-- The `current` vector of `RotateAxis::Transform` (selection.cpp:296-304). -/
def RotateAxis.current (cm : CMath) (g : Globals) (self : RotateAxis) (device2manip : Matrix4)
    (device_point : DeviceVector) : Vector3 :=
  if self.m_plane_way then
    vector3_normalised cm
      (vector3_subtracted
        (point_on_plane_of cm self.m_plane g.m_view.GetViewMatrix device_point) self.m_origin)
  else
    constrain_to_axis cm (point_on_sphere cm device2manip device_point self.m_radius) self.m_axis

/-- `RotateAxis::Transform` (selection.cpp:295). -/
def RotateAxis.Transform (cm : CMath) (g : Globals) (self : RotateAxis) (_manip2object : Matrix4)
    (device2manip : Matrix4) (device_point : DeviceVector) : RotateAxis × Quaternion :=
  let current := RotateAxis.current cm g self device2manip device_point
  if g.g_modifiers.shift then
    (self, Quaternion.for_axisangle self.m_axis
      (float_snapped (angle_for_axis cm self.m_start current self.m_axis) (c_pi / 12)))
  else
    (self, Quaternion.for_axisangle self.m_axis
      (angle_for_axis cm self.m_start current self.m_axis))

/-- `class TranslateAxis` (selection.cpp:366). -/
structure TranslateAxis where
  m_start : Vector3
  m_axis : Vector3
  m_bounds : AABB
  deriving DecidableEq

/-- `TranslateAxis::Construct` (selection.cpp:376). -/
def TranslateAxis.Construct (cm : CMath) (_g : Globals) (self : TranslateAxis)
    (device2manip : Matrix4) (device_point : DeviceVector) (bounds : AABB)
    (_transform_origin : Vector3) : TranslateAxis :=
  { self with
    m_start := point_on_axis cm self.m_axis device2manip device_point
    m_bounds := bounds }

/-- `TranslateAxis::Transform` (selection.cpp:380). -/
def TranslateAxis.Transform (cm : CMath) (g : Globals) (self : TranslateAxis)
    (manip2object : Matrix4) (device2manip : Matrix4) (device_point : DeviceVector) :
    TranslateAxis × Vector3 :=
  let current := point_on_axis cm self.m_axis device2manip device_point
  let current := vector3_scaled self.m_axis (distance_for_axis self.m_start current self.m_axis)
  let current := translation_local2object current manip2object
  let current :=
    if g.g_modifiers.ctrl then aabb_snap_translation g.GetSnapGridSize current self.m_bounds
    else vector3_snapped current g.GetSnapGridSize
  (self, current)

/-- `class TranslateFree` (selection.cpp:441). -/
structure TranslateFree where
  m_start : Vector3
  m_bounds : AABB
  deriving DecidableEq

/-- `TranslateFree::Construct` (selection.cpp:451). -/
def TranslateFree.Construct (_cm : CMath) (_g : Globals) (_self : TranslateFree)
    (device2manip : Matrix4) (device_point : DeviceVector) (bounds : AABB)
    (_transform_origin : Vector3) : TranslateFree :=
  { m_start := point_on_plane device2manip device_point
    m_bounds := bounds }

/-- `TranslateFree::Transform` (selection.cpp:455). -/
def TranslateFree.Transform (_cm : CMath) (g : Globals) (self : TranslateFree)
    (manip2object : Matrix4) (device2manip : Matrix4) (device_point : DeviceVector) :
    TranslateFree × Vector3 :=
  let current := point_on_plane device2manip device_point
  let current := vector3_subtracted current self.m_start
  let current :=
    if g.g_modifiers.shift then
      vector3_scaled_vec current (g_vector3_axes (vector3_max_abs_component_index current))
    else current
  let current := translation_local2object current manip2object
  let current :=
    if g.g_modifiers.ctrl then aabb_snap_translation g.GetSnapGridSize current self.m_bounds
    else vector3_snapped current g.GetSnapGridSize
  (self, current)

/-- `class ScaleAxis` (selection.cpp:696). -/
structure ScaleAxis where
  m_start : Vector3
  m_axis : Vector3
  m_chosen_extent : Vector3
  m_bounds : AABB
  deriving DecidableEq

/-- `ScaleAxis::Construct` (selection.cpp:710). -/
def ScaleAxis.Construct (cm : CMath) (_g : Globals) (self : ScaleAxis) (device2manip : Matrix4)
    (device_point : DeviceVector) (bounds : AABB) (transform_origin : Vector3) : ScaleAxis :=
  { self with
    m_start := point_on_axis cm self.m_axis device2manip device_point
    m_chosen_extent :=
      ⟨max (bounds.origin.x + bounds.extents.x - transform_origin.x)
           (-bounds.origin.x + bounds.extents.x + transform_origin.x),
       max (bounds.origin.y + bounds.extents.y - transform_origin.y)
           (-bounds.origin.y + bounds.extents.y + transform_origin.y),
       max (bounds.origin.z + bounds.extents.z - transform_origin.z)
           (-bounds.origin.z + bounds.extents.z + transform_origin.z)⟩
    m_bounds := bounds }

/-- The local `delta` of `ScaleAxis::Transform` (selection.cpp:722-727). -/
def ScaleAxis.delta (cm : CMath) (g : Globals) (self : ScaleAxis) (manip2object : Matrix4)
    (device2manip : Matrix4) (device_point : DeviceVector) : Vector3 :=
  let current := point_on_axis cm self.m_axis device2manip device_point
  let delta := vector3_subtracted current self.m_start
  let delta := translation_local2object delta manip2object
  let delta := vector3_snapped delta g.GetSnapGridSize
  vector3_scaled_vec delta self.m_axis

/-- The local `start` of `ScaleAxis::Transform` and `ScaleFree::Transform`
(selection.cpp:729-734, 802-807) for the member `m_start`. -/
def scale_start (g : Globals) (m_start : Vector3) : Vector3 :=
  let start := vector3_snapped m_start
    (if g.GetSnapGridSize ≠ 0 then g.GetSnapGridSize else 1 / 1000)
  for3 (fun i start =>
    if float_snapped (m_start.get i) (1 / 1000) ≠ 0 ∧ start.get i = 0 then
      start.set i g.GetSnapGridSize
    else start) start

/-- The "boundless way" scale (selection.cpp:737-741, 813-817):
`start[k] == 0 ? 1 : 1 + delta[k] / start[k]` on each axis. -/
def scale_boundless (delta start : Vector3) : Option Vector3 :=
  (if start.x = 0 then some 1 else (checked_div delta.x start.x).map (1 + ·)).bind fun sx =>
  (if start.y = 0 then some 1 else (checked_div delta.y start.y).map (1 + ·)).bind fun sy =>
  (if start.z = 0 then some 1 else (checked_div delta.z start.z).map (1 + ·)).bind fun sz =>
  some ⟨sx, sy, sz⟩

/-- `ScaleAxis::Transform` (selection.cpp:720). The emitted scale is `none` when
a division of the body met a zero denominator. -/
def ScaleAxis.Transform (cm : CMath) (g : Globals) (self : ScaleAxis) (manip2object : Matrix4)
    (device2manip : Matrix4) (device_point : DeviceVector) : ScaleAxis × Option Vector3 :=
  let delta := ScaleAxis.delta cm g self manip2object device2manip device_point
  let start := scale_start g self.m_start
  let scale := scale_boundless delta start
  let scale := scale.bind (for3_checked fun i scale =>
    if self.m_chosen_extent.get i > 1 / 16 ∧ self.m_axis.get i ≠ 0 then
      (checked_div (self.m_chosen_extent.get i + delta.get i) (self.m_chosen_extent.get i)).bind
        fun s =>
          if g.g_modifiers.ctrl then
            let snappdwidth :=
              float_snapped (s * self.m_bounds.extents.get i * 2) g.GetSnapGridSize
            (checked_div snappdwidth (self.m_bounds.extents.get i * 2)).map fun s' =>
              scale.set i s'
          else some (scale.set i s)
    else some scale)
  let scale :=
    if g.g_modifiers.shift then
      scale.map (for3 fun i scale =>
        if self.m_axis.get i = 0 then
          scale.set i (vector3_dot scale (vector3_scaled_vec self.m_axis self.m_axis))
        else scale)
    else scale
  (self, scale)

/-- `class ScaleFree` (selection.cpp:768). -/
structure ScaleFree where
  m_start : Vector3
  m_axis : Vector3
  m_axis2 : Vector3
  m_chosen_extent : Vector3
  m_bounds : AABB
  deriving DecidableEq

/-- `ScaleFree::Construct` (selection.cpp:783). -/
def ScaleFree.Construct (_cm : CMath) (_g : Globals) (self : ScaleFree) (device2manip : Matrix4)
    (device_point : DeviceVector) (bounds : AABB) (transform_origin : Vector3) : ScaleFree :=
  { self with
    m_start := point_on_plane device2manip device_point
    m_chosen_extent :=
      ⟨max (bounds.origin.x + bounds.extents.x - transform_origin.x)
           (-(bounds.origin.x - bounds.extents.x - transform_origin.x)),
       max (bounds.origin.y + bounds.extents.y - transform_origin.y)
           (-(bounds.origin.y - bounds.extents.y - transform_origin.y)),
       max (bounds.origin.z + bounds.extents.z - transform_origin.z)
           (-(bounds.origin.z - bounds.extents.z - transform_origin.z))⟩
    m_bounds := bounds }

/-- `ScaleFree::Transform` (selection.cpp:793). The emitted scale is `none` when
a division of the body met a zero denominator. -/
def ScaleFree.Transform (_cm : CMath) (g : Globals) (self : ScaleFree) (manip2object : Matrix4)
    (device2manip : Matrix4) (device_point : DeviceVector) : ScaleFree × Option Vector3 :=
  let current := point_on_plane device2manip device_point
  let delta := vector3_subtracted current self.m_start
  let delta := translation_local2object delta manip2object
  let delta := vector3_snapped delta g.GetSnapGridSize
  let delta :=
    if self.m_axis ≠ g_vector3_identity then
      vector3_added (vector3_scaled_vec delta self.m_axis) (vector3_scaled_vec delta self.m_axis2)
    else delta
  let start := scale_start g self.m_start
  let ignore_axis := vector3_min_abs_component_index self.m_start
  let start := if g.g_modifiers.shift then start.set ignore_axis 0 else start
  let scale := scale_boundless delta start
  let scale := scale.bind (for3_checked fun i scale =>
    if self.m_chosen_extent.get i > 1 / 16 ∧ start.get i ≠ 0 then
      (checked_div (self.m_chosen_extent.get i + delta.get i) (self.m_chosen_extent.get i)).bind
        fun s =>
          if g.g_modifiers.ctrl then
            let snappdwidth :=
              float_snapped (s * self.m_bounds.extents.get i * 2) g.GetSnapGridSize
            (checked_div snappdwidth (self.m_bounds.extents.get i * 2)).map fun s' =>
              scale.set i s'
          else some (scale.set i s)
    else some scale)
  let scale :=
    if g.g_modifiers.shift then
      scale.map fun scale =>
        let bestscale := if ignore_axis ≠ 0 then scale.get 0 else scale.get 1
        let bestscale :=
          (if ignore_axis ≠ 0 then ([1, 2] : List (Fin 3)) else [2]).foldl
            (fun bestscale i =>
              if ignore_axis ≠ i ∧ |scale.get i| < |bestscale| then scale.get i else bestscale)
            bestscale
        for3 (fun i scale =>
          if ignore_axis ≠ i then
            scale.set i (if scale.get i < 0 then -|bestscale| else |bestscale|)
          else scale) scale
    else scale
  (self, scale)

/-- `class SkewAxis` (selection.cpp:861). -/
structure SkewAxis where
  m_0 : Vector3
  m_planeZ : Plane3
  m_axis_which : Fin 3
  m_axis_by : Fin 3
  m_axis_by_sign : Int
  m_axis_by_extent : ℚ
  m_bounds : AABB
  deriving DecidableEq

/-- `SkewAxis::Construct` (selection.cpp:879). -/
def SkewAxis.Construct (cm : CMath) (g : Globals) (self : SkewAxis) (_device2manip : Matrix4)
    (_device_point : DeviceVector) (bounds : AABB) (transform_origin : Vector3) : SkewAxis :=
  let xydir := vector3_subtracted g.m_view.getViewer self.m_0
  let xydir := xydir.set self.m_axis_which 0
  let xydir := vector3_normalised cm xydir
  { self with
    m_planeZ := Plane3.ofNormalDist xydir (vector3_dot xydir self.m_0)
    m_bounds := bounds
    m_axis_by_extent :=
      bounds.origin.get self.m_axis_by + bounds.extents.get self.m_axis_by * self.m_axis_by_sign
        - transform_origin.get self.m_axis_by }

/-- `SkewAxis::Transform` (selection.cpp:889). -/
def SkewAxis.Transform (cm : CMath) (g : Globals) (self : SkewAxis) (_manip2object : Matrix4)
    (_device2manip : Matrix4) (device_point : DeviceVector) : SkewAxis × Skew :=
  let current := vector3_subtracted
    (point_on_plane_of cm self.m_planeZ g.m_view.GetViewMatrix device_point) self.m_0
  (self,
    { index := (self.m_axis_by : Nat) * 4 + (self.m_axis_which : Nat)
      amount :=
        if self.m_axis_by_extent ≠ 0 then
          float_snapped (current.get self.m_axis_which) g.GetSnapGridSize / self.m_axis_by_extent
        else 0 })

/-- One `Transform` call of a drag: the globals at the time of the call and the
three arguments. -/
structure TransformCall where
  globals : Globals
  manip2object : Matrix4
  device2manip : Matrix4
  device_point : DeviceVector
  deriving DecidableEq

/-- The members of a drag behaviour after a sequence of `Transform` calls,
first call first (`transform` is the behaviour's `Transform`). -/
def membersAfter {σ τ : Type}
    (transform : Globals → σ → Matrix4 → Matrix4 → DeviceVector → σ × τ)
    (self : σ) (calls : List TransformCall) : σ :=
  calls.foldl (fun s c => (transform c.globals s c.manip2object c.device2manip c.device_point).1)
    self

/-- What the `Transform` call `c` passes to the sink when it is made after the
calls `earlier`. -/
def emittedAfter {σ τ : Type}
    (transform : Globals → σ → Matrix4 → Matrix4 → DeviceVector → σ × τ)
    (self : σ) (earlier : List TransformCall) (c : TransformCall) : τ :=
  (transform c.globals (membersAfter transform self earlier) c.manip2object c.device2manip
    c.device_point).2

/-- No drift: after `Construct`, no sequence of `Transform` calls changes the
members, and a `Transform` call passes the same value to the sink whatever
`Transform` calls were made before it. -/
def NoDrift {σ τ : Type}
    (construct : Globals → σ → Matrix4 → DeviceVector → AABB → Vector3 → σ)
    (transform : Globals → σ → Matrix4 → Matrix4 → DeviceVector → σ × τ) : Prop :=
  ∀ (g0 : Globals) (s0 : σ) (device2manip : Matrix4) (device_point : DeviceVector)
    (bounds : AABB) (transform_origin : Vector3) (earlier earlier2 : List TransformCall)
    (c : TransformCall),
    membersAfter transform (construct g0 s0 device2manip device_point bounds transform_origin)
        earlier
      = construct g0 s0 device2manip device_point bounds transform_origin ∧
    emittedAfter transform (construct g0 s0 device2manip device_point bounds transform_origin)
        earlier c
      = emittedAfter transform (construct g0 s0 device2manip device_point bounds transform_origin)
        earlier2 c

/-! ## Point-in-polygon test and BestPoint (selection.cpp:1346-1465) -/

/-- One pass of the loop body of `point_test_polygon_2d` (selection.cpp:1355-1363)
for the edge from `prev` to `cur`: the number of crossings it adds. -/
def edge_crossing (P prev cur : Vector3) : Nat :=
  if (prev.y ≤ P.y ∧ cur.y > P.y) ∨ (prev.y > P.y ∧ cur.y ≤ P.y) then
    let vt := (P.y - prev.y) / (cur.y - prev.y)
    if P.x < prev.x + vt * (cur.x - prev.x) then 1 else 0
  else 0

/-- The loop of `point_test_polygon_2d` from the edge `prev -> cur` on: the
crossings counted over the remaining vertices. -/
def point_test_crossings (P : Vector3) : Vector3 → List Vector3 → Nat
  | _, [] => 0
  | prev, cur :: rest => edge_crossing P prev cur + point_test_crossings P cur rest

/-- `point_test_polygon_2d( P, start, finish )` (selection.cpp:1350) on the
vertices `[start, finish)`: the first edge runs from the last vertex to the
first; the result is `( crossings & 0x1 ) != 0`. -/
def point_test_polygon_2d (P : Vector3) (pts : List Vector3) : Bool :=
  match pts.getLast? with
  | none => false
  | some last => decide (point_test_crossings P last pts % 2 ≠ 0)

/-- `triangle_signed_area_XY` (selection.cpp:1368). -/
def triangle_signed_area_XY (p0 p1 p2 : Vector3) : ℚ :=
  ((p1.x - p0.x) * (p2.y - p0.y)) - ((p2.x - p0.x) * (p1.y - p0.y))

/-- The point `P` lies strictly inside the triangle `A B C` of the XY plane: it
is a combination of the vertices with positive weights that sum to 1. -/
def strictly_inside_XY (P A B C : Vector3) : Prop :=
  ∃ α β γ : ℚ, 0 < α ∧ 0 < β ∧ 0 < γ ∧ α + β + γ = 1 ∧
    P.x = α * A.x + β * B.x + γ * C.x ∧ P.y = α * A.y + β * B.y + γ * C.y

/-- The point `P` lies in the closed triangle `A B C` of the XY plane: it is a
combination of the vertices with non-negative weights that sum to 1. -/
def in_closed_triangle_XY (P A B C : Vector3) : Prop :=
  ∃ α β γ : ℚ, 0 ≤ α ∧ 0 ≤ β ∧ 0 ≤ γ ∧ α + β + γ = 1 ∧
    P.x = α * A.x + β * B.x + γ * C.x ∧ P.y = α * A.y + β * B.y + γ * C.y

/-- `enum clipcull_t` (selection.cpp:1372). -/
inductive clipcull_t where
  | eClipCullNone
  | eClipCullCW
  | eClipCullCCW
  deriving DecidableEq

/-- Modelled from the spec: the two-argument constructor
`SelectionIntersection( depth, distance )` of `include/selectable.h` (not among
the sources). The spec calls `distance2` "an optional secondary tie-break
distance" and names no value for an intersection built without it, so that
value is the parameter `d2`. -/
def SelectionIntersection.make2 (d2 depth distance : ℚ) : SelectionIntersection :=
  SelectionIntersection.hit depth distance d2

/-- Modelled from the spec: `vector3_length_squared` of `math/vector.h`. -/
def vector3_length_squared (v : Vector3) : ℚ := vector3_dot v v

/-- Modelled from the spec: `line_closest_point( Line( start, end ), point )` of
`math/line.h` (not among the sources), the point of the segment nearest to
`point`: the projection onto the line, clamped to the two ends. -/
def line_closest_point (start end_ point : Vector3) : Vector3 :=
  let v := vector3_subtracted end_ start
  let w := vector3_subtracted point start
  let c1 := vector3_dot w v
  if c1 ≤ 0 then start
  else
    let c2 := vector3_dot v v
    if c2 ≤ c1 then end_
    else vector3_added start (vector3_scaled v (c1 / c2))

/-- Modelled from the spec: `plane3_for_points( p0, p1, p2 )` of `math/plane.h`
(not among the sources), the plane through three points: unit normal along
`(p1 - p0) x (p2 - p0)`, distance `p0 . normal`. -/
def plane3_for_points (cm : CMath) (p0 p1 p2 : Vector3) : Plane3 :=
  let n := vector3_normalised cm
    (vector3_cross (vector3_subtracted p1 p0) (vector3_subtracted p2 p0))
  Plane3.ofNormalDist n (vector3_dot p0 n)

/-- Modelled from the spec: `ray_distance_to_plane( ray, plane )` of `math/line.h`
(not among the sources), the parameter along the ray at which it meets the plane
`normal . p = d`; `none` stands for the division by a zero denominator (ray
parallel to the plane). -/
def ray_distance_to_plane (ray : Ray) (plane : Plane3) : Option ℚ :=
  checked_div (-(vector3_dot plane.normal ray.origin - plane.d))
    (vector3_dot ray.direction plane.normal)

/-- The first loop of `BestPoint` (selection.cpp:1387-1394): the perspective
divide of the first `count` entries of `clipped`, here the whole list. -/
def BestPoint_normalised (clipped : List Vector4) : List Vector3 :=
  clipped.map fun c => ⟨c.x / c.w, c.y / c.w, c.z / c.w⟩

/-- The cull test of `BestPoint` (selection.cpp:1396-1403): `true` when the
function returns without offering anything. -/
def BestPoint_culled (cull : clipcull_t) (normalised : List Vector3) : Bool :=
  match normalised with
  | n0 :: n1 :: n2 :: _ =>
    decide (cull ≠ clipcull_t.eClipCullNone) &&
      (decide (cull = clipcull_t.eClipCullCW ∧ triangle_signed_area_XY n0 n1 n2 > 0) ||
        decide (cull = clipcull_t.eClipCullCCW ∧ triangle_signed_area_XY n0 n1 n2 < 0))
  | _ => false

/-- The plane `BestPoint` works with (selection.cpp:1410-1414, 1437-1441): the
supplied one, or else `plane3_for_points` of the first three vertices. -/
def BestPoint_plane (cm : CMath) (plane : Option Plane3) (normalised : List Vector3) : Plane3 :=
  match plane, normalised with
  | some p, _ => p
  | none, n0 :: n1 :: n2 :: _ => plane3_for_points cm n0 n1 n2
  | none, _ => ⟨0, 0, 0, 0⟩

/-- The edge loop of the origin-outside branch of `BestPoint`
(selection.cpp:1417-1435) from the edge `previous -> current` on: the
intersections offered to `assign_if_closer`, `none` where the offered value was
computed with a division by zero. -/
def BestPoint_edge_offers (d2 : ℚ) (plane : Plane3) :
    Vector3 → List Vector3 → List (Option SelectionIntersection)
  | _, [] => []
  | previous, current :: rest =>
    let point := line_closest_point previous current ⟨0, 0, 0⟩
    let depth := point.z
    let distance := vector3_length_squared ⟨point.x, point.y, 0⟩
    (if plane.c = 0 then some (SelectionIntersection.make2 d2 depth distance)
     else (ray_distance_to_plane ⟨⟨0, 0, 0⟩, ⟨0, 0, 1⟩⟩ plane).map
        fun dist => SelectionIntersection.hit depth distance dist)
      :: BestPoint_edge_offers d2 plane current rest

/-- The intersections `BestPoint( count, clipped, best, cull, plane )`
(selection.cpp:1384-1465) offers to `assign_if_closer`, in order; `count` is the
length of `clipped`, `plane = none` is the null pointer. An entry is `none` when
the offered value was computed with a division by zero in
`ray_distance_to_plane`. -/
def BestPoint_offers (cm : CMath) (d2 : ℚ) (clipped : List Vector4) (cull : clipcull_t)
    (plane : Option Plane3) : List (Option SelectionIntersection) :=
  let normalised := BestPoint_normalised clipped
  let count := clipped.length
  if decide (cull ≠ clipcull_t.eClipCullNone ∧ count > 2) && BestPoint_culled cull normalised then []
  else if count = 2 then
    match normalised with
    | [n0, n1] =>
      let point := line_closest_point n0 n1 ⟨0, 0, 0⟩
      [some (SelectionIntersection.make2 d2 point.z
        (vector3_length_squared ⟨point.x, point.y, 0⟩))]
    | _ => []
  else if count > 2 ∧ point_test_polygon_2d ⟨0, 0, 0⟩ normalised = false then
    match normalised.getLast? with
    | some last => BestPoint_edge_offers d2 (BestPoint_plane cm plane normalised) last normalised
    | none => []
  else if count > 2 then
    let pl := BestPoint_plane cm plane normalised
    [(ray_distance_to_plane ⟨⟨0, 0, 0⟩, ⟨0, 0, 1⟩⟩ pl).bind fun depth =>
      (ray_distance_to_plane ⟨⟨10, 8, 0⟩, ⟨0, 0, 1⟩⟩ pl).map fun dist =>
        SelectionIntersection.hit depth 0 dist]
  else []

/-- `BestPoint` (selection.cpp:1384): the new value of `best` after every offer
went through `assign_if_closer`; `none` when an offered value was computed with
a division by zero. -/
def BestPoint (e : Bands) (cm : CMath) (d2 : ℚ) (clipped : List Vector4)
    (best : SelectionIntersection) (cull : clipcull_t) (plane : Option Plane3) :
    Option SelectionIntersection :=
  (BestPoint_offers cm d2 clipped cull plane).foldl
    (fun b o => b.bind fun b1 => o.map fun o1 => assign_if_closer e b1 o1) (some best)

/-- The squared XY distances from the origin to the nearest point of each edge
of a polygon, from the edge `prev -> cur` on, each edge taken in the XY plane. -/
def edge_distances_XY : Vector3 → List Vector3 → List ℚ
  | _, [] => []
  | prev, cur :: rest =>
    vector3_length_squared (line_closest_point ⟨prev.x, prev.y, 0⟩ ⟨cur.x, cur.y, 0⟩ ⟨0, 0, 0⟩)
      :: edge_distances_XY cur rest

/-! ## Manipulators (selection.cpp:1868-2740)

`testSelect` reads the view and the pivot only through `Pivot2World::update`
(pivot.h) and the `*_BestPoint` hit tests, which clip with `matrix4_clip_line` /
`matrix4_clip_triangle` (math/matrix.h); neither header is among the sources, so
what they return for the call's view and pivot is the input `TestSelectInput`.
A `testSelect` returns the new state of the manipulator and the effects it
performed, in order. -/

/-- Modelled from the spec: `Pivot2World` of `pivot.h` (not among the sources),
"four derived matrices": `worldSpace`, `viewpointSpace`, `viewplaneSpace` and
`axisScreen`, "the camera view direction expressed in pivot-local space". -/
structure Pivot2World where
  m_worldSpace : Matrix4
  m_viewpointSpace : Matrix4
  m_viewplaneSpace : Matrix4
  m_axis_screen : Vector3
  deriving DecidableEq

/-- Modelled from the spec: `g_vector3_axis_x` of `math/vector.h`. -/
def g_vector3_axis_x : Vector3 := ⟨1, 0, 0⟩

/-- Modelled from the spec: `g_vector3_axis_y` of `math/vector.h`. -/
def g_vector3_axis_y : Vector3 := ⟨0, 1, 0⟩

/-- Modelled from the spec: `g_vector3_axis_z` of `math/vector.h`. -/
def g_vector3_axis_z : Vector3 := ⟨0, 0, 1⟩

/-- Modelled from the spec: `Matrix4::x().vec3()` of `math/matrix.h`, the first
three elements of the first column. -/
def Matrix4.x_vec3 (m : Matrix4) : Vector3 := ⟨m.xx, m.xy, m.xz⟩

/-- Modelled from the spec: `Matrix4::y().vec3()` of `math/matrix.h`. -/
def Matrix4.y_vec3 (m : Matrix4) : Vector3 := ⟨m.yx, m.yy, m.yz⟩

/-- Modelled from the spec: `Matrix4::z().vec3()` of `math/matrix.h`. -/
def Matrix4.z_vec3 (m : Matrix4) : Vector3 := ⟨m.zx, m.zy, m.zz⟩

/-- The `SelectableBool` members of a manipulator (selection.cpp:2014-2018,
2412-2415, 2630-2633); only `RotateManipulator` has `m_selectable_sphere`. -/
inductive Handle where
  | m_selectable_x
  | m_selectable_y
  | m_selectable_z
  | m_selectable_screen
  | m_selectable_sphere
  deriving DecidableEq

/-- The address `&m_selectable_...` of a handle, as stored in a `SelectionPool`. -/
def Handle.ptr : Handle → Selectable
  | .m_selectable_x => 0
  | .m_selectable_y => 1
  | .m_selectable_z => 2
  | .m_selectable_screen => 3
  | .m_selectable_sphere => 4

/-- What a `testSelect` or `render` does besides changing its own members. -/
inductive ManipulatorEffect where
  | pivot_update
  | updateCircleTransforms
  | hit_test (h : Handle)
  | SceneChangeNotify
  deriving DecidableEq

/-- What the absent collaborators return for one `testSelect( view, pivot2world )`
or `render` call: `m_pivot` as `m_pivot.update( pivot2world, ... )` leaves it, and
for each handle the `best` its `*_BestPoint` tests leave. -/
structure TestSelectInput where
  m_pivot : Pivot2World
  best : Handle → SelectionIntersection

/-- `class ManipulatorSelectionChangeable` (selection.cpp:1868). -/
structure ManipulatorSelectionChangeable where
  m_selectable_prev_ptr : Option Selectable
  deriving DecidableEq

/-- `ManipulatorSelectionChangeable::selectionChange( const Selectable* )`
(selection.cpp:1872); `none` is `nullptr`. -/
def ManipulatorSelectionChangeable.selectionChange (self : ManipulatorSelectionChangeable)
    (se : Option Selectable) : ManipulatorSelectionChangeable × List ManipulatorEffect :=
  if self.m_selectable_prev_ptr ≠ se then (⟨se⟩, [ManipulatorEffect.SceneChangeNotify])
  else (self, [])

/-- `class RotateManipulator` (selection.cpp:1966): the flags of its five
`SelectableBool` members, `m_pivot`, `m_axis_screen` and the base class. -/
structure RotateManipulator where
  m_selectable_x : Bool
  m_selectable_y : Bool
  m_selectable_z : Bool
  m_selectable_screen : Bool
  m_selectable_sphere : Bool
  m_pivot : Pivot2World
  m_axis_screen : Vector3
  base : ManipulatorSelectionChangeable
  deriving DecidableEq

/-- `se->setSelected( true )` for a pointer into a `RotateManipulator`. -/
def RotateManipulator.setSelectedAt (self : RotateManipulator) (se : Option Selectable) :
    RotateManipulator :=
  if se = some (Handle.ptr .m_selectable_x) then { self with m_selectable_x := true }
  else if se = some (Handle.ptr .m_selectable_y) then { self with m_selectable_y := true }
  else if se = some (Handle.ptr .m_selectable_z) then { self with m_selectable_z := true }
  else if se = some (Handle.ptr .m_selectable_screen) then
    { self with m_selectable_screen := true }
  else if se = some (Handle.ptr .m_selectable_sphere) then
    { self with m_selectable_sphere := true }
  else self

/-- `ManipulatorSelectionChangeable::selectionChange( SelectionPool& )`
(selection.cpp:1878) on a `RotateManipulator`. -/
def RotateManipulator.selectionChange (self : RotateManipulator) (selector : SelectionPool) :
    RotateManipulator × List ManipulatorEffect :=
  match selector.m_pool with
  | [] =>
    let r := self.base.selectionChange none
    ({ self with base := r.1 }, r.2)
  | (_, se) :: _ =>
    let r := self.base.selectionChange se
    ({ self.setSelectedAt se with base := r.1 }, r.2)

/-- `RotateManipulator::testSelect` (selection.cpp:2117). -/
def RotateManipulator.testSelect (e : Bands) (d2 : ℚ) (g : Globals) (inp : TestSelectInput)
    (self : RotateManipulator) : RotateManipulator × List ManipulatorEffect :=
  if g.g_modifiers ≠ c_modifierNone then
    let r := self.base.selectionChange none
    ({ self with base := r.1 }, r.2)
  else
    let selector := SelectionPool.fresh
    let selector := selector.addSelectable e (inp.best .m_selectable_x)
      (some (Handle.ptr .m_selectable_x))
    let selector := selector.addSelectable e (inp.best .m_selectable_y)
      (some (Handle.ptr .m_selectable_y))
    let selector := selector.addSelectable e (inp.best .m_selectable_z)
      (some (Handle.ptr .m_selectable_z))
    let selector := selector.addSelectable e (inp.best .m_selectable_screen)
      (some (Handle.ptr .m_selectable_screen))
    let selector :=
      if selector.failed then
        selector.addSelectable e (SelectionIntersection.make2 d2 0 0)
          (some (Handle.ptr .m_selectable_sphere))
      else selector
    let r := RotateManipulator.selectionChange
      { self with m_pivot := inp.m_pivot, m_axis_screen := inp.m_pivot.m_axis_screen } selector
    (r.1, [ManipulatorEffect.pivot_update, ManipulatorEffect.updateCircleTransforms,
      ManipulatorEffect.hit_test .m_selectable_x, ManipulatorEffect.hit_test .m_selectable_y,
      ManipulatorEffect.hit_test .m_selectable_z,
      ManipulatorEffect.hit_test .m_selectable_screen] ++ r.2)

/-- What `GetManipulatable()` of a manipulator returns: `&m_axis` with the axis
`SetAxis` gave it, or `&m_free`. -/
inductive ManipulatableRef where
  | m_axis (axis : Vector3)
  | m_free
  deriving DecidableEq

/-- `RotateManipulator::GetManipulatable` (selection.cpp:2188). -/
def RotateManipulator.GetManipulatable (self : RotateManipulator) : ManipulatableRef :=
  if self.m_selectable_x then ManipulatableRef.m_axis g_vector3_axis_x
  else if self.m_selectable_y then ManipulatableRef.m_axis g_vector3_axis_y
  else if self.m_selectable_z then ManipulatableRef.m_axis g_vector3_axis_z
  else if self.m_selectable_screen then ManipulatableRef.m_axis self.m_axis_screen
  else ManipulatableRef.m_free

/-- `class TranslateManipulator` (selection.cpp:2349) and `class ScaleManipulator`
(selection.cpp:2592) have the same members as far as `testSelect` goes: the flags
of four `SelectableBool` members, `m_pivot` and the base class. -/
structure AxisManipulator where
  m_selectable_x : Bool
  m_selectable_y : Bool
  m_selectable_z : Bool
  m_selectable_screen : Bool
  m_pivot : Pivot2World
  base : ManipulatorSelectionChangeable
  deriving DecidableEq

/-- `class TranslateManipulator` (selection.cpp:2349). -/
abbrev TranslateManipulator := AxisManipulator

/-- `class ScaleManipulator` (selection.cpp:2592). -/
abbrev ScaleManipulator := AxisManipulator

/-- `se->setSelected( true )` for a pointer into a translate or scale manipulator. -/
def AxisManipulator.setSelectedAt (self : AxisManipulator) (se : Option Selectable) :
    AxisManipulator :=
  if se = some (Handle.ptr .m_selectable_x) then { self with m_selectable_x := true }
  else if se = some (Handle.ptr .m_selectable_y) then { self with m_selectable_y := true }
  else if se = some (Handle.ptr .m_selectable_z) then { self with m_selectable_z := true }
  else if se = some (Handle.ptr .m_selectable_screen) then
    { self with m_selectable_screen := true }
  else self

/-- `ManipulatorSelectionChangeable::selectionChange( SelectionPool& )`
(selection.cpp:1878) on a translate or scale manipulator. -/
def AxisManipulator.selectionChange (self : AxisManipulator) (selector : SelectionPool) :
    AxisManipulator × List ManipulatorEffect :=
  match selector.m_pool with
  | [] =>
    let r := self.base.selectionChange none
    ({ self with base := r.1 }, r.2)
  | (_, se) :: _ =>
    let r := self.base.selectionChange se
    ({ self.setSelectedAt se with base := r.1 }, r.2)

/-- `TranslateManipulator::manipulator_show_axis` (selection.cpp:2447). -/
def manipulator_show_axis (pivot : Pivot2World) (axis : Vector3) : Bool :=
  decide (|vector3_dot pivot.m_axis_screen axis| < 95 / 100)

/-- The renderables of a `TranslateManipulator`. -/
inductive TranslateRenderable where
  | m_arrow_x
  | m_arrow_y
  | m_arrow_z
  | m_quad_screen
  | m_arrow_head_x
  | m_arrow_head_y
  | m_arrow_head_z
  deriving DecidableEq

/-- `TranslateManipulator::render` (selection.cpp:2451): the renderables passed to
`renderer.addRenderable`, in order; `pivot` is `m_pivot` after its update. -/
def TranslateManipulator.render (cm : CMath) (pivot : Pivot2World) : List TranslateRenderable :=
  let show_x := manipulator_show_axis pivot (vector3_normalised cm pivot.m_worldSpace.x_vec3)
  let show_y := manipulator_show_axis pivot (vector3_normalised cm pivot.m_worldSpace.y_vec3)
  let show_z := manipulator_show_axis pivot (vector3_normalised cm pivot.m_worldSpace.z_vec3)
  (if show_x then [TranslateRenderable.m_arrow_x] else []) ++
  (if show_y then [TranslateRenderable.m_arrow_y] else []) ++
  (if show_z then [TranslateRenderable.m_arrow_z] else []) ++
  [TranslateRenderable.m_quad_screen] ++
  (if show_x then [TranslateRenderable.m_arrow_head_x] else []) ++
  (if show_y then [TranslateRenderable.m_arrow_head_y] else []) ++
  (if show_z then [TranslateRenderable.m_arrow_head_z] else [])

/-- `TranslateManipulator::testSelect` (selection.cpp:2494). -/
def TranslateManipulator.testSelect (e : Bands) (cm : CMath) (d2 : ℚ) (g : Globals)
    (inp : TestSelectInput) (self : TranslateManipulator) :
    TranslateManipulator × List ManipulatorEffect :=
  if g.g_modifiers ≠ c_modifierNone then
    let r := self.base.selectionChange none
    ({ self with base := r.1 }, r.2)
  else
    let pivot := inp.m_pivot
    let selector := SelectionPool.fresh
    let show_x := manipulator_show_axis pivot (vector3_normalised cm pivot.m_worldSpace.x_vec3)
    let show_y := manipulator_show_axis pivot (vector3_normalised cm pivot.m_worldSpace.y_vec3)
    let show_z := manipulator_show_axis pivot (vector3_normalised cm pivot.m_worldSpace.z_vec3)
    let selector :=
      if (inp.best .m_selectable_screen).valid then
        selector.addSelectable e (SelectionIntersection.make2 d2 0 0)
          (some (Handle.ptr .m_selectable_screen))
      else selector
    let selector :=
      if show_x then
        selector.addSelectable e (inp.best .m_selectable_x) (some (Handle.ptr .m_selectable_x))
      else selector
    let selector :=
      if show_y then
        selector.addSelectable e (inp.best .m_selectable_y) (some (Handle.ptr .m_selectable_y))
      else selector
    let selector :=
      if show_z then
        selector.addSelectable e (inp.best .m_selectable_z) (some (Handle.ptr .m_selectable_z))
      else selector
    let r := AxisManipulator.selectionChange { self with m_pivot := pivot } selector
    (r.1, [ManipulatorEffect.pivot_update, ManipulatorEffect.hit_test .m_selectable_screen] ++
      (if show_x then [ManipulatorEffect.hit_test .m_selectable_x] else []) ++
      (if show_y then [ManipulatorEffect.hit_test .m_selectable_y] else []) ++
      (if show_z then [ManipulatorEffect.hit_test .m_selectable_z] else []) ++ r.2)

/-- `ScaleManipulator::testSelect` (selection.cpp:2665). -/
def ScaleManipulator.testSelect (e : Bands) (g : Globals) (inp : TestSelectInput)
    (self : ScaleManipulator) : ScaleManipulator × List ManipulatorEffect :=
  if g.g_modifiers ≠ c_modifierNone then
    let r := self.base.selectionChange none
    ({ self with base := r.1 }, r.2)
  else
    let selector := SelectionPool.fresh
    let selector := selector.addSelectable e (inp.best .m_selectable_x)
      (some (Handle.ptr .m_selectable_x))
    let selector := selector.addSelectable e (inp.best .m_selectable_y)
      (some (Handle.ptr .m_selectable_y))
    let selector := selector.addSelectable e (inp.best .m_selectable_z)
      (some (Handle.ptr .m_selectable_z))
    let selector := selector.addSelectable e (inp.best .m_selectable_screen)
      (some (Handle.ptr .m_selectable_screen))
    let r := AxisManipulator.selectionChange { self with m_pivot := inp.m_pivot } selector
    (r.1, [ManipulatorEffect.pivot_update, ManipulatorEffect.hit_test .m_selectable_x,
      ManipulatorEffect.hit_test .m_selectable_y, ManipulatorEffect.hit_test .m_selectable_z,
      ManipulatorEffect.hit_test .m_selectable_screen] ++ r.2)

/-- The flag `m_selectable_....isSelected()` of a handle of a `RotateManipulator`. -/
def RotateManipulator.isSelected (self : RotateManipulator) : Handle → Bool
  | .m_selectable_x => self.m_selectable_x
  | .m_selectable_y => self.m_selectable_y
  | .m_selectable_z => self.m_selectable_z
  | .m_selectable_screen => self.m_selectable_screen
  | .m_selectable_sphere => self.m_selectable_sphere

/-! ## SelectionPool_Select (selection.cpp:7279-7301) -/

/-- `SELECT_MATCHING_DEPTH` (selection.cpp:7280). -/
def SELECT_MATCHING_DEPTH : ℚ := 1 / 1000000

/-- `SELECT_MATCHING_DIST` (selection.cpp:7281). -/
def SELECT_MATCHING_DIST : ℚ := 1 / 1000000

/-- `SELECT_MATCHING_COMPONENTS_DIST` (selection.cpp:7282). -/
def SELECT_MATCHING_COMPONENTS_DIST : ℚ := 1 / 4

/-- `se->setSelected( select )` on the selected flags of the scene, one flag per
`Selectable`; a pointer that was never set (`none`) names no flag. -/
def setSelected (isSelected : Selectable → Bool) (se : Option Selectable) (select : Bool) :
    Selectable → Bool :=
  fun x => if se = some x then select else isSelected x

/-- The loop of `SelectionPool_Select` (selection.cpp:7289-7299) from the entry
`i` on: the selected flags when it ends. -/
def SelectionPool_Select_loop (best : SelectionIntersection) (select : Bool) (dist_epsilon : ℚ) :
    List PoolEntry → (Selectable → Bool) → Selectable → Bool
  | [], isSelected => isSelected
  | i :: rest, isSelected =>
    if i.1.equalEpsilon best dist_epsilon SELECT_MATCHING_DEPTH then
      SelectionPool_Select_loop best select dist_epsilon rest (setSelected isSelected i.2 select)
    else isSelected

/-- `RadiantSelectionSystem::SelectionPool_Select( pool, select, dist_epsilon )`
(selection.cpp:7283): the selected flags after the call, from the flags
`isSelected` before it. The source dereferences `pool.begin()`, so it is called
on non-empty pools only; on an empty pool the flags are returned unchanged. -/
def SelectionPool_Select (pool : SelectionPool) (select : Bool) (dist_epsilon : ℚ)
    (isSelected : Selectable → Bool) : Selectable → Bool :=
  match pool.m_pool with
  | [] => isSelected
  | best :: rest =>
    SelectionPool_Select_loop best.1 select dist_epsilon rest
      (match best.2 with
        | some s => if isSelected s ≠ select then setSelected isSelected (some s) select
          else isSelected
        | none => isSelected)

/-! ## RadiantWindowObserver (selection.cpp:8555-8690) -/

/-- Modelled from the spec: `ButtonIdentifier` of `windowobserver.h` (not among
the sources), the mouse buttons an observer is told about; `c_buttonInvalid` is
a button the window system could not name. -/
inductive ButtonIdentifier where
  | c_buttonInvalid
  | c_buttonLeft
  | c_buttonMiddle
  | c_buttonRight
  deriving DecidableEq

/-- `c_button_select` (selection.cpp:8321). -/
def c_button_select : ButtonIdentifier := ButtonIdentifier.c_buttonLeft

/-- `c_button_select2` (selection.cpp:8322). -/
def c_button_select2 : ButtonIdentifier := ButtonIdentifier.c_buttonRight

/-- `c_button_texture` (selection.cpp:8337). -/
def c_button_texture : ButtonIdentifier := ButtonIdentifier.c_buttonMiddle

/-- The three members of a `RadiantWindowObserver` whose `MouseMovedCaller` /
`MouseUpCaller` can be registered (selection.cpp:8573-8575). -/
inductive DragOwner where
  | m_selector
  | m_manipulator
  | m_texmanipulator
  deriving DecidableEq

/-- The calls an observer makes on its members and on the registered callbacks. -/
inductive ObserverEffect where
  | mouseDown (o : DragOwner)
  | mouseMoved (o : DragOwner)
  | mouseUp (o : DragOwner)
  | highlight
  deriving DecidableEq

/-- `class RadiantWindowObserver` (selection.cpp:8555) together with the two
global slots `g_mouseMovedCallback`, `g_mouseUpCallback` (selection.cpp:8317), as
far as the drag bookkeeping goes. Modelled from the spec: `Single<T>`
(not among the sources) holds at most one value, `none` is the empty slot and
`insert` stores the new value. -/
structure RadiantWindowObserver where
  m_mouse_down : Bool
  g_mouseMovedCallback : Option DragOwner
  g_mouseUpCallback : Option DragOwner
  deriving DecidableEq

/-- The constructor `RadiantWindowObserver()` (selection.cpp:8578) with both
global slots empty. -/
def RadiantWindowObserver.fresh : RadiantWindowObserver := ⟨false, none, none⟩

/-- `RadiantWindowObserver::onMouseDown` (selection.cpp:8607).
`manipulator_mouseDown` is what `m_manipulator.mouseDown( devicePosition )`
returns if it is called. -/
def RadiantWindowObserver.onMouseDown (self : RadiantWindowObserver) (button : ButtonIdentifier)
    (modifiers : ModifierFlagsExt) (manipulator_mouseDown : Bool) :
    RadiantWindowObserver × List ObserverEffect :=
  if self.m_mouse_down then (self, [])
  else if button = c_button_select ∨ (button = c_button_select2 ∧ modifiers ≠ c_modifierNone) then
    if button = c_button_select then
      if manipulator_mouseDown then
        (⟨true, some DragOwner.m_manipulator, some DragOwner.m_manipulator⟩,
          [ObserverEffect.mouseDown DragOwner.m_manipulator])
      else
        (⟨true, some DragOwner.m_selector, some DragOwner.m_selector⟩,
          [ObserverEffect.mouseDown DragOwner.m_manipulator,
            ObserverEffect.mouseDown DragOwner.m_selector])
    else
      (⟨true, some DragOwner.m_selector, some DragOwner.m_selector⟩,
        [ObserverEffect.mouseDown DragOwner.m_selector])
  else if button = c_button_texture then
    (⟨true, some DragOwner.m_texmanipulator, some DragOwner.m_texmanipulator⟩,
      [ObserverEffect.mouseDown DragOwner.m_texmanipulator])
  else (self, [])

/-- `RadiantWindowObserver::onMouseMotion` (selection.cpp:8643). -/
def RadiantWindowObserver.onMouseMotion (self : RadiantWindowObserver)
    (_modifiers : ModifierFlagsExt) : RadiantWindowObserver × List ObserverEffect :=
  match self.m_mouse_down, self.g_mouseMovedCallback with
  | true, some o => (self, [ObserverEffect.mouseMoved o])
  | _, _ => (self, [ObserverEffect.highlight])

/-- `RadiantWindowObserver::onMouseUp` (selection.cpp:8655); the tunnel selection
and the clipper double click of lines 8661-8672 touch none of the three members
kept here. -/
def RadiantWindowObserver.onMouseUp (self : RadiantWindowObserver) (button : ButtonIdentifier)
    (_modifiers : ModifierFlagsExt) : RadiantWindowObserver × List ObserverEffect :=
  match decide (button ≠ ButtonIdentifier.c_buttonInvalid), self.g_mouseUpCallback with
  | true, some o => (⟨false, none, none⟩, [ObserverEffect.mouseUp o])
  | _, _ => ({ self with m_mouse_down := false }, [])

/-- One event delivered to the observer. -/
inductive ObserverEvent where
  | onMouseDown (button : ButtonIdentifier) (modifiers : ModifierFlagsExt)
      (manipulator_mouseDown : Bool)
  | onMouseMotion (modifiers : ModifierFlagsExt)
  | onMouseUp (button : ButtonIdentifier) (modifiers : ModifierFlagsExt)
  deriving DecidableEq

/-- The observer after one event, and the calls the event made. -/
def RadiantWindowObserver.step (self : RadiantWindowObserver) :
    ObserverEvent → RadiantWindowObserver × List ObserverEffect
  | .onMouseDown button modifiers r => self.onMouseDown button modifiers r
  | .onMouseMotion modifiers => self.onMouseMotion modifiers
  | .onMouseUp button modifiers => self.onMouseUp button modifiers

/-- The observer after a sequence of events, first event first. -/
def RadiantWindowObserver.run (self : RadiantWindowObserver) (events : List ObserverEvent) :
    RadiantWindowObserver :=
  events.foldl (fun s ev => (s.step ev).1) self

/-! ## StringTokeniser (string.h:305-352) -/

/-- A `char`, by its code; `0` is the terminator `'\0'`. -/
abbrev CChar := Nat

/-- The C string stored at the start of `s`: the characters before the first
`'\0'`. -/
def c_str (s : List CChar) : List CChar := s.takeWhile fun c => decide (c ≠ 0)

/-- `class StringTokeniser` (string.h:306): `m_string` is the buffer with its
terminator, `m_pos` the offset of the pointer `m_pos` in it. -/
structure StringTokeniser where
  m_length : Nat
  m_string : List CChar
  m_pos : Nat
  m_delimiters : List CChar
  deriving DecidableEq

/-- `StringTokeniser::istoken` (string.h:308): `strchr( m_delimiters, c )` finds
`c` among the delimiters or as their terminator. -/
def StringTokeniser.istoken (m_delimiters : List CChar) (c : CChar) : Bool :=
  if c ∈ c_str m_delimiters ∨ c = 0 then false else true

/-- The loop of `StringTokeniser::advance` (string.h:317-327) on the buffer from
`m_pos` on: what it leaves in the characters it passed, and the buffer from the
new `m_pos` on. -/
def StringTokeniser.advance_loop (istoken : CChar → Bool) :
    Bool → List CChar → List CChar × List CChar
  | _, [] => ([], [])
  | intoken, c :: cs =>
    if c = 0 then ([], c :: cs)
    else if !istoken c then
      let r := StringTokeniser.advance_loop istoken false cs
      (0 :: r.1, r.2)
    else if !intoken then ([], c :: cs)
    else
      let r := StringTokeniser.advance_loop istoken intoken cs
      (c :: r.1, r.2)

/-- `StringTokeniser::advance` (string.h:314): the C string at the returned
pointer `token`, read after the call, and the tokeniser after the call. -/
def StringTokeniser.advance (self : StringTokeniser) : List CChar × StringTokeniser :=
  let r := StringTokeniser.advance_loop (StringTokeniser.istoken self.m_delimiters) true
    (self.m_string.drop self.m_pos)
  let m_string := self.m_string.take self.m_pos ++ r.1 ++ r.2
  (c_str (m_string.drop self.m_pos),
    { self with m_string := m_string, m_pos := self.m_pos + r.1.length })

/-- The loop of the constructor (string.h:340-343): the number of characters
`m_pos` moves over. -/
def StringTokeniser.skip (istoken : CChar → Bool) : List CChar → Nat
  | [] => 0
  | c :: cs => if c ≠ 0 ∧ istoken c = false then StringTokeniser.skip istoken cs + 1 else 0

/-- The constructor `StringTokeniser( string, delimiters )` (string.h:335): the
buffer is a copy of the C string at `string`. -/
def StringTokeniser.construct (string delimiters : List CChar) : StringTokeniser :=
  { m_length := (c_str string).length
    m_string := c_str string ++ [0]
    m_pos := StringTokeniser.skip (StringTokeniser.istoken delimiters) (c_str string ++ [0])
    m_delimiters := delimiters }

/-- The default `delimiters = " \n\r\t\v"` (string.h:335). -/
def StringTokeniser.default_delimiters : List CChar := [32, 10, 13, 9, 11]

/-- `StringTokeniser::getToken` (string.h:349). -/
def StringTokeniser.getToken (self : StringTokeniser) : List CChar × StringTokeniser :=
  self.advance

/-- The results of `n` successive `getToken()` calls, first call first. -/
def StringTokeniser.getTokens : Nat → StringTokeniser → List (List CChar)
  | 0, _ => []
  | n + 1, self => (self.getToken).1 :: StringTokeniser.getTokens n (self.getToken).2

/-- The maximal runs of non-delimiter characters of the C string at `string`,
left to right: the pieces between delimiters, without the empty ones. -/
def string_tokens (string delimiters : List CChar) : List (List CChar) :=
  ((c_str string).splitOnP fun c => decide (c ∈ c_str delimiters)).filter fun t => !t.isEmpty

/-! ## string_in_string_nocase (string.h:288-303) -/

/-- The `std::tolower` of the C locale on `unsigned char` values (C library, not
code of this repository): `'A'..'Z'` go to `'a'..'z'`, every other value stays. -/
def c_tolower (c : CChar) : CChar := if 65 ≤ c ∧ c ≤ 90 then c + 32 else c

/-- The inner `while` loop of `string_in_string_nocase` (string.h:294-297) on the
buffers at `h` and `n`: the value of `*n == 0` when the loop ends. A buffer ends
with its terminator, so a read beyond the list is a read past the terminator and
gives `none`. -/
def string_in_string_nocase_inner (tolower : CChar → CChar) :
    List CChar → List CChar → Option Bool
  | [], _ => none
  | _ :: _, [] => none
  | h :: hs, n :: ns =>
    if tolower h = tolower n ∧ n ≠ 0 then string_in_string_nocase_inner tolower hs ns
    else some (decide (n = 0))

/-- `string_in_string_nocase( haystack, needle )` (string.h:290). `some (some k)`
is the returned pointer `haystack + k`, `some none` the returned null pointer,
`none` a read past a terminator. -/
def string_in_string_nocase (tolower : CChar → CChar) (haystack needle : List CChar) :
    Option (Option Nat) :=
  match haystack with
  | [] => none
  | c :: cs =>
    match string_in_string_nocase_inner tolower (c :: cs) needle with
    | none => none
    | some true => some (some 0)
    | some false =>
      if c ≠ 0 then (string_in_string_nocase tolower cs needle).map (Option.map fun k => k + 1)
      else some none

/-- The needle `needle` matches the haystack `haystack` at offset `k` without
regard to case: the lowered needle is a prefix of the lowered haystack from `k`
on. Both are given by their characters, without terminator. -/
def nocase_match_at (tolower : CChar → CChar) (haystack needle : List CChar) (k : Nat) : Prop :=
  needle.map tolower <+: (haystack.drop k).map tolower

/-! ## Axis-aligned bounding boxes (aabb.h) -/

/-- `RadiantSelectionSystem::EModifier` (selection.cpp:6979). -/
inductive EModifier where
  | eManipulator
  | eReplace
  | eCycle
  | eSelect
  | eDeselect
  deriving DecidableEq

/-- Modelled from the spec: `SelectionSystem::EMode` of `include/selection.h` (not
among the sources), the selection modes entity, primitive and component. -/
inductive EMode where
  | eEntity
  | ePrimitive
  | eComponent
  deriving DecidableEq

/-- Modelled from the spec: `c_modifierAlt` of `windowobserver.h` (not among the
sources), the alt modifier alone. -/
def c_modifierAlt : ModifierFlagsExt := ⟨false, false, true⟩

/-- Modelled from the spec: the scene graph (`scenelib.h`, not among the sources)
as far as the walkers `select_all` (selection.cpp:6852) and
`select_all_component` (selection.cpp:6868) touch it: the `Selectable` of every
instance that has one, the selectables of all vertex, edge and face components,
and the handles of `m_manipulator`. -/
structure SceneSelectables where
  instances : List Selectable
  components : List Selectable
  m_manipulator : List Selectable
  deriving DecidableEq

/-- `setSelected( select )` on every `Selectable` of a list. -/
def setSelectedEach (isSelected : Selectable → Bool) (l : List Selectable) (select : Bool) :
    Selectable → Bool :=
  fun x => if x ∈ l then select else isSelected x

/-- `RadiantSelectionSystem::setSelectedAll` (selection.cpp:7124). -/
def setSelectedAll (scene : SceneSelectables) (selected : Bool) (isSelected : Selectable → Bool) :
    Selectable → Bool :=
  setSelectedEach (setSelectedEach isSelected scene.instances selected) scene.m_manipulator
    selected

/-- `RadiantSelectionSystem::setSelectedAllComponents` (selection.cpp:7129). -/
def setSelectedAllComponents (scene : SceneSelectables) (selected : Bool)
    (isSelected : Selectable → Bool) : Selectable → Bool :=
  setSelectedEach (setSelectedEach isSelected scene.components selected) scene.m_manipulator
    selected

/-- `RadiantSelectionSystem::deselectAll` (selection.cpp:7260). -/
def deselectAll (scene : SceneSelectables) (Mode : EMode) (isSelected : Selectable → Bool) :
    Selectable → Bool :=
  if Mode = EMode.eComponent then setSelectedAllComponents scene false isSelected
  else setSelectedAll scene false isSelected

/-- `RadiantSelectionSystem::deselectComponentsOrAll` (selection.cpp:7270). -/
def deselectComponentsOrAll (scene : SceneSelectables) (Mode : EMode) (components : Bool)
    (isSelected : Selectable → Bool) : Selectable → Bool :=
  if components then setSelectedAllComponents scene false isSelected
  else deselectAll scene Mode isSelected

/-- `i->second->isSelected()` for a pool entry; a pointer that was never set names
no flag. -/
def isSelectedAt (isSelected : Selectable → Bool) (se : Option Selectable) : Bool :=
  match se with
  | some s => isSelected s
  | none => false

/-- What `SelectPoint` reads besides its arguments: the scene, `Mode()`,
`g_modifiers`, `m_bPreferPointEntsIn2D`, `view.fill()`, `countSelected()`, and
the pools that `Scene_TestSelect` / `Scene_TestSelect_Component` (not among the
sources) fill: `entities` by the entity test of line 7329, `selector` by the
tests of lines 7355-7360. -/
structure SelectPointInput where
  scene : SceneSelectables
  Mode : EMode
  g_modifiers : ModifierFlagsExt
  m_bPreferPointEntsIn2D : Bool
  view_fill : Bool
  countSelected : Nat
  entities : SelectionPool
  selector : SelectionPool
  deriving DecidableEq

/-- The `for` loop of the `eCycle` case (selection.cpp:7376-7391) from the entry
`i` on: the selected flags when it leaves with `cycleSelectionOccured` set,
`none` when it runs to the end. `first` is `selector.begin()`, `deselect` is
`deselectComponentsOrAll( face )`. -/
def SelectPoint_cycle_loop (deselect : (Selectable → Bool) → Selectable → Bool)
    (first : PoolEntry) (isSelected : Selectable → Bool) :
    List PoolEntry → Option (Selectable → Bool)
  | [] => none
  | i :: rest =>
    if isSelectedAt isSelected i.2 then
      some (match rest with
        | next :: _ => setSelected (deselect isSelected) next.2 true
        | [] => setSelected (deselect isSelected) first.2 true)
    else SelectPoint_cycle_loop deselect first isSelected rest

/-- `RadiantSelectionSystem::SelectPoint` (selection.cpp:7303): the selected flags
after the call, from the flags `isSelected` before it. -/
def SelectPoint (inp : SelectPointInput) (modifier : EModifier) (face : Bool)
    (isSelected : Selectable → Bool) : Selectable → Bool :=
  let st :=
    if modifier = EModifier.eReplace then
      deselectComponentsOrAll inp.scene inp.Mode face isSelected
    else isSelected
  let prefer_point_ents := inp.m_bPreferPointEntsIn2D && decide (inp.Mode = EMode.ePrimitive)
    && !inp.view_fill && !face
    && (decide (modifier = EModifier.eReplace) || decide (modifier = EModifier.eSelect)
      || decide (modifier = EModifier.eDeselect))
  if prefer_point_ents && !inp.entities.failed then
    match modifier with
    | EModifier.eReplace =>
      match inp.entities.m_pool with
      | best :: _ => setSelected st best.2 true
      | [] => st
    | EModifier.eSelect => SelectionPool_Select inp.entities true SELECT_MATCHING_DIST st
    | EModifier.eDeselect => SelectionPool_Select inp.entities false SELECT_MATCHING_DIST st
    | _ => st
  else
    let mode := if inp.g_modifiers = c_modifierAlt then EMode.ePrimitive else inp.Mode
    match inp.selector.m_pool with
    | [] =>
      if modifier = EModifier.eCycle then deselectComponentsOrAll inp.scene inp.Mode face st
      else st
    | first :: rest =>
      match modifier with
      | EModifier.eReplace => setSelected st first.2 true
      | EModifier.eCycle =>
        match SelectPoint_cycle_loop (deselectComponentsOrAll inp.scene inp.Mode face) first st
            (first :: rest) with
        | some st1 => st1
        | none =>
          setSelected (deselectComponentsOrAll inp.scene inp.Mode face st) first.2 true
      | EModifier.eSelect =>
        SelectionPool_Select inp.selector true
          (if mode = EMode.eComponent then SELECT_MATCHING_COMPONENTS_DIST
            else SELECT_MATCHING_DIST) st
      | EModifier.eDeselect =>
        if ¬ (mode = EMode.ePrimitive ∧ inp.Mode = EMode.eComponent ∧ inp.countSelected = 1) then
          SelectionPool_Select inp.selector false
            (if mode = EMode.eComponent then SELECT_MATCHING_COMPONENTS_DIST
              else SELECT_MATCHING_DIST) st
        else st
      | _ => st

/-! ## DragNewBrush (selection.cpp:908-967) -/

/-- Modelled from the spec: `vector3_mid` of `math/vector.h` (not among the
sources), the midpoint of two points. -/
def vector3_mid (a b : Vector3) : Vector3 := vector3_scaled (vector3_added a b) (1 / 2)

/-- `aabb_for_minmax` (aabb.h:62). -/
def aabb_for_minmax (min max : Vector3) : AABB :=
  let origin := vector3_mid min max
  ⟨origin, vector3_subtracted max origin⟩

/-- `class DragNewBrush` (selection.cpp:908): `m_0`, `m_size`, `m_setSizeZ`; the
node pointer `m_newBrushNode` is only handed on to `Scene_BrushResize_Cuboid`. -/
structure DragNewBrush where
  m_0 : Vector3
  m_size : Vector3
  m_setSizeZ : ℚ
  deriving DecidableEq

/-- `DragNewBrush::set0` (selection.cpp:964). -/
def DragNewBrush.set0 (self : DragNewBrush) (start : Vector3) : DragNewBrush :=
  { self with m_0 := start }

/-- `DragNewBrush::Construct` (selection.cpp:918); `GetGridSize` is the value of
`GetGridSize()` (grid.h, not among the sources). -/
def DragNewBrush.Construct (GetGridSize : ℚ) (self : DragNewBrush) : DragNewBrush :=
  { self with m_size := ⟨GetGridSize, GetGridSize, GetGridSize⟩, m_setSizeZ := GetGridSize }

/-- `diff_raw` of `DragNewBrush::Transform` (selection.cpp:923-925);
`GetModelview` is `m_view->GetModelview()`, whose elements 2 and 6 are `xz` and
`yz`. -/
def DragNewBrush.diff_raw (cm : CMath) (GetModelview : Matrix4) (g : Globals)
    (self : DragNewBrush) (device_point : DeviceVector) : Vector3 :=
  let top := vector3_added ⟨self.m_size.x, self.m_size.y, self.m_setSizeZ⟩ self.m_0
  let diff_raw := vector3_subtracted
    (point_on_plane_of cm
      (Plane3.ofNormalDist g_vector3_axis_z (vector3_dot g_vector3_axis_z top))
      g.m_view.GetViewMatrix device_point) self.m_0
  let xydir := vector3_normalised cm ⟨GetModelview.xz, GetModelview.yz, 0⟩
  { diff_raw with
    z := (vector3_subtracted
      (point_on_plane_of cm (Plane3.ofNormalDist xydir (vector3_dot xydir top))
        g.m_view.GetViewMatrix device_point) self.m_0).z }

/-- The snapped `diff` of `DragNewBrush::Transform` with its zero components
replaced (selection.cpp:926-930). -/
def DragNewBrush.diff_snapped (GetGridSize : ℚ) (g : Globals) (diff_raw : Vector3) : Vector3 :=
  for3 (fun i diff =>
    if diff.get i = 0 then diff.set i (if diff_raw.get i < 0 then -GetGridSize else GetGridSize)
    else diff) (vector3_snapped diff_raw g.GetSnapGridSize)

/-- The height adjustment of `DragNewBrush::Transform` (selection.cpp:932-938):
the `diff` that goes into the depth test. -/
def DragNewBrush.diff_height (g : Globals) (self : DragNewBrush) (diff : Vector3) : Vector3 :=
  if g.g_modifiers.alt then { diff with x := self.m_size.x, y := self.m_size.y }
  else { diff with z := self.m_size.z }

/-- The test `z != z || z > 1` of `DragNewBrush::Transform` (selection.cpp:940-942)
on `v = matrix4_transformed_vector4( view matrix, Vector4( diff + m_0, 1 ) )`,
with `z = v.z / v.w`: for `v.w = 0` the float quotient is NaN (`0 / 0`) or an
infinity; NaN and the positive infinity are caught, the negative one is not. -/
def DragNewBrush.rejected (v : Vector4) : Bool :=
  if v.w = 0 then decide (0 ≤ v.z) else decide (v.z / v.w > 1)

/-- The square and cube modes of `DragNewBrush::Transform` (selection.cpp:944-950). -/
def DragNewBrush.diff_square (g : Globals) (diff : Vector3) : Vector3 :=
  if g.g_modifiers.shift || g.g_modifiers.ctrl then
    let squaresize := max |diff.x| |diff.y|
    let diff : Vector3 :=
      { diff with
        x := if diff.x > 0 then squaresize else -squaresize
        y := if diff.y > 0 then squaresize else -squaresize }
    if g.g_modifiers.ctrl && !g.g_modifiers.alt then
      { diff with z := if diff.z > 0 then squaresize else -squaresize }
    else diff
  else diff

/-- The corners `mins`, `maxs` of `DragNewBrush::Transform` (selection.cpp:956-960),
the sum `m_0 + diff` taken exactly; `DragNewBrush.minmax_rounded` is the same
with the sum rounded to `float`. -/
def DragNewBrush.minmax (m_0 diff : Vector3) : Vector3 × Vector3 :=
  for3 (fun i (p : Vector3 × Vector3) =>
    if p.1.get i > p.2.get i then (p.1.set i (p.2.get i), p.2.set i (p.1.get i)) else p)
    (m_0, vector3_added m_0 diff)

/-- The `diff` of `DragNewBrush::Transform` at the depth test (selection.cpp:938). -/
def DragNewBrush.diff_tested (cm : CMath) (GetGridSize : ℚ) (GetModelview : Matrix4)
    (g : Globals) (self : DragNewBrush) (device_point : DeviceVector) : Vector3 :=
  DragNewBrush.diff_height g self
    (DragNewBrush.diff_snapped GetGridSize g
      (DragNewBrush.diff_raw cm GetModelview g self device_point))

/-- `DragNewBrush::Transform` (selection.cpp:922): the members after the call and
the box passed to `Scene_BrushResize_Cuboid`, `none` when the call returns at the
depth test without passing one. -/
def DragNewBrush.Transform (cm : CMath) (GetGridSize : ℚ) (GetModelview : Matrix4)
    (g : Globals) (self : DragNewBrush) (_manip2object _device2manip : Matrix4)
    (device_point : DeviceVector) : DragNewBrush × Option AABB :=
  let diff := DragNewBrush.diff_tested cm GetGridSize GetModelview g self device_point
  if DragNewBrush.rejected
      (matrix4_transformed_vector4 g.m_view.GetViewMatrix
        ⟨diff.x + self.m_0.x, diff.y + self.m_0.y, diff.z + self.m_0.z, 1⟩) then (self, none)
  else
    let diff := DragNewBrush.diff_square g diff
    let mm := DragNewBrush.minmax self.m_0 diff
    ({ self with
        m_size := diff
        m_setSizeZ := if g.g_modifiers.alt then diff.z else self.m_setSizeZ },
      some (aabb_for_minmax mm.1 mm.2))

/-- What `DragNewBrush::Transform` carries from one call to the next while the
modifiers of `g` are held: the anchor `m_0`; with alt the footprint
`m_size.x`, `m_size.y` stays the grid size; without alt `m_setSizeZ` stays the
grid size, and `m_size.z` stays the grid size (no ctrl) or keeps the sign class
of the grid size (ctrl, cube mode). -/
def DragNewBrush.Carried (GetGridSize : ℚ) (g : Globals) (m0 : Vector3)
    (s : DragNewBrush) : Prop :=
  s.m_0 = m0 ∧
  (g.g_modifiers.alt = true → s.m_size.x = GetGridSize ∧ s.m_size.y = GetGridSize) ∧
  (g.g_modifiers.alt = false → s.m_setSizeZ = GetGridSize ∧
    (g.g_modifiers.ctrl = false → s.m_size.z = GetGridSize) ∧
    (g.g_modifiers.ctrl = true → (0 < s.m_size.z ↔ 0 < GetGridSize)))

/-! ### aabb_extend_by_aabb (aabb.h:81-119) -/

/-- `AABBExtend<Index>::apply( AABB&, const AABB& )` (aabb.h:81); the result is the
new `aabb`. -/
def AABBExtend.apply (Index : Fin 3) (aabb other : AABB) : AABB :=
  let displacement := other.origin.get Index - aabb.origin.get Index
  let difference := other.extents.get Index - aabb.extents.get Index
  if |displacement| > |difference| then
    let half_difference := (1 / 2) * (|displacement| + difference)
    if half_difference > 0 then
      { origin := aabb.origin.set Index
          (aabb.origin.get Index +
            (if displacement ≥ 0 then half_difference else -half_difference))
        extents := aabb.extents.set Index (aabb.extents.get Index + half_difference) }
    else aabb
  else if difference > 0 then
    { origin := aabb.origin.set Index (other.origin.get Index)
      extents := aabb.extents.set Index (other.extents.get Index) }
  else aabb

/-- `aabb_extend_by_aabb` (aabb.h:115); the result is the new `aabb`. -/
def aabb_extend_by_aabb (aabb other : AABB) : AABB :=
  AABBExtend.apply 2 (AABBExtend.apply 1 (AABBExtend.apply 0 aabb other) other) other

/-! ## TransformOriginTranslate (selection.cpp:6693-6731) -/

/-- `class TransformOriginTranslate` (selection.cpp:6693): the member `m_start`; the
reference `m_transformOriginTranslatable` is the sink of `Transform`. -/
structure TransformOriginTranslate where
  m_start : Vector3
  deriving DecidableEq

/-- `TransformOriginTranslate::Construct` (selection.cpp:6702). -/
def TransformOriginTranslate.Construct (_self : TransformOriginTranslate)
    (device2manip : Matrix4) (device_point : DeviceVector) (_bounds : AABB)
    (_transform_origin : Vector3) : TransformOriginTranslate :=
  ⟨point_on_plane device2manip device_point⟩

/-- The axis snap loop of `TransformOriginTranslate::Transform`
(selection.cpp:6710-6717); `( i + 1 ) % 3` is the successor in `Fin 3`. -/
def TransformOriginTranslate.Transform_snap (current : Vector3) : Vector3 :=
  for3 (fun i current =>
    if |current.get i| ≥ |current.get (i + 1)| then current.set (i + 1) 0
    else current.set i 0) current

/-- The array `set` of `TransformOriginTranslate::Transform`
(selection.cpp:6720-6725); `1e-3f` is taken as 1/1000. -/
def TransformOriginTranslate.Transform_set (current : Vector3) : Fin 3 → Bool :=
  for3 (fun i set =>
    if |current.get i| < 1 / 1000 then Function.update set i false else set) (fun _ => true)

/-- `TransformOriginTranslate::Transform` (selection.cpp:6705): the members after
the call and the arguments `( current, set )` passed to
`TransformOriginTranslatable::transformOriginTranslate`. -/
def TransformOriginTranslate.Transform (g : Globals) (self : TransformOriginTranslate)
    (manip2object device2manip : Matrix4) (device_point : DeviceVector) :
    TransformOriginTranslate × (Vector3 × (Fin 3 → Bool)) :=
  let current := point_on_plane device2manip device_point
  let current := vector3_subtracted current self.m_start
  let current :=
    if g.g_modifiers.shift then TransformOriginTranslate.Transform_snap current else current
  let set := TransformOriginTranslate.Transform_set current
  let current := translation_local2object current manip2object
  (self, (current, set))

/-! ## String comparison and `std::less<CopiedString>` (string.h:50-79, 620-640) -/

/-- `string_compare` (string.h:50), which is `std::strcmp` of the C library: the
difference of the first pair of characters that differ, 0 when both strings end
together; `none` when the scan leaves a buffer before it meets a terminator. -/
def string_compare : List CChar → List CChar → Option Int
  | [], _ => none
  | _ :: _, [] => none
  | a :: as, b :: bs =>
    if a ≠ b then some ((a : Int) - (b : Int))
    else if a = 0 then some 0
    else string_compare as bs

/-- `string_compare_n` (string.h:59), which is `std::strncmp` of the C library:
as `string_compare`, but at most `n` characters are compared. -/
def string_compare_n : List CChar → List CChar → Nat → Option Int
  | _, _, 0 => some 0
  | [], _, _ + 1 => none
  | _ :: _, [], _ + 1 => none
  | a :: as, b :: bs, n + 1 =>
    if a ≠ b then some ((a : Int) - (b : Int))
    else if a = 0 then some 0
    else string_compare_n as bs n

/-- `string_less` (string.h:77). -/
def string_less (string other : List CChar) : Option Bool :=
  (string_compare string other).map fun r => decide (r < 0)

/-- Modelled from the spec: `StringRange` of `generic/arrayrange.h` (not among the
sources), of which `std::less<CopiedString>` reads `data()` and `size()`: `data`
is the buffer from the first character of the range on, `size` the number of
characters in the range. -/
structure StringRange where
  data : List CChar
  size : Nat
  deriving DecidableEq

/-- The string that consists of exactly the characters of a range, with its
terminator. -/
def StringRange.chars (range : StringRange) : List CChar := range.data.take range.size ++ [0]

/-- `std::less<CopiedString>::operator()( const CopiedString&, const CopiedString& )`
(string.h:625) on the buffers `x.c_str()`, `y.c_str()`; the overloads with one
`const char*` argument (string.h:628, 631) compute the same. -/
def less_CopiedString (x y : List CChar) : Option Bool := string_less x y

/-- `std::less<CopiedString>::operator()( const CopiedString& string, const StringRange range )`
(string.h:634), `string` being the buffer `string.c_str()`. -/
def less_CopiedString_StringRange (string : List CChar) (range : StringRange) : Option Bool :=
  (string_compare_n string range.data range.size).map fun r => decide (r < 0)

/-- `std::less<CopiedString>::operator()( const StringRange range, const CopiedString& string )`
(string.h:637), `string` being the buffer `string.c_str()`. -/
def less_StringRange_CopiedString (range : StringRange) (string : List CChar) : Option Bool :=
  (string_compare_n string range.data range.size).map fun r => decide (r > 0)

/-! ### `float` rounding in the tail of `DragNewBrush::Transform`

`Vector3` holds `float` components. The embedding above computes with exact
rationals; the definitions below round every operation of lines 956-962 and of
`aabb_for_minmax` to `float`, to compare the two. -/

/-- The spacing of the `float` (IEEE 754 binary32) values around `a > 0`:
`2^(e - 23)` for `2^e <= a < 2^(e + 1)`. `u` is the spacing that goes with `a`
on entry (`2^-23` for `1 <= a < 2`); at most `fuel` halvings or doublings.
Overflow and subnormal values are not modelled. -/
def float32_ulp : Nat → ℚ → ℚ → ℚ
  | 0, _, u => u
  | fuel + 1, a, u =>
    if 2 ≤ a then float32_ulp fuel (a / 2) (u * 2)
    else if a < 1 then float32_ulp fuel (a * 2) (u / 2)
    else u

/-- Rounding to the nearest integer, ties to the even one. -/
def round_half_even (q : ℚ) : ℤ :=
  if q - ⌊q⌋ < 1 / 2 then ⌊q⌋
  else if q - ⌊q⌋ > 1 / 2 then ⌊q⌋ + 1
  else if ⌊q⌋ % 2 = 0 then ⌊q⌋ else ⌊q⌋ + 1

/-- The `float` nearest to `x` (round to nearest, ties to even): the result of
a `float` operation whose exact result is `x`. -/
def float32_round (x : ℚ) : ℚ :=
  if x = 0 then 0
  else (round_half_even (x / float32_ulp 300 |x| (1 / 2 ^ 23)) : ℚ)
    * float32_ulp 300 |x| (1 / 2 ^ 23)

/-- The corners `mins`, `maxs` of `DragNewBrush::Transform` (selection.cpp:956-960)
with the sum `m_0 + diff` rounded by `fl`. -/
def DragNewBrush.minmax_rounded (fl : ℚ → ℚ) (m_0 diff : Vector3) : Vector3 × Vector3 :=
  for3 (fun i (p : Vector3 × Vector3) =>
    if p.1.get i > p.2.get i then (p.1.set i (p.2.get i), p.2.set i (p.1.get i)) else p)
    (m_0, ⟨fl (m_0.x + diff.x), fl (m_0.y + diff.y), fl (m_0.z + diff.z)⟩)

/-- `aabb_for_minmax` (aabb.h:62) with every operation rounded by `fl`:
`origin = ( min + max ) * 0.5`, `extents = max - origin`. -/
def aabb_for_minmax_rounded (fl : ℚ → ℚ) (min max : Vector3) : AABB :=
  let origin : Vector3 :=
    ⟨fl (fl (min.x + max.x) * (1 / 2)), fl (fl (min.y + max.y) * (1 / 2)),
      fl (fl (min.z + max.z) * (1 / 2))⟩
  ⟨origin, ⟨fl (max.x - origin.x), fl (max.y - origin.y), fl (max.z - origin.z)⟩⟩

/-- The box `DragNewBrush::Transform` passes to `Scene_BrushResize_Cuboid` for the
anchor `m_0` and the final `diff` (selection.cpp:956-962), every operation
rounded by `fl`; with `fl` the identity it is the box of
`DragNewBrush.Transform`. -/
def DragNewBrush.cuboid_rounded (fl : ℚ → ℚ) (m_0 diff : Vector3) : AABB :=
  aabb_for_minmax_rounded fl (DragNewBrush.minmax_rounded fl m_0 diff).1
    (DragNewBrush.minmax_rounded fl m_0 diff).2

/-! ## Theorems -/

theorem assign_if_closer_eq (e : Bands) (best other : SelectionIntersection) :
    assign_if_closer e best other = best ∨ assign_if_closer e best other = other := by
  unfold assign_if_closer
  split
  · exact Or.inr rfl
  · exact Or.inl rfl

theorem multimap_insert_mem (e : Bands) (kv x : PoolEntry) (l : List PoolEntry) :
    x ∈ multimap_insert e kv l ↔ x = kv ∨ x ∈ l := by
  induction l with
  | nil => simp [multimap_insert]
  | cons y rest ih =>
    unfold multimap_insert
    split
    · simp
    · simp only [List.mem_cons, ih]
      tauto

theorem multimap_insert_perm (e : Bands) (kv : PoolEntry) (l : List PoolEntry) :
    (multimap_insert e kv l).Perm (kv :: l) := by
  induction l with
  | nil => simp [multimap_insert]
  | cons y rest ih =>
    unfold multimap_insert
    split
    · exact List.Perm.refl _
    · exact (List.Perm.cons y ih).trans (List.Perm.swap kv y rest)

theorem addSelectable_pool_valid (e : Bands) (p : SelectionPool) (i : SelectionIntersection)
    (s : Option Selectable) (h : ∀ x ∈ p.m_pool, x.1.valid = true) :
    ∀ x ∈ (p.addSelectable e i s).m_pool, x.1.valid = true := by
  unfold SelectionPool.addSelectable
  split
  · intro x hx
    rcases (multimap_insert_mem e _ x _).1 hx with rfl | hx
    · assumption
    · exact h x hx
  · exact h

theorem call_pool_valid (e : Bands) (p : SelectionPool) (c : PoolCall)
    (h : ∀ x ∈ p.m_pool, x.1.valid = true) :
    ∀ x ∈ (p.call e c).m_pool, x.1.valid = true := by
  cases c with
  | pushSelectable s => exact h
  | popSelectable => exact addSelectable_pool_valid e p _ _ h
  | addIntersection i => exact h
  | addSelectable i s => exact addSelectable_pool_valid e p i s h

theorem calls_pool_valid (e : Bands) (cs : List PoolCall) (p : SelectionPool)
    (h : ∀ x ∈ p.m_pool, x.1.valid = true) :
    ∀ x ∈ (p.calls e cs).m_pool, x.1.valid = true := by
  induction cs generalizing p with
  | nil => exact h
  | cons c cs ih => exact ih (p.call e c) (call_pool_valid e p c h)

theorem call_pool_empty (e : Bands) (p : SelectionPool) (c : PoolCall)
    (hc : ∀ i, c.supplied = some i → i.valid = false)
    (h : p.m_pool = [] ∧ p.m_intersection.valid = false) :
    (p.call e c).m_pool = [] ∧ (p.call e c).m_intersection.valid = false := by
  obtain ⟨hp, hi⟩ := h
  cases c with
  | pushSelectable s => exact ⟨hp, rfl⟩
  | popSelectable =>
    refine ⟨?_, rfl⟩
    simp [SelectionPool.call, SelectionPool.popSelectable, SelectionPool.addSelectable, hi, hp]
  | addIntersection i =>
    refine ⟨hp, ?_⟩
    have hiv : i.valid = false := hc i rfl
    show (assign_if_closer e p.m_intersection i).valid = false
    rcases assign_if_closer_eq e p.m_intersection i with h1 | h1 <;> rw [h1] <;> assumption
  | addSelectable i s =>
    have hiv : i.valid = false := hc i rfl
    simp [SelectionPool.call, SelectionPool.addSelectable, hiv, hp, hi]

theorem calls_pool_empty (e : Bands) (cs : List PoolCall) (p : SelectionPool)
    (hc : ∀ c ∈ cs, ∀ i, c.supplied = some i → i.valid = false)
    (h : p.m_pool = [] ∧ p.m_intersection.valid = false) :
    (p.calls e cs).m_pool = [] ∧ (p.calls e cs).m_intersection.valid = false := by
  induction cs generalizing p with
  | nil => exact h
  | cons c cs ih =>
    exact ih (p.call e c) (fun c' hc' => hc c' (List.mem_cons_of_mem _ hc'))
      (call_pool_empty e p c (hc c (List.mem_cons_self _ _)) h)

/-- C1: after any sequence of pushSelectable, addIntersection, popSelectable and
addSelectable calls on a freshly constructed SelectionPool, every stored entry
has a valid intersection; and if no call supplied a valid intersection, the
pool is empty and failed() is true. -/
theorem SelectionPool_entries_valid (e : Bands) (cs : List PoolCall) :
    (∀ x ∈ (SelectionPool.fresh.calls e cs).m_pool, x.1.valid = true) ∧
    ((∀ c ∈ cs, ∀ i, c.supplied = some i → i.valid = false) →
      (SelectionPool.fresh.calls e cs).m_pool = [] ∧
      (SelectionPool.fresh.calls e cs).failed = true) := by
  refine ⟨calls_pool_valid e cs _ (by simp [SelectionPool.fresh]), fun hc => ?_⟩
  have h := (calls_pool_empty e cs SelectionPool.fresh hc ⟨rfl, rfl⟩).1
  exact ⟨h, by simp [SelectionPool.failed, h]⟩

/-- Witness for C1: a bracket that adds only the invalid intersection, then an
addSelectable of the invalid intersection: the pool has failed. -/
theorem SelectionPool_entries_valid_witness :
    (∀ c ∈ [PoolCall.pushSelectable 7, PoolCall.addIntersection SelectionIntersection.invalid,
        PoolCall.popSelectable, PoolCall.addSelectable SelectionIntersection.invalid (some 3)],
      ∀ i, c.supplied = some i → i.valid = false) ∧
    (SelectionPool.fresh.calls ⟨1 / 1000, 1 / 1000000⟩
      [PoolCall.pushSelectable 7, PoolCall.addIntersection SelectionIntersection.invalid,
        PoolCall.popSelectable, PoolCall.addSelectable SelectionIntersection.invalid (some 3)]).failed
      = true :=
  have h : ∀ c ∈ [PoolCall.pushSelectable 7, PoolCall.addIntersection SelectionIntersection.invalid,
        PoolCall.popSelectable, PoolCall.addSelectable SelectionIntersection.invalid (some 3)],
      ∀ i, c.supplied = some i → i.valid = false := by
    intro c hc i hi
    simp only [List.mem_cons, List.mem_singleton, List.not_mem_nil, or_false] at hc
    rcases hc with rfl | rfl | rfl | rfl <;> simp [PoolCall.supplied] at hi <;> subst hi <;> rfl
  ⟨h, ((SelectionPool_entries_valid ⟨1 / 1000, 1 / 1000000⟩ _).2 h).2⟩

theorem foldl_addIntersection (e : Bands) (is : List SelectionIntersection) (q : SelectionPool) :
    is.foldl (SelectionPool.addIntersection e) q =
      { q with m_intersection := is.foldl (assign_if_closer e) q.m_intersection } := by
  induction is generalizing q with
  | nil => rfl
  | cons i is ih => simp only [List.foldl_cons, ih]; rfl

/-- C2: one bracket pushSelectable(s), addIntersection(i1) .. addIntersection(in),
popSelectable() on any pool state adds exactly the entry (closest, s) when the
closest of i1..in is valid and leaves the pool unchanged otherwise; the
intersection and pointer members left by earlier calls have no influence. -/
theorem SelectionPool_bracket (e : Bands) (p : SelectionPool) (s : Selectable)
    (is : List SelectionIntersection) :
    (p.bracket e s is).m_pool =
        (if (closestOf e is).valid then multimap_insert e (closestOf e is, some s) p.m_pool
         else p.m_pool) ∧
    ((closestOf e is).valid = true →
        (p.bracket e s is).m_pool.Perm ((closestOf e is, some s) :: p.m_pool)) ∧
    ((closestOf e is).valid = false → (p.bracket e s is).m_pool = p.m_pool) ∧
    (∀ (i0 : SelectionIntersection) (s0 : Option Selectable),
        (SelectionPool.bracket e { p with m_intersection := i0, m_selectable := s0 } s is).m_pool =
          (p.bracket e s is).m_pool) := by
  have key : ∀ q : SelectionPool, (q.bracket e s is).m_pool =
      (if (closestOf e is).valid then multimap_insert e (closestOf e is, some s) q.m_pool
         else q.m_pool) := by
    intro q
    unfold SelectionPool.bracket
    rw [foldl_addIntersection]
    simp only [SelectionPool.popSelectable, SelectionPool.addSelectable,
      SelectionPool.pushSelectable, closestOf]
    split <;> rfl
  refine ⟨key p, ?_, ?_, ?_⟩
  · intro hv
    rw [key p, if_pos hv]
    exact multimap_insert_perm e _ _
  · intro hv
    rw [key p]
    simp [hv]
  · intro i0 s0
    rw [key, key]

/-- Witness for C2: a bracket with two valid intersections on a pool that holds
one entry and a stale intersection member. -/
theorem SelectionPool_bracket_witness :
    (closestOf ⟨1 / 1000, 1 / 1000000⟩
        [SelectionIntersection.hit (1 / 2) (1 / 2) 0, SelectionIntersection.hit (1 / 4) (1 / 4) 0]).valid
      = true ∧
    (SelectionPool.bracket ⟨1 / 1000, 1 / 1000000⟩
        { m_pool := [(SelectionIntersection.hit (1 / 10) 0 0, some 4)],
          m_intersection := SelectionIntersection.hit 0 0 0, m_selectable := some 9 }
        5 [SelectionIntersection.hit (1 / 2) (1 / 2) 0,
          SelectionIntersection.hit (1 / 4) (1 / 4) 0]).m_pool.Perm
      ((closestOf ⟨1 / 1000, 1 / 1000000⟩
        [SelectionIntersection.hit (1 / 2) (1 / 2) 0, SelectionIntersection.hit (1 / 4) (1 / 4) 0],
        some 5) :: [(SelectionIntersection.hit (1 / 10) 0 0, some 4)]) :=
  ⟨by decide!, (SelectionPool_bracket _ _ _ _).2.1 (by decide!)⟩

open SelectionIntersection

/-- C3 (as stated, refuted): with the bands 0.25 / 2e-6, two valid intersections
whose distances lie within the distance band and whose depths are 0.4 and
0.400001: the one with the smaller depth (and the larger distance) is not the
closer one, distance2 decides for the other. -/
theorem smaller_depth_within_depth_band_not_closer :
    |(1 / 5000 : ℚ) - 1 / 10000| ≤ (⟨1 / 4, 1 / 500000⟩ : Bands).distance ∧
    (2 / 5 : ℚ) < 2 / 5 + 1 / 1000000 ∧
    lt ⟨1 / 4, 1 / 500000⟩ (hit (2 / 5) (1 / 5000) 1) (hit (2 / 5 + 1 / 1000000) (1 / 10000) 0)
      = false ∧
    lt ⟨1 / 4, 1 / 500000⟩ (hit (2 / 5 + 1 / 1000000) (1 / 10000) 0) (hit (2 / 5) (1 / 5000) 1)
      = true ∧
    assign_if_closer ⟨1 / 4, 1 / 500000⟩ (hit (2 / 5 + 1 / 1000000) (1 / 10000) 0)
      (hit (2 / 5) (1 / 5000) 1) = hit (2 / 5 + 1 / 1000000) (1 / 10000) 0 := by
  decide!

/-- C3 (amended): when the distances of two valid intersections differ by no
more than the distance band and the depth of the first is smaller by more than
the depth band, the first is the closer one whatever the distances and
distance2 values: it is less than the second, replaces it as best and is
stored before it in the pool. -/
theorem smaller_depth_closer_within_distance_band (e : Bands) (z d d2 z' d' d2' : ℚ)
    (hd : |d - d'| ≤ e.distance) (hz : z < z') (hband : e.depth < z' - z) :
    lt e (hit z d d2) (hit z' d' d2') = true ∧
    lt e (hit z' d' d2') (hit z d d2) = false ∧
    assign_if_closer e (hit z' d' d2') (hit z d d2) = hit z d d2 ∧
    (∀ a b : Option Selectable,
      multimap_insert e (hit z d d2, a) [(hit z' d' d2', b)] =
        [(hit z d d2, a), (hit z' d' d2', b)] ∧
      multimap_insert e (hit z' d' d2', b) [(hit z d d2, a)] =
        [(hit z d d2, a), (hit z' d' d2', b)]) := by
  have hd' : |d' - d| ≤ e.distance := by rw [abs_sub_comm]; exact hd
  have hb : e.depth < |z - z'| := by
    rw [abs_sub_comm]; exact lt_of_lt_of_le hband (le_abs_self _)
  have hb' : e.depth < |z' - z| := lt_of_lt_of_le hband (le_abs_self _)
  have h1 : lt e (hit z d d2) (hit z' d' d2') = true := by
    simp [lt, not_lt.2 hd, hb, hz]
  have h2 : lt e (hit z' d' d2') (hit z d d2) = false := by
    simp [lt, not_lt.2 hd', hb', le_of_lt hz]
  refine ⟨h1, h2, ?_, ?_⟩
  · simp [assign_if_closer, SelectionIntersection_closer, h1]
  · intro a b
    simp [multimap_insert, h1, h2]

/-- Witness for C3: depth 0.4 / distance 0.0002 against depth 0.5 / distance
0.0001 under bands 0.001 / 0.000001. -/
theorem smaller_depth_closer_within_distance_band_witness :
    lt ⟨1 / 1000, 1 / 1000000⟩ (hit (2 / 5) (2 / 10000) 0) (hit (1 / 2) (1 / 10000) 0) = true ∧
    assign_if_closer ⟨1 / 1000, 1 / 1000000⟩ (hit (1 / 2) (1 / 10000) 0)
      (hit (2 / 5) (2 / 10000) 0) = hit (2 / 5) (2 / 10000) 0 :=
  have h := smaller_depth_closer_within_distance_band ⟨1 / 1000, 1 / 1000000⟩
    (2 / 5) (2 / 10000) 0 (1 / 2) (1 / 10000) 0 (by decide!) (by decide!) (by decide!)
  ⟨h.1, h.2.2.1⟩

/-- C4 (as stated, refuted): under the 0.25 / 2e-6 pair epsilon-equality is not
transitive (distances 0, 0.2, 0.4); an intersection can be both less than and
epsilon-equal to another (whatever the non-negative bands of the ordering); and
less-than is not transitive (C < B and B < A but A < C). -/
theorem ordering_not_exclusive_not_transitive :
    (equalEpsilon (hit 0 0 0) (hit 0 (1 / 5) 0) (1 / 4) (1 / 500000) = true ∧
      equalEpsilon (hit 0 (1 / 5) 0) (hit 0 (2 / 5) 0) (1 / 4) (1 / 500000) = true ∧
      equalEpsilon (hit 0 0 0) (hit 0 (2 / 5) 0) (1 / 4) (1 / 500000) = false) ∧
    (∀ e : Bands, 0 ≤ e.distance → 0 ≤ e.depth →
      lt e (hit 0 0 0) (hit 0 0 1) = true ∧
      equalEpsilon (hit 0 0 0) (hit 0 0 1) (1 / 4) (1 / 500000) = true) ∧
    (lt ⟨1 / 4, 1 / 500000⟩ (hit 1 (2 / 5) 0) (hit 2 (1 / 5) 0) = true ∧
      lt ⟨1 / 4, 1 / 500000⟩ (hit 2 (1 / 5) 0) (hit 3 0 0) = true ∧
      lt ⟨1 / 4, 1 / 500000⟩ (hit 1 (2 / 5) 0) (hit 3 0 0) = false ∧
      lt ⟨1 / 4, 1 / 500000⟩ (hit 3 0 0) (hit 1 (2 / 5) 0) = true) := by
  refine ⟨by decide!, ?_, by decide!⟩
  intro e h1 h2
  constructor
  · simp [lt, not_lt.2 h1, not_lt.2 h2]
  · decide!

/-- C4 (amended): for non-negative ordering bands no wider than the 0.25 / 2e-6
pair and all intersections A, B: at least one of A < B, B < A, A epsilon-equal B
holds; A < B and B < A never hold together and A < A never holds;
epsilon-equality is reflexive and symmetric. -/
theorem ordering_total_asymmetric (e : Bands) (h0 : 0 ≤ e.distance) (h0' : 0 ≤ e.depth)
    (h1 : e.distance ≤ 1 / 4) (h2 : e.depth ≤ 1 / 500000) (A B : SelectionIntersection) :
    (lt e A B = true ∨ lt e B A = true ∨ equalEpsilon A B (1 / 4) (1 / 500000) = true) ∧
    ¬ (lt e A B = true ∧ lt e B A = true) ∧
    lt e A A = false ∧
    equalEpsilon A A (1 / 4) (1 / 500000) = true ∧
    equalEpsilon A B (1 / 4) (1 / 500000) = equalEpsilon B A (1 / 4) (1 / 500000) := by
  cases A with
  | invalid => cases B <;> simp [lt, equalEpsilon]
  | hit z d d2 =>
    cases B with
    | invalid => simp [lt, equalEpsilon]
    | hit z' d' d2' =>
      have hd : |d' - d| = |d - d'| := abs_sub_comm _ _
      have hz : |z' - z| = |z - z'| := abs_sub_comm _ _
      have hq : (0 : ℚ) ≤ 1 / 4 := by norm_num
      have hq' : (0 : ℚ) ≤ 1 / 500000 := by norm_num
      refine ⟨?_, ?_, ?_, ?_, ?_⟩
      · simp only [lt, equalEpsilon, hd, hz, gt_iff_lt, Bool.and_eq_true, decide_eq_true_eq]
        by_cases c1 : e.distance < |d - d'|
        · simp only [c1, if_true, decide_eq_true_eq]
          rcases lt_trichotomy d d' with h | h | h
          · exact Or.inl h
          · subst h
            simp only [sub_self, abs_zero] at c1
            exact absurd c1 (not_lt.2 h0)
          · exact Or.inr (Or.inl h)
        · simp only [c1, if_false]
          by_cases c2 : e.depth < |z - z'|
          · simp only [c2, if_true, decide_eq_true_eq]
            rcases lt_trichotomy z z' with h | h | h
            · exact Or.inl h
            · subst h
              simp only [sub_self, abs_zero] at c2
              exact absurd c2 (not_lt.2 h0')
            · exact Or.inr (Or.inl h)
          · simp only [c2, if_false, decide_eq_true_eq]
            rcases lt_trichotomy d2 d2' with h | h | h
            · exact Or.inl h
            · exact Or.inr (Or.inr ⟨le_trans (not_lt.1 c1) h1, le_trans (not_lt.1 c2) h2⟩)
            · exact Or.inr (Or.inl h)
      · simp only [lt, hd, hz, gt_iff_lt]
        by_cases c1 : e.distance < |d - d'|
        · simp only [c1, if_true, decide_eq_true_eq]
          exact fun h => lt_asymm h.1 h.2
        · simp only [c1, if_false]
          by_cases c2 : e.depth < |z - z'|
          · simp only [c2, if_true, decide_eq_true_eq]
            exact fun h => lt_asymm h.1 h.2
          · simp only [c2, if_false, decide_eq_true_eq]
            exact fun h => lt_asymm h.1 h.2
      · simp [lt]
      · simp [equalEpsilon, hq, hq']
      · simp [equalEpsilon, hd, hz]

/-- Witness for C4: the 0.25 / 2e-6 bands themselves, with two intersections
that are epsilon-equal and of which the first is also the lesser. -/
theorem ordering_total_asymmetric_witness :
    (lt ⟨1 / 4, 1 / 500000⟩ (hit 0 0 0) (hit 0 (1 / 5) 1) = true ∨
      lt ⟨1 / 4, 1 / 500000⟩ (hit 0 (1 / 5) 1) (hit 0 0 0) = true ∨
      equalEpsilon (hit 0 0 0) (hit 0 (1 / 5) 1) (1 / 4) (1 / 500000) = true) ∧
    ¬ (lt ⟨1 / 4, 1 / 500000⟩ (hit 0 0 0) (hit 0 (1 / 5) 1) = true ∧
      lt ⟨1 / 4, 1 / 500000⟩ (hit 0 (1 / 5) 1) (hit 0 0 0) = true) :=
  have h := ordering_total_asymmetric ⟨1 / 4, 1 / 500000⟩ (by decide!) (by decide!) (by decide!)
    (by decide!) (hit 0 0 0) (hit 0 (1 / 5) 1)
  ⟨h.1, h.2.1⟩

theorem membersAfter_eq_self {σ τ : Type}
    (transform : Globals → σ → Matrix4 → Matrix4 → DeviceVector → σ × τ)
    (h : ∀ g s a b c, (transform g s a b c).1 = s) (self : σ) (calls : List TransformCall) :
    membersAfter transform self calls = self := by
  induction calls with
  | nil => rfl
  | cons c cs ih =>
    show membersAfter transform
      (transform c.globals self c.manip2object c.device2manip c.device_point).1 cs = self
    rw [h]
    exact ih

theorem noDrift_of_members {σ τ : Type}
    (construct : Globals → σ → Matrix4 → DeviceVector → AABB → Vector3 → σ)
    (transform : Globals → σ → Matrix4 → Matrix4 → DeviceVector → σ × τ)
    (h : ∀ g s a b c, (transform g s a b c).1 = s) : NoDrift construct transform := by
  intro g0 s0 d2m p b t e1 e2 c
  refine ⟨membersAfter_eq_self transform h _ e1, ?_⟩
  simp only [emittedAfter, membersAfter_eq_self transform h]

theorem RotateFree_Transform_members (cm : CMath) (g : Globals) (s : RotateFree)
    (a b : Matrix4) (c : DeviceVector) : (RotateFree.Transform cm g s a b c).1 = s := by
  unfold RotateFree.Transform
  split
  · dsimp only
    split <;> rfl
  · rfl

theorem RotateAxis_Transform_members (cm : CMath) (g : Globals) (s : RotateAxis)
    (a b : Matrix4) (c : DeviceVector) : (RotateAxis.Transform cm g s a b c).1 = s := by
  unfold RotateAxis.Transform
  split <;> rfl

/-- C5: for TranslateAxis, TranslateFree, ScaleAxis, ScaleFree, RotateAxis,
RotateFree and SkewAxis, Transform leaves every member as Construct set it, so
a Transform call with given arguments, view, grid size and modifiers passes the
same value to the sink whatever Transform calls happened before it. -/
theorem Transform_no_drift (cm : CMath) :
    NoDrift (TranslateAxis.Construct cm) (TranslateAxis.Transform cm) ∧
    NoDrift (TranslateFree.Construct cm) (TranslateFree.Transform cm) ∧
    NoDrift (ScaleAxis.Construct cm) (ScaleAxis.Transform cm) ∧
    NoDrift (ScaleFree.Construct cm) (ScaleFree.Transform cm) ∧
    NoDrift (RotateAxis.Construct cm) (RotateAxis.Transform cm) ∧
    NoDrift (RotateFree.Construct cm) (RotateFree.Transform cm) ∧
    NoDrift (SkewAxis.Construct cm) (SkewAxis.Transform cm) :=
  ⟨noDrift_of_members _ _ (fun _ _ _ _ _ => rfl),
   noDrift_of_members _ _ (fun _ _ _ _ _ => rfl),
   noDrift_of_members _ _ (fun _ _ _ _ _ => rfl),
   noDrift_of_members _ _ (fun _ _ _ _ _ => rfl),
   noDrift_of_members _ _ (RotateAxis_Transform_members cm),
   noDrift_of_members _ _ (RotateFree_Transform_members cm),
   noDrift_of_members _ _ (fun _ _ _ _ _ => rfl)⟩

theorem float_snapped_zero (snap : ℚ) : float_snapped 0 snap = 0 := by
  unfold float_snapped
  split <;> simp

theorem aabb_snap_translation_y_zero (grid : ℚ) (move : Vector3) (bounds : AABB)
    (h : move.y = 0) : (aabb_snap_translation grid move bounds).y = 0 := by
  have hn : ¬ (|(0 : ℚ)| > 1 / 100) := by norm_num
  obtain ⟨mx, my, mz⟩ := move
  simp only at h
  subst h
  simp only [aabb_snap_translation, for3, Vector3.get, Vector3.set]
  split_ifs <;> simp only [Vector3.get, Vector3.set, hn, if_false]

theorem aabb_snap_translation_z_zero (grid : ℚ) (move : Vector3) (bounds : AABB)
    (h : move.z = 0) : (aabb_snap_translation grid move bounds).z = 0 := by
  have hn : ¬ (|(0 : ℚ)| > 1 / 100) := by norm_num
  obtain ⟨mx, my, mz⟩ := move
  simp only at h
  subst h
  simp only [aabb_snap_translation, for3, Vector3.get, Vector3.set]
  split_ifs <;> simp only [Vector3.get, Vector3.set, hn, if_false]

theorem translation_local2object_diagonal (v : Vector3) (m : Matrix4)
    (hxy : m.xy = 0) (hxz : m.xz = 0) (hyx : m.yx = 0) (hyz : m.yz = 0) (hzx : m.zx = 0)
    (hzy : m.zy = 0) (hxw : m.xw = 0) (hyw : m.yw = 0) (hzw : m.zw = 0) (htw : m.tw = 1) :
    (translation_local2object v m).y = m.yy * v.y * (m.xx * m.yy * m.zz / (m.xx * m.yy * m.zz)) ∧
    (translation_local2object v m).z = m.zz * v.z * (m.xx * m.yy * m.zz / (m.xx * m.yy * m.zz)) := by
  simp only [translation_local2object, matrix4_get_translation_vec3,
    matrix4_multiplied_by_matrix4, matrix4_translated_by_vec3, matrix4_translation_for_vec3,
    matrix4_transformed_vector4, matrix4_full_inverse, matrix4_determinant,
    hxy, hxz, hyx, hyz, hzx, hzy, hxw, hyw, hzw, htw]
  constructor <;> ring

/-- C6: TranslateAxis with its axis set to the X unit vector and an affine
manip2object whose linear part is diagonal: whatever the device2manip matrices,
the Construct point, the Transform point, the bounds, the grid size and the
modifiers (ctrl: aabb_snap_translation, otherwise vector3_snap), the translation
passed to Translatable::translate has Y and Z components zero. -/
theorem TranslateAxis_X_translation (cm : CMath) (g0 g : Globals) (s0 : TranslateAxis)
    (device2manip0 device2manip manip2object : Matrix4) (P0 P1 : DeviceVector) (bounds : AABB)
    (transform_origin : Vector3)
    (haxis : s0.m_axis = g_vector3_axes 0)
    (hdiag : manip2object.xy = 0 ∧ manip2object.xz = 0 ∧ manip2object.yx = 0 ∧
      manip2object.yz = 0 ∧ manip2object.zx = 0 ∧ manip2object.zy = 0)
    (haffine : manip2object.xw = 0 ∧ manip2object.yw = 0 ∧ manip2object.zw = 0 ∧
      manip2object.tw = 1) :
    (TranslateAxis.Transform cm g
        (TranslateAxis.Construct cm g0 s0 device2manip0 P0 bounds transform_origin)
        manip2object device2manip P1).2.y = 0 ∧
    (TranslateAxis.Transform cm g
        (TranslateAxis.Construct cm g0 s0 device2manip0 P0 bounds transform_origin)
        manip2object device2manip P1).2.z = 0 := by
  obtain ⟨hxy, hxz, hyx, hyz, hzx, hzy⟩ := hdiag
  obtain ⟨hxw, hyw, hzw, htw⟩ := haffine
  have key : ∀ v : Vector3, v.y = 0 → v.z = 0 →
      (translation_local2object v manip2object).y = 0 ∧
      (translation_local2object v manip2object).z = 0 := by
    intro v hy hz
    have h := translation_local2object_diagonal v manip2object hxy hxz hyx hyz hzx hzy hxw hyw
      hzw htw
    rw [h.1, h.2, hy, hz]
    simp
  simp only [TranslateAxis.Transform, TranslateAxis.Construct, haxis]
  have hv := key (vector3_scaled (g_vector3_axes 0)
    (distance_for_axis (point_on_axis cm (g_vector3_axes 0) device2manip0 P0)
      (point_on_axis cm (g_vector3_axes 0) device2manip P1) (g_vector3_axes 0)))
    (by simp [vector3_scaled, g_vector3_axes]) (by simp [vector3_scaled, g_vector3_axes])
  split
  · exact ⟨aabb_snap_translation_y_zero _ _ _ hv.1, aabb_snap_translation_z_zero _ _ _ hv.2⟩
  · simp only [vector3_snapped, hv.1, hv.2, float_snapped_zero, and_self]

/-- Witness for C6: Construct at device point (1/2, 0), Transform at (1, 0) with
ctrl held, grid 8, a manip2object that scales by (2, 3, 5) and translates by
(7, 11, 13); the emitted translation is (4, 0, 0). -/
theorem TranslateAxis_X_translation_witness :
    (TranslateAxis.Transform (CMath.exactSqrt fun _ _ => 0)
        ⟨⟨false, true, false⟩, 8, ⟨true, ⟨0, 0, 0⟩, ⟨0, 0, 1⟩, g_matrix4_identity⟩⟩
        (TranslateAxis.Construct (CMath.exactSqrt fun _ _ => 0)
          ⟨c_modifierNone, 8, ⟨true, ⟨0, 0, 0⟩, ⟨0, 0, 1⟩, g_matrix4_identity⟩⟩
          ⟨⟨0, 0, 0⟩, g_vector3_axes 0, ⟨⟨0, 0, 0⟩, ⟨0, 0, 0⟩⟩⟩
          ⟨2, 0, 0, 0,  0, 1, 0, 0,  0, 0, -1, 0,  0, 0, 4, 1⟩ ⟨1 / 2, 0⟩
          ⟨⟨0, 0, 0⟩, ⟨4, 4, 4⟩⟩ ⟨0, 0, 0⟩)
        ⟨2, 0, 0, 0,  0, 3, 0, 0,  0, 0, 5, 0,  7, 11, 13, 1⟩
        ⟨2, 0, 0, 0,  0, 1, 0, 0,  0, 0, -1, 0,  0, 0, 4, 1⟩ ⟨1, 0⟩).2 = ⟨4, 0, 0⟩ ∧
    (TranslateAxis.Transform (CMath.exactSqrt fun _ _ => 0)
        ⟨⟨false, true, false⟩, 8, ⟨true, ⟨0, 0, 0⟩, ⟨0, 0, 1⟩, g_matrix4_identity⟩⟩
        (TranslateAxis.Construct (CMath.exactSqrt fun _ _ => 0)
          ⟨c_modifierNone, 8, ⟨true, ⟨0, 0, 0⟩, ⟨0, 0, 1⟩, g_matrix4_identity⟩⟩
          ⟨⟨0, 0, 0⟩, g_vector3_axes 0, ⟨⟨0, 0, 0⟩, ⟨0, 0, 0⟩⟩⟩
          ⟨2, 0, 0, 0,  0, 1, 0, 0,  0, 0, -1, 0,  0, 0, 4, 1⟩ ⟨1 / 2, 0⟩
          ⟨⟨0, 0, 0⟩, ⟨4, 4, 4⟩⟩ ⟨0, 0, 0⟩)
        ⟨2, 0, 0, 0,  0, 3, 0, 0,  0, 0, 5, 0,  7, 11, 13, 1⟩
        ⟨2, 0, 0, 0,  0, 1, 0, 0,  0, 0, -1, 0,  0, 0, 4, 1⟩ ⟨1, 0⟩).2.y = 0 :=
  ⟨by decide!,
   (TranslateAxis_X_translation _ _ _ _ _ _ _ _ _ _ _ rfl ⟨rfl, rfl, rfl, rfl, rfl, rfl⟩
      ⟨rfl, rfl, rfl, rfl⟩).1⟩

theorem float_snapped_multiple (f snap : ℚ) (h : snap ≠ 0) :
    ∃ k : ℤ, float_snapped f snap = k * snap :=
  ⟨round (f / snap), by simp [float_snapped, h]⟩

theorem c_pi_twelfth_ne_zero : c_pi / 12 ≠ 0 := by
  unfold c_pi
  norm_num

theorem cos_eq_eight_ninths_not_multiple (θ : ℝ) (h : Real.cos θ = 8 / 9) :
    ¬ ∃ k : ℤ, θ = k * (Real.pi / 12) := by
  rintro ⟨k, hk⟩
  have h12 : Real.cos (2 * (2 * (3 * θ))) = Real.cos (k * Real.pi) := by
    congr 1
    rw [hk]
    ring
  rw [Real.cos_two_mul, Real.cos_two_mul, Real.cos_three_mul, h] at h12
  have hsq : Real.cos (k * Real.pi) ^ 2 = 1 := by
    have := Real.sin_int_mul_pi k
    have h2 := Real.sin_sq_add_cos_sq (k * Real.pi)
    rw [this] at h2
    linarith [h2]
  rw [← h12] at hsq
  norm_num at hsq

/-- C8 (as stated, refuted): with shift held and one device2manip, Construct at
device point (0, 0), whose ray runs through (2/3, 1/3, 2/3), and Transform at
device point (1, 0), whose ray runs through (1/3, 2/3, 2/3): no component of
the current vector is 0, and the rotation passed to Rotatable::rotate is the
unsnapped quaternion_for_unit_vectors from (2/3, 1/3, 2/3) to (1/3, 2/3, 2/3).
The cosine of the angle between these unit vectors is 8/9, and no angle with
that cosine is an integer multiple of 15 degrees. -/
theorem RotateFree_shift_not_snapped :
    (RotateFree.Transform (CMath.exactSqrt fun _ _ => 0)
        ⟨⟨true, false, false⟩, 8, ⟨true, ⟨0, 0, 0⟩, ⟨0, 0, 1⟩, g_matrix4_identity⟩⟩
        (RotateFree.Construct (CMath.exactSqrt fun _ _ => 0)
          ⟨⟨true, false, false⟩, 8, ⟨true, ⟨0, 0, 0⟩, ⟨0, 0, 1⟩, g_matrix4_identity⟩⟩
          ⟨⟨0, 0, 0⟩⟩
          ⟨-1 / 3, 1 / 3, 0, 0,  0, 1, 0, 0,  0, 0, 0, 1 / 2,  2 / 3, 1 / 3, 2 / 3, 1⟩ ⟨0, 0⟩
          ⟨⟨0, 0, 0⟩, ⟨1, 1, 1⟩⟩ ⟨0, 0, 0⟩)
        g_matrix4_identity
        ⟨-1 / 3, 1 / 3, 0, 0,  0, 1, 0, 0,  0, 0, 0, 1 / 2,  2 / 3, 1 / 3, 2 / 3, 1⟩ ⟨1, 0⟩).2
      = Quaternion.for_unit_vectors ⟨2 / 3, 1 / 3, 2 / 3⟩ ⟨1 / 3, 2 / 3, 2 / 3⟩ ∧
    vector3_dot ⟨2 / 3, 1 / 3, 2 / 3⟩ ⟨2 / 3, 1 / 3, 2 / 3⟩ = 1 ∧
    vector3_dot ⟨1 / 3, 2 / 3, 2 / 3⟩ ⟨1 / 3, 2 / 3, 2 / 3⟩ = 1 ∧
    vector3_dot ⟨2 / 3, 1 / 3, 2 / 3⟩ ⟨1 / 3, 2 / 3, 2 / 3⟩ = 8 / 9 ∧
    (∀ θ : ℝ, Real.cos θ = 8 / 9 → ¬ ∃ k : ℤ, θ = k * (Real.pi / 12)) :=
  ⟨by decide!, by decide!, by decide!, by decide!, cos_eq_eight_ninths_not_multiple⟩

theorem find_first_zero (v : Vector3) (i : Fin 3)
    (hi : v.get i = 0) (hj : ∀ j : Fin 3, j < i → v.get j ≠ 0) :
    ([0, 1, 2] : List (Fin 3)).find? (fun i => decide (v.get i = 0)) = some i := by
  fin_cases i
  · simp only [Fin.zero_eta] at hi
    simp [List.find?, hi]
  · have h0 := hj 0 (by decide)
    simp only [Fin.mk_one] at hi
    simp [List.find?, hi, h0]
  · have h0 := hj 0 (by decide)
    have h1 := hj 1 (by decide)
    have hi' : v.get 2 = 0 := hi
    simp [List.find?, hi', h0, h1]

/-- C8 (amended): RotateFree::Transform with shift held. When some component of
the normalised current vector is exactly 0, the rotation passed to
Rotatable::rotate is about the axis of the first such component, by
angle_for_axis(m_start, current, axis) snapped with float_snapped to an integer
multiple of c_pi / 12; when no component is 0, the rotation passed is
quaternion_for_unit_vectors(m_start, current), unsnapped. -/
theorem RotateFree_Transform_shift (cm : CMath) (g : Globals) (self : RotateFree)
    (manip2object device2manip : Matrix4) (device_point : DeviceVector)
    (hshift : g.g_modifiers.shift = true) :
    (∀ i : Fin 3,
      (vector3_normalised cm (point_on_sphere cm device2manip device_point g_radius)).get i = 0 →
      (∀ j : Fin 3, j < i →
        (vector3_normalised cm (point_on_sphere cm device2manip device_point g_radius)).get j
          ≠ 0) →
      (RotateFree.Transform cm g self manip2object device2manip device_point).2 =
        Quaternion.for_axisangle (g_vector3_axes i)
          (float_snapped
            (angle_for_axis cm self.m_start
              (vector3_normalised cm (point_on_sphere cm device2manip device_point g_radius))
              (g_vector3_axes i)) (c_pi / 12)) ∧
      ∃ k : ℤ,
        float_snapped
            (angle_for_axis cm self.m_start
              (vector3_normalised cm (point_on_sphere cm device2manip device_point g_radius))
              (g_vector3_axes i)) (c_pi / 12) = k * (c_pi / 12)) ∧
    ((∀ i : Fin 3,
        (vector3_normalised cm (point_on_sphere cm device2manip device_point g_radius)).get i
          ≠ 0) →
      (RotateFree.Transform cm g self manip2object device2manip device_point).2 =
        Quaternion.for_unit_vectors self.m_start
          (vector3_normalised cm (point_on_sphere cm device2manip device_point g_radius))) := by
  constructor
  · intro i hi hj
    refine ⟨?_, float_snapped_multiple _ _ c_pi_twelfth_ne_zero⟩
    simp only [RotateFree.Transform, hshift, if_true, find_first_zero _ i hi hj]
  · intro h
    simp [RotateFree.Transform, hshift, List.find?, h 0, h 1, h 2]

/-- Witness for C8: shift held and Transform on the ray through (0, 3/5, 4/5),
so that the first component of the current vector is 0. -/
theorem RotateFree_Transform_shift_witness :
    (RotateFree.Transform (CMath.exactSqrt fun _ _ => 0)
        ⟨⟨true, false, false⟩, 8, ⟨true, ⟨0, 0, 0⟩, ⟨0, 0, 1⟩, g_matrix4_identity⟩⟩
        ⟨⟨2 / 3, 1 / 3, 2 / 3⟩⟩ g_matrix4_identity
        ⟨1, 0, 0, 0,  0, 1, 0, 0,  0, 0, 0, 1 / 2,  0, 3 / 5, 4 / 5, 1⟩ ⟨0, 0⟩).2 =
      Quaternion.for_axisangle (g_vector3_axes 0)
        (float_snapped
          (angle_for_axis (CMath.exactSqrt fun _ _ => 0) ⟨2 / 3, 1 / 3, 2 / 3⟩
            (vector3_normalised (CMath.exactSqrt fun _ _ => 0)
              (point_on_sphere (CMath.exactSqrt fun _ _ => 0)
                ⟨1, 0, 0, 0,  0, 1, 0, 0,  0, 0, 0, 1 / 2,  0, 3 / 5, 4 / 5, 1⟩
                ⟨0, 0⟩ g_radius))
            (g_vector3_axes 0)) (c_pi / 12)) ∧
    ∃ k : ℤ,
      float_snapped
          (angle_for_axis (CMath.exactSqrt fun _ _ => 0) ⟨2 / 3, 1 / 3, 2 / 3⟩
            (vector3_normalised (CMath.exactSqrt fun _ _ => 0)
              (point_on_sphere (CMath.exactSqrt fun _ _ => 0)
                ⟨1, 0, 0, 0,  0, 1, 0, 0,  0, 0, 0, 1 / 2,  0, 3 / 5, 4 / 5, 1⟩
                ⟨0, 0⟩ g_radius))
            (g_vector3_axes 0)) (c_pi / 12) = k * (c_pi / 12) :=
  (RotateFree_Transform_shift (CMath.exactSqrt fun _ _ => 0)
      ⟨⟨true, false, false⟩, 8, ⟨true, ⟨0, 0, 0⟩, ⟨0, 0, 1⟩, g_matrix4_identity⟩⟩
      ⟨⟨2 / 3, 1 / 3, 2 / 3⟩⟩ g_matrix4_identity
      ⟨1, 0, 0, 0,  0, 1, 0, 0,  0, 0, 0, 1 / 2,  0, 3 / 5, 4 / 5, 1⟩ ⟨0, 0⟩ rfl).1
    0 (by decide!) (fun j hj => absurd hj (Fin.not_lt_zero j))

theorem scale_boundless_eq (delta start : Vector3) :
    scale_boundless delta start =
      some ⟨if start.x = 0 then 1 else 1 + delta.x / start.x,
            if start.y = 0 then 1 else 1 + delta.y / start.y,
            if start.z = 0 then 1 else 1 + delta.z / start.z⟩ := by
  unfold scale_boundless checked_div
  split_ifs <;> simp

theorem ScaleAxis_delta_get (cm : CMath) (g : Globals) (self : ScaleAxis)
    (manip2object device2manip : Matrix4) (device_point : DeviceVector) (i j : Fin 3)
    (haxis : self.m_axis = g_vector3_axes i) :
    (ScaleAxis.delta cm g self manip2object device2manip device_point).get j =
      if j = i then
        (vector3_snapped
          (translation_local2object
            (vector3_subtracted (point_on_axis cm self.m_axis device2manip device_point)
              self.m_start) manip2object) g.GetSnapGridSize).get i
      else 0 := by
  simp only [ScaleAxis.delta, haxis]
  fin_cases i <;> fin_cases j <;> simp [vector3_scaled_vec, g_vector3_axes, Vector3.get]

/-- ScaleAxis with axis the unit vector of axis i, no modifier held and captured
extent E = m_chosen_extent[i] > 0.0625: Transform emits a scale with
scale[i] = (E + d) / E, d component i of the snapped result of
translation_local2object, and scale[j] = 1 on the other axes. -/
theorem ScaleAxis_Transform_scale_local (cm : CMath) (g : Globals) (self : ScaleAxis)
    (manip2object device2manip : Matrix4) (device_point : DeviceVector) (i : Fin 3)
    (haxis : self.m_axis = g_vector3_axes i) (hmod : g.g_modifiers = c_modifierNone)
    (hE : self.m_chosen_extent.get i > 1 / 16) :
    ∃ scale : Vector3,
      (ScaleAxis.Transform cm g self manip2object device2manip device_point).2 = some scale ∧
      scale.get i =
        (self.m_chosen_extent.get i +
          (vector3_snapped
            (translation_local2object
              (vector3_subtracted (point_on_axis cm self.m_axis device2manip device_point)
                self.m_start) manip2object) g.GetSnapGridSize).get i)
          / self.m_chosen_extent.get i ∧
      ∀ j : Fin 3, j ≠ i → scale.get j = 1 := by
  have hd := fun j => ScaleAxis_delta_get cm g self manip2object device2manip device_point i j haxis
  have hE0 : self.m_chosen_extent.get i ≠ 0 := by
    intro h0
    rw [h0] at hE
    norm_num at hE
  simp only [ScaleAxis.Transform, scale_boundless_eq, hmod, c_modifierNone, Option.some_bind,
    for3_checked]
  generalize ScaleAxis.delta cm g self manip2object device2manip device_point = delta at hd ⊢
  generalize (vector3_snapped
            (translation_local2object
              (vector3_subtracted (point_on_axis cm self.m_axis device2manip device_point)
                self.m_start) manip2object) g.GetSnapGridSize).get i = d at hd ⊢
  generalize scale_start g self.m_start = start
  obtain ⟨dx, dy, dz⟩ := delta
  fin_cases i
  · have h0 := hd 0
    have h1 := hd 1
    have h2 := hd 2
    simp [Vector3.get] at h0 h1 h2 hE hE0
    subst h0 h1 h2
    simp [haxis, g_vector3_axes, Vector3.get, Vector3.set, hE, hE0, checked_div]
    intro j hj
    fin_cases j <;> simp_all
  · have h0 := hd 0
    have h1 := hd 1
    have h2 := hd 2
    simp [Vector3.get] at h0 h1 h2 hE hE0
    subst h0 h1 h2
    simp [haxis, g_vector3_axes, Vector3.get, Vector3.set, hE, hE0, checked_div]
    intro j hj
    fin_cases j <;> simp_all
  · have h0 := hd 0
    have h1 := hd 1
    have h2 := hd 2
    simp [Vector3.get] at h0 h1 h2 hE hE0
    subst h0 h1 h2
    simp [haxis, g_vector3_axes, Vector3.get, Vector3.set, hE, hE0, checked_div]
    intro j hj
    fin_cases j <;> simp_all

/-- C10: ScaleAxis::Transform with ctrl not held and captured extent
m_chosen_extent[i] on the active axis i at most 0.0625, for every grid size
(0 included): no division of the body meets a zero denominator; the emitted
scale[i] is 1 when the grid-snapped start[i] is 0 and 1 + delta[i] / start[i]
otherwise; the other axes carry 1 (or, with shift, scale[i]). -/
theorem ScaleAxis_Transform_small_extent (cm : CMath) (g : Globals) (self : ScaleAxis)
    (manip2object device2manip : Matrix4) (device_point : DeviceVector) (i : Fin 3)
    (haxis : self.m_axis = g_vector3_axes i) (hctrl : g.g_modifiers.ctrl = false)
    (hE : self.m_chosen_extent.get i ≤ 1 / 16) :
    ∃ scale : Vector3,
      (ScaleAxis.Transform cm g self manip2object device2manip device_point).2 = some scale ∧
      scale.get i =
        (if (scale_start g self.m_start).get i = 0 then 1
         else 1 + (ScaleAxis.delta cm g self manip2object device2manip device_point).get i
                / (scale_start g self.m_start).get i) ∧
      ∀ j : Fin 3, j ≠ i → scale.get j = if g.g_modifiers.shift then scale.get i else 1 := by
  have hd := fun j => ScaleAxis_delta_get cm g self manip2object device2manip device_point i j haxis
  have hE' : ¬ (self.m_chosen_extent.get i > 1 / 16) := not_lt.2 hE
  simp only [ScaleAxis.Transform, scale_boundless_eq, hctrl, Option.some_bind, for3_checked]
  generalize ScaleAxis.delta cm g self manip2object device2manip device_point = delta at hd ⊢
  generalize (vector3_snapped
            (translation_local2object
              (vector3_subtracted (point_on_axis cm self.m_axis device2manip device_point)
                self.m_start) manip2object) g.GetSnapGridSize).get i = d at hd ⊢
  generalize scale_start g self.m_start = start
  obtain ⟨dx, dy, dz⟩ := delta
  obtain ⟨sx, sy, sz⟩ := start
  fin_cases i
  · have h0 := hd 0
    have h1 := hd 1
    have h2 := hd 2
    simp [Vector3.get] at h0 h1 h2 hE'
    subst h0 h1 h2
    have hE'' := not_lt.2 hE'
    cases hs : g.g_modifiers.shift <;>
      simp [haxis, g_vector3_axes, Vector3.get, Vector3.set, hE'', for3, vector3_dot,
        vector3_scaled_vec] <;>
      intro j hj <;> fin_cases j <;> simp_all
  · have h0 := hd 0
    have h1 := hd 1
    have h2 := hd 2
    simp [Vector3.get] at h0 h1 h2 hE'
    subst h0 h1 h2
    have hE'' := not_lt.2 hE'
    cases hs : g.g_modifiers.shift <;>
      simp [haxis, g_vector3_axes, Vector3.get, Vector3.set, hE'', for3, vector3_dot,
        vector3_scaled_vec] <;>
      intro j hj <;> fin_cases j <;> simp_all
  · have h0 := hd 0
    have h1 := hd 1
    have h2 := hd 2
    simp [Vector3.get] at h0 h1 h2 hE'
    subst h0 h1 h2
    have hE'' := not_lt.2 hE'
    cases hs : g.g_modifiers.shift <;>
      simp [haxis, g_vector3_axes, Vector3.get, Vector3.set, hE'', for3, vector3_dot,
        vector3_scaled_vec] <;>
      intro j hj <;> fin_cases j <;> simp_all

/-- Witness for C10: grid size 0, shift held, captured extent 1/32 on every axis,
m_start = (1, 0, 0) and Transform on the ray that meets the X axis at X = 2:
start = (1, 0, 0), delta = (1, 0, 0), and the emitted scale is (2, 2, 2). -/
theorem ScaleAxis_Transform_small_extent_witness :
    (ScaleAxis.Transform (CMath.exactSqrt fun _ _ => 0)
        ⟨⟨true, false, false⟩, 0, ⟨true, ⟨0, 0, 0⟩, ⟨0, 0, 1⟩, g_matrix4_identity⟩⟩
        ⟨⟨1, 0, 0⟩, g_vector3_axes 0, ⟨1 / 32, 1 / 32, 1 / 32⟩,
          ⟨⟨0, 0, 0⟩, ⟨1 / 32, 1 / 32, 1 / 32⟩⟩⟩
        g_matrix4_identity
        ⟨2, 0, 0, 0,  0, 1, 0, 0,  0, 0, -1, 0,  0, 0, 4, 1⟩ ⟨1, 0⟩).2 = some ⟨2, 2, 2⟩ ∧
    ∃ scale : Vector3,
      (ScaleAxis.Transform (CMath.exactSqrt fun _ _ => 0)
        ⟨⟨true, false, false⟩, 0, ⟨true, ⟨0, 0, 0⟩, ⟨0, 0, 1⟩, g_matrix4_identity⟩⟩
        ⟨⟨1, 0, 0⟩, g_vector3_axes 0, ⟨1 / 32, 1 / 32, 1 / 32⟩,
          ⟨⟨0, 0, 0⟩, ⟨1 / 32, 1 / 32, 1 / 32⟩⟩⟩
        g_matrix4_identity
        ⟨2, 0, 0, 0,  0, 1, 0, 0,  0, 0, -1, 0,  0, 0, 4, 1⟩ ⟨1, 0⟩).2 = some scale :=
  ⟨by decide!,
    (ScaleAxis_Transform_small_extent (CMath.exactSqrt fun _ _ => 0)
      ⟨⟨true, false, false⟩, 0, ⟨true, ⟨0, 0, 0⟩, ⟨0, 0, 1⟩, g_matrix4_identity⟩⟩
      ⟨⟨1, 0, 0⟩, g_vector3_axes 0, ⟨1 / 32, 1 / 32, 1 / 32⟩,
        ⟨⟨0, 0, 0⟩, ⟨1 / 32, 1 / 32, 1 / 32⟩⟩⟩
      g_matrix4_identity
      ⟨2, 0, 0, 0,  0, 1, 0, 0,  0, 0, -1, 0,  0, 0, 4, 1⟩ ⟨1, 0⟩ 0 rfl rfl (by decide!)).imp
      fun _ h => h.1⟩

theorem matrix4_full_inverse_right (m : Matrix4) (h : matrix4_determinant m ≠ 0) :
    matrix4_multiplied_by_matrix4 m (matrix4_full_inverse m) = g_matrix4_identity := by
  obtain ⟨xx, xy, xz, xw, yx, yy, yz, yw, zx, zy, zz, zw, tx, ty, tz, tw⟩ := m
  simp only [matrix4_multiplied_by_matrix4, matrix4_full_inverse, matrix4_transformed_vector4,
    g_matrix4_identity, Matrix4.mk.injEq]
  generalize hd : matrix4_determinant _ = det at h ⊢
  simp only [matrix4_determinant] at hd
  have hinv : det * det⁻¹ = 1 := mul_inv_cancel₀ h
  refine ⟨?_, ?_, ?_, ?_, ?_, ?_, ?_, ?_, ?_, ?_, ?_, ?_, ?_, ?_, ?_, ?_⟩ <;>
    first
    | ring1
    | linear_combination det⁻¹ * hd + hinv

/-- C11 (the code at the failing input): bounds with origin (0,0,0) and extents
(0,1,1), transform origin (1,0,0), ctrl held. ScaleAxis (axis X) and ScaleFree
both capture m_chosen_extent[0] = 1 > 0.0625 and m_bounds.extents[0] = 0 in
Construct, take the bounding-box branch for axis 0 in Transform and divide
snappdwidth by m_bounds.extents[0] * 2 = 0. -/
theorem Scale_ctrl_zero_extent_zero_denominator :
    (ScaleAxis.Construct (CMath.exactSqrt fun _ _ => 0)
        ⟨⟨false, true, false⟩, 1 / 4, ⟨true, ⟨0, 0, 0⟩, ⟨0, 0, 1⟩, g_matrix4_identity⟩⟩
        ⟨⟨0, 0, 0⟩, g_vector3_axes 0, ⟨0, 0, 0⟩, ⟨⟨0, 0, 0⟩, ⟨0, 0, 0⟩⟩⟩
        ⟨2, 0, 0, 0,  0, 1, 0, 0,  0, 0, -1, 0,  0, 0, 4, 1⟩ ⟨1 / 2, 0⟩
        ⟨⟨0, 0, 0⟩, ⟨0, 1, 1⟩⟩ ⟨1, 0, 0⟩)
      = ⟨⟨1, 0, 0⟩, g_vector3_axes 0, ⟨1, 1, 1⟩, ⟨⟨0, 0, 0⟩, ⟨0, 1, 1⟩⟩⟩ ∧
    (ScaleAxis.Transform (CMath.exactSqrt fun _ _ => 0)
        ⟨⟨false, true, false⟩, 1 / 4, ⟨true, ⟨0, 0, 0⟩, ⟨0, 0, 1⟩, g_matrix4_identity⟩⟩
        ⟨⟨1, 0, 0⟩, g_vector3_axes 0, ⟨1, 1, 1⟩, ⟨⟨0, 0, 0⟩, ⟨0, 1, 1⟩⟩⟩
        g_matrix4_identity
        ⟨2, 0, 0, 0,  0, 1, 0, 0,  0, 0, -1, 0,  0, 0, 4, 1⟩ ⟨1, 0⟩).2 = none ∧
    (ScaleFree.Construct (CMath.exactSqrt fun _ _ => 0)
        ⟨⟨false, true, false⟩, 1 / 4, ⟨true, ⟨0, 0, 0⟩, ⟨0, 0, 1⟩, g_matrix4_identity⟩⟩
        ⟨⟨0, 0, 0⟩, g_vector3_identity, g_vector3_identity, ⟨0, 0, 0⟩, ⟨⟨0, 0, 0⟩, ⟨0, 0, 0⟩⟩⟩
        g_matrix4_identity ⟨1 / 2, 1 / 2⟩
        ⟨⟨0, 0, 0⟩, ⟨0, 1, 1⟩⟩ ⟨1, 0, 0⟩)
      = ⟨⟨1 / 2, 1 / 2, 0⟩, g_vector3_identity, g_vector3_identity, ⟨1, 1, 1⟩,
          ⟨⟨0, 0, 0⟩, ⟨0, 1, 1⟩⟩⟩ ∧
    (ScaleFree.Transform (CMath.exactSqrt fun _ _ => 0)
        ⟨⟨false, true, false⟩, 1 / 4, ⟨true, ⟨0, 0, 0⟩, ⟨0, 0, 1⟩, g_matrix4_identity⟩⟩
        ⟨⟨1 / 2, 1 / 2, 0⟩, g_vector3_identity, g_vector3_identity, ⟨1, 1, 1⟩,
          ⟨⟨0, 0, 0⟩, ⟨0, 1, 1⟩⟩⟩
        g_matrix4_identity g_matrix4_identity ⟨1, 1⟩).2 = none := by
  decide!

theorem edge_crossing_eq (P prev cur : Vector3) :
    edge_crossing P prev cur =
      if (¬ P.y < prev.y ∧ P.y < cur.y ∧
            0 < (cur.x - prev.x) * (P.y - prev.y) - (cur.y - prev.y) * (P.x - prev.x)) ∨
         (¬ P.y < cur.y ∧ P.y < prev.y ∧
            (cur.x - prev.x) * (P.y - prev.y) - (cur.y - prev.y) * (P.x - prev.x) < 0)
      then 1 else 0 := by
  unfold edge_crossing
  by_cases h1 : prev.y ≤ P.y ∧ cur.y > P.y
  · obtain ⟨ha, hb⟩ := h1
    have hd : 0 < cur.y - prev.y := by linarith
    have hiff : P.x < prev.x + (P.y - prev.y) / (cur.y - prev.y) * (cur.x - prev.x) ↔
        0 < (cur.x - prev.x) * (P.y - prev.y) - (cur.y - prev.y) * (P.x - prev.x) := by
      rw [div_mul_eq_mul_div, ← sub_lt_iff_lt_add', lt_div_iff₀ hd]
      constructor <;> intro h <;> linarith
    simp only [ha, hb, and_self, true_or, if_true, hiff, not_lt.2 ha, not_false_eq_true, true_and,
      gt_iff_lt]
    have hn : ¬ P.y < prev.y := not_lt.2 ha
    have hn2 : ¬ (¬ P.y < cur.y) := by simpa using hb
    simp [hn, hb]
  · by_cases h2 : prev.y > P.y ∧ cur.y ≤ P.y
    · obtain ⟨ha, hb⟩ := h2
      have hd : cur.y - prev.y < 0 := by linarith
      have hiff : P.x < prev.x + (P.y - prev.y) / (cur.y - prev.y) * (cur.x - prev.x) ↔
          (cur.x - prev.x) * (P.y - prev.y) - (cur.y - prev.y) * (P.x - prev.x) < 0 := by
        rw [div_mul_eq_mul_div, ← sub_lt_iff_lt_add', lt_div_iff_of_neg hd]
        constructor <;> intro h <;> linarith
      have hn : ¬ P.y < cur.y := not_lt.2 hb
      have ha' : P.y < prev.y := ha
      simp [h1, ha, hb, hiff, hn, ha']
    · have e1 : ¬ (¬ P.y < prev.y ∧ P.y < cur.y ∧
            0 < (cur.x - prev.x) * (P.y - prev.y) - (cur.y - prev.y) * (P.x - prev.x)) := by
        rintro ⟨x, y, -⟩
        exact h1 ⟨not_lt.1 x, y⟩
      have e2 : ¬ (¬ P.y < cur.y ∧ P.y < prev.y ∧
            (cur.x - prev.x) * (P.y - prev.y) - (cur.y - prev.y) * (P.x - prev.x) < 0) := by
        rintro ⟨x, y, -⟩
        exact h2 ⟨y, not_lt.1 x⟩
      rw [if_neg (not_or.2 ⟨h1, h2⟩), if_neg (not_or.2 ⟨e1, e2⟩)]

theorem isolated_vertex_signs (a b c o1 o2 o3 : ℚ)
    (hrel : c * o1 + a * o2 + b * o3 = 0)
    (hout : o1 * (o1 + o2 + o3) < 0 ∨ o2 * (o1 + o2 + o3) < 0 ∨ o3 * (o1 + o2 + o3) < 0) :
    (0 < a → b ≤ 0 → c ≤ 0 → (0 < o3 ↔ o1 < 0)) ∧
    (a ≤ 0 → 0 < b → 0 < c → (o3 < 0 ↔ 0 < o1)) := by
  have nonneg_case : 0 ≤ o1 → 0 ≤ o2 → 0 ≤ o3 → False := by
    intro h1 h2 h3
    have hs : 0 ≤ o1 + o2 + o3 := by linarith
    rcases hout with h | h | h
    · exact absurd (mul_nonneg h1 hs) (not_le.2 h)
    · exact absurd (mul_nonneg h2 hs) (not_le.2 h)
    · exact absurd (mul_nonneg h3 hs) (not_le.2 h)
  have nonpos_case : o1 ≤ 0 → o2 ≤ 0 → o3 ≤ 0 → False := by
    intro h1 h2 h3
    have hs : o1 + o2 + o3 ≤ 0 := by linarith
    rcases hout with h | h | h
    · exact absurd (mul_nonneg_of_nonpos_of_nonpos h1 hs) (not_le.2 h)
    · exact absurd (mul_nonneg_of_nonpos_of_nonpos h2 hs) (not_le.2 h)
    · exact absurd (mul_nonneg_of_nonpos_of_nonpos h3 hs) (not_le.2 h)
  constructor
  · intro ha hb hc
    constructor
    · intro h3
      by_contra h1
      push_neg at h1
      have t1 : c * o1 ≤ 0 := mul_nonpos_of_nonpos_of_nonneg hc h1
      have t3 : b * o3 ≤ 0 := mul_nonpos_of_nonpos_of_nonneg hb (le_of_lt h3)
      have t2 : 0 ≤ a * o2 := by linarith
      have h2 : 0 ≤ o2 := by
        by_contra hneg
        push_neg at hneg
        have := mul_neg_of_pos_of_neg ha hneg
        linarith
      exact nonneg_case h1 h2 (le_of_lt h3)
    · intro h1
      by_contra h3
      push_neg at h3
      have t1 : 0 ≤ c * o1 := mul_nonneg_of_nonpos_of_nonpos hc (le_of_lt h1)
      have t3 : 0 ≤ b * o3 := mul_nonneg_of_nonpos_of_nonpos hb h3
      have t2 : a * o2 ≤ 0 := by linarith
      have h2 : o2 ≤ 0 := by
        by_contra hpos
        push_neg at hpos
        have := mul_pos ha hpos
        linarith
      exact nonpos_case (le_of_lt h1) h2 h3
  · intro ha hb hc
    constructor
    · intro h3
      by_contra h1
      push_neg at h1
      have t1 : c * o1 ≤ 0 := mul_nonpos_of_nonneg_of_nonpos (le_of_lt hc) h1
      have t3 : b * o3 < 0 := mul_neg_of_pos_of_neg hb h3
      have t2 : 0 < a * o2 := by linarith
      have h2 : o2 ≤ 0 := by
        by_contra hpos
        push_neg at hpos
        have := mul_nonpos_of_nonpos_of_nonneg ha (le_of_lt hpos)
        linarith
      exact nonpos_case h1 h2 (le_of_lt h3)
    · intro h1
      by_contra h3
      push_neg at h3
      have t1 : 0 < c * o1 := mul_pos hc h1
      have t3 : 0 ≤ b * o3 := mul_nonneg (le_of_lt hb) h3
      have t2 : a * o2 < 0 := by linarith
      have h2 : 0 ≤ o2 := by
        by_contra hneg
        push_neg at hneg
        have := mul_nonneg_of_nonpos_of_nonpos ha (le_of_lt hneg)
        linarith
      exact nonneg_case (le_of_lt h1) h2 h3

theorem crossing_parity_inside (py y1 y2 y3 o1 o2 o3 : ℚ)
    (hrel : (y3 - py) * o1 + (y1 - py) * o2 + (y2 - py) * o3 = 0)
    (hdeg : y1 = py → y2 = py → y3 = py → o1 = 0)
    (h : (0 < o1 ∧ 0 < o2 ∧ 0 < o3) ∨ (o1 < 0 ∧ o2 < 0 ∧ o3 < 0)) :
    ((if (¬ py < y3 ∧ py < y1 ∧ 0 < o3) ∨ (¬ py < y1 ∧ py < y3 ∧ o3 < 0) then 1 else 0) +
     ((if (¬ py < y1 ∧ py < y2 ∧ 0 < o1) ∨ (¬ py < y2 ∧ py < y1 ∧ o1 < 0) then 1 else 0) +
      ((if (¬ py < y2 ∧ py < y3 ∧ 0 < o2) ∨ (¬ py < y3 ∧ py < y2 ∧ o2 < 0) then 1 else 0) + 0)))
      % 2 = 1 := by
  have allabove : py < y1 → py < y2 → py < y3 → False := by
    intro pa pb pc
    rcases h with ⟨h1, h2, h3⟩ | ⟨h1, h2, h3⟩
    · have := mul_pos (sub_pos.2 pc) h1
      have := mul_pos (sub_pos.2 pa) h2
      have := mul_pos (sub_pos.2 pb) h3
      linarith
    · have := mul_neg_of_pos_of_neg (sub_pos.2 pc) h1
      have := mul_neg_of_pos_of_neg (sub_pos.2 pa) h2
      have := mul_neg_of_pos_of_neg (sub_pos.2 pb) h3
      linarith
  have allbelow : ¬ py < y1 → ¬ py < y2 → ¬ py < y3 → False := by
    intro pa pb pc
    have ha : y1 - py ≤ 0 := by linarith [not_lt.1 pa]
    have hb : y2 - py ≤ 0 := by linarith [not_lt.1 pb]
    have hc : y3 - py ≤ 0 := by linarith [not_lt.1 pc]
    rcases h with ⟨h1, h2, h3⟩ | ⟨h1, h2, h3⟩
    · have t1 := mul_nonpos_of_nonpos_of_nonneg hc (le_of_lt h1)
      have t2 := mul_nonpos_of_nonpos_of_nonneg ha (le_of_lt h2)
      have t3 := mul_nonpos_of_nonpos_of_nonneg hb (le_of_lt h3)
      have e1 : (y3 - py) * o1 = 0 := by linarith
      have e2 : (y1 - py) * o2 = 0 := by linarith
      have e3 : (y2 - py) * o3 = 0 := by linarith
      have c0 : y3 = py := by
        rcases mul_eq_zero.1 e1 with z | z
        · linarith
        · linarith
      have a0 : y1 = py := by
        rcases mul_eq_zero.1 e2 with z | z
        · linarith
        · linarith
      have b0 : y2 = py := by
        rcases mul_eq_zero.1 e3 with z | z
        · linarith
        · linarith
      have := hdeg a0 b0 c0
      linarith
    · have t1 := mul_nonneg_of_nonpos_of_nonpos hc (le_of_lt h1)
      have t2 := mul_nonneg_of_nonpos_of_nonpos ha (le_of_lt h2)
      have t3 := mul_nonneg_of_nonpos_of_nonpos hb (le_of_lt h3)
      have e1 : (y3 - py) * o1 = 0 := by linarith
      have e2 : (y1 - py) * o2 = 0 := by linarith
      have e3 : (y2 - py) * o3 = 0 := by linarith
      have c0 : y3 = py := by
        rcases mul_eq_zero.1 e1 with z | z
        · linarith
        · linarith
      have a0 : y1 = py := by
        rcases mul_eq_zero.1 e2 with z | z
        · linarith
        · linarith
      have b0 : y2 = py := by
        rcases mul_eq_zero.1 e3 with z | z
        · linarith
        · linarith
      have := hdeg a0 b0 c0
      linarith
  rcases h with ⟨h1, h2, h3⟩ | ⟨h1, h2, h3⟩
  · have n1 : ¬ o1 < 0 := not_lt.2 (le_of_lt h1)
    have n2 : ¬ o2 < 0 := not_lt.2 (le_of_lt h2)
    have n3 : ¬ o3 < 0 := not_lt.2 (le_of_lt h3)
    by_cases pa : py < y1 <;> by_cases pb : py < y2 <;> by_cases pc : py < y3 <;>
      first
      | exact absurd (allabove pa pb pc) id
      | exact absurd (allbelow pa pb pc) id
      | simp [pa, pb, pc, h1, h2, h3, n1, n2, n3]
  · have n1 : ¬ 0 < o1 := not_lt.2 (le_of_lt h1)
    have n2 : ¬ 0 < o2 := not_lt.2 (le_of_lt h2)
    have n3 : ¬ 0 < o3 := not_lt.2 (le_of_lt h3)
    by_cases pa : py < y1 <;> by_cases pb : py < y2 <;> by_cases pc : py < y3 <;>
      first
      | exact absurd (allabove pa pb pc) id
      | exact absurd (allbelow pa pb pc) id
      | simp [pa, pb, pc, h1, h2, h3, n1, n2, n3]

theorem crossing_parity_outside (py y1 y2 y3 o1 o2 o3 : ℚ)
    (hrel : (y3 - py) * o1 + (y1 - py) * o2 + (y2 - py) * o3 = 0)
    (hout : o1 * (o1 + o2 + o3) < 0 ∨ o2 * (o1 + o2 + o3) < 0 ∨ o3 * (o1 + o2 + o3) < 0) :
    ((if (¬ py < y3 ∧ py < y1 ∧ 0 < o3) ∨ (¬ py < y1 ∧ py < y3 ∧ o3 < 0) then 1 else 0) +
     ((if (¬ py < y1 ∧ py < y2 ∧ 0 < o1) ∨ (¬ py < y2 ∧ py < y1 ∧ o1 < 0) then 1 else 0) +
      ((if (¬ py < y2 ∧ py < y3 ∧ 0 < o2) ∨ (¬ py < y3 ∧ py < y2 ∧ o2 < 0) then 1 else 0) + 0)))
      % 2 = 0 := by
  -- vertex A isolated
  have hA := isolated_vertex_signs (y1 - py) (y2 - py) (y3 - py) o1 o2 o3 hrel hout
  -- vertex B isolated: rotate (A,B,C) to (B,C,A)
  have hB := isolated_vertex_signs (y2 - py) (y3 - py) (y1 - py) o2 o3 o1 (by linarith)
    (by
      rcases hout with h | h | h
      · exact Or.inr (Or.inr (by linarith))
      · exact Or.inl (by linarith)
      · exact Or.inr (Or.inl (by linarith)))
  -- vertex C isolated: rotate to (C,A,B)
  have hC := isolated_vertex_signs (y3 - py) (y1 - py) (y2 - py) o3 o1 o2 (by linarith)
    (by
      rcases hout with h | h | h
      · exact Or.inr (Or.inl (by linarith))
      · exact Or.inr (Or.inr (by linarith))
      · exact Or.inl (by linarith))
  by_cases pa : py < y1 <;> by_cases pb : py < y2 <;> by_cases pc : py < y3
  · simp [pa, pb, pc]
  · -- C below, A and B above:  C isolated (below)
    have k := hC.2 (by linarith [not_lt.1 pc]) (sub_pos.2 pa) (sub_pos.2 pb)
    by_cases q3 : 0 < o3 <;> by_cases q2 : o2 < 0 <;> simp [pa, pb, pc, q3, q2] <;> tauto
  · have k := hB.2 (by linarith [not_lt.1 pb]) (sub_pos.2 pc) (sub_pos.2 pa)
    by_cases q1 : o1 < 0 <;> by_cases q2 : 0 < o2 <;> simp [pa, pb, pc, q1, q2] <;> tauto
  · have k := hA.1 (sub_pos.2 pa) (by linarith [not_lt.1 pb]) (by linarith [not_lt.1 pc])
    by_cases q3 : 0 < o3 <;> by_cases q1 : o1 < 0 <;> simp [pa, pb, pc, q3, q1] <;> tauto
  · have k := hA.2 (by linarith [not_lt.1 pa]) (sub_pos.2 pb) (sub_pos.2 pc)
    by_cases q3 : o3 < 0 <;> by_cases q1 : 0 < o1 <;> simp [pa, pb, pc, q3, q1] <;> tauto
  · have k := hB.1 (sub_pos.2 pb) (by linarith [not_lt.1 pc]) (by linarith [not_lt.1 pa])
    by_cases q1 : 0 < o1 <;> by_cases q2 : o2 < 0 <;> simp [pa, pb, pc, q1, q2] <;> tauto
  · have k := hC.1 (sub_pos.2 pc) (by linarith [not_lt.1 pa]) (by linarith [not_lt.1 pb])
    by_cases q2 : 0 < o2 <;> by_cases q3 : o3 < 0 <;> simp [pa, pb, pc, q2, q3] <;> tauto
  · simp [pa, pb, pc]

theorem point_test_polygon_2d_three (P A B C : Vector3) :
    point_test_polygon_2d P [A, B, C] =
      decide ((edge_crossing P C A + (edge_crossing P A B + (edge_crossing P B C + 0))) % 2 ≠ 0) := by
  rfl

theorem triangle_inside_test (P A B C : Vector3) (harea : triangle_signed_area_XY A B C ≠ 0)
    (hin : strictly_inside_XY P A B C) : point_test_polygon_2d P [A, B, C] = true := by
  obtain ⟨α, β, γ, hα, hβ, hγ, hsum, hx, hy⟩ := hin
  rw [point_test_polygon_2d_three, edge_crossing_eq, edge_crossing_eq, edge_crossing_eq]
  have hα' : α = 1 - β - γ := by linarith
  have key := crossing_parity_inside P.y A.y B.y C.y
    ((B.x - A.x) * (P.y - A.y) - (B.y - A.y) * (P.x - A.x))
    ((C.x - B.x) * (P.y - B.y) - (C.y - B.y) * (P.x - B.x))
    ((A.x - C.x) * (P.y - C.y) - (A.y - C.y) * (P.x - C.x))
    (by ring)
    (by intro h1 h2 _; rw [h1, h2]; ring)
    (by
      have e1 : (B.x - A.x) * (P.y - A.y) - (B.y - A.y) * (P.x - A.x)
          = γ * triangle_signed_area_XY A B C := by
        rw [hx, hy, hα']; unfold triangle_signed_area_XY; ring
      have e2 : (C.x - B.x) * (P.y - B.y) - (C.y - B.y) * (P.x - B.x)
          = α * triangle_signed_area_XY A B C := by
        rw [hx, hy, hα']; unfold triangle_signed_area_XY; ring
      have e3 : (A.x - C.x) * (P.y - C.y) - (A.y - C.y) * (P.x - C.x)
          = β * triangle_signed_area_XY A B C := by
        rw [hx, hy, hα']; unfold triangle_signed_area_XY; ring
      rw [e1, e2, e3]
      rcases lt_or_gt_of_ne harea with hs | hs
      · exact Or.inr ⟨mul_neg_of_pos_of_neg hγ hs, mul_neg_of_pos_of_neg hα hs,
          mul_neg_of_pos_of_neg hβ hs⟩
      · exact Or.inl ⟨mul_pos hγ hs, mul_pos hα hs, mul_pos hβ hs⟩)
  rw [key]
  decide

theorem triangle_outside_test (P A B C : Vector3) (harea : triangle_signed_area_XY A B C ≠ 0)
    (hout : ¬ in_closed_triangle_XY P A B C) : point_test_polygon_2d P [A, B, C] = false := by
  rw [point_test_polygon_2d_three, edge_crossing_eq, edge_crossing_eq, edge_crossing_eq]
  have hS : ((B.x - A.x) * (P.y - A.y) - (B.y - A.y) * (P.x - A.x))
      + ((C.x - B.x) * (P.y - B.y) - (C.y - B.y) * (P.x - B.x))
      + ((A.x - C.x) * (P.y - C.y) - (A.y - C.y) * (P.x - C.x))
      = triangle_signed_area_XY A B C := by
    unfold triangle_signed_area_XY; ring
  have key := crossing_parity_outside P.y A.y B.y C.y
    ((B.x - A.x) * (P.y - A.y) - (B.y - A.y) * (P.x - A.x))
    ((C.x - B.x) * (P.y - B.y) - (C.y - B.y) * (P.x - B.x))
    ((A.x - C.x) * (P.y - C.y) - (A.y - C.y) * (P.x - C.x))
    (by ring)
    (by
      rw [hS]
      by_contra hno
      push_neg at hno
      obtain ⟨g1, g2, g3⟩ := hno
      apply hout
      have hSS : 0 < triangle_signed_area_XY A B C * triangle_signed_area_XY A B C :=
        mul_self_pos.2 harea
      refine ⟨((C.x - B.x) * (P.y - B.y) - (C.y - B.y) * (P.x - B.x)) / triangle_signed_area_XY A B C,
        ((A.x - C.x) * (P.y - C.y) - (A.y - C.y) * (P.x - C.x)) / triangle_signed_area_XY A B C,
        ((B.x - A.x) * (P.y - A.y) - (B.y - A.y) * (P.x - A.x)) / triangle_signed_area_XY A B C,
        ?_, ?_, ?_, ?_, ?_, ?_⟩
      · have t := div_nonneg g2 (le_of_lt hSS)
        rwa [mul_div_mul_right _ _ harea] at t
      · have t := div_nonneg g3 (le_of_lt hSS)
        rwa [mul_div_mul_right _ _ harea] at t
      · have t := div_nonneg g1 (le_of_lt hSS)
        rwa [mul_div_mul_right _ _ harea] at t
      · rw [← add_div, ← add_div, div_eq_one_iff_eq harea]
        unfold triangle_signed_area_XY; ring
      · field_simp
        unfold triangle_signed_area_XY; ring
      · field_simp
        unfold triangle_signed_area_XY; ring)
  rw [key]
  decide

theorem strictly_inside_XY_rotate (P A B C : Vector3) (h : strictly_inside_XY P A B C) :
    strictly_inside_XY P B C A := by
  obtain ⟨α, β, γ, hα, hβ, hγ, hsum, hx, hy⟩ := h
  exact ⟨β, γ, α, hβ, hγ, hα, by linarith, by linarith, by linarith⟩

theorem strictly_inside_XY_swap (P A B C : Vector3) (h : strictly_inside_XY P A B C) :
    strictly_inside_XY P A C B := by
  obtain ⟨α, β, γ, hα, hβ, hγ, hsum, hx, hy⟩ := h
  exact ⟨α, γ, β, hα, hγ, hβ, by linarith, by linarith, by linarith⟩

theorem in_closed_triangle_XY_rotate (P A B C : Vector3) (h : in_closed_triangle_XY P B C A) :
    in_closed_triangle_XY P A B C := by
  obtain ⟨α, β, γ, hα, hβ, hγ, hsum, hx, hy⟩ := h
  exact ⟨γ, α, β, hγ, hα, hβ, by linarith, by linarith, by linarith⟩

theorem in_closed_triangle_XY_swap (P A B C : Vector3) (h : in_closed_triangle_XY P A C B) :
    in_closed_triangle_XY P A B C := by
  obtain ⟨α, β, γ, hα, hβ, hγ, hsum, hx, hy⟩ := h
  exact ⟨α, γ, β, hα, hγ, hβ, by linarith, by linarith, by linarith⟩

theorem triangle_signed_area_XY_rotate (A B C : Vector3) :
    triangle_signed_area_XY B C A = triangle_signed_area_XY A B C := by
  unfold triangle_signed_area_XY; ring

theorem triangle_signed_area_XY_swap (A B C : Vector3) :
    triangle_signed_area_XY A C B = - triangle_signed_area_XY A B C := by
  unfold triangle_signed_area_XY; ring

/-- C12: for a triangle `A B C` of non-zero area in the XY plane and any point `P`, in exact
arithmetic, the crossing-number test returns true when `P` is strictly inside and false when `P`
is outside the closed triangle, for each of the six vertex orders (both windings, any first
vertex). -/
theorem point_test_polygon_2d_triangle (P A B C : Vector3)
    (harea : triangle_signed_area_XY A B C ≠ 0) :
    (strictly_inside_XY P A B C →
      point_test_polygon_2d P [A, B, C] = true ∧ point_test_polygon_2d P [B, C, A] = true ∧
      point_test_polygon_2d P [C, A, B] = true ∧ point_test_polygon_2d P [A, C, B] = true ∧
      point_test_polygon_2d P [C, B, A] = true ∧ point_test_polygon_2d P [B, A, C] = true) ∧
    (¬ in_closed_triangle_XY P A B C →
      point_test_polygon_2d P [A, B, C] = false ∧ point_test_polygon_2d P [B, C, A] = false ∧
      point_test_polygon_2d P [C, A, B] = false ∧ point_test_polygon_2d P [A, C, B] = false ∧
      point_test_polygon_2d P [C, B, A] = false ∧ point_test_polygon_2d P [B, A, C] = false) := by
  have a1 : triangle_signed_area_XY B C A ≠ 0 := by rwa [triangle_signed_area_XY_rotate]
  have a2 : triangle_signed_area_XY C A B ≠ 0 := by rwa [triangle_signed_area_XY_rotate]
  have a3 : triangle_signed_area_XY A C B ≠ 0 := by
    rw [triangle_signed_area_XY_swap]; exact neg_ne_zero.2 harea
  have a4 : triangle_signed_area_XY C B A ≠ 0 := by rwa [triangle_signed_area_XY_rotate]
  have a5 : triangle_signed_area_XY B A C ≠ 0 := by rwa [triangle_signed_area_XY_rotate]
  constructor
  · intro h
    have h1 := strictly_inside_XY_rotate P A B C h
    have h2 := strictly_inside_XY_rotate P B C A h1
    have h3 := strictly_inside_XY_swap P A B C h
    have h4 := strictly_inside_XY_rotate P A C B h3
    have h5 := strictly_inside_XY_rotate P C B A h4
    exact ⟨triangle_inside_test P A B C harea h, triangle_inside_test P B C A a1 h1,
      triangle_inside_test P C A B a2 h2, triangle_inside_test P A C B a3 h3,
      triangle_inside_test P C B A a4 h4, triangle_inside_test P B A C a5 h5⟩
  · intro h
    have h1 : ¬ in_closed_triangle_XY P B C A := fun k => h (in_closed_triangle_XY_rotate P A B C k)
    have h2 : ¬ in_closed_triangle_XY P C A B := fun k => h1 (in_closed_triangle_XY_rotate P B C A k)
    have h3 : ¬ in_closed_triangle_XY P A C B := fun k => h (in_closed_triangle_XY_swap P A B C k)
    have h4 : ¬ in_closed_triangle_XY P C B A := fun k => h3 (in_closed_triangle_XY_rotate P A C B k)
    have h5 : ¬ in_closed_triangle_XY P B A C := fun k => h4 (in_closed_triangle_XY_rotate P C B A k)
    exact ⟨triangle_outside_test P A B C harea h, triangle_outside_test P B C A a1 h1,
      triangle_outside_test P C A B a2 h2, triangle_outside_test P A C B a3 h3,
      triangle_outside_test P C B A a4 h4, triangle_outside_test P B A C a5 h5⟩

/-- Witness for C12: the triangle `(-1,-1) (1,-1) (0,1)` with the origin inside and the point
`(0, 2)` outside, tested in the order `C B A`. -/
theorem point_test_polygon_2d_triangle_witness :
    triangle_signed_area_XY ⟨-1, -1, 0⟩ ⟨1, -1, 0⟩ ⟨0, 1, 0⟩ ≠ 0 ∧
    strictly_inside_XY ⟨0, 0, 0⟩ ⟨-1, -1, 0⟩ ⟨1, -1, 0⟩ ⟨0, 1, 0⟩ ∧
    point_test_polygon_2d ⟨0, 0, 0⟩ [⟨0, 1, 0⟩, ⟨1, -1, 0⟩, ⟨-1, -1, 0⟩] = true ∧
    ¬ in_closed_triangle_XY ⟨0, 2, 0⟩ ⟨-1, -1, 0⟩ ⟨1, -1, 0⟩ ⟨0, 1, 0⟩ ∧
    point_test_polygon_2d ⟨0, 2, 0⟩ [⟨0, 1, 0⟩, ⟨1, -1, 0⟩, ⟨-1, -1, 0⟩] = false :=
  have harea : triangle_signed_area_XY ⟨-1, -1, 0⟩ ⟨1, -1, 0⟩ ⟨0, 1, 0⟩ ≠ 0 := by decide!
  have hin : strictly_inside_XY ⟨0, 0, 0⟩ ⟨-1, -1, 0⟩ ⟨1, -1, 0⟩ ⟨0, 1, 0⟩ :=
    ⟨1 / 4, 1 / 4, 1 / 2, by norm_num, by norm_num, by norm_num, by norm_num, by norm_num,
      by norm_num⟩
  have hout : ¬ in_closed_triangle_XY ⟨0, 2, 0⟩ ⟨-1, -1, 0⟩ ⟨1, -1, 0⟩ ⟨0, 1, 0⟩ := by
    rintro ⟨α, β, γ, hα, hβ, hγ, hsum, _, hy⟩
    simp only at hy
    linarith
  ⟨harea, hin,
    ((point_test_polygon_2d_triangle ⟨0, 0, 0⟩ ⟨-1, -1, 0⟩ ⟨1, -1, 0⟩ ⟨0, 1, 0⟩ harea).1 hin).2.2.2.2.1,
    hout,
    ((point_test_polygon_2d_triangle ⟨0, 2, 0⟩ ⟨-1, -1, 0⟩ ⟨1, -1, 0⟩ ⟨0, 1, 0⟩ harea).2 hout).2.2.2.2.1⟩

theorem ray_distance_to_plane_z (x y : ℚ) (plane : Plane3) (hc : plane.c ≠ 0) :
    ∃ t, ray_distance_to_plane ⟨⟨x, y, 0⟩, ⟨0, 0, 1⟩⟩ plane = some t ∧
      vector3_dot plane.normal ⟨x, y, t⟩ = plane.d := by
  refine ⟨-(plane.a * x + plane.b * y - plane.d) / plane.c, ?_, ?_⟩
  · simp [ray_distance_to_plane, checked_div, vector3_dot, Plane3.normal, hc]
  · simp only [vector3_dot, Plane3.normal]
    field_simp

/-- C13 (counterexample): for the triangle `(-1,-1,0) (1,-1,0) (0,1,0)` (count 3, no culling,
plane derived from the vertices) the origin is inside per `point_test_polygon_2d` and the one
intersection offered has distance 0, while the squared XY distances from the origin to the
nearest point of the three edges are 1/5, 1 and 1/5. -/
theorem BestPoint_inside_distance_not_nearest_edge :
    point_test_polygon_2d ⟨0, 0, 0⟩
      (BestPoint_normalised [⟨-1, -1, 0, 1⟩, ⟨1, -1, 0, 1⟩, ⟨0, 1, 0, 1⟩]) = true ∧
    BestPoint_offers (CMath.exactSqrt fun _ _ => 0) 0
      [⟨-1, -1, 0, 1⟩, ⟨1, -1, 0, 1⟩, ⟨0, 1, 0, 1⟩] clipcull_t.eClipCullNone none
      = [some (hit 0 0 0)] ∧
    edge_distances_XY ⟨0, 1, 0⟩ [⟨-1, -1, 0⟩, ⟨1, -1, 0⟩, ⟨0, 1, 0⟩] = [1 / 5, 1, 1 / 5] := by
  decide!

/-- C13 (amended): in `BestPoint` for a closed shape (more than two vertices) that survives
culling, with the origin inside the projected polygon per `point_test_polygon_2d` and a plane
with `c != 0`: exactly one intersection is offered; its distance is 0, its depth is the depth at
which the +Z ray through the origin meets the plane, and its distance2 is the depth at which the
+Z ray through `(10, 8, 0)` meets the plane. -/
theorem BestPoint_inside_offer (cm : CMath) (d2 : ℚ) (clipped : List Vector4) (cull : clipcull_t)
    (plane : Option Plane3) (hcount : 2 < clipped.length)
    (hcull : BestPoint_culled cull (BestPoint_normalised clipped) = false)
    (hin : point_test_polygon_2d ⟨0, 0, 0⟩ (BestPoint_normalised clipped) = true)
    (hc : (BestPoint_plane cm plane (BestPoint_normalised clipped)).c ≠ 0) :
    ∃ depth dist2 : ℚ,
      BestPoint_offers cm d2 clipped cull plane = [some (hit depth 0 dist2)] ∧
      vector3_dot (BestPoint_plane cm plane (BestPoint_normalised clipped)).normal ⟨0, 0, depth⟩
        = (BestPoint_plane cm plane (BestPoint_normalised clipped)).d ∧
      vector3_dot (BestPoint_plane cm plane (BestPoint_normalised clipped)).normal ⟨10, 8, dist2⟩
        = (BestPoint_plane cm plane (BestPoint_normalised clipped)).d := by
  obtain ⟨depth, h1, h1'⟩ :=
    ray_distance_to_plane_z 0 0 (BestPoint_plane cm plane (BestPoint_normalised clipped)) hc
  obtain ⟨dist2, h2, h2'⟩ :=
    ray_distance_to_plane_z 10 8 (BestPoint_plane cm plane (BestPoint_normalised clipped)) hc
  refine ⟨depth, dist2, ?_, h1', h2'⟩
  have hne : clipped.length ≠ 2 := by omega
  unfold BestPoint_offers
  simp only [hcull, Bool.and_false, Bool.false_eq_true, if_false, hne, hin, hcount, and_false,
    if_true, h1, h2, Option.some_bind, Option.map_some', gt_iff_lt]
  simp

/-- Witness for C13: the triangle `(-1,-1,0) (1,-1,0) (0,1,0)` around the origin, plane derived
from its vertices. -/
theorem BestPoint_inside_offer_witness :
    ∃ depth dist2 : ℚ,
      BestPoint_offers (CMath.exactSqrt fun _ _ => 0) 0
        [⟨-1, -1, 0, 1⟩, ⟨1, -1, 0, 1⟩, ⟨0, 1, 0, 1⟩] clipcull_t.eClipCullNone none
        = [some (hit depth 0 dist2)] ∧
      vector3_dot (BestPoint_plane (CMath.exactSqrt fun _ _ => 0) none
        (BestPoint_normalised [⟨-1, -1, 0, 1⟩, ⟨1, -1, 0, 1⟩, ⟨0, 1, 0, 1⟩])).normal ⟨0, 0, depth⟩
        = (BestPoint_plane (CMath.exactSqrt fun _ _ => 0) none
        (BestPoint_normalised [⟨-1, -1, 0, 1⟩, ⟨1, -1, 0, 1⟩, ⟨0, 1, 0, 1⟩])).d ∧
      vector3_dot (BestPoint_plane (CMath.exactSqrt fun _ _ => 0) none
        (BestPoint_normalised [⟨-1, -1, 0, 1⟩, ⟨1, -1, 0, 1⟩, ⟨0, 1, 0, 1⟩])).normal ⟨10, 8, dist2⟩
        = (BestPoint_plane (CMath.exactSqrt fun _ _ => 0) none
        (BestPoint_normalised [⟨-1, -1, 0, 1⟩, ⟨1, -1, 0, 1⟩, ⟨0, 1, 0, 1⟩])).d :=
  BestPoint_inside_offer (CMath.exactSqrt fun _ _ => 0) 0
    [⟨-1, -1, 0, 1⟩, ⟨1, -1, 0, 1⟩, ⟨0, 1, 0, 1⟩] clipcull_t.eClipCullNone none
    (by decide) (by decide!) (by decide!) (by decide!)

/-- The origin-inside branch of `BestPoint` has no test of `plane->c` of its own: for a polygon
that does not lie in the plane used it can divide by zero. The triangle
`(-1,-1,0) (1,-1,0) (0,1,0)` with the plane `(1, 0, 0, 0)`, which does not hold it, has the
origin inside and `ray_distance_to_plane` along the +Z ray meets a zero denominator; so does the
non-planar quad `(-1,-1,0) (0,-1,1) (1,-1,0) (0,1,0)` with the plane of its first three
vertices. The origin-outside branch, for the triangle `(1,-1,0) (3,-1,0) (2,1,0)` and the plane
`(1, 0, 0, 0)`, offers intersections built without a plane distance. -/
theorem BestPoint_inside_plane_c_zero_divides :
    point_test_polygon_2d ⟨0, 0, 0⟩
      (BestPoint_normalised [⟨-1, -1, 0, 1⟩, ⟨1, -1, 0, 1⟩, ⟨0, 1, 0, 1⟩]) = true ∧
    ray_distance_to_plane ⟨⟨0, 0, 0⟩, ⟨0, 0, 1⟩⟩ ⟨1, 0, 0, 0⟩ = none ∧
    BestPoint_offers (CMath.exactSqrt fun _ _ => 0) 7
      [⟨-1, -1, 0, 1⟩, ⟨1, -1, 0, 1⟩, ⟨0, 1, 0, 1⟩] clipcull_t.eClipCullNone (some ⟨1, 0, 0, 0⟩)
      = [none] ∧
    BestPoint_offers (CMath.exactSqrt fun _ _ => 0) 7
      [⟨1, -1, 0, 1⟩, ⟨3, -1, 0, 1⟩, ⟨2, 1, 0, 1⟩] clipcull_t.eClipCullNone (some ⟨1, 0, 0, 0⟩)
      = [some (SelectionIntersection.make2 7 0 (9 / 5)), some (SelectionIntersection.make2 7 0 2),
          some (SelectionIntersection.make2 7 0 5)] ∧
    BestPoint_plane (CMath.exactSqrt fun _ _ => 0) none
      (BestPoint_normalised [⟨-1, -1, 0, 1⟩, ⟨0, -1, 1, 1⟩, ⟨1, -1, 0, 1⟩, ⟨0, 1, 0, 1⟩])
      = ⟨0, 1, 0, -1⟩ ∧
    BestPoint_offers (CMath.exactSqrt fun _ _ => 0) 7
      [⟨-1, -1, 0, 1⟩, ⟨0, -1, 1, 1⟩, ⟨1, -1, 0, 1⟩, ⟨0, 1, 0, 1⟩] clipcull_t.eClipCullNone none
      = [none] := by
  decide!

theorem selectionChange_effects (b : ManipulatorSelectionChangeable) (se : Option Selectable) :
    ∀ eff ∈ (b.selectionChange se).2, eff = ManipulatorEffect.SceneChangeNotify := by
  intro eff h
  unfold ManipulatorSelectionChangeable.selectionChange at h
  split_ifs at h
  · simpa using h
  · simp at h

/-- C15: with a modifier held (`g_modifiers != c_modifierNone`), `testSelect` of the rotate, the
translate and the scale manipulator leaves `m_pivot` and every handle flag as they were, for every
pivot and hit-test outcome the view would give, and performs no effect other than the
`SceneChangeNotify` of `selectionChange( nullptr )`: no pivot update and no hit test. -/
theorem testSelect_modifier_short_circuit (e : Bands) (cm : CMath) (d2 : ℚ) (g : Globals)
    (inp : TestSelectInput) (r : RotateManipulator) (t : TranslateManipulator)
    (s : ScaleManipulator) (hmod : g.g_modifiers ≠ c_modifierNone) :
    ((RotateManipulator.testSelect e d2 g inp r).1 = { r with base := ⟨none⟩ } ∧
      ∀ eff ∈ (RotateManipulator.testSelect e d2 g inp r).2,
        eff = ManipulatorEffect.SceneChangeNotify) ∧
    ((TranslateManipulator.testSelect e cm d2 g inp t).1 = { t with base := ⟨none⟩ } ∧
      ∀ eff ∈ (TranslateManipulator.testSelect e cm d2 g inp t).2,
        eff = ManipulatorEffect.SceneChangeNotify) ∧
    ((ScaleManipulator.testSelect e g inp s).1 = { s with base := ⟨none⟩ } ∧
      ∀ eff ∈ (ScaleManipulator.testSelect e g inp s).2,
        eff = ManipulatorEffect.SceneChangeNotify) := by
  have key : ∀ b : ManipulatorSelectionChangeable, (b.selectionChange none).1 = ⟨none⟩ := by
    intro b
    unfold ManipulatorSelectionChangeable.selectionChange
    split_ifs with h
    · rfl
    · cases b with
      | mk p =>
        simp only [ne_eq, not_not] at h
        simp [h]
  refine ⟨⟨?_, ?_⟩, ⟨?_, ?_⟩, ⟨?_, ?_⟩⟩
  · simp only [RotateManipulator.testSelect, hmod, if_true, ne_eq, not_false_eq_true, key]
  · simp only [RotateManipulator.testSelect, hmod, if_true, ne_eq, not_false_eq_true]
    exact selectionChange_effects r.base none
  · simp only [TranslateManipulator.testSelect, hmod, if_true, ne_eq, not_false_eq_true, key]
  · simp only [TranslateManipulator.testSelect, hmod, if_true, ne_eq, not_false_eq_true]
    exact selectionChange_effects t.base none
  · simp only [ScaleManipulator.testSelect, hmod, if_true, ne_eq, not_false_eq_true, key]
  · simp only [ScaleManipulator.testSelect, hmod, if_true, ne_eq, not_false_eq_true]
    exact selectionChange_effects s.base none

/-- Witness for C15: the rotate manipulator with the screen handle selected, shift held. -/
theorem testSelect_modifier_short_circuit_witness :
    (⟨⟨true, false, false⟩, 0, ⟨true, ⟨0, 0, 0⟩, ⟨0, 0, 1⟩, g_matrix4_identity⟩⟩ : Globals).g_modifiers
      ≠ c_modifierNone ∧
    (RotateManipulator.testSelect ⟨1 / 1000, 1 / 1000000⟩ 0
      ⟨⟨true, false, false⟩, 0, ⟨true, ⟨0, 0, 0⟩, ⟨0, 0, 1⟩, g_matrix4_identity⟩⟩
      ⟨⟨g_matrix4_identity, g_matrix4_identity, g_matrix4_identity, ⟨0, 0, 1⟩⟩,
        fun _ => SelectionIntersection.hit 0 0 0⟩
      ⟨false, false, false, true, false,
        ⟨g_matrix4_identity, g_matrix4_identity, g_matrix4_identity, ⟨1, 0, 0⟩⟩, ⟨1, 0, 0⟩,
        ⟨some 3⟩⟩).1
      = ⟨false, false, false, true, false,
        ⟨g_matrix4_identity, g_matrix4_identity, g_matrix4_identity, ⟨1, 0, 0⟩⟩, ⟨1, 0, 0⟩,
        ⟨none⟩⟩ :=
  ⟨by decide,
    (testSelect_modifier_short_circuit ⟨1 / 1000, 1 / 1000000⟩ (CMath.exactSqrt fun _ _ => 0) 0
      ⟨⟨true, false, false⟩, 0, ⟨true, ⟨0, 0, 0⟩, ⟨0, 0, 1⟩, g_matrix4_identity⟩⟩
      ⟨⟨g_matrix4_identity, g_matrix4_identity, g_matrix4_identity, ⟨0, 0, 1⟩⟩,
        fun _ => SelectionIntersection.hit 0 0 0⟩
      ⟨false, false, false, true, false,
        ⟨g_matrix4_identity, g_matrix4_identity, g_matrix4_identity, ⟨1, 0, 0⟩⟩, ⟨1, 0, 0⟩,
        ⟨some 3⟩⟩
      ⟨false, false, false, false,
        ⟨g_matrix4_identity, g_matrix4_identity, g_matrix4_identity, ⟨1, 0, 0⟩⟩, ⟨none⟩⟩
      ⟨false, false, false, false,
        ⟨g_matrix4_identity, g_matrix4_identity, g_matrix4_identity, ⟨1, 0, 0⟩⟩, ⟨none⟩⟩
      (by decide)).1.1⟩

theorem pool_head_closest (e : Bands) (ps : List PoolEntry) :
    ((ps.foldl (fun p kv => SelectionPool.addSelectable e p kv.1 kv.2) SelectionPool.fresh).m_pool
        = [] ∧ closestOf e (ps.map Prod.fst) = invalid ∧ ∀ kv ∈ ps, kv.1.valid = false) ∨
    (∃ k s rest,
      (ps.foldl (fun p kv => SelectionPool.addSelectable e p kv.1 kv.2) SelectionPool.fresh).m_pool
        = (k, s) :: rest ∧ (k, s) ∈ ps ∧ k.valid = true ∧ k = closestOf e (ps.map Prod.fst)) := by
  induction ps using List.reverseRecOn with
  | nil => left; simp [SelectionPool.fresh, closestOf]
  | append_singleton l kv ih =>
    have hc : closestOf e ((l ++ [kv]).map Prod.fst)
        = assign_if_closer e (closestOf e (l.map Prod.fst)) kv.1 := by
      simp [closestOf, List.foldl_append]
    rw [List.foldl_append, hc]
    simp only [List.foldl_cons, List.foldl_nil]
    cases hkv : kv.1 with
    | invalid =>
      have hadd : ∀ p : SelectionPool, SelectionPool.addSelectable e p invalid kv.2 = p := by
        intro p; simp [SelectionPool.addSelectable, valid]
      rw [hadd]
      have hb : ∀ b, assign_if_closer e b invalid = b := by
        intro b; simp [assign_if_closer, SelectionIntersection_closer, lt]
      rw [hb]
      rcases ih with ⟨h1, h2, h3⟩ | ⟨k, s, rest, h1, h2, h3, h4⟩
      · left
        refine ⟨h1, h2, ?_⟩
        intro x hx
        rcases List.mem_append.1 hx with hx | hx
        · exact h3 x hx
        · simp only [List.mem_singleton] at hx
          rw [hx, hkv]; rfl
      · right
        exact ⟨k, s, rest, h1, List.mem_append_left _ h2, h3, h4⟩
    | hit z d dd =>
      have hadd : ∀ p : SelectionPool, (SelectionPool.addSelectable e p (hit z d dd) kv.2).m_pool
          = multimap_insert e (hit z d dd, kv.2) p.m_pool := by
        intro p; simp [SelectionPool.addSelectable, valid]
      have hmem : (hit z d dd, kv.2) ∈ l ++ [kv] := by
        apply List.mem_append_right
        simp only [List.mem_singleton]
        rw [← hkv]
      right
      rcases ih with ⟨h1, h2, _⟩ | ⟨k, s, rest, h1, h2, h3, h4⟩
      · refine ⟨hit z d dd, kv.2, [], ?_, hmem, rfl, ?_⟩
        · rw [hadd, h1]; rfl
        · rw [h2]; simp [assign_if_closer, SelectionIntersection_closer, lt]
      · rw [hadd, h1, ← h4]
        by_cases hlt : lt e (hit z d dd) k = true
        · refine ⟨hit z d dd, kv.2, (k, s) :: rest, ?_, hmem, rfl, ?_⟩
          · simp [multimap_insert, hlt]
          · simp [assign_if_closer, SelectionIntersection_closer, hlt]
        · refine ⟨k, s, multimap_insert e (hit z d dd, kv.2) rest, ?_,
            List.mem_append_left _ h2, h3, ?_⟩
          · simp [multimap_insert, hlt]
          · simp [assign_if_closer, SelectionIntersection_closer, hlt]

theorem RotateManipulator_testSelect_eq (e : Bands) (d2 : ℚ) (g : Globals) (inp : TestSelectInput)
    (self : RotateManipulator) (hmod : g.g_modifiers = c_modifierNone) :
    (RotateManipulator.testSelect e d2 g inp self).1 =
      (RotateManipulator.selectionChange
        { self with m_pivot := inp.m_pivot, m_axis_screen := inp.m_pivot.m_axis_screen }
        (if ([(inp.best .m_selectable_x, some (Handle.ptr .m_selectable_x)),
              (inp.best .m_selectable_y, some (Handle.ptr .m_selectable_y)),
              (inp.best .m_selectable_z, some (Handle.ptr .m_selectable_z)),
              (inp.best .m_selectable_screen, some (Handle.ptr .m_selectable_screen))].foldl
              (fun p kv => SelectionPool.addSelectable e p kv.1 kv.2) SelectionPool.fresh).failed
          then SelectionPool.addSelectable e
            ([(inp.best .m_selectable_x, some (Handle.ptr .m_selectable_x)),
              (inp.best .m_selectable_y, some (Handle.ptr .m_selectable_y)),
              (inp.best .m_selectable_z, some (Handle.ptr .m_selectable_z)),
              (inp.best .m_selectable_screen, some (Handle.ptr .m_selectable_screen))].foldl
              (fun p kv => SelectionPool.addSelectable e p kv.1 kv.2) SelectionPool.fresh)
            (SelectionIntersection.make2 d2 0 0) (some (Handle.ptr .m_selectable_sphere))
          else
            [(inp.best .m_selectable_x, some (Handle.ptr .m_selectable_x)),
              (inp.best .m_selectable_y, some (Handle.ptr .m_selectable_y)),
              (inp.best .m_selectable_z, some (Handle.ptr .m_selectable_z)),
              (inp.best .m_selectable_screen, some (Handle.ptr .m_selectable_screen))].foldl
              (fun p kv => SelectionPool.addSelectable e p kv.1 kv.2) SelectionPool.fresh)).1 := by
  simp only [RotateManipulator.testSelect, hmod, ne_eq, not_true_eq_false, if_false,
    List.foldl_cons, List.foldl_nil]

/-- In the list model of the pool: `RotateManipulator::testSelect` with no modifier held, from
five unselected handles, selects the sphere handle when no ring hit is valid, and otherwise the
one ring handle whose hit is the running best of `assign_if_closer` over x, y, z, screen. -/
theorem RotateManipulator_testSelect_running_best (e : Bands) (d2 : ℚ) (g : Globals)
    (inp : TestSelectInput) (self : RotateManipulator) (hmod : g.g_modifiers = c_modifierNone)
    (hsel : ∀ h, self.isSelected h = false) :
    ((∀ h, h ≠ Handle.m_selectable_sphere → (inp.best h).valid = false) →
      (∀ h, (RotateManipulator.testSelect e d2 g inp self).1.isSelected h
          = decide (h = Handle.m_selectable_sphere)) ∧
      (RotateManipulator.testSelect e d2 g inp self).1.GetManipulatable
        = ManipulatableRef.m_free) ∧
    ((∃ h, h ≠ Handle.m_selectable_sphere ∧ (inp.best h).valid = true) →
      ∃ h, h ≠ Handle.m_selectable_sphere ∧ (inp.best h).valid = true ∧
        inp.best h = closestOf e [inp.best .m_selectable_x, inp.best .m_selectable_y,
          inp.best .m_selectable_z, inp.best .m_selectable_screen] ∧
        (∀ h1, (RotateManipulator.testSelect e d2 g inp self).1.isSelected h1 = decide (h1 = h)) ∧
        (RotateManipulator.testSelect e d2 g inp self).1.GetManipulatable
          = ManipulatableRef.m_axis
            (match h with
              | .m_selectable_x => g_vector3_axis_x
              | .m_selectable_y => g_vector3_axis_y
              | .m_selectable_z => g_vector3_axis_z
              | _ => inp.m_pivot.m_axis_screen)) := by
  have hx := hsel .m_selectable_x
  have hy := hsel .m_selectable_y
  have hz := hsel .m_selectable_z
  have hs := hsel .m_selectable_screen
  have hp := hsel .m_selectable_sphere
  simp only [RotateManipulator.isSelected] at hx hy hz hs hp
  rw [RotateManipulator_testSelect_eq e d2 g inp self hmod]
  have hpc := pool_head_closest e
    [(inp.best .m_selectable_x, some (Handle.ptr .m_selectable_x)),
      (inp.best .m_selectable_y, some (Handle.ptr .m_selectable_y)),
      (inp.best .m_selectable_z, some (Handle.ptr .m_selectable_z)),
      (inp.best .m_selectable_screen, some (Handle.ptr .m_selectable_screen))]
  simp only [List.map_cons, List.map_nil] at hpc
  generalize
    ([(inp.best .m_selectable_x, some (Handle.ptr .m_selectable_x)),
      (inp.best .m_selectable_y, some (Handle.ptr .m_selectable_y)),
      (inp.best .m_selectable_z, some (Handle.ptr .m_selectable_z)),
      (inp.best .m_selectable_screen, some (Handle.ptr .m_selectable_screen))].foldl
      (fun p kv => SelectionPool.addSelectable e p kv.1 kv.2) SelectionPool.fresh) = P at hpc ⊢
  rcases hpc with ⟨h1, _, h3⟩ | ⟨k, s, rest, h1, h2, h3, h4⟩
  · have hfail : SelectionPool.failed P = true := by
      simp only [SelectionPool.failed, h1, List.isEmpty_nil]
    rw [if_pos hfail]
    constructor
    · intro _
      constructor
      · intro h
        cases h <;>
          simp [RotateManipulator.selectionChange, SelectionPool.addSelectable,
            SelectionIntersection.make2, valid, h1, multimap_insert,
            RotateManipulator.setSelectedAt, Handle.ptr, RotateManipulator.isSelected,
            hx, hy, hz, hs, hp]
      · simp [RotateManipulator.selectionChange, SelectionPool.addSelectable,
          SelectionIntersection.make2, valid, h1, multimap_insert,
          RotateManipulator.setSelectedAt, Handle.ptr, RotateManipulator.GetManipulatable,
          hx, hy, hz, hs, hp]
    · rintro ⟨h, hne, hv⟩
      exfalso
      cases h with
      | m_selectable_x =>
        have t := h3 (inp.best .m_selectable_x, some (Handle.ptr .m_selectable_x)) (by simp)
        simp [hv] at t
      | m_selectable_y =>
        have t := h3 (inp.best .m_selectable_y, some (Handle.ptr .m_selectable_y)) (by simp)
        simp [hv] at t
      | m_selectable_z =>
        have t := h3 (inp.best .m_selectable_z, some (Handle.ptr .m_selectable_z)) (by simp)
        simp [hv] at t
      | m_selectable_screen =>
        have t := h3 (inp.best .m_selectable_screen, some (Handle.ptr .m_selectable_screen)) (by simp)
        simp [hv] at t
      | m_selectable_sphere => exact hne rfl
  · have hfail : SelectionPool.failed P ≠ true := by
      simp only [SelectionPool.failed, h1, List.isEmpty_cons]
      decide
    rw [if_neg hfail]
    have hres : (RotateManipulator.selectionChange
        { self with m_pivot := inp.m_pivot, m_axis_screen := inp.m_pivot.m_axis_screen } P).1
        = { RotateManipulator.setSelectedAt
            { self with m_pivot := inp.m_pivot, m_axis_screen := inp.m_pivot.m_axis_screen } s
            with base := ⟨s⟩ } := by
      simp only [RotateManipulator.selectionChange, h1,
        ManipulatorSelectionChangeable.selectionChange]
      split_ifs with hq
      · rfl
      · simp only [ne_eq, not_not] at hq
        simp [← hq]
    rw [hres]
    constructor
    · intro hall
      exfalso
      simp only [List.mem_cons, Prod.mk.injEq, List.mem_singleton, List.not_mem_nil,
        or_false] at h2
      rcases h2 with ⟨a, _⟩ | ⟨a, _⟩ | ⟨a, _⟩ | ⟨a, _⟩ <;>
        · rw [a, hall _ (by decide)] at h3
          exact Bool.false_ne_true h3
    · intro _
      simp only [List.mem_cons, Prod.mk.injEq, List.mem_singleton, List.not_mem_nil,
        or_false] at h2
      rcases h2 with ⟨a, b⟩ | ⟨a, b⟩ | ⟨a, b⟩ | ⟨a, b⟩
      · refine ⟨.m_selectable_x, by decide, a ▸ h3, a ▸ h4, ?_, ?_⟩
        · intro h; cases h <;>
            simp [b, RotateManipulator.setSelectedAt, Handle.ptr, RotateManipulator.isSelected,
              hx, hy, hz, hs, hp]
        · simp [b, RotateManipulator.setSelectedAt, Handle.ptr,
            RotateManipulator.GetManipulatable, hx, hy, hz, hs, hp]
      · refine ⟨.m_selectable_y, by decide, a ▸ h3, a ▸ h4, ?_, ?_⟩
        · intro h; cases h <;>
            simp [b, RotateManipulator.setSelectedAt, Handle.ptr, RotateManipulator.isSelected,
              hx, hy, hz, hs, hp]
        · simp [b, RotateManipulator.setSelectedAt, Handle.ptr,
            RotateManipulator.GetManipulatable, hx, hy, hz, hs, hp]
      · refine ⟨.m_selectable_z, by decide, a ▸ h3, a ▸ h4, ?_, ?_⟩
        · intro h; cases h <;>
            simp [b, RotateManipulator.setSelectedAt, Handle.ptr, RotateManipulator.isSelected,
              hx, hy, hz, hs, hp]
        · simp [b, RotateManipulator.setSelectedAt, Handle.ptr,
            RotateManipulator.GetManipulatable, hx, hy, hz, hs, hp]
      · refine ⟨.m_selectable_screen, by decide, a ▸ h3, a ▸ h4, ?_, ?_⟩
        · intro h; cases h <;>
            simp [b, RotateManipulator.setSelectedAt, Handle.ptr, RotateManipulator.isSelected,
              hx, hy, hz, hs, hp]
        · simp [b, RotateManipulator.setSelectedAt, Handle.ptr,
            RotateManipulator.GetManipulatable, hx, hy, hz, hs, hp]

/-- C17 (counterexample): with the pivot axes world-aligned and `m_axis_screen = (0, 0, 1)`, the
dot product with the X axis is 0 and the X arrow is rendered and hit-tested, while the dot product
with the Z axis is 1 and the Z arrow is neither rendered nor hit-tested. -/
theorem TranslateManipulator_arrow_near_zero_dot_shown :
    vector3_dot (⟨0, 0, 1⟩ : Vector3)
      (vector3_normalised (CMath.exactSqrt fun _ _ => 0) g_matrix4_identity.x_vec3) = 0 ∧
    TranslateRenderable.m_arrow_x ∈ TranslateManipulator.render (CMath.exactSqrt fun _ _ => 0)
      ⟨g_matrix4_identity, g_matrix4_identity, g_matrix4_identity, ⟨0, 0, 1⟩⟩ ∧
    ManipulatorEffect.hit_test .m_selectable_x ∈
      (TranslateManipulator.testSelect ⟨1 / 1000, 1 / 1000000⟩ (CMath.exactSqrt fun _ _ => 0) 0
        ⟨c_modifierNone, 0, ⟨true, ⟨0, 0, 0⟩, ⟨0, 0, 1⟩, g_matrix4_identity⟩⟩
        ⟨⟨g_matrix4_identity, g_matrix4_identity, g_matrix4_identity, ⟨0, 0, 1⟩⟩,
          fun _ => SelectionIntersection.invalid⟩
        ⟨false, false, false, false,
          ⟨g_matrix4_identity, g_matrix4_identity, g_matrix4_identity, ⟨0, 0, 1⟩⟩, ⟨none⟩⟩).2 ∧
    vector3_dot (⟨0, 0, 1⟩ : Vector3)
      (vector3_normalised (CMath.exactSqrt fun _ _ => 0) g_matrix4_identity.z_vec3) = 1 ∧
    TranslateRenderable.m_arrow_z ∉ TranslateManipulator.render (CMath.exactSqrt fun _ _ => 0)
      ⟨g_matrix4_identity, g_matrix4_identity, g_matrix4_identity, ⟨0, 0, 1⟩⟩ ∧
    ManipulatorEffect.hit_test .m_selectable_z ∉
      (TranslateManipulator.testSelect ⟨1 / 1000, 1 / 1000000⟩ (CMath.exactSqrt fun _ _ => 0) 0
        ⟨c_modifierNone, 0, ⟨true, ⟨0, 0, 0⟩, ⟨0, 0, 1⟩, g_matrix4_identity⟩⟩
        ⟨⟨g_matrix4_identity, g_matrix4_identity, g_matrix4_identity, ⟨0, 0, 1⟩⟩,
          fun _ => SelectionIntersection.invalid⟩
        ⟨false, false, false, false,
          ⟨g_matrix4_identity, g_matrix4_identity, g_matrix4_identity, ⟨0, 0, 1⟩⟩, ⟨none⟩⟩).2 := by
  decide!

theorem AxisManipulator_selectionChange_effects (m : AxisManipulator) (sel : SelectionPool) :
    ∀ eff ∈ (AxisManipulator.selectionChange m sel).2,
      eff = ManipulatorEffect.SceneChangeNotify := by
  unfold AxisManipulator.selectionChange
  split
  · exact selectionChange_effects m.base none
  · exact selectionChange_effects m.base _

/-- C17 (amended): with no modifier held, `TranslateManipulator` renders and hit-tests the arrow of
an axis exactly when the absolute value of the dot product between `m_axis_screen` and the axis's
unit direction is below 0.95; an axis with a dot product of absolute value 0.95 or more is
skipped. -/
theorem TranslateManipulator_arrow_shown_iff (e : Bands) (cm : CMath) (d2 : ℚ) (g : Globals)
    (inp : TestSelectInput) (self : TranslateManipulator)
    (hmod : g.g_modifiers = c_modifierNone) :
    ((|vector3_dot inp.m_pivot.m_axis_screen
          (vector3_normalised cm inp.m_pivot.m_worldSpace.x_vec3)| < 95 / 100 ↔
        ManipulatorEffect.hit_test .m_selectable_x ∈
          (TranslateManipulator.testSelect e cm d2 g inp self).2) ∧
      (|vector3_dot inp.m_pivot.m_axis_screen
          (vector3_normalised cm inp.m_pivot.m_worldSpace.x_vec3)| < 95 / 100 ↔
        TranslateRenderable.m_arrow_x ∈ TranslateManipulator.render cm inp.m_pivot) ∧
      (|vector3_dot inp.m_pivot.m_axis_screen
          (vector3_normalised cm inp.m_pivot.m_worldSpace.x_vec3)| < 95 / 100 ↔
        TranslateRenderable.m_arrow_head_x ∈ TranslateManipulator.render cm inp.m_pivot)) ∧
    ((|vector3_dot inp.m_pivot.m_axis_screen
          (vector3_normalised cm inp.m_pivot.m_worldSpace.y_vec3)| < 95 / 100 ↔
        ManipulatorEffect.hit_test .m_selectable_y ∈
          (TranslateManipulator.testSelect e cm d2 g inp self).2) ∧
      (|vector3_dot inp.m_pivot.m_axis_screen
          (vector3_normalised cm inp.m_pivot.m_worldSpace.y_vec3)| < 95 / 100 ↔
        TranslateRenderable.m_arrow_y ∈ TranslateManipulator.render cm inp.m_pivot) ∧
      (|vector3_dot inp.m_pivot.m_axis_screen
          (vector3_normalised cm inp.m_pivot.m_worldSpace.y_vec3)| < 95 / 100 ↔
        TranslateRenderable.m_arrow_head_y ∈ TranslateManipulator.render cm inp.m_pivot)) ∧
    ((|vector3_dot inp.m_pivot.m_axis_screen
          (vector3_normalised cm inp.m_pivot.m_worldSpace.z_vec3)| < 95 / 100 ↔
        ManipulatorEffect.hit_test .m_selectable_z ∈
          (TranslateManipulator.testSelect e cm d2 g inp self).2) ∧
      (|vector3_dot inp.m_pivot.m_axis_screen
          (vector3_normalised cm inp.m_pivot.m_worldSpace.z_vec3)| < 95 / 100 ↔
        TranslateRenderable.m_arrow_z ∈ TranslateManipulator.render cm inp.m_pivot) ∧
      (|vector3_dot inp.m_pivot.m_axis_screen
          (vector3_normalised cm inp.m_pivot.m_worldSpace.z_vec3)| < 95 / 100 ↔
        TranslateRenderable.m_arrow_head_z ∈ TranslateManipulator.render cm inp.m_pivot)) := by
  have hnot : ∀ (m : AxisManipulator) (sel : SelectionPool) (h : Handle),
      ManipulatorEffect.hit_test h ∉ (AxisManipulator.selectionChange m sel).2 := by
    intro m sel h hmem
    have := AxisManipulator_selectionChange_effects m sel _ hmem
    exact ManipulatorEffect.noConfusion this
  simp only [TranslateManipulator.testSelect, TranslateManipulator.render, hmod, ne_eq,
    not_true_eq_false, if_false, manipulator_show_axis, decide_eq_true_eq, List.mem_append,
    List.mem_cons, List.mem_singleton, hnot, or_false, List.not_mem_nil]
  refine ⟨⟨?_, ?_, ?_⟩, ⟨?_, ?_, ?_⟩, ⟨?_, ?_, ?_⟩⟩ <;>
    · constructor
      · intro h
        simp [h]
      · intro h
        by_contra hn
        simp [hn] at h

/-- Witness for C17: world-aligned pivot axes and `m_axis_screen = (0, 0, 1)`. -/
theorem TranslateManipulator_arrow_shown_iff_witness :
    (⟨c_modifierNone, 0, ⟨true, ⟨0, 0, 0⟩, ⟨0, 0, 1⟩, g_matrix4_identity⟩⟩ : Globals).g_modifiers
      = c_modifierNone ∧
    (|vector3_dot (⟨0, 0, 1⟩ : Vector3)
        (vector3_normalised (CMath.exactSqrt fun _ _ => 0) g_matrix4_identity.z_vec3)| < 95 / 100 ↔
      ManipulatorEffect.hit_test .m_selectable_z ∈
        (TranslateManipulator.testSelect ⟨1 / 1000, 1 / 1000000⟩ (CMath.exactSqrt fun _ _ => 0) 0
          ⟨c_modifierNone, 0, ⟨true, ⟨0, 0, 0⟩, ⟨0, 0, 1⟩, g_matrix4_identity⟩⟩
          ⟨⟨g_matrix4_identity, g_matrix4_identity, g_matrix4_identity, ⟨0, 0, 1⟩⟩,
            fun _ => SelectionIntersection.invalid⟩
          ⟨false, false, false, false,
            ⟨g_matrix4_identity, g_matrix4_identity, g_matrix4_identity, ⟨0, 0, 1⟩⟩, ⟨none⟩⟩).2) :=
  ⟨rfl,
    (TranslateManipulator_arrow_shown_iff ⟨1 / 1000, 1 / 1000000⟩ (CMath.exactSqrt fun _ _ => 0) 0
      ⟨c_modifierNone, 0, ⟨true, ⟨0, 0, 0⟩, ⟨0, 0, 1⟩, g_matrix4_identity⟩⟩
      ⟨⟨g_matrix4_identity, g_matrix4_identity, g_matrix4_identity, ⟨0, 0, 1⟩⟩,
        fun _ => SelectionIntersection.invalid⟩
      ⟨false, false, false, false,
        ⟨g_matrix4_identity, g_matrix4_identity, g_matrix4_identity, ⟨0, 0, 1⟩⟩, ⟨none⟩⟩
      rfl).2.2.1⟩

theorem SelectionPool_Select_loop_eq (best : SelectionIntersection) (select : Bool)
    (dist_epsilon : ℚ) (rest : List PoolEntry) (isSelected : Selectable → Bool) (x : Selectable) :
    SelectionPool_Select_loop best select dist_epsilon rest isSelected x =
      if ∃ kv ∈ rest.takeWhile
          (fun i : PoolEntry => equalEpsilon i.1 best dist_epsilon SELECT_MATCHING_DEPTH), kv.2 = some x
      then select else isSelected x := by
  induction rest generalizing isSelected with
  | nil => simp [SelectionPool_Select_loop]
  | cons i rest ih =>
    unfold SelectionPool_Select_loop
    by_cases hq : equalEpsilon i.1 best dist_epsilon SELECT_MATCHING_DEPTH = true
    · have e1 : List.takeWhile
          (fun i : PoolEntry => equalEpsilon i.1 best dist_epsilon SELECT_MATCHING_DEPTH)
          (i :: rest) = i :: List.takeWhile
          (fun i : PoolEntry => equalEpsilon i.1 best dist_epsilon SELECT_MATCHING_DEPTH) rest := by
        simp [List.takeWhile_cons, hq]
      rw [if_pos hq, ih, e1]
      by_cases hrun : ∃ kv ∈ rest.takeWhile
          (fun i : PoolEntry => equalEpsilon i.1 best dist_epsilon SELECT_MATCHING_DEPTH), kv.2 = some x
      · rw [if_pos hrun, if_pos]
        obtain ⟨kv, hkv, hx⟩ := hrun
        exact ⟨kv, List.mem_cons_of_mem _ hkv, hx⟩
      · rw [if_neg hrun]
        by_cases hi : i.2 = some x
        · rw [if_pos ⟨i, List.mem_cons_self _ _, hi⟩]
          simp [setSelected, hi]
        · rw [if_neg]
          · simp [setSelected, hi]
          · rintro ⟨kv, hkv, hx⟩
            rcases List.mem_cons.1 hkv with h | h
            · exact hi (h ▸ hx)
            · exact hrun ⟨kv, h, hx⟩
    · have e1 : List.takeWhile
          (fun i : PoolEntry => equalEpsilon i.1 best dist_epsilon SELECT_MATCHING_DEPTH)
          (i :: rest) = [] := by
        simp [List.takeWhile_cons, hq]
      rw [if_neg hq, e1]
      simp

/-- C18 (counterexample): the pool that `addSelectable` builds from the entries `(depth 1/2,
distance 0)` for selectable 1, `(depth 9/10, distance 0)` for selectable 2 and `(depth 1/2,
distance 1/4)` for selectable 3 iterates in that order. With `dist_epsilon = 1/4`
(`SELECT_MATCHING_COMPONENTS_DIST`) the third entry is epsilon-equal to the best one, yet
`SelectionPool_Select( pool, true, 1/4 )` selects selectable 1 only: the loop stops at the second
entry, which is not epsilon-equal. -/
theorem SelectionPool_Select_skips_equal_entry :
    (((SelectionPool.fresh.addSelectable ⟨1 / 1000, 1 / 1000000⟩ (hit (1 / 2) (1 / 4) 0) (some 3)
      ).addSelectable ⟨1 / 1000, 1 / 1000000⟩ (hit (9 / 10) 0 0) (some 2)
      ).addSelectable ⟨1 / 1000, 1 / 1000000⟩ (hit (1 / 2) 0 0) (some 1)).m_pool
      = [(hit (1 / 2) 0 0, some 1), (hit (9 / 10) 0 0, some 2), (hit (1 / 2) (1 / 4) 0, some 3)] ∧
    equalEpsilon (hit (1 / 2) (1 / 4) 0) (hit (1 / 2) 0 0) SELECT_MATCHING_COMPONENTS_DIST
      SELECT_MATCHING_DEPTH = true ∧
    SelectionPool_Select
      ⟨[(hit (1 / 2) 0 0, some 1), (hit (9 / 10) 0 0, some 2), (hit (1 / 2) (1 / 4) 0, some 3)],
        invalid, none⟩ true SELECT_MATCHING_COMPONENTS_DIST (fun _ => false) 1 = true ∧
    SelectionPool_Select
      ⟨[(hit (1 / 2) 0 0, some 1), (hit (9 / 10) 0 0, some 2), (hit (1 / 2) (1 / 4) 0, some 3)],
        invalid, none⟩ true SELECT_MATCHING_COMPONENTS_DIST (fun _ => false) 3 = false := by
  decide!

/-- C18 (amended): for a non-empty pool with first entry `best`, `SelectionPool_Select( pool,
select, dist_epsilon )` sets the selected flag to `select` on the selectable of `best` and on the
selectables of the entries that follow it up to the first entry that is not epsilon-equal to
`best` (`equalEpsilon` with `dist_epsilon` and depth epsilon 1e-6), and leaves every other flag as
it was; each entry of that run is epsilon-equal to `best`. -/
theorem SelectionPool_Select_run (pool : SelectionPool) (select : Bool) (dist_epsilon : ℚ)
    (isSelected : Selectable → Bool) (best : PoolEntry) (rest : List PoolEntry)
    (hpool : pool.m_pool = best :: rest) :
    (∀ x, SelectionPool_Select pool select dist_epsilon isSelected x =
      if best.2 = some x ∨ ∃ kv ∈ rest.takeWhile
          (fun i : PoolEntry => equalEpsilon i.1 best.1 dist_epsilon SELECT_MATCHING_DEPTH), kv.2 = some x
      then select else isSelected x) ∧
    ∀ kv ∈ rest.takeWhile (fun i : PoolEntry => equalEpsilon i.1 best.1 dist_epsilon SELECT_MATCHING_DEPTH),
      equalEpsilon kv.1 best.1 dist_epsilon SELECT_MATCHING_DEPTH = true := by
  constructor
  · intro x
    unfold SelectionPool_Select
    rw [hpool]
    simp only [SelectionPool_Select_loop_eq]
    by_cases hrun : ∃ kv ∈ rest.takeWhile
        (fun i : PoolEntry => equalEpsilon i.1 best.1 dist_epsilon SELECT_MATCHING_DEPTH), kv.2 = some x
    · rw [if_pos hrun, if_pos (Or.inr hrun)]
    · rw [if_neg hrun]
      cases hb : best.2 with
      | none => simp [hrun]
      | some s =>
        by_cases hs : s = x
        · subst hs
          by_cases hsel : isSelected s = select
          · simp [hsel]
          · simp [hsel, setSelected]
        · by_cases hsel : isSelected s = select
          · simp [hsel, hs, hrun]
          · simp [hsel, hs, hrun, setSelected]
  · intro kv hkv
    have t := List.mem_takeWhile_imp hkv
    simpa using t

/-- Witness for C18: a pool of three entries, the first two epsilon-equal. -/
theorem SelectionPool_Select_run_witness :
    (⟨[(hit (1 / 2) 0 0, some 1), (hit (1 / 2) 0 1, some 2), (hit (9 / 10) 0 0, some 3)],
        invalid, none⟩ : SelectionPool).m_pool
      = (hit (1 / 2) 0 0, some 1) :: [(hit (1 / 2) 0 1, some 2), (hit (9 / 10) 0 0, some 3)] ∧
    SelectionPool_Select
      ⟨[(hit (1 / 2) 0 0, some 1), (hit (1 / 2) 0 1, some 2), (hit (9 / 10) 0 0, some 3)],
        invalid, none⟩ true SELECT_MATCHING_DIST (fun _ => false) 2 = true ∧
    SelectionPool_Select
      ⟨[(hit (1 / 2) 0 0, some 1), (hit (1 / 2) 0 1, some 2), (hit (9 / 10) 0 0, some 3)],
        invalid, none⟩ true SELECT_MATCHING_DIST (fun _ => false) 3 = false :=
  ⟨rfl,
    ((SelectionPool_Select_run
      ⟨[(hit (1 / 2) 0 0, some 1), (hit (1 / 2) 0 1, some 2), (hit (9 / 10) 0 0, some 3)],
        invalid, none⟩ true SELECT_MATCHING_DIST (fun _ => false)
      (hit (1 / 2) 0 0, some 1) [(hit (1 / 2) 0 1, some 2), (hit (9 / 10) 0 0, some 3)] rfl).1
      2).trans (by decide!),
    ((SelectionPool_Select_run
      ⟨[(hit (1 / 2) 0 0, some 1), (hit (1 / 2) 0 1, some 2), (hit (9 / 10) 0 0, some 3)],
        invalid, none⟩ true SELECT_MATCHING_DIST (fun _ => false)
      (hit (1 / 2) 0 0, some 1) [(hit (1 / 2) 0 1, some 2), (hit (9 / 10) 0 0, some 3)] rfl).1
      3).trans (by decide!)⟩

/-- C19: after `onMouseDown( c_button_select )` starts a manipulator drag, an
`onMouseUp( c_buttonInvalid )` leaves both callback slots registered and sets `m_mouse_down` to
false, so the slots are non-empty while `m_mouse_down` is false. A following
`onMouseDown( c_button_select2 )` with shift held is then accepted: it calls
`Selector_::mouseDown` and registers the selector's callbacks over the manipulator's, and the
`onMouseUp( c_button_select )` that ends the gesture reaches the selector only. An `onMouseDown`
received while `m_mouse_down` is true changes nothing and calls nothing. -/
theorem onMouseUp_invalid_button_reopens_drag :
    RadiantWindowObserver.fresh.run
      [ObserverEvent.onMouseDown c_button_select c_modifierNone true]
      = ⟨true, some DragOwner.m_manipulator, some DragOwner.m_manipulator⟩ ∧
    RadiantWindowObserver.fresh.run
      [ObserverEvent.onMouseDown c_button_select c_modifierNone true,
        ObserverEvent.onMouseUp ButtonIdentifier.c_buttonInvalid c_modifierNone]
      = ⟨false, some DragOwner.m_manipulator, some DragOwner.m_manipulator⟩ ∧
    (RadiantWindowObserver.fresh.run
      [ObserverEvent.onMouseDown c_button_select c_modifierNone true,
        ObserverEvent.onMouseUp ButtonIdentifier.c_buttonInvalid c_modifierNone]).step
      (ObserverEvent.onMouseDown c_button_select2 ⟨true, false, false⟩ false)
      = (⟨true, some DragOwner.m_selector, some DragOwner.m_selector⟩,
          [ObserverEffect.mouseDown DragOwner.m_selector]) ∧
    (RadiantWindowObserver.fresh.run
      [ObserverEvent.onMouseDown c_button_select c_modifierNone true,
        ObserverEvent.onMouseUp ButtonIdentifier.c_buttonInvalid c_modifierNone,
        ObserverEvent.onMouseDown c_button_select2 ⟨true, false, false⟩ false]).step
      (ObserverEvent.onMouseUp c_button_select c_modifierNone)
      = (⟨false, none, none⟩, [ObserverEffect.mouseUp DragOwner.m_selector]) ∧
    ∀ (moved up : Option DragOwner) (button : ButtonIdentifier) (modifiers : ModifierFlagsExt)
      (r : Bool),
      RadiantWindowObserver.onMouseDown ⟨true, moved, up⟩ button modifiers r
        = (⟨true, moved, up⟩, []) := by
  refine ⟨by decide, by decide, by decide, by decide, ?_⟩
  intro moved up button modifiers r
  rfl

theorem advance_loop_false (it : CChar → Bool) (u : List CChar) (hu : ∀ c ∈ u, c ≠ 0) :
    StringTokeniser.advance_loop it false (u ++ [0]) =
      (List.replicate (u.takeWhile fun c => !it c).length 0,
        (u.dropWhile fun c => !it c) ++ [0]) := by
  induction u with
  | nil => simp [StringTokeniser.advance_loop]
  | cons c cs ih =>
    have hc : c ≠ 0 := hu c (List.mem_cons_self _ _)
    have hcs : ∀ x ∈ cs, x ≠ 0 := fun x hx => hu x (List.mem_cons_of_mem _ hx)
    rw [List.cons_append]
    unfold StringTokeniser.advance_loop
    rw [if_neg hc]
    by_cases h : it c = true
    · simp [h, List.takeWhile_cons, List.dropWhile_cons]
    · have h' : it c = false := by simpa using h
      simp [h', List.takeWhile_cons, List.dropWhile_cons, ih hcs, List.replicate_succ]

theorem advance_loop_true (it : CChar → Bool) (u : List CChar) (hu : ∀ c ∈ u, c ≠ 0) :
    StringTokeniser.advance_loop it true (u ++ [0]) =
      (u.takeWhile it ++
          List.replicate ((u.dropWhile it).takeWhile fun c => !it c).length 0,
        ((u.dropWhile it).dropWhile fun c => !it c) ++ [0]) := by
  induction u with
  | nil => simp [StringTokeniser.advance_loop]
  | cons c cs ih =>
    have hc : c ≠ 0 := hu c (List.mem_cons_self _ _)
    have hcs : ∀ x ∈ cs, x ≠ 0 := fun x hx => hu x (List.mem_cons_of_mem _ hx)
    rw [List.cons_append]
    unfold StringTokeniser.advance_loop
    rw [if_neg hc]
    by_cases h : it c = true
    · simp [h, List.takeWhile_cons, List.dropWhile_cons, ih hcs]
    · have h' : it c = false := by simpa using h
      simp [h', List.takeWhile_cons, List.dropWhile_cons, advance_loop_false it cs hcs,
        List.replicate_succ]

theorem splitOnP_takeWhile (P : CChar → Bool) (u : List CChar) :
    u.splitOnP P = (u.takeWhile fun c => !P c) ::
      (match u.dropWhile fun c => !P c with
        | [] => []
        | _ :: rest => rest.splitOnP P) := by
  induction u with
  | nil => simp [List.splitOnP_nil]
  | cons c cs ih =>
    rw [List.splitOnP_cons]
    by_cases h : P c = true
    · simp [h, List.takeWhile_cons, List.dropWhile_cons]
    · have h' : P c = false := by simpa using h
      rw [if_neg h, ih]
      simp [h', List.takeWhile_cons, List.dropWhile_cons, List.modifyHead]

theorem tokens_dropWhile (P : CChar → Bool) (u : List CChar) :
    (u.splitOnP P).filter (fun t => !t.isEmpty) =
      ((u.dropWhile P).splitOnP P).filter (fun t => !t.isEmpty) := by
  induction u with
  | nil => rfl
  | cons c cs ih =>
    by_cases h : P c = true
    · rw [List.splitOnP_cons, if_pos h, List.dropWhile_cons_of_pos h, ← ih]
      simp
    · rw [List.dropWhile_cons_of_neg h]

theorem splitOnP_congr_mem (P Q : CChar → Bool) (u : List CChar) (h : ∀ c ∈ u, P c = Q c) :
    u.splitOnP P = u.splitOnP Q := by
  induction u with
  | nil => simp [List.splitOnP_nil]
  | cons c cs ih =>
    rw [List.splitOnP_cons, List.splitOnP_cons, h c (List.mem_cons_self _ _),
      ih fun x hx => h x (List.mem_cons_of_mem _ hx)]

theorem dropWhile_head_false (p : CChar → Bool) (l : List CChar) (d : CChar)
    (h : (l.dropWhile p).head? = some d) : p d = false := by
  induction l with
  | nil => simp at h
  | cons c cs ih =>
    by_cases hc : p c = true
    · rw [List.dropWhile_cons_of_pos hc] at h
      exact ih h
    · rw [List.dropWhile_cons_of_neg hc] at h
      simp only [List.head?_cons, Option.some.injEq] at h
      rw [← h]
      simpa using hc

theorem c_str_advance (it : CChar → Bool) (u : List CChar) (hu : ∀ c ∈ u, c ≠ 0) :
    c_str ((u.takeWhile it ++
        List.replicate ((u.dropWhile it).takeWhile fun c => !it c).length 0) ++
        (((u.dropWhile it).dropWhile fun c => !it c) ++ [0])) = u.takeWhile it := by
  induction u with
  | nil => simp [c_str]
  | cons c cs ih =>
    have hc : c ≠ 0 := hu c (List.mem_cons_self _ _)
    have hcs : ∀ x ∈ cs, x ≠ 0 := fun x hx => hu x (List.mem_cons_of_mem _ hx)
    by_cases h : it c = true
    · have key : ∀ rest : List CChar, c_str (c :: rest) = c :: c_str rest := by
        intro rest
        simp [c_str, List.takeWhile_cons, hc]
      rw [List.takeWhile_cons_of_pos h, List.dropWhile_cons_of_pos h, List.cons_append,
        List.cons_append, key, ih hcs]
    · have h' : it c = false := by simpa using h
      simp [c_str, h', List.takeWhile_cons, List.dropWhile_cons, List.replicate_succ]

theorem advance_at (pre u : List CChar) (len : Nat) (d : List CChar)
    (hu : ∀ c ∈ u, c ≠ 0) :
    StringTokeniser.advance ⟨len, pre ++ (u ++ [0]), pre.length, d⟩ =
      (u.takeWhile (StringTokeniser.istoken d),
        ⟨len,
          (pre ++ (u.takeWhile (StringTokeniser.istoken d) ++ List.replicate
            ((u.dropWhile (StringTokeniser.istoken d)).takeWhile
              fun c => !StringTokeniser.istoken d c).length 0)) ++
          (((u.dropWhile (StringTokeniser.istoken d)).dropWhile
              fun c => !StringTokeniser.istoken d c) ++ [0]),
          (pre ++ (u.takeWhile (StringTokeniser.istoken d) ++ List.replicate
            ((u.dropWhile (StringTokeniser.istoken d)).takeWhile
              fun c => !StringTokeniser.istoken d c).length 0)).length, d⟩) := by
  unfold StringTokeniser.advance
  simp only [List.drop_left, List.take_left, advance_loop_true _ u hu]
  refine Prod.ext ?_ ?_
  · simp only
    rw [List.append_assoc, List.drop_left]
    exact c_str_advance _ u hu
  · simp [List.append_assoc]

theorem getTokens_end (pre : List CChar) (len : Nat) (d : List CChar) (k : Nat) :
    StringTokeniser.getTokens k ⟨len, pre ++ ([] ++ [0]), pre.length, d⟩
      = List.replicate k [] := by
  induction k with
  | zero => rfl
  | succ k ih =>
    have h := advance_at pre [] len d (by simp)
    simp only [List.takeWhile_nil, List.dropWhile_nil, List.length_nil, List.replicate_zero,
      List.append_nil] at h
    unfold StringTokeniser.getTokens
    simp only [StringTokeniser.getToken]
    rw [h]
    simp only [List.replicate_succ]
    rw [ih]

theorem tokens_step (it : CChar → Bool) (c : CChar) (cs : List CChar) (hc : it c = true) :
    ((c :: cs).splitOnP fun x => !it x).filter (fun t => !t.isEmpty) =
      (c :: cs).takeWhile it ::
        ((((c :: cs).dropWhile it).dropWhile fun x => !it x).splitOnP fun x => !it x).filter
          (fun t => !t.isEmpty) := by
  rw [splitOnP_takeWhile]
  have e1 : (fun x => !(fun x => !it x) x) = it := by
    funext x; simp
  simp only [e1]
  have hne : ((c :: cs).takeWhile it).isEmpty = false := by
    simp [List.takeWhile_cons, hc]
  rw [List.filter_cons_of_pos (by simp [hne])]
  congr 1
  cases hd : (c :: cs).dropWhile it with
  | nil => simp [List.splitOnP_nil]
  | cons x rest =>
    have hx : it x = false := dropWhile_head_false it (c :: cs) x (by rw [hd]; rfl)
    simp only
    rw [List.dropWhile_cons_of_pos (by simp [hx])]
    exact tokens_dropWhile _ rest

theorem getTokens_at (d : List CChar) (n : Nat) :
    ∀ (u pre : List CChar) (len : Nat), u.length ≤ n → (∀ c ∈ u, c ≠ 0) →
      (∀ c, u.head? = some c → StringTokeniser.istoken d c = true) → ∀ k,
      StringTokeniser.getTokens
        (((u.splitOnP fun x => !StringTokeniser.istoken d x).filter
          (fun t => !t.isEmpty)).length + k)
        ⟨len, pre ++ (u ++ [0]), pre.length, d⟩ =
      (u.splitOnP fun x => !StringTokeniser.istoken d x).filter (fun t => !t.isEmpty) ++
        List.replicate k [] := by
  induction n with
  | zero =>
    intro u pre len hlen _ _ k
    have hu : u = [] := List.length_eq_zero.1 (Nat.le_zero.1 hlen)
    subst hu
    simpa using getTokens_end pre len d k
  | succ n ih =>
    intro u pre len hlen hu hhead k
    cases u with
    | nil => simpa using getTokens_end pre len d k
    | cons c cs =>
      have hc : StringTokeniser.istoken d c = true := hhead c rfl
      rw [tokens_step _ c cs hc]
      simp only [List.length_cons, List.cons_append]
      rw [Nat.add_right_comm]
      unfold StringTokeniser.getTokens
      simp only [StringTokeniser.getToken]
      have hadv := advance_at pre (c :: cs) len d hu
      simp only [List.cons_append] at hadv
      rw [hadv]
      simp only
      congr 1
      apply ih
      · have h1 : (((c :: cs).dropWhile (StringTokeniser.istoken d)).dropWhile
            fun x => !StringTokeniser.istoken d x).length
            ≤ ((c :: cs).dropWhile (StringTokeniser.istoken d)).length :=
          (List.dropWhile_sublist _).length_le
        have h2 : ((c :: cs).dropWhile (StringTokeniser.istoken d)).length ≤ cs.length := by
          rw [List.dropWhile_cons_of_pos hc]
          exact (List.dropWhile_sublist _).length_le
        simp only [List.length_cons] at hlen
        omega
      · intro x hx
        exact hu x ((List.dropWhile_sublist _).subset ((List.dropWhile_sublist _).subset hx))
      · intro x hx
        have := dropWhile_head_false _ _ x hx
        simpa using this

theorem skip_eq (it : CChar → Bool) (u : List CChar) (hu : ∀ c ∈ u, c ≠ 0) :
    StringTokeniser.skip it (u ++ [0]) = (u.takeWhile fun c => !it c).length := by
  induction u with
  | nil => simp [StringTokeniser.skip]
  | cons c cs ih =>
    have hc : c ≠ 0 := hu c (List.mem_cons_self _ _)
    have hcs : ∀ x ∈ cs, x ≠ 0 := fun x hx => hu x (List.mem_cons_of_mem _ hx)
    rw [List.cons_append]
    unfold StringTokeniser.skip
    by_cases h : it c = true
    · simp [h, List.takeWhile_cons]
    · have h' : it c = false := by simpa using h
      simp [h', hc, List.takeWhile_cons, ih hcs]

theorem mem_splitOnP_not (P : CChar → Bool) (u t : List CChar) (ht : t ∈ u.splitOnP P) :
    ∀ c ∈ t, P c = false := by
  induction u generalizing t with
  | nil =>
    simp only [List.splitOnP_nil, List.mem_singleton] at ht
    subst ht
    simp
  | cons x xs ih =>
    rw [List.splitOnP_cons] at ht
    by_cases hx : P x = true
    · rw [if_pos hx] at ht
      rcases List.mem_cons.1 ht with h | h
      · subst h; simp
      · exact ih t h
    · rw [if_neg hx] at ht
      cases hs : xs.splitOnP P with
      | nil => exact absurd hs (List.splitOnP_ne_nil P xs)
      | cons r rs =>
        rw [hs] at ht ih
        simp only [List.modifyHead, List.mem_cons] at ht
        rcases ht with h | h
        · subst h
          intro c hc
          rcases List.mem_cons.1 hc with h1 | h1
          · subst h1; simpa using hx
          · exact ih r (List.mem_cons_self _ _) c h1
        · exact ih t (List.mem_cons_of_mem _ h)

/-- C20: for every input string and delimiter set, the successive results of
`StringTokeniser::getToken()` are the maximal runs of non-delimiter characters of the input, left
to right (the pieces between delimiters, without the empty ones), followed by the empty string on
every further call; no token is empty and no token holds a delimiter. -/
theorem StringTokeniser_getToken_sequence (string delimiters : List CChar) (k : Nat) :
    (StringTokeniser.construct string delimiters).getTokens
        ((string_tokens string delimiters).length + k)
      = string_tokens string delimiters ++ List.replicate k [] ∧
    (∀ t ∈ string_tokens string delimiters, t ≠ [] ∧ ∀ c ∈ t, c ∉ c_str delimiters) := by
  have hnul : ∀ c ∈ c_str string, c ≠ 0 := by
    intro c hc
    have := List.mem_takeWhile_imp hc
    simpa using this
  have hspec : string_tokens string delimiters =
      ((c_str string).splitOnP fun x => !StringTokeniser.istoken delimiters x).filter
        (fun t => !t.isEmpty) := by
    unfold string_tokens
    rw [splitOnP_congr_mem _ (fun x => !StringTokeniser.istoken delimiters x) (c_str string)]
    intro c hc
    simp [StringTokeniser.istoken, hnul c hc]
  constructor
  · rw [hspec, tokens_dropWhile]
    have hstate : StringTokeniser.construct string delimiters =
        ⟨(c_str string).length,
          ((c_str string).takeWhile fun x => !StringTokeniser.istoken delimiters x) ++
            (((c_str string).dropWhile fun x => !StringTokeniser.istoken delimiters x) ++ [0]),
          ((c_str string).takeWhile fun x => !StringTokeniser.istoken delimiters x).length,
          delimiters⟩ := by
      unfold StringTokeniser.construct
      rw [skip_eq _ _ hnul, ← List.append_assoc, List.takeWhile_append_dropWhile]
    rw [hstate]
    apply getTokens_at delimiters _ _ _ _ (le_refl _)
    · intro c hc
      exact hnul c ((List.dropWhile_sublist _).subset hc)
    · intro c hc
      have := dropWhile_head_false _ _ c hc
      simpa using this
  · intro t ht
    unfold string_tokens at ht
    rw [List.mem_filter] at ht
    refine ⟨?_, ?_⟩
    · intro h
      rw [h] at ht
      simp at ht
    · intro c hc
      have := mem_splitOnP_not _ _ t ht.1 c hc
      simpa using this

theorem string_in_string_nocase_inner_eq (tolower : CChar → CChar)
    (h0 : ∀ c, tolower c = tolower 0 → c = 0) (ns : List CChar) :
    ∀ hs : List CChar, (∀ c ∈ ns, c ≠ 0) →
      ∃ b, string_in_string_nocase_inner tolower (hs ++ [0]) (ns ++ [0]) = some b ∧
        (b = true ↔ ns.map tolower <+: hs.map tolower) := by
  induction ns with
  | nil =>
    intro hs _
    refine ⟨true, ?_, by simp⟩
    cases hs <;> simp [string_in_string_nocase_inner]
  | cons n ns ih =>
    intro hs hns
    have hn : n ≠ 0 := hns n (List.mem_cons_self _ _)
    have hns' : ∀ c ∈ ns, c ≠ 0 := fun c hc => hns c (List.mem_cons_of_mem _ hc)
    cases hs with
    | nil =>
      refine ⟨false, ?_, by simp⟩
      have hne : ¬ tolower 0 = tolower n := fun e => hn (h0 n e.symm)
      simp [string_in_string_nocase_inner, hne, hn]
    | cons h hs =>
      by_cases he : tolower h = tolower n
      · obtain ⟨b, hb, hbi⟩ := ih hs hns'
        refine ⟨b, ?_, ?_⟩
        · simp [string_in_string_nocase_inner, he, hn, hb]
        · rw [hbi]
          simp [List.cons_prefix_cons, he]
      · refine ⟨false, ?_, ?_⟩
        · simp [string_in_string_nocase_inner, he, hn]
        · simp only [Bool.false_eq_true, List.map_cons, false_iff]
          intro hp
          rw [List.cons_prefix_cons] at hp
          exact he hp.1.symm

theorem string_in_string_nocase_first (tolower : CChar → CChar)
    (h0 : ∀ c, tolower c = tolower 0 → c = 0) (ns : List CChar) (hns : ∀ c ∈ ns, c ≠ 0) :
    ∀ hs : List CChar, (∀ c ∈ hs, c ≠ 0) →
      ∃ r, string_in_string_nocase tolower (hs ++ [0]) (ns ++ [0]) = some r ∧
        (∀ k, r = some k → k ≤ hs.length ∧ nocase_match_at tolower hs ns k ∧
          ∀ j, j < k → ¬ nocase_match_at tolower hs ns j) ∧
        (r = none → ∀ k, k ≤ hs.length → ¬ nocase_match_at tolower hs ns k) := by
  intro hs
  induction hs with
  | nil =>
    intro _
    obtain ⟨b, hb, hbi⟩ := string_in_string_nocase_inner_eq tolower h0 ns [] hns
    cases b with
    | true =>
      refine ⟨some 0, ?_, ?_, ?_⟩
      · simp only [List.nil_append] at hb ⊢
        simp [string_in_string_nocase, hb]
      · intro k hk
        simp only [Option.some.injEq] at hk
        subst hk
        exact ⟨le_refl _, by simpa [nocase_match_at] using hbi.1 rfl, fun j hj => absurd hj (Nat.not_lt_zero j)⟩
      · intro h; cases h
    | false =>
      refine ⟨none, ?_, ?_, ?_⟩
      · simp only [List.nil_append] at hb ⊢
        simp [string_in_string_nocase, hb]
      · intro k hk; cases hk
      · intro _ k hk hm
        have hk0 : k = 0 := Nat.le_zero.1 hk
        subst hk0
        have := hbi.2 (by simpa [nocase_match_at] using hm)
        cases this
  | cons h hs ih =>
    intro hhs
    have hh : h ≠ 0 := hhs h (List.mem_cons_self _ _)
    have hhs' : ∀ c ∈ hs, c ≠ 0 := fun c hc => hhs c (List.mem_cons_of_mem _ hc)
    obtain ⟨b, hb, hbi⟩ := string_in_string_nocase_inner_eq tolower h0 ns (h :: hs) hns
    rw [List.cons_append] at hb
    cases b with
    | true =>
      refine ⟨some 0, ?_, ?_, ?_⟩
      · simp [string_in_string_nocase, hb]
      · intro k hk
        simp only [Option.some.injEq] at hk
        subst hk
        exact ⟨Nat.zero_le _, by simpa [nocase_match_at] using hbi.1 rfl, fun j hj => absurd hj (Nat.not_lt_zero j)⟩
      · intro h; cases h
    | false =>
      have hnot0 : ¬ nocase_match_at tolower (h :: hs) ns 0 := by
        intro hm
        have := hbi.2 (by simpa [nocase_match_at] using hm)
        cases this
      obtain ⟨r, hr, hr1, hr2⟩ := ih hhs'
      refine ⟨r.map fun k => k + 1, ?_, ?_, ?_⟩
      · rw [List.cons_append]
        simp [string_in_string_nocase, hb, hh, hr]
      · intro k hk
        cases r with
        | none => cases hk
        | some k1 =>
          simp only [Option.map_some', Option.some.injEq] at hk
          subst hk
          obtain ⟨a1, a2, a3⟩ := hr1 k1 rfl
          refine ⟨by simpa using a1, by simpa [nocase_match_at] using a2, ?_⟩
          intro j hj
          cases j with
          | zero => exact hnot0
          | succ j1 =>
            have := a3 j1 (by omega)
            simpa [nocase_match_at] using this
      · intro hnone k hk
        cases r with
        | some k1 => cases hnone
        | none =>
          cases k with
          | zero => exact hnot0
          | succ k1 =>
            have := hr2 rfl k1 (by simpa using hk)
            simpa [nocase_match_at] using this

/-- C21: for null-terminated strings (characters without `'\0'`, then the terminator, nothing
after it) and a `tolower` that sends no other character to the image of `'\0'`,
`string_in_string_nocase` returns without reading past a terminator; it returns `haystack + k`
with `k` the smallest offset at which the needle matches without regard to case, or null when
no offset matches; an empty needle gives `haystack`, and a non-empty needle in an empty
haystack gives null. -/
theorem string_in_string_nocase_spec (tolower : CChar → CChar)
    (h0 : ∀ c, tolower c = tolower 0 → c = 0) (haystack needle : List CChar)
    (hh : ∀ c ∈ haystack, c ≠ 0) (hn : ∀ c ∈ needle, c ≠ 0) :
    ∃ r, string_in_string_nocase tolower (haystack ++ [0]) (needle ++ [0]) = some r ∧
      (∀ k, r = some k ↔ (k ≤ haystack.length ∧ nocase_match_at tolower haystack needle k ∧
        ∀ j, j < k → ¬ nocase_match_at tolower haystack needle j)) ∧
      (r = none ↔ ∀ k, k ≤ haystack.length → ¬ nocase_match_at tolower haystack needle k) ∧
      (needle = [] → r = some 0) ∧
      (needle ≠ [] → haystack = [] → r = none) := by
  obtain ⟨r, hr, hr1, hr2⟩ := string_in_string_nocase_first tolower h0 needle hn haystack hh
  have hnone : r = none ↔
      ∀ k, k ≤ haystack.length → ¬ nocase_match_at tolower haystack needle k := by
    constructor
    · exact hr2
    · intro hall
      cases r with
      | none => rfl
      | some k =>
        obtain ⟨a1, a2, _⟩ := hr1 k rfl
        exact absurd a2 (hall k a1)
  have hsome : ∀ k, r = some k ↔ (k ≤ haystack.length ∧
      nocase_match_at tolower haystack needle k ∧
      ∀ j, j < k → ¬ nocase_match_at tolower haystack needle j) := by
    intro k
    constructor
    · exact hr1 k
    · rintro ⟨b1, b2, b3⟩
      cases r with
      | none => exact absurd b2 (hr2 rfl k b1)
      | some k1 =>
        obtain ⟨a1, a2, a3⟩ := hr1 k1 rfl
        rcases Nat.lt_trichotomy k1 k with h | h | h
        · exact absurd a2 (b3 k1 h)
        · rw [h]
        · exact absurd b2 (a3 k h)
  refine ⟨r, hr, hsome, hnone, ?_, ?_⟩
  · intro he
    rw [hsome]
    refine ⟨Nat.zero_le _, ?_, fun j hj => absurd hj (Nat.not_lt_zero j)⟩
    rw [he]
    simp [nocase_match_at]
  · intro hne he
    rw [hnone]
    intro k _ hm
    rw [he] at hm
    simp only [nocase_match_at, List.drop_nil, List.map_nil, List.prefix_nil, List.map_eq_nil_iff]
      at hm
    exact hne hm

/-- Witness for C21: the needle `"Cd"` in the haystack `"abCD"` with the `tolower` of the C
locale. -/
theorem string_in_string_nocase_spec_witness :
    (∀ c, c_tolower c = c_tolower 0 → c = 0) ∧
    (∀ c ∈ ([97, 98, 67, 68] : List CChar), c ≠ 0) ∧
    (∀ c ∈ ([67, 100] : List CChar), c ≠ 0) ∧
    string_in_string_nocase c_tolower ([97, 98, 67, 68] ++ [0]) ([67, 100] ++ [0])
      = some (some 2) ∧
    nocase_match_at c_tolower [97, 98, 67, 68] [67, 100] 2 :=
  have h0 : ∀ c, c_tolower c = c_tolower 0 → c = 0 := by
    intro c hc
    have e0 : c_tolower 0 = 0 := by decide
    rw [e0] at hc
    by_cases h1 : 65 ≤ c ∧ c ≤ 90
    · simp [c_tolower, h1] at hc
    · simpa [c_tolower, h1] using hc
  have hh : ∀ c ∈ ([97, 98, 67, 68] : List CChar), c ≠ 0 := by decide
  have hn : ∀ c ∈ ([67, 100] : List CChar), c ≠ 0 := by decide
  match string_in_string_nocase_spec c_tolower h0 [97, 98, 67, 68] [67, 100] hh hn with
  | ⟨r, hr, hsome, _, _, _⟩ =>
    have e : r = some 2 := Option.some.inj (hr.symm.trans (by decide))
    ⟨h0, hh, hn, by decide, ((hsome 2).1 e).2.1⟩

theorem Vector3_set_get_self (v : Vector3) (j : Fin 3) : v.set j (v.get j) = v := by
  fin_cases j <;> rfl

theorem for3_axiswise (f : Fin 3 → ℚ → ℚ) (v : Vector3) (i : Fin 3) :
    (for3 (fun j m => m.set j (f j (m.get j))) v).get i = f i (v.get i) := by
  obtain ⟨x, y, z⟩ := v
  fin_cases i <;> simp [for3, Vector3.get, Vector3.set]

theorem SelectPoint_cycle_loop_found (deselect : (Selectable → Bool) → Selectable → Bool)
    (first : PoolEntry) (isSelected : Selectable → Bool) :
    ∀ (l : List PoolEntry) (k : Nat) (ek : PoolEntry), l[k]? = some ek →
      isSelectedAt isSelected ek.2 = true →
      (∀ j ej, j < k → l[j]? = some ej → isSelectedAt isSelected ej.2 = false) →
      SelectPoint_cycle_loop deselect first isSelected l
        = some (setSelected (deselect isSelected) (l[k + 1]?.getD first).2 true) := by
  intro l
  induction l with
  | nil => intro k ek h; simp at h
  | cons i rest ih =>
    intro k ek hk hsel hfirst
    cases k with
    | zero =>
      simp only [List.getElem?_cons_zero, Option.some.injEq] at hk
      subst hk
      unfold SelectPoint_cycle_loop
      rw [if_pos hsel]
      cases rest <;> simp
    | succ k1 =>
      have hi : isSelectedAt isSelected i.2 = false := hfirst 0 i (Nat.succ_pos _) (by simp)
      unfold SelectPoint_cycle_loop
      rw [if_neg (by simp [hi])]
      simp only [List.getElem?_cons_succ] at hk ⊢
      exact ih k1 ek hk hsel fun j ej hj hej => hfirst (j + 1) ej (by omega) (by simpa using hej)

theorem SelectPoint_cycle_loop_none (deselect : (Selectable → Bool) → Selectable → Bool)
    (first : PoolEntry) (isSelected : Selectable → Bool) :
    ∀ (l : List PoolEntry), (∀ e ∈ l, isSelectedAt isSelected e.2 = false) →
      SelectPoint_cycle_loop deselect first isSelected l = none := by
  intro l
  induction l with
  | nil => intro _; rfl
  | cons i rest ih =>
    intro h
    unfold SelectPoint_cycle_loop
    rw [if_neg (by simp [h i (List.mem_cons_self _ _)])]
    exact ih fun e he => h e (List.mem_cons_of_mem _ he)

theorem SelectPoint_eCycle_eq (inp : SelectPointInput) (face : Bool)
    (isSelected : Selectable → Bool) :
    SelectPoint inp EModifier.eCycle face isSelected =
      match inp.selector.m_pool with
      | [] => deselectComponentsOrAll inp.scene inp.Mode face isSelected
      | first :: rest =>
        match SelectPoint_cycle_loop (deselectComponentsOrAll inp.scene inp.Mode face) first
            isSelected (first :: rest) with
        | some st1 => st1
        | none =>
          setSelected (deselectComponentsOrAll inp.scene inp.Mode face isSelected) first.2
            true := by
  unfold SelectPoint
  simp only [reduceCtorEq, if_false, decide_False, Bool.or_self, Bool.and_false,
    Bool.false_and, Bool.false_eq_true, if_true]

/-- C24 (counterexample): cycling over two faces (selectables 1 and 2, face 1 selected) with
`face` set, while a brush instance (selectable 10) is selected: after the call face 2 is selected
and face 1 is not, but the brush is still selected, so not everything else is deselected. -/
theorem SelectPoint_eCycle_face_keeps_instance :
    SelectPoint
      ⟨⟨[10], [1, 2], []⟩, EMode.ePrimitive, ⟨false, true, false⟩, true, true, 2,
        SelectionPool.fresh, ⟨[(hit 0 0 0, some 1), (hit (1 / 2) 0 0, some 2)], invalid, none⟩⟩
      EModifier.eCycle true (fun x => decide (x = 1 ∨ x = 10)) 2 = true ∧
    SelectPoint
      ⟨⟨[10], [1, 2], []⟩, EMode.ePrimitive, ⟨false, true, false⟩, true, true, 2,
        SelectionPool.fresh, ⟨[(hit 0 0 0, some 1), (hit (1 / 2) 0 0, some 2)], invalid, none⟩⟩
      EModifier.eCycle true (fun x => decide (x = 1 ∨ x = 10)) 1 = false ∧
    SelectPoint
      ⟨⟨[10], [1, 2], []⟩, EMode.ePrimitive, ⟨false, true, false⟩, true, true, 2,
        SelectionPool.fresh, ⟨[(hit 0 0 0, some 1), (hit (1 / 2) 0 0, some 2)], invalid, none⟩⟩
      EModifier.eCycle true (fun x => decide (x = 1 ∨ x = 10)) 10 = true := by
  decide!

/-- C24 (amended): `SelectPoint` with modifier `eCycle`. On a pool of `n > 0` entries, if `k` is
the index of the first entry that is selected, the result is `deselectComponentsOrAll( face )`
followed by selecting entry `(k + 1) mod n`; if no entry is selected, it is
`deselectComponentsOrAll( face )` followed by selecting entry 0; on an empty pool it is
`deselectComponentsOrAll( face )` alone. `deselectComponentsOrAll( face )` deselects every
component and manipulator handle when `face` is set or the mode is `eComponent`, and every
instance and manipulator handle otherwise, and leaves every other flag as it was. -/
theorem SelectPoint_eCycle (inp : SelectPointInput) (face : Bool)
    (isSelected : Selectable → Bool) :
    (∀ (k : Nat) (ek : PoolEntry), inp.selector.m_pool[k]? = some ek →
      isSelectedAt isSelected ek.2 = true →
      (∀ j ej, j < k → inp.selector.m_pool[j]? = some ej →
        isSelectedAt isSelected ej.2 = false) →
      ∃ e, inp.selector.m_pool[(k + 1) % inp.selector.m_pool.length]? = some e ∧
        SelectPoint inp EModifier.eCycle face isSelected =
          setSelected (deselectComponentsOrAll inp.scene inp.Mode face isSelected) e.2 true) ∧
    (∀ e0, inp.selector.m_pool[0]? = some e0 →
      (∀ e ∈ inp.selector.m_pool, isSelectedAt isSelected e.2 = false) →
      SelectPoint inp EModifier.eCycle face isSelected =
        setSelected (deselectComponentsOrAll inp.scene inp.Mode face isSelected) e0.2 true) ∧
    (inp.selector.m_pool = [] →
      SelectPoint inp EModifier.eCycle face isSelected =
        deselectComponentsOrAll inp.scene inp.Mode face isSelected) ∧
    (∀ x, deselectComponentsOrAll inp.scene inp.Mode face isSelected x =
      if x ∈ inp.scene.m_manipulator then false
      else if face = true ∨ inp.Mode = EMode.eComponent then
        (if x ∈ inp.scene.components then false else isSelected x)
      else (if x ∈ inp.scene.instances then false else isSelected x)) := by
  rw [SelectPoint_eCycle_eq]
  refine ⟨?_, ?_, ?_, ?_⟩
  · intro k ek hk hsel hfirst
    cases hp : inp.selector.m_pool with
    | nil => rw [hp] at hk; simp at hk
    | cons first rest =>
      rw [hp] at hk hfirst
      simp only
      rw [SelectPoint_cycle_loop_found _ first isSelected (first :: rest) k ek hk hsel hfirst]
      simp only
      have hklt : k < (first :: rest).length := by
        rcases List.getElem?_eq_some_iff.1 hk with ⟨h, _⟩
        exact h
      by_cases hlast : k + 1 < (first :: rest).length
      · rw [Nat.mod_eq_of_lt hlast]
        refine ⟨(first :: rest)[k + 1], List.getElem?_eq_getElem hlast, ?_⟩
        rw [List.getElem?_eq_getElem hlast]
        rfl
      · have hk1 : k + 1 = (first :: rest).length := by omega
        rw [hk1, Nat.mod_self]
        refine ⟨first, by simp, ?_⟩
        rw [List.getElem?_eq_none (by omega)]
        rfl
  · intro e0 he0 hall
    cases hp : inp.selector.m_pool with
    | nil => rw [hp] at he0; simp at he0
    | cons first rest =>
      rw [hp] at he0 hall
      simp only [List.getElem?_cons_zero, Option.some.injEq] at he0
      subst he0
      simp only
      rw [SelectPoint_cycle_loop_none _ first isSelected (first :: rest) hall]
  · intro hp
    rw [hp]
  · intro x
    unfold deselectComponentsOrAll deselectAll setSelectedAllComponents setSelectedAll
      setSelectedEach
    cases face <;> by_cases hm : inp.Mode = EMode.eComponent <;> simp [hm]

/-! ### DragNewBrush (C25, C27) -/

theorem vector3_snapped_get (v : Vector3) (snap : ℚ) (i : Fin 3) :
    (vector3_snapped v snap).get i = float_snapped (v.get i) snap := by
  fin_cases i <;> rfl

theorem DragNewBrush_diff_snapped_get (grid : ℚ) (g : Globals) (r : Vector3) (i : Fin 3) :
    (DragNewBrush.diff_snapped grid g r).get i =
      if float_snapped (r.get i) g.GetSnapGridSize = 0 then
        (if r.get i < 0 then -grid else grid)
      else float_snapped (r.get i) g.GetSnapGridSize := by
  have hbody : (fun (i : Fin 3) (diff : Vector3) =>
      if diff.get i = 0 then diff.set i (if r.get i < 0 then -grid else grid) else diff)
      = fun j m => m.set j
          ((fun (j : Fin 3) (a : ℚ) =>
            if a = 0 then (if r.get j < 0 then -grid else grid) else a) j (m.get j)) := by
    funext j m
    by_cases h : m.get j = 0
    · simp only [h, if_true]
    · simp only [h, if_false, Vector3_set_get_self]
  unfold DragNewBrush.diff_snapped
  rw [hbody]
  have := for3_axiswise (fun (j : Fin 3) (a : ℚ) =>
            if a = 0 then (if r.get j < 0 then -grid else grid) else a)
            (vector3_snapped r g.GetSnapGridSize) i
  rw [this, vector3_snapped_get]

theorem DragNewBrush_diff_snapped_ne_zero (grid : ℚ) (hg : grid ≠ 0) (g : Globals)
    (r : Vector3) (i : Fin 3) : (DragNewBrush.diff_snapped grid g r).get i ≠ 0 := by
  rw [DragNewBrush_diff_snapped_get]
  split_ifs with h1 h2
  · exact neg_ne_zero.mpr hg
  · exact hg
  · exact h1

theorem DragNewBrush_diff_raw_xy (cm : CMath) (mv : Matrix4) (g : Globals)
    (s t : DragNewBrush) (p : DeviceVector) (h0 : s.m_0 = t.m_0)
    (hz : s.m_setSizeZ = t.m_setSizeZ) :
    (DragNewBrush.diff_raw cm mv g s p).x = (DragNewBrush.diff_raw cm mv g t p).x ∧
    (DragNewBrush.diff_raw cm mv g s p).y = (DragNewBrush.diff_raw cm mv g t p).y := by
  have e : ∀ (a b c : ℚ) (m : Vector3),
      vector3_dot g_vector3_axis_z (vector3_added ⟨a, b, c⟩ m) = c + m.z := by
    intro a b c m
    simp [vector3_dot, g_vector3_axis_z, vector3_added]
  simp only [DragNewBrush.diff_raw, e, h0, hz, and_self]

theorem DragNewBrush_diff_raw_z (cm : CMath) (mv : Matrix4) (g : Globals)
    (s t : DragNewBrush) (p : DeviceVector) (h0 : s.m_0 = t.m_0)
    (hx : s.m_size.x = t.m_size.x) (hy : s.m_size.y = t.m_size.y) :
    (DragNewBrush.diff_raw cm mv g s p).z = (DragNewBrush.diff_raw cm mv g t p).z := by
  have e : ∀ (a b c : ℚ) (m : Vector3),
      vector3_dot (vector3_normalised cm ⟨mv.xz, mv.yz, 0⟩) (vector3_added ⟨a, b, c⟩ m) =
      (vector3_normalised cm ⟨mv.xz, mv.yz, 0⟩).x * (a + m.x) +
      (vector3_normalised cm ⟨mv.xz, mv.yz, 0⟩).y * (b + m.y) := by
    intro a b c m
    simp [vector3_dot, vector3_normalised, vector3_scaled, vector3_added]
  simp only [DragNewBrush.diff_raw, e, h0, hx, hy]
theorem DragNewBrush_diff_snapped_congr (grid : ℚ) (g : Globals) (r r2 : Vector3) (i : Fin 3)
    (h : r.get i = r2.get i) :
    (DragNewBrush.diff_snapped grid g r).get i = (DragNewBrush.diff_snapped grid g r2).get i := by
  rw [DragNewBrush_diff_snapped_get, DragNewBrush_diff_snapped_get, h]

theorem DragNewBrush_diff_tested_alt (cm : CMath) (grid : ℚ) (mv : Matrix4) (g : Globals)
    (s : DragNewBrush) (p : DeviceVector) (ha : g.g_modifiers.alt = true) :
    DragNewBrush.diff_tested cm grid mv g s p =
      ⟨s.m_size.x, s.m_size.y,
        (DragNewBrush.diff_snapped grid g (DragNewBrush.diff_raw cm mv g s p)).get 2⟩ := by
  simp only [DragNewBrush.diff_tested, DragNewBrush.diff_height, ha, if_true, Vector3.get]

theorem DragNewBrush_diff_tested_no_alt (cm : CMath) (grid : ℚ) (mv : Matrix4) (g : Globals)
    (s : DragNewBrush) (p : DeviceVector) (ha : g.g_modifiers.alt = false) :
    DragNewBrush.diff_tested cm grid mv g s p =
      ⟨(DragNewBrush.diff_snapped grid g (DragNewBrush.diff_raw cm mv g s p)).get 0,
        (DragNewBrush.diff_snapped grid g (DragNewBrush.diff_raw cm mv g s p)).get 1,
        s.m_size.z⟩ := by
  simp only [DragNewBrush.diff_tested, DragNewBrush.diff_height, ha, Bool.false_eq_true, if_false,
    Vector3.get]

theorem DragNewBrush_diff_tested_agree (cm : CMath) (grid : ℚ) (mv : Matrix4) (g : Globals)
    (m0 : Vector3) (s t : DragNewBrush) (p : DeviceVector)
    (hs : DragNewBrush.Carried grid g m0 s) (ht : DragNewBrush.Carried grid g m0 t) :
    (DragNewBrush.diff_tested cm grid mv g s p).x = (DragNewBrush.diff_tested cm grid mv g t p).x ∧
    (DragNewBrush.diff_tested cm grid mv g s p).y = (DragNewBrush.diff_tested cm grid mv g t p).y ∧
    (¬ (g.g_modifiers.ctrl = true ∧ g.g_modifiers.alt = false) →
      (DragNewBrush.diff_tested cm grid mv g s p).z
        = (DragNewBrush.diff_tested cm grid mv g t p).z) ∧
    (0 < (DragNewBrush.diff_tested cm grid mv g s p).z ↔
      0 < (DragNewBrush.diff_tested cm grid mv g t p).z) := by
  obtain ⟨hs0, hsa, hsn⟩ := hs
  obtain ⟨ht0, hta, htn⟩ := ht
  have h0 : s.m_0 = t.m_0 := hs0.trans ht0.symm
  cases ha : g.g_modifiers.alt
  · obtain ⟨hsz, hs1, hs2⟩ := hsn ha
    obtain ⟨htz, ht1, ht2⟩ := htn ha
    have hxy := DragNewBrush_diff_raw_xy cm mv g s t p h0 (hsz.trans htz.symm)
    rw [DragNewBrush_diff_tested_no_alt cm grid mv g s p ha,
      DragNewBrush_diff_tested_no_alt cm grid mv g t p ha]
    refine ⟨DragNewBrush_diff_snapped_congr grid g _ _ 0 hxy.1,
      DragNewBrush_diff_snapped_congr grid g _ _ 1 hxy.2, ?_, ?_⟩
    · intro hc
      cases hct : g.g_modifiers.ctrl
      · exact (hs1 hct).trans (ht1 hct).symm
      · exact absurd ⟨hct, rfl⟩ hc
    · cases hct : g.g_modifiers.ctrl
      · show 0 < s.m_size.z ↔ 0 < t.m_size.z
        rw [hs1 hct, ht1 hct]
      · exact (hs2 hct).trans (ht2 hct).symm
  · obtain ⟨hsx, hsy⟩ := hsa ha
    obtain ⟨htx, hty⟩ := hta ha
    have hz := DragNewBrush_diff_raw_z cm mv g s t p h0 (hsx.trans htx.symm) (hsy.trans hty.symm)
    have hz2 := DragNewBrush_diff_snapped_congr grid g _ _ 2 hz
    rw [DragNewBrush_diff_tested_alt cm grid mv g s p ha,
      DragNewBrush_diff_tested_alt cm grid mv g t p ha]
    refine ⟨hsx.trans htx.symm, hsy.trans hty.symm, fun _ => hz2, ?_⟩
    show 0 < _ ↔ 0 < _
    rw [hz2]

theorem DragNewBrush_diff_square_agree (g : Globals) (d e : Vector3)
    (hx : d.x = e.x) (hy : d.y = e.y)
    (hz : ¬ (g.g_modifiers.ctrl = true ∧ g.g_modifiers.alt = false) → d.z = e.z)
    (hp : 0 < d.z ↔ 0 < e.z) :
    DragNewBrush.diff_square g d = DragNewBrush.diff_square g e := by
  obtain ⟨dx, dy, dz⟩ := d
  obtain ⟨ex, ey, ez⟩ := e
  simp only at hx hy hz hp
  subst hx hy
  by_cases hc : g.g_modifiers.ctrl = true ∧ g.g_modifiers.alt = false
  · have hp2 : (dz > 0) = (ez > 0) := propext hp
    simp only [DragNewBrush.diff_square, hc.1, hc.2, Bool.or_true, Bool.not_false, Bool.and_self,
      if_true, hp2]
  · rw [hz hc]
theorem DragNewBrush_diff_square_eq (g : Globals) (d : Vector3) :
    DragNewBrush.diff_square g d =
      if (g.g_modifiers.shift || g.g_modifiers.ctrl) = true then
        ⟨if d.x > 0 then max |d.x| |d.y| else -max |d.x| |d.y|,
         if d.y > 0 then max |d.x| |d.y| else -max |d.x| |d.y|,
         if (g.g_modifiers.ctrl && !g.g_modifiers.alt) = true then
           (if d.z > 0 then max |d.x| |d.y| else -max |d.x| |d.y|)
         else d.z⟩
      else d := by
  unfold DragNewBrush.diff_square
  by_cases h1 : (g.g_modifiers.shift || g.g_modifiers.ctrl) = true
  · by_cases h2 : (g.g_modifiers.ctrl && !g.g_modifiers.alt) = true
    · simp only [h1, h2, if_true]
    · simp only [h1, h2, if_true, if_false, Bool.false_eq_true]
  · simp only [h1, if_false, Bool.false_eq_true]

theorem DragNewBrush_diff_square_ne_zero (g : Globals) (d : Vector3)
    (h : ∀ i : Fin 3, d.get i ≠ 0) (i : Fin 3) : (DragNewBrush.diff_square g d).get i ≠ 0 := by
  have hx : d.x ≠ 0 := h 0
  have hm : 0 < max |d.x| |d.y| := lt_of_lt_of_le (abs_pos.mpr hx) (le_max_left _ _)
  rw [DragNewBrush_diff_square_eq]
  by_cases h1 : (g.g_modifiers.shift || g.g_modifiers.ctrl) = true
  · simp only [h1, if_true]
    fin_cases i
    · show (if d.x > 0 then max |d.x| |d.y| else -max |d.x| |d.y|) ≠ 0
      split_ifs
      · exact ne_of_gt hm
      · exact neg_ne_zero.mpr (ne_of_gt hm)
    · show (if d.y > 0 then max |d.x| |d.y| else -max |d.x| |d.y|) ≠ 0
      split_ifs
      · exact ne_of_gt hm
      · exact neg_ne_zero.mpr (ne_of_gt hm)
    · show (if (g.g_modifiers.ctrl && !g.g_modifiers.alt) = true then
           (if d.z > 0 then max |d.x| |d.y| else -max |d.x| |d.y|) else d.z) ≠ 0
      split_ifs
      · exact ne_of_gt hm
      · exact neg_ne_zero.mpr (ne_of_gt hm)
      · exact h 2
  · simp only [h1, if_false]
    exact h i

theorem DragNewBrush_diff_square_footprint (g : Globals) (d : Vector3) (a : ℚ)
    (hx : d.x = a) (hy : d.y = a) :
    (DragNewBrush.diff_square g d).x = a ∧ (DragNewBrush.diff_square g d).y = a := by
  rw [DragNewBrush_diff_square_eq]
  by_cases h1 : (g.g_modifiers.shift || g.g_modifiers.ctrl) = true
  · simp only [h1, if_true, hx, hy, max_self]
    by_cases ha : a > 0
    · simp only [ha, if_true, abs_of_pos ha, and_self]
    · simp only [ha, if_false, abs_of_nonpos (not_lt.mp ha), neg_neg, and_self]
  · simp only [h1, if_false]
    exact ⟨hx, hy⟩

theorem DragNewBrush_diff_square_z (g : Globals) (d : Vector3) :
    (g.g_modifiers.ctrl = false → (DragNewBrush.diff_square g d).z = d.z) ∧
    (g.g_modifiers.alt = true → (DragNewBrush.diff_square g d).z = d.z) ∧
    ((0 < d.z → d.x ≠ 0) → (0 < (DragNewBrush.diff_square g d).z ↔ 0 < d.z)) := by
  rw [DragNewBrush_diff_square_eq]
  refine ⟨?_, ?_, ?_⟩
  · intro hc
    simp only [hc, Bool.false_and, Bool.false_eq_true, if_false, ite_self]
    split_ifs <;> rfl
  · intro ha
    simp only [ha, Bool.not_true, Bool.and_false, Bool.false_eq_true, if_false, ite_self]
    split_ifs <;> rfl
  · intro hx
    by_cases h1 : (g.g_modifiers.shift || g.g_modifiers.ctrl) = true
    · by_cases h2 : (g.g_modifiers.ctrl && !g.g_modifiers.alt) = true
      · simp only [h1, h2, if_true]
        by_cases hz : d.z > 0
        · have hm : 0 < max |d.x| |d.y| :=
            lt_of_lt_of_le (abs_pos.mpr (hx hz)) (le_max_left _ _)
          simp only [hz, if_true]
          exact ⟨fun _ => trivial, fun _ => hm⟩
        · have hm : 0 ≤ max |d.x| |d.y| := le_trans (abs_nonneg _) (le_max_left _ _)
          simp only [hz, if_false]
          constructor
          · intro h
            linarith
          · intro h
            exact absurd h (by simp)
      · simp only [h1, h2, if_true, if_false, Bool.false_eq_true]
    · simp only [h1, if_false, Bool.false_eq_true]

theorem DragNewBrush_Transform_fst (cm : CMath) (grid : ℚ) (mv : Matrix4) (g : Globals)
    (s : DragNewBrush) (a b : Matrix4) (p : DeviceVector) :
    (DragNewBrush.Transform cm grid mv g s a b p).1 = s ∨
    ((DragNewBrush.Transform cm grid mv g s a b p).1.m_0 = s.m_0 ∧
     (DragNewBrush.Transform cm grid mv g s a b p).1.m_size =
        DragNewBrush.diff_square g (DragNewBrush.diff_tested cm grid mv g s p) ∧
     (DragNewBrush.Transform cm grid mv g s a b p).1.m_setSizeZ =
        if g.g_modifiers.alt = true then
          (DragNewBrush.diff_square g (DragNewBrush.diff_tested cm grid mv g s p)).z
        else s.m_setSizeZ) := by
  unfold DragNewBrush.Transform
  simp only
  split_ifs <;> first | exact Or.inl rfl | exact Or.inr ⟨rfl, rfl, rfl⟩

theorem DragNewBrush_Transform_snd (cm : CMath) (grid : ℚ) (mv : Matrix4) (g : Globals)
    (s : DragNewBrush) (a b : Matrix4) (p : DeviceVector) (box : AABB)
    (h : (DragNewBrush.Transform cm grid mv g s a b p).2 = some box) :
    box = aabb_for_minmax
      (DragNewBrush.minmax s.m_0
        (DragNewBrush.diff_square g (DragNewBrush.diff_tested cm grid mv g s p))).1
      (DragNewBrush.minmax s.m_0
        (DragNewBrush.diff_square g (DragNewBrush.diff_tested cm grid mv g s p))).2 := by
  unfold DragNewBrush.Transform at h
  simp only at h
  split_ifs at h <;> exact (Option.some.inj h).symm

theorem DragNewBrush_Transform_Carried (cm : CMath) (grid : ℚ) (mv : Matrix4) (g : Globals)
    (m0 : Vector3) (s : DragNewBrush) (a b : Matrix4) (p : DeviceVector)
    (hs : DragNewBrush.Carried grid g m0 s) :
    DragNewBrush.Carried grid g m0 (DragNewBrush.Transform cm grid mv g s a b p).1 := by
  rcases DragNewBrush_Transform_fst cm grid mv g s a b p with h | ⟨h0, h1, h2⟩
  · rw [h]
    exact hs
  · obtain ⟨hs0, hsa, hsn⟩ := hs
    refine ⟨h0.trans hs0, ?_, ?_⟩
    · intro ha
      rw [h1]
      apply DragNewBrush_diff_square_footprint
      · rw [DragNewBrush_diff_tested_alt cm grid mv g s p ha]
        exact (hsa ha).1
      · rw [DragNewBrush_diff_tested_alt cm grid mv g s p ha]
        exact (hsa ha).2
    · intro ha
      obtain ⟨hsz, hs1, hs2⟩ := hsn ha
      have hz := DragNewBrush_diff_square_z g (DragNewBrush.diff_tested cm grid mv g s p)
      have ez : (DragNewBrush.diff_tested cm grid mv g s p).z = s.m_size.z := by
        rw [DragNewBrush_diff_tested_no_alt cm grid mv g s p ha]
      refine ⟨?_, ?_, ?_⟩
      · rw [h2]
        simp only [ha, Bool.false_eq_true, if_false]
        exact hsz
      · intro hc
        rw [h1, hz.1 hc, ez]
        exact hs1 hc
      · intro hc
        rw [h1, hz.2.2 ?_, ez]
        · exact hs2 hc
        · intro hpos
          rw [ez] at hpos
          have hg : grid ≠ 0 := ne_of_gt ((hs2 hc).1 hpos)
          rw [DragNewBrush_diff_tested_no_alt cm grid mv g s p ha]
          exact DragNewBrush_diff_snapped_ne_zero grid hg g _ 0

theorem DragNewBrush_membersAfter_Carried (cm : CMath) (grid : ℚ) (mv : Matrix4) (g : Globals)
    (m0 : Vector3) (calls : List TransformCall) (hc : ∀ e ∈ calls, e.globals = g)
    (s : DragNewBrush) (hs : DragNewBrush.Carried grid g m0 s) :
    DragNewBrush.Carried grid g m0
      (membersAfter (DragNewBrush.Transform cm grid mv) s calls) := by
  induction calls generalizing s with
  | nil => exact hs
  | cons c rest ih =>
    show DragNewBrush.Carried grid g m0
      (membersAfter (DragNewBrush.Transform cm grid mv)
        (DragNewBrush.Transform cm grid mv c.globals s c.manip2object c.device2manip
          c.device_point).1 rest)
    apply ih (fun e he => hc e (List.mem_cons_of_mem _ he))
    rw [hc c (List.mem_cons_self _ _)]
    exact DragNewBrush_Transform_Carried cm grid mv g m0 s _ _ _ hs

theorem DragNewBrush_Construct_Carried (grid : ℚ) (g : Globals) (self : DragNewBrush)
    (start : Vector3) :
    DragNewBrush.Carried grid g start
      (DragNewBrush.Construct grid (DragNewBrush.set0 self start)) := by
  refine ⟨rfl, fun _ => ⟨rfl, rfl⟩, fun _ => ⟨rfl, fun _ => rfl, fun _ => Iff.rfl⟩⟩
theorem DragNewBrush_emitted_agree (cm : CMath) (grid : ℚ) (mv : Matrix4) (g : Globals)
    (m0 : Vector3) (s t : DragNewBrush) (a b a2 b2 : Matrix4) (p : DeviceVector)
    (hs : DragNewBrush.Carried grid g m0 s) (ht : DragNewBrush.Carried grid g m0 t) :
    (∀ box1 box2 : AABB, (DragNewBrush.Transform cm grid mv g s a b p).2 = some box1 →
      (DragNewBrush.Transform cm grid mv g t a2 b2 p).2 = some box2 → box1 = box2) ∧
    (¬ (g.g_modifiers.ctrl = true ∧ g.g_modifiers.alt = false) →
      (DragNewBrush.Transform cm grid mv g s a b p).2
        = (DragNewBrush.Transform cm grid mv g t a2 b2 p).2) := by
  obtain ⟨hx, hy, hz, hp⟩ := DragNewBrush_diff_tested_agree cm grid mv g m0 s t p hs ht
  have hsq := DragNewBrush_diff_square_agree g _ _ hx hy hz hp
  have h0 : s.m_0 = t.m_0 := hs.1.trans ht.1.symm
  constructor
  · intro box1 box2 h1 h2
    rw [DragNewBrush_Transform_snd cm grid mv g s a b p box1 h1,
      DragNewBrush_Transform_snd cm grid mv g t a2 b2 p box2 h2, hsq, h0]
  · intro hc
    have hd : DragNewBrush.diff_tested cm grid mv g s p
        = DragNewBrush.diff_tested cm grid mv g t p := by
      have e : ∀ u v : Vector3, u.x = v.x → u.y = v.y → u.z = v.z → u = v := by
        intro u v h1 h2 h3
        cases u
        cases v
        simp only at h1 h2 h3
        rw [h1, h2, h3]
      exact e _ _ hx hy (hz hc)
    unfold DragNewBrush.Transform
    simp only [hd, h0]
    split_ifs <;> rfl

/-- C25 (counterexample): grid size 1, anchor `m_0 = (0,0,0)`, ctrl held without alt (cube
mode); the view matrix is the rotation about the Y axis with cosine 4/5 and sine 3/5 scaled
by 1/8, so the ray through the device point `P = (29/40, 1/2)` meets the plane `z = 1` at
`(8, 4, 1)`. The first `Transform` tests the depth of `(8, 4, 1)`, which is `7/10`, and
passes the cube with origin `(4,4,4)` and extents `(4,4,4)`, leaving `m_size = (8,8,8)`; the
second `Transform` with the same `P` tests the depth of `(8, 4, 8)`, which is `14/10 > 1`,
and returns without passing a cuboid. -/
theorem DragNewBrush_cube_same_point_not_passed :
    emittedAfter
      (DragNewBrush.Transform (CMath.exactSqrt fun _ _ => 0) 1
        ⟨1 / 10, 0, 3 / 40, 0, 0, 1 / 8, 0, 0, -3 / 40, 0, 1 / 10, 0, 0, 0, 0, 1⟩)
      (DragNewBrush.Construct 1 (DragNewBrush.set0 ⟨⟨5, 5, 5⟩, ⟨0, 0, 0⟩, 0⟩ ⟨0, 0, 0⟩))
      []
      ⟨⟨⟨false, true, false⟩, 1, ⟨true, ⟨0, 0, 0⟩, ⟨0, 0, 1⟩,
          ⟨1 / 10, 0, 3 / 40, 0, 0, 1 / 8, 0, 0, -3 / 40, 0, 1 / 10, 0, 0, 0, 0, 1⟩⟩⟩,
        g_matrix4_identity, g_matrix4_identity, ⟨29 / 40, 1 / 2⟩⟩
      = some ⟨⟨4, 4, 4⟩, ⟨4, 4, 4⟩⟩ ∧
    emittedAfter
      (DragNewBrush.Transform (CMath.exactSqrt fun _ _ => 0) 1
        ⟨1 / 10, 0, 3 / 40, 0, 0, 1 / 8, 0, 0, -3 / 40, 0, 1 / 10, 0, 0, 0, 0, 1⟩)
      (DragNewBrush.Construct 1 (DragNewBrush.set0 ⟨⟨5, 5, 5⟩, ⟨0, 0, 0⟩, 0⟩ ⟨0, 0, 0⟩))
      [⟨⟨⟨false, true, false⟩, 1, ⟨true, ⟨0, 0, 0⟩, ⟨0, 0, 1⟩,
          ⟨1 / 10, 0, 3 / 40, 0, 0, 1 / 8, 0, 0, -3 / 40, 0, 1 / 10, 0, 0, 0, 0, 1⟩⟩⟩,
        g_matrix4_identity, g_matrix4_identity, ⟨29 / 40, 1 / 2⟩⟩]
      ⟨⟨⟨false, true, false⟩, 1, ⟨true, ⟨0, 0, 0⟩, ⟨0, 0, 1⟩,
          ⟨1 / 10, 0, 3 / 40, 0, 0, 1 / 8, 0, 0, -3 / 40, 0, 1 / 10, 0, 0, 0, 0, 1⟩⟩⟩,
        g_matrix4_identity, g_matrix4_identity, ⟨29 / 40, 1 / 2⟩⟩
      = none := by
  constructor <;> decide!

/-- C25 (amended): for `DragNewBrush` after `set0` and `Construct`, with the view, the grid
size and the modifier state of the call `c` held during the whole drag: whenever `Transform`
passes a cuboid for the device point of `c`, it is the same cuboid whatever `Transform` calls
were made before; and unless ctrl is held without alt (cube mode), whether a cuboid is passed
does not depend on the earlier calls either. -/
theorem DragNewBrush_Transform_cuboid_history (cm : CMath) (GetGridSize : ℚ)
    (GetModelview : Matrix4) (self : DragNewBrush) (start : Vector3)
    (earlier earlier2 : List TransformCall) (c : TransformCall)
    (h1 : ∀ e ∈ earlier, e.globals = c.globals)
    (h2 : ∀ e ∈ earlier2, e.globals = c.globals) :
    (∀ b1 b2 : AABB,
      emittedAfter (DragNewBrush.Transform cm GetGridSize GetModelview)
        (DragNewBrush.Construct GetGridSize (DragNewBrush.set0 self start)) earlier c = some b1 →
      emittedAfter (DragNewBrush.Transform cm GetGridSize GetModelview)
        (DragNewBrush.Construct GetGridSize (DragNewBrush.set0 self start)) earlier2 c = some b2 →
      b1 = b2) ∧
    (¬ (c.globals.g_modifiers.ctrl = true ∧ c.globals.g_modifiers.alt = false) →
      emittedAfter (DragNewBrush.Transform cm GetGridSize GetModelview)
        (DragNewBrush.Construct GetGridSize (DragNewBrush.set0 self start)) earlier c =
      emittedAfter (DragNewBrush.Transform cm GetGridSize GetModelview)
        (DragNewBrush.Construct GetGridSize (DragNewBrush.set0 self start)) earlier2 c) :=
  DragNewBrush_emitted_agree cm GetGridSize GetModelview c.globals start _ _ _ _ _ _ _
    (DragNewBrush_membersAfter_Carried cm GetGridSize GetModelview c.globals start earlier h1 _
      (DragNewBrush_Construct_Carried GetGridSize c.globals self start))
    (DragNewBrush_membersAfter_Carried cm GetGridSize GetModelview c.globals start earlier2 h2 _
      (DragNewBrush_Construct_Carried GetGridSize c.globals self start))
/-- Witness for C25: grid size 1, anchor `(0,0,0)`, no modifier held, the view of the
counterexample; the call for `P = (29/40, 1/2)` made first and made after a call for
`P = (1/2, 1/4)`. -/
theorem DragNewBrush_Transform_cuboid_history_witness :
    (∀ b1 b2 : AABB,
      emittedAfter
        (DragNewBrush.Transform (CMath.exactSqrt fun _ _ => 0) 1
          ⟨1 / 10, 0, 3 / 40, 0, 0, 1 / 8, 0, 0, -3 / 40, 0, 1 / 10, 0, 0, 0, 0, 1⟩)
        (DragNewBrush.Construct 1 (DragNewBrush.set0 ⟨⟨5, 5, 5⟩, ⟨0, 0, 0⟩, 0⟩ ⟨0, 0, 0⟩))
        []
        ⟨⟨c_modifierNone, 1, ⟨true, ⟨0, 0, 0⟩, ⟨0, 0, 1⟩,
            ⟨1 / 10, 0, 3 / 40, 0, 0, 1 / 8, 0, 0, -3 / 40, 0, 1 / 10, 0, 0, 0, 0, 1⟩⟩⟩,
          g_matrix4_identity, g_matrix4_identity, ⟨29 / 40, 1 / 2⟩⟩ = some b1 →
      emittedAfter
        (DragNewBrush.Transform (CMath.exactSqrt fun _ _ => 0) 1
          ⟨1 / 10, 0, 3 / 40, 0, 0, 1 / 8, 0, 0, -3 / 40, 0, 1 / 10, 0, 0, 0, 0, 1⟩)
        (DragNewBrush.Construct 1 (DragNewBrush.set0 ⟨⟨5, 5, 5⟩, ⟨0, 0, 0⟩, 0⟩ ⟨0, 0, 0⟩))
        [⟨⟨c_modifierNone, 1, ⟨true, ⟨0, 0, 0⟩, ⟨0, 0, 1⟩,
            ⟨1 / 10, 0, 3 / 40, 0, 0, 1 / 8, 0, 0, -3 / 40, 0, 1 / 10, 0, 0, 0, 0, 1⟩⟩⟩,
          g_matrix4_identity, g_matrix4_identity, ⟨1 / 2, 1 / 4⟩⟩]
        ⟨⟨c_modifierNone, 1, ⟨true, ⟨0, 0, 0⟩, ⟨0, 0, 1⟩,
            ⟨1 / 10, 0, 3 / 40, 0, 0, 1 / 8, 0, 0, -3 / 40, 0, 1 / 10, 0, 0, 0, 0, 1⟩⟩⟩,
          g_matrix4_identity, g_matrix4_identity, ⟨29 / 40, 1 / 2⟩⟩ = some b2 →
      b1 = b2) ∧
    (¬ (c_modifierNone.ctrl = true ∧ c_modifierNone.alt = false) →
      emittedAfter
        (DragNewBrush.Transform (CMath.exactSqrt fun _ _ => 0) 1
          ⟨1 / 10, 0, 3 / 40, 0, 0, 1 / 8, 0, 0, -3 / 40, 0, 1 / 10, 0, 0, 0, 0, 1⟩)
        (DragNewBrush.Construct 1 (DragNewBrush.set0 ⟨⟨5, 5, 5⟩, ⟨0, 0, 0⟩, 0⟩ ⟨0, 0, 0⟩))
        []
        ⟨⟨c_modifierNone, 1, ⟨true, ⟨0, 0, 0⟩, ⟨0, 0, 1⟩,
            ⟨1 / 10, 0, 3 / 40, 0, 0, 1 / 8, 0, 0, -3 / 40, 0, 1 / 10, 0, 0, 0, 0, 1⟩⟩⟩,
          g_matrix4_identity, g_matrix4_identity, ⟨29 / 40, 1 / 2⟩⟩ =
      emittedAfter
        (DragNewBrush.Transform (CMath.exactSqrt fun _ _ => 0) 1
          ⟨1 / 10, 0, 3 / 40, 0, 0, 1 / 8, 0, 0, -3 / 40, 0, 1 / 10, 0, 0, 0, 0, 1⟩)
        (DragNewBrush.Construct 1 (DragNewBrush.set0 ⟨⟨5, 5, 5⟩, ⟨0, 0, 0⟩, 0⟩ ⟨0, 0, 0⟩))
        [⟨⟨c_modifierNone, 1, ⟨true, ⟨0, 0, 0⟩, ⟨0, 0, 1⟩,
            ⟨1 / 10, 0, 3 / 40, 0, 0, 1 / 8, 0, 0, -3 / 40, 0, 1 / 10, 0, 0, 0, 0, 1⟩⟩⟩,
          g_matrix4_identity, g_matrix4_identity, ⟨1 / 2, 1 / 4⟩⟩]
        ⟨⟨c_modifierNone, 1, ⟨true, ⟨0, 0, 0⟩, ⟨0, 0, 1⟩,
            ⟨1 / 10, 0, 3 / 40, 0, 0, 1 / 8, 0, 0, -3 / 40, 0, 1 / 10, 0, 0, 0, 0, 1⟩⟩⟩,
          g_matrix4_identity, g_matrix4_identity, ⟨29 / 40, 1 / 2⟩⟩) :=
  DragNewBrush_Transform_cuboid_history (CMath.exactSqrt fun _ _ => 0) 1
    ⟨1 / 10, 0, 3 / 40, 0, 0, 1 / 8, 0, 0, -3 / 40, 0, 1 / 10, 0, 0, 0, 0, 1⟩
    ⟨⟨5, 5, 5⟩, ⟨0, 0, 0⟩, 0⟩ ⟨0, 0, 0⟩ []
    [⟨⟨c_modifierNone, 1, ⟨true, ⟨0, 0, 0⟩, ⟨0, 0, 1⟩,
        ⟨1 / 10, 0, 3 / 40, 0, 0, 1 / 8, 0, 0, -3 / 40, 0, 1 / 10, 0, 0, 0, 0, 1⟩⟩⟩,
      g_matrix4_identity, g_matrix4_identity, ⟨1 / 2, 1 / 4⟩⟩]
    ⟨⟨c_modifierNone, 1, ⟨true, ⟨0, 0, 0⟩, ⟨0, 0, 1⟩,
        ⟨1 / 10, 0, 3 / 40, 0, 0, 1 / 8, 0, 0, -3 / 40, 0, 1 / 10, 0, 0, 0, 0, 1⟩⟩⟩,
      g_matrix4_identity, g_matrix4_identity, ⟨29 / 40, 1 / 2⟩⟩
    (by simp) (by simp)
theorem DragNewBrush_minmax_get (m0 d : Vector3) (i : Fin 3) :
    (DragNewBrush.minmax m0 d).1.get i = min (m0.get i) (m0.get i + d.get i) ∧
    (DragNewBrush.minmax m0 d).2.get i = max (m0.get i) (m0.get i + d.get i) := by
  obtain ⟨mx, my, mz⟩ := m0
  obtain ⟨dx, dy, dz⟩ := d
  simp only [DragNewBrush.minmax, for3, vector3_added]
  by_cases hx : mx > mx + dx <;> by_cases hy : my > my + dy <;> by_cases hz : mz > mz + dz <;>
    fin_cases i <;>
    simp only [Vector3.get, Vector3.set, hx, hy, hz, if_true, if_false] <;>
    first
    | exact ⟨(min_eq_right (le_of_lt (by assumption))).symm,
        (max_eq_left (le_of_lt (by assumption))).symm⟩
    | exact ⟨(min_eq_left (not_lt.mp (by assumption))).symm,
        (max_eq_right (not_lt.mp (by assumption))).symm⟩

theorem DragNewBrush_box_extents (m0 d : Vector3) (i : Fin 3) :
    (aabb_for_minmax (DragNewBrush.minmax m0 d).1 (DragNewBrush.minmax m0 d).2).extents.get i
      = |d.get i| / 2 := by
  have h := DragNewBrush_minmax_get m0 d i
  have e : (aabb_for_minmax (DragNewBrush.minmax m0 d).1
      (DragNewBrush.minmax m0 d).2).extents.get i =
      (DragNewBrush.minmax m0 d).2.get i -
        ((DragNewBrush.minmax m0 d).1.get i + (DragNewBrush.minmax m0 d).2.get i) * (1 / 2) := by
    fin_cases i <;> rfl
  rw [e, h.1, h.2]
  rcases le_total 0 (d.get i) with hd | hd
  · rw [min_eq_left (by linarith), max_eq_right (by linarith), abs_of_nonneg hd]
    ring
  · rw [min_eq_right (by linarith), max_eq_left (by linarith), abs_of_nonpos hd]
    ring

theorem DragNewBrush_diff_tested_ne_zero (cm : CMath) (grid : ℚ) (hg : grid ≠ 0) (mv : Matrix4)
    (g : Globals) (s : DragNewBrush) (p : DeviceVector) (hs : ∀ i : Fin 3, s.m_size.get i ≠ 0)
    (i : Fin 3) : (DragNewBrush.diff_tested cm grid mv g s p).get i ≠ 0 := by
  cases ha : g.g_modifiers.alt
  · rw [DragNewBrush_diff_tested_no_alt cm grid mv g s p ha]
    fin_cases i
    · exact DragNewBrush_diff_snapped_ne_zero grid hg g _ 0
    · exact DragNewBrush_diff_snapped_ne_zero grid hg g _ 1
    · exact hs 2
  · rw [DragNewBrush_diff_tested_alt cm grid mv g s p ha]
    fin_cases i
    · exact hs 0
    · exact hs 1
    · exact DragNewBrush_diff_snapped_ne_zero grid hg g _ 2

theorem DragNewBrush_Transform_ne_zero (cm : CMath) (grid : ℚ) (hg : grid ≠ 0) (mv : Matrix4)
    (g : Globals) (s : DragNewBrush) (a b : Matrix4) (p : DeviceVector)
    (hs : ∀ i : Fin 3, s.m_size.get i ≠ 0) (i : Fin 3) :
    (DragNewBrush.Transform cm grid mv g s a b p).1.m_size.get i ≠ 0 := by
  rcases DragNewBrush_Transform_fst cm grid mv g s a b p with h | ⟨_, h1, _⟩
  · rw [h]
    exact hs i
  · rw [h1]
    exact DragNewBrush_diff_square_ne_zero g _
      (DragNewBrush_diff_tested_ne_zero cm grid hg mv g s p hs) i

theorem DragNewBrush_membersAfter_ne_zero (cm : CMath) (grid : ℚ) (hg : grid ≠ 0) (mv : Matrix4)
    (calls : List TransformCall) (s : DragNewBrush) (hs : ∀ i : Fin 3, s.m_size.get i ≠ 0)
    (i : Fin 3) :
    (membersAfter (DragNewBrush.Transform cm grid mv) s calls).m_size.get i ≠ 0 := by
  induction calls generalizing s with
  | nil => exact hs i
  | cons c rest ih =>
    exact ih _ (DragNewBrush_Transform_ne_zero cm grid hg mv c.globals s _ _ _ hs)

theorem DragNewBrush_Construct_ne_zero (grid : ℚ) (hg : grid ≠ 0) (self : DragNewBrush)
    (i : Fin 3) : (DragNewBrush.Construct grid self).m_size.get i ≠ 0 := by
  fin_cases i <;> exact hg

/-- C27 (amended): for `DragNewBrush` with a non-zero grid size: after `Construct` no component
of `m_size` is zero; a `Transform` call under any modifier state keeps this, so it holds after
every sequence of `Transform` calls; and in exact arithmetic every box passed to
`Scene_BrushResize_Cuboid` has strictly positive extents on the three axes (with `float`
operations the sum `m_0 + diff` can round to `m_0` and the extent be 0). -/
theorem DragNewBrush_m_size_no_zero (cm : CMath) (GetGridSize : ℚ) (GetModelview : Matrix4)
    (hg : GetGridSize ≠ 0) (self : DragNewBrush) (calls : List TransformCall)
    (c : TransformCall) :
    (∀ i : Fin 3, (DragNewBrush.Construct GetGridSize self).m_size.get i ≠ 0) ∧
    (∀ (s : DragNewBrush) (g : Globals) (a b : Matrix4) (p : DeviceVector),
      (∀ i : Fin 3, s.m_size.get i ≠ 0) →
      ∀ i : Fin 3,
        (DragNewBrush.Transform cm GetGridSize GetModelview g s a b p).1.m_size.get i ≠ 0) ∧
    (∀ i : Fin 3,
      (membersAfter (DragNewBrush.Transform cm GetGridSize GetModelview)
        (DragNewBrush.Construct GetGridSize self) calls).m_size.get i ≠ 0) ∧
    (∀ box : AABB,
      emittedAfter (DragNewBrush.Transform cm GetGridSize GetModelview)
        (DragNewBrush.Construct GetGridSize self) calls c = some box →
      ∀ i : Fin 3, 0 < box.extents.get i) := by
  refine ⟨DragNewBrush_Construct_ne_zero GetGridSize hg self,
    fun s g a b p hs => DragNewBrush_Transform_ne_zero cm GetGridSize hg GetModelview g s a b p hs,
    DragNewBrush_membersAfter_ne_zero cm GetGridSize hg GetModelview calls _
      (DragNewBrush_Construct_ne_zero GetGridSize hg self), ?_⟩
  intro box hbox i
  rw [DragNewBrush_Transform_snd cm GetGridSize GetModelview c.globals _ _ _ _ box hbox,
    DragNewBrush_box_extents]
  have hne := DragNewBrush_diff_square_ne_zero c.globals _
    (DragNewBrush_diff_tested_ne_zero cm GetGridSize hg GetModelview c.globals _ c.device_point
      (DragNewBrush_membersAfter_ne_zero cm GetGridSize hg GetModelview calls _
        (DragNewBrush_Construct_ne_zero GetGridSize hg self))) i
  exact div_pos (abs_pos.mpr hne) (by norm_num)
/-- Witness for C27: grid size 1, anchor `(0,0,0)`, ctrl held, the first `Transform` of a
drag for the device point `(29/40, 1/2)`, which passes the cube with origin `(4,4,4)` and
extents `(4,4,4)`. -/
theorem DragNewBrush_m_size_no_zero_witness :
    (∀ i : Fin 3,
      (DragNewBrush.Construct 1 ⟨⟨0, 0, 0⟩, ⟨0, 0, 0⟩, 0⟩).m_size.get i ≠ 0) ∧
    (∀ (s : DragNewBrush) (g : Globals) (a b : Matrix4) (p : DeviceVector),
      (∀ i : Fin 3, s.m_size.get i ≠ 0) →
      ∀ i : Fin 3,
        (DragNewBrush.Transform (CMath.exactSqrt fun _ _ => 0) 1
          ⟨1 / 10, 0, 3 / 40, 0, 0, 1 / 8, 0, 0, -3 / 40, 0, 1 / 10, 0, 0, 0, 0, 1⟩
          g s a b p).1.m_size.get i ≠ 0) ∧
    (∀ i : Fin 3,
      (membersAfter
        (DragNewBrush.Transform (CMath.exactSqrt fun _ _ => 0) 1
          ⟨1 / 10, 0, 3 / 40, 0, 0, 1 / 8, 0, 0, -3 / 40, 0, 1 / 10, 0, 0, 0, 0, 1⟩)
        (DragNewBrush.Construct 1 ⟨⟨0, 0, 0⟩, ⟨0, 0, 0⟩, 0⟩) []).m_size.get i ≠ 0) ∧
    (∀ box : AABB,
      emittedAfter
        (DragNewBrush.Transform (CMath.exactSqrt fun _ _ => 0) 1
          ⟨1 / 10, 0, 3 / 40, 0, 0, 1 / 8, 0, 0, -3 / 40, 0, 1 / 10, 0, 0, 0, 0, 1⟩)
        (DragNewBrush.Construct 1 ⟨⟨0, 0, 0⟩, ⟨0, 0, 0⟩, 0⟩) []
        ⟨⟨⟨false, true, false⟩, 1, ⟨true, ⟨0, 0, 0⟩, ⟨0, 0, 1⟩,
            ⟨1 / 10, 0, 3 / 40, 0, 0, 1 / 8, 0, 0, -3 / 40, 0, 1 / 10, 0, 0, 0, 0, 1⟩⟩⟩,
          g_matrix4_identity, g_matrix4_identity, ⟨29 / 40, 1 / 2⟩⟩ = some box →
      ∀ i : Fin 3, 0 < box.extents.get i) :=
  DragNewBrush_m_size_no_zero (CMath.exactSqrt fun _ _ => 0) 1
    ⟨1 / 10, 0, 3 / 40, 0, 0, 1 / 8, 0, 0, -3 / 40, 0, 1 / 10, 0, 0, 0, 0, 1⟩
    (by decide) ⟨⟨0, 0, 0⟩, ⟨0, 0, 0⟩, 0⟩ []
    ⟨⟨⟨false, true, false⟩, 1, ⟨true, ⟨0, 0, 0⟩, ⟨0, 0, 1⟩,
        ⟨1 / 10, 0, 3 / 40, 0, 0, 1 / 8, 0, 0, -3 / 40, 0, 1 / 10, 0, 0, 0, 0, 1⟩⟩⟩,
      g_matrix4_identity, g_matrix4_identity, ⟨29 / 40, 1 / 2⟩⟩

/-! ### aabb_extend_by_aabb (C26) -/

theorem AABBExtend_apply_axis (Index : Fin 3) (aabb other : AABB) :
    ∃ o e : ℚ,
      AABBExtend.apply Index aabb other
        = ⟨aabb.origin.set Index o, aabb.extents.set Index e⟩ ∧
      o - e = min (aabb.origin.get Index - aabb.extents.get Index)
        (other.origin.get Index - other.extents.get Index) ∧
      o + e = max (aabb.origin.get Index + aabb.extents.get Index)
        (other.origin.get Index + other.extents.get Index) := by
  unfold AABBExtend.apply
  simp only
  by_cases h1 : |other.origin.get Index - aabb.origin.get Index|
      > |other.extents.get Index - aabb.extents.get Index|
  · have hpos : (1 / 2 : ℚ) * (|other.origin.get Index - aabb.origin.get Index|
        + (other.extents.get Index - aabb.extents.get Index)) > 0 := by
      have := neg_abs_le (other.extents.get Index - aabb.extents.get Index)
      linarith
    simp only [h1, hpos, if_true]
    refine ⟨_, _, rfl, ?_, ?_⟩
    · by_cases h2 : other.origin.get Index - aabb.origin.get Index ≥ 0
      · simp only [h2, if_true]
        rw [abs_of_nonneg h2] at h1 ⊢
        have := le_abs_self (other.extents.get Index - aabb.extents.get Index)
        rw [min_eq_left (by linarith)]
        ring
      · simp only [h2, if_false]
        rw [abs_of_neg (not_le.mp h2)] at h1 ⊢
        have := neg_abs_le (other.extents.get Index - aabb.extents.get Index)
        rw [min_eq_right (by linarith)]
        ring
    · by_cases h2 : other.origin.get Index - aabb.origin.get Index ≥ 0
      · simp only [h2, if_true]
        rw [abs_of_nonneg h2] at h1 ⊢
        have := neg_abs_le (other.extents.get Index - aabb.extents.get Index)
        rw [max_eq_right (by linarith)]
        ring
      · simp only [h2, if_false]
        rw [abs_of_neg (not_le.mp h2)] at h1 ⊢
        have := le_abs_self (other.extents.get Index - aabb.extents.get Index)
        rw [max_eq_left (by linarith)]
        ring
  · simp only [h1, if_false]
    have h1b := not_lt.mp h1
    have ha := abs_le.mp (le_trans h1b (le_refl _))
    by_cases h3 : other.extents.get Index - aabb.extents.get Index > 0
    · simp only [h3, if_true]
      rw [abs_of_pos h3] at ha
      refine ⟨_, _, rfl, ?_, ?_⟩
      · rw [min_eq_right (by linarith [ha.2])]
      · rw [max_eq_right (by linarith [ha.1])]
    · simp only [h3, if_false]
      rw [abs_of_nonpos (not_lt.mp h3)] at ha
      refine ⟨aabb.origin.get Index, aabb.extents.get Index, ?_, ?_, ?_⟩
      · rw [Vector3_set_get_self, Vector3_set_get_self]
      · rw [min_eq_left (by linarith [ha.1])]
      · rw [max_eq_left (by linarith [ha.2])]

theorem aabb_extend_by_aabb_minmax (aabb other : AABB) (i : Fin 3) :
    (aabb_extend_by_aabb aabb other).origin.get i - (aabb_extend_by_aabb aabb other).extents.get i
      = min (aabb.origin.get i - aabb.extents.get i) (other.origin.get i - other.extents.get i) ∧
    (aabb_extend_by_aabb aabb other).origin.get i + (aabb_extend_by_aabb aabb other).extents.get i
      = max (aabb.origin.get i + aabb.extents.get i)
          (other.origin.get i + other.extents.get i) := by
  unfold aabb_extend_by_aabb
  obtain ⟨o0, e0, h0, m0, M0⟩ := AABBExtend_apply_axis 0 aabb other
  rw [h0]
  obtain ⟨o1, e1, h1, m1, M1⟩ :=
    AABBExtend_apply_axis 1 ⟨aabb.origin.set 0 o0, aabb.extents.set 0 e0⟩ other
  rw [h1]
  obtain ⟨o2, e2, h2, m2, M2⟩ :=
    AABBExtend_apply_axis 2
      ⟨(aabb.origin.set 0 o0).set 1 o1, (aabb.extents.set 0 e0).set 1 e1⟩ other
  rw [h2]
  obtain ⟨⟨ax, ay, az⟩, ⟨bx, b_y, bz⟩⟩ := aabb
  simp only [Vector3.get, Vector3.set] at m0 M0 m1 M1 m2 M2 ⊢
  fin_cases i
  · exact ⟨m0, M0⟩
  · exact ⟨m1, M1⟩
  · exact ⟨m2, M2⟩

theorem AABB_eq_of_minmax (a b : AABB)
    (h : ∀ i : Fin 3, a.origin.get i - a.extents.get i = b.origin.get i - b.extents.get i ∧
      a.origin.get i + a.extents.get i = b.origin.get i + b.extents.get i) : a = b := by
  obtain ⟨⟨ax, ay, az⟩, ⟨ex, ey, ez⟩⟩ := a
  obtain ⟨⟨bx, b_y, bz⟩, ⟨fx, fy, fz⟩⟩ := b
  have hx := h 0
  have hy := h 1
  have hz := h 2
  simp only [Vector3.get] at hx hy hz
  have e1 : ax = bx := by linarith [hx.1, hx.2]
  have e2 : ay = b_y := by linarith [hy.1, hy.2]
  have e3 : az = bz := by linarith [hz.1, hz.2]
  have e4 : ex = fx := by linarith [hx.1, hx.2]
  have e5 : ey = fy := by linarith [hy.1, hy.2]
  have e6 : ez = fz := by linarith [hz.1, hz.2]
  rw [e1, e2, e3, e4, e5, e6]

/-- C26: for all boxes `a` and `b` (exact arithmetic; in particular for those with
non-negative extents), `aabb_extend_by_aabb( a, b )` makes `a` the bounding box of the union:
on every axis the new `origin - extents` is the smaller of the two `origin - extents` and the
new `origin + extents` the larger of the two `origin + extents`; extending a box by itself
changes nothing, and extending `a` by `b` gives the same box as extending `b` by `a`. -/
theorem aabb_extend_by_aabb_union (a b : AABB) :
    (∀ i : Fin 3,
      (aabb_extend_by_aabb a b).origin.get i - (aabb_extend_by_aabb a b).extents.get i
        = min (a.origin.get i - a.extents.get i) (b.origin.get i - b.extents.get i) ∧
      (aabb_extend_by_aabb a b).origin.get i + (aabb_extend_by_aabb a b).extents.get i
        = max (a.origin.get i + a.extents.get i) (b.origin.get i + b.extents.get i)) ∧
    aabb_extend_by_aabb a a = a ∧
    aabb_extend_by_aabb a b = aabb_extend_by_aabb b a := by
  refine ⟨aabb_extend_by_aabb_minmax a b, ?_, ?_⟩
  · apply AABB_eq_of_minmax
    intro i
    have h := aabb_extend_by_aabb_minmax a a i
    rw [min_self, max_self] at h
    exact h
  · apply AABB_eq_of_minmax
    intro i
    have h1 := aabb_extend_by_aabb_minmax a b i
    have h2 := aabb_extend_by_aabb_minmax b a i
    rw [h1.1, h1.2, h2.1, h2.2]
    exact ⟨min_comm _ _, max_comm _ _⟩

/-! ### point_test_polygon_2d on degenerate triangles (C28) -/

theorem isolated_vertex_signs_degenerate (a b c o1 o2 o3 : ℚ)
    (hrel : c * o1 + a * o2 + b * o3 = 0) (hs : o1 + o2 + o3 = 0) :
    (0 < a → b ≤ 0 → c ≤ 0 → (0 < o3 ↔ o1 < 0)) ∧
    (a ≤ 0 → 0 < b → 0 < c → (o3 < 0 ↔ 0 < o1)) := by
  have key : (c - a) * o1 + (b - a) * o3 = 0 := by linear_combination hrel - a * hs
  constructor
  · intro ha hb hc
    have h1 : c - a < 0 := by linarith
    have h2 : b - a < 0 := by linarith
    constructor
    · intro h3
      by_contra hn
      have t1 := mul_nonpos_of_nonpos_of_nonneg (le_of_lt h1) (not_lt.mp hn)
      have t2 := mul_neg_of_neg_of_pos h2 h3
      linarith
    · intro h3
      by_contra hn
      have t1 := mul_pos_of_neg_of_neg h1 h3
      have t2 := mul_nonneg_of_nonpos_of_nonpos (le_of_lt h2) (not_lt.mp hn)
      linarith
  · intro ha hb hc
    have h1 : 0 < c - a := by linarith
    have h2 : 0 < b - a := by linarith
    constructor
    · intro h3
      by_contra hn
      have t1 := mul_nonpos_of_nonneg_of_nonpos (le_of_lt h1) (not_lt.mp hn)
      have t2 := mul_neg_of_pos_of_neg h2 h3
      linarith
    · intro h3
      by_contra hn
      have t1 := mul_pos h1 h3
      have t2 := mul_nonneg (le_of_lt h2) (not_lt.mp hn)
      linarith

theorem crossing_parity_degenerate (py y1 y2 y3 o1 o2 o3 : ℚ)
    (hrel : (y3 - py) * o1 + (y1 - py) * o2 + (y2 - py) * o3 = 0)
    (hs : o1 + o2 + o3 = 0) :
    ((if (¬ py < y3 ∧ py < y1 ∧ 0 < o3) ∨ (¬ py < y1 ∧ py < y3 ∧ o3 < 0) then 1 else 0) +
     ((if (¬ py < y1 ∧ py < y2 ∧ 0 < o1) ∨ (¬ py < y2 ∧ py < y1 ∧ o1 < 0) then 1 else 0) +
      ((if (¬ py < y2 ∧ py < y3 ∧ 0 < o2) ∨ (¬ py < y3 ∧ py < y2 ∧ o2 < 0) then 1 else 0) + 0)))
      % 2 = 0 := by
  have hA := isolated_vertex_signs_degenerate (y1 - py) (y2 - py) (y3 - py) o1 o2 o3 hrel hs
  have hB := isolated_vertex_signs_degenerate (y2 - py) (y3 - py) (y1 - py) o2 o3 o1
    (by linarith) (by linarith)
  have hC := isolated_vertex_signs_degenerate (y3 - py) (y1 - py) (y2 - py) o3 o1 o2
    (by linarith) (by linarith)
  by_cases pa : py < y1 <;> by_cases pb : py < y2 <;> by_cases pc : py < y3
  · simp [pa, pb, pc]
  · have k := hC.2 (by linarith [not_lt.1 pc]) (sub_pos.2 pa) (sub_pos.2 pb)
    by_cases q3 : 0 < o3 <;> by_cases q2 : o2 < 0 <;> simp [pa, pb, pc, q3, q2] <;> tauto
  · have k := hB.2 (by linarith [not_lt.1 pb]) (sub_pos.2 pc) (sub_pos.2 pa)
    by_cases q1 : o1 < 0 <;> by_cases q2 : 0 < o2 <;> simp [pa, pb, pc, q1, q2] <;> tauto
  · have k := hA.1 (sub_pos.2 pa) (by linarith [not_lt.1 pb]) (by linarith [not_lt.1 pc])
    by_cases q3 : 0 < o3 <;> by_cases q1 : o1 < 0 <;> simp [pa, pb, pc, q3, q1] <;> tauto
  · have k := hA.2 (by linarith [not_lt.1 pa]) (sub_pos.2 pb) (sub_pos.2 pc)
    by_cases q3 : o3 < 0 <;> by_cases q1 : 0 < o1 <;> simp [pa, pb, pc, q3, q1] <;> tauto
  · have k := hB.1 (sub_pos.2 pb) (by linarith [not_lt.1 pc]) (by linarith [not_lt.1 pa])
    by_cases q1 : 0 < o1 <;> by_cases q2 : o2 < 0 <;> simp [pa, pb, pc, q1, q2] <;> tauto
  · have k := hC.1 (sub_pos.2 pc) (by linarith [not_lt.1 pa]) (by linarith [not_lt.1 pb])
    by_cases q2 : 0 < o2 <;> by_cases q3 : o3 < 0 <;> simp [pa, pb, pc, q2, q3] <;> tauto
  · simp [pa, pb, pc]

theorem triangle_degenerate_test (P A B C : Vector3) (harea : triangle_signed_area_XY A B C = 0) :
    point_test_polygon_2d P [A, B, C] = false := by
  rw [point_test_polygon_2d_three, edge_crossing_eq, edge_crossing_eq, edge_crossing_eq]
  have hS : ((B.x - A.x) * (P.y - A.y) - (B.y - A.y) * (P.x - A.x))
      + ((C.x - B.x) * (P.y - B.y) - (C.y - B.y) * (P.x - B.x))
      + ((A.x - C.x) * (P.y - C.y) - (A.y - C.y) * (P.x - C.x))
      = triangle_signed_area_XY A B C := by
    unfold triangle_signed_area_XY; ring
  have key := crossing_parity_degenerate P.y A.y B.y C.y
    ((B.x - A.x) * (P.y - A.y) - (B.y - A.y) * (P.x - A.x))
    ((C.x - B.x) * (P.y - B.y) - (C.y - B.y) * (P.x - B.x))
    ((A.x - C.x) * (P.y - C.y) - (A.y - C.y) * (P.x - C.x))
    (by ring) (by rw [hS, harea])
  rw [key]
  decide

theorem plane3_for_points_c (cm : CMath) (p0 p1 p2 : Vector3) :
    (plane3_for_points cm p0 p1 p2).c =
      triangle_signed_area_XY p0 p1 p2 *
        (1 / vector3_length cm
          (vector3_cross (vector3_subtracted p1 p0) (vector3_subtracted p2 p0))) := by
  simp only [plane3_for_points, Plane3.ofNormalDist, vector3_normalised, vector3_scaled,
    triangle_signed_area_XY, vector3_cross, vector3_subtracted]
  rw [mul_comm (p1.y - p0.y) (p2.x - p0.x)]

/-- C28: for every three points `p0 p1 p2` and every point `P` (exact arithmetic), if
`point_test_polygon_2d( P, [p0, p1, p2] )` returns true then
`triangle_signed_area_XY( p0, p1, p2 )` is not 0; so, when the normal
`(p1 - p0) x (p2 - p0)` has a non-zero length, the plane `BestPoint` derives from the three
vertices has `c != 0`, and the depth along the +Z view ray in the origin-inside branch is
computed with a non-zero denominator. -/
theorem point_test_polygon_2d_area_ne_zero (P p0 p1 p2 : Vector3)
    (h : point_test_polygon_2d P [p0, p1, p2] = true) :
    triangle_signed_area_XY p0 p1 p2 ≠ 0 ∧
    ∀ cm : CMath,
      vector3_length cm
        (vector3_cross (vector3_subtracted p1 p0) (vector3_subtracted p2 p0)) ≠ 0 →
      (BestPoint_plane cm none [p0, p1, p2]).c ≠ 0 ∧
      ∃ t, ray_distance_to_plane ⟨⟨0, 0, 0⟩, ⟨0, 0, 1⟩⟩ (BestPoint_plane cm none [p0, p1, p2])
        = some t := by
  have harea : triangle_signed_area_XY p0 p1 p2 ≠ 0 := by
    intro h0
    rw [triangle_degenerate_test P p0 p1 p2 h0] at h
    exact absurd h (by decide)
  refine ⟨harea, fun cm hlen => ?_⟩
  have hc : (BestPoint_plane cm none [p0, p1, p2]).c ≠ 0 := by
    show (plane3_for_points cm p0 p1 p2).c ≠ 0
    rw [plane3_for_points_c]
    exact mul_ne_zero harea (one_div_ne_zero hlen)
  obtain ⟨t, ht, _⟩ := ray_distance_to_plane_z 0 0 _ hc
  exact ⟨hc, t, ht⟩

/-- Witness for C28: the origin and the triangle `(-1,-1,0) (1,-1,0) (0,1,0)`, of signed
area 4. -/
theorem point_test_polygon_2d_area_ne_zero_witness :
    triangle_signed_area_XY ⟨-1, -1, 0⟩ ⟨1, -1, 0⟩ ⟨0, 1, 0⟩ ≠ 0 ∧
    ∀ cm : CMath,
      vector3_length cm
        (vector3_cross (vector3_subtracted ⟨1, -1, 0⟩ ⟨-1, -1, 0⟩)
          (vector3_subtracted ⟨0, 1, 0⟩ ⟨-1, -1, 0⟩)) ≠ 0 →
      (BestPoint_plane cm none [⟨-1, -1, 0⟩, ⟨1, -1, 0⟩, ⟨0, 1, 0⟩]).c ≠ 0 ∧
      ∃ t, ray_distance_to_plane ⟨⟨0, 0, 0⟩, ⟨0, 0, 1⟩⟩
        (BestPoint_plane cm none [⟨-1, -1, 0⟩, ⟨1, -1, 0⟩, ⟨0, 1, 0⟩]) = some t :=
  point_test_polygon_2d_area_ne_zero ⟨0, 0, 0⟩ ⟨-1, -1, 0⟩ ⟨1, -1, 0⟩ ⟨0, 1, 0⟩ (by decide!)

/-! ### TransformOriginTranslate (C29) -/

theorem TransformOriginTranslate_snap_eq (x y z : ℚ) :
    TransformOriginTranslate.Transform_snap ⟨x, y, z⟩ =
      if |x| ≥ |y| then
        (if |z| ≥ |x| then (⟨0, 0, z⟩ : Vector3) else ⟨x, 0, 0⟩)
      else if |y| ≥ |z| then ⟨0, y, 0⟩ else ⟨0, 0, z⟩ := by
  have e0 : ((0 : Fin 3) + 1) = 1 := rfl
  have e1 : ((1 : Fin 3) + 1) = 2 := rfl
  have e2 : ((2 : Fin 3) + 1) = 0 := rfl
  simp only [TransformOriginTranslate.Transform_snap, for3, e0, e1, e2]
  by_cases h1 : |x| ≥ |y|
  · simp only [Vector3.get, Vector3.set, h1, if_true, abs_zero]
    by_cases hz : z = 0
    · subst hz
      simp only [abs_zero, ge_iff_le, le_refl, if_true]
    · have hz2 : ¬ (0 ≥ |z|) := by
        intro h
        exact hz (abs_eq_zero.mp (le_antisymm h (abs_nonneg z)))
      simp only [hz2, if_false]
  · simp only [Vector3.get, Vector3.set, h1, if_false]
    by_cases h2 : |y| ≥ |z|
    · simp only [h2, if_true, abs_zero, ge_iff_le, le_refl]
    · simp only [h2, if_false, abs_zero, ge_iff_le, abs_nonneg, if_true]

theorem TransformOriginTranslate_snap_axis (c : Vector3) :
    ∃ k : Fin 3,
      (∀ i : Fin 3, i ≠ k → (TransformOriginTranslate.Transform_snap c).get i = 0) ∧
      (TransformOriginTranslate.Transform_snap c).get k = c.get k ∧
      |c.get k| = max (max |c.x| |c.y|) |c.z| := by
  obtain ⟨x, y, z⟩ := c
  rw [TransformOriginTranslate_snap_eq]
  by_cases h1 : |x| ≥ |y|
  · by_cases h2 : |z| ≥ |x|
    · simp only [h1, h2, if_true]
      refine ⟨2, ?_, rfl, ?_⟩
      · intro i hi
        fin_cases i
        · rfl
        · rfl
        · exact absurd rfl hi
      · show |z| = max (max |x| |y|) |z|
        rw [max_eq_left h1, max_eq_right h2]
    · simp only [h1, h2, if_true, if_false]
      refine ⟨0, ?_, rfl, ?_⟩
      · intro i hi
        fin_cases i
        · exact absurd rfl hi
        · rfl
        · rfl
      · show |x| = max (max |x| |y|) |z|
        rw [max_eq_left h1, max_eq_left (le_of_lt (not_le.mp h2))]
  · by_cases h2 : |y| ≥ |z|
    · simp only [h1, h2, if_true, if_false]
      refine ⟨1, ?_, rfl, ?_⟩
      · intro i hi
        fin_cases i
        · rfl
        · exact absurd rfl hi
        · rfl
      · show |y| = max (max |x| |y|) |z|
        rw [max_eq_right (le_of_lt (not_le.mp h1)), max_eq_left h2]
    · simp only [h1, h2, if_false]
      refine ⟨2, ?_, rfl, ?_⟩
      · intro i hi
        fin_cases i
        · rfl
        · rfl
        · exact absurd rfl hi
      · show |z| = max (max |x| |y|) |z|
        rw [max_eq_right (le_of_lt (not_le.mp h1)), max_eq_right (le_of_lt (not_le.mp h2))]

theorem TransformOriginTranslate_set_get (current : Vector3) (i : Fin 3) :
    TransformOriginTranslate.Transform_set current i = !decide (|current.get i| < 1 / 1000) := by
  unfold TransformOriginTranslate.Transform_set for3
  generalize (1 / 1000 : ℚ) = t
  by_cases h0 : |current.get 0| < t <;> by_cases h1 : |current.get 1| < t <;>
    by_cases h2 : |current.get 2| < t <;> fin_cases i <;>
    simp [h0, h1, h2, Function.update]

/-- C29: in `TransformOriginTranslate::Transform` with shift held (exact arithmetic, `1e-3f`
taken as 1/1000): for every drag delta `c`, after the axis snap loop there is an axis `k`
such that every other component is 0, component `k` is the one of `c`, and `|c[k]|` is
`max(|c0|, |c1|, |c2|)`; the call passes `translation_local2object` of the snapped delta and
the array `set` computed from it, and at most one entry of that array is true. -/
theorem TransformOriginTranslate_shift_single_axis (g : Globals)
    (self : TransformOriginTranslate) (manip2object device2manip : Matrix4)
    (device_point : DeviceVector) (hshift : g.g_modifiers.shift = true) :
    (∀ c : Vector3, ∃ k : Fin 3,
      (∀ i : Fin 3, i ≠ k → (TransformOriginTranslate.Transform_snap c).get i = 0) ∧
      (TransformOriginTranslate.Transform_snap c).get k = c.get k ∧
      |c.get k| = max (max |c.x| |c.y|) |c.z|) ∧
    (TransformOriginTranslate.Transform g self manip2object device2manip device_point).2 =
      (translation_local2object
        (TransformOriginTranslate.Transform_snap
          (vector3_subtracted (point_on_plane device2manip device_point) self.m_start))
        manip2object,
       TransformOriginTranslate.Transform_set
        (TransformOriginTranslate.Transform_snap
          (vector3_subtracted (point_on_plane device2manip device_point) self.m_start))) ∧
    (∀ i j : Fin 3,
      (TransformOriginTranslate.Transform g self manip2object device2manip device_point).2.2 i
        = true →
      (TransformOriginTranslate.Transform g self manip2object device2manip device_point).2.2 j
        = true → i = j) := by
  have hT : (TransformOriginTranslate.Transform g self manip2object device2manip
      device_point).2 =
      (translation_local2object
        (TransformOriginTranslate.Transform_snap
          (vector3_subtracted (point_on_plane device2manip device_point) self.m_start))
        manip2object,
       TransformOriginTranslate.Transform_set
        (TransformOriginTranslate.Transform_snap
          (vector3_subtracted (point_on_plane device2manip device_point) self.m_start))) := by
    simp only [TransformOriginTranslate.Transform, hshift, if_true]
  refine ⟨TransformOriginTranslate_snap_axis, hT, ?_⟩
  intro i j hi hj
  rw [hT] at hi hj
  simp only [TransformOriginTranslate_set_get] at hi hj
  obtain ⟨k, hk, -, -⟩ := TransformOriginTranslate_snap_axis
    (vector3_subtracted (point_on_plane device2manip device_point) self.m_start)
  have key : ∀ m : Fin 3,
      (!decide (|(TransformOriginTranslate.Transform_snap
        (vector3_subtracted (point_on_plane device2manip device_point) self.m_start)).get m|
          < 1 / 1000)) = true → m = k := by
    intro m hm
    by_contra hne
    rw [hk m hne] at hm
    have h0 : |(0 : ℚ)| < 1 / 1000 := by norm_num
    rw [decide_eq_true h0] at hm
    exact absurd hm (by decide)
  rw [key i hi, key j hj]

/-- Witness for C29: shift held, identity matrices, drag from the device point `(0, 0)` to
`(3, -4)`. -/
theorem TransformOriginTranslate_shift_single_axis_witness :
    (∀ c : Vector3, ∃ k : Fin 3,
      (∀ i : Fin 3, i ≠ k → (TransformOriginTranslate.Transform_snap c).get i = 0) ∧
      (TransformOriginTranslate.Transform_snap c).get k = c.get k ∧
      |c.get k| = max (max |c.x| |c.y|) |c.z|) ∧
    (TransformOriginTranslate.Transform ⟨⟨true, false, false⟩, 1, ⟨true, ⟨0, 0, 0⟩, ⟨0, 0, 1⟩,
          g_matrix4_identity⟩⟩
        (TransformOriginTranslate.Construct ⟨⟨0, 0, 0⟩⟩ g_matrix4_identity ⟨0, 0⟩
          ⟨⟨0, 0, 0⟩, ⟨1, 1, 1⟩⟩ ⟨0, 0, 0⟩)
        g_matrix4_identity g_matrix4_identity ⟨3, -4⟩).2 =
      (translation_local2object
        (TransformOriginTranslate.Transform_snap
          (vector3_subtracted (point_on_plane g_matrix4_identity ⟨3, -4⟩)
            (TransformOriginTranslate.Construct ⟨⟨0, 0, 0⟩⟩ g_matrix4_identity ⟨0, 0⟩
              ⟨⟨0, 0, 0⟩, ⟨1, 1, 1⟩⟩ ⟨0, 0, 0⟩).m_start))
        g_matrix4_identity,
       TransformOriginTranslate.Transform_set
        (TransformOriginTranslate.Transform_snap
          (vector3_subtracted (point_on_plane g_matrix4_identity ⟨3, -4⟩)
            (TransformOriginTranslate.Construct ⟨⟨0, 0, 0⟩⟩ g_matrix4_identity ⟨0, 0⟩
              ⟨⟨0, 0, 0⟩, ⟨1, 1, 1⟩⟩ ⟨0, 0, 0⟩).m_start))) ∧
    (∀ i j : Fin 3,
      (TransformOriginTranslate.Transform ⟨⟨true, false, false⟩, 1, ⟨true, ⟨0, 0, 0⟩, ⟨0, 0, 1⟩,
          g_matrix4_identity⟩⟩
        (TransformOriginTranslate.Construct ⟨⟨0, 0, 0⟩⟩ g_matrix4_identity ⟨0, 0⟩
          ⟨⟨0, 0, 0⟩, ⟨1, 1, 1⟩⟩ ⟨0, 0, 0⟩)
        g_matrix4_identity g_matrix4_identity ⟨3, -4⟩).2.2 i = true →
      (TransformOriginTranslate.Transform ⟨⟨true, false, false⟩, 1, ⟨true, ⟨0, 0, 0⟩, ⟨0, 0, 1⟩,
          g_matrix4_identity⟩⟩
        (TransformOriginTranslate.Construct ⟨⟨0, 0, 0⟩⟩ g_matrix4_identity ⟨0, 0⟩
          ⟨⟨0, 0, 0⟩, ⟨1, 1, 1⟩⟩ ⟨0, 0, 0⟩)
        g_matrix4_identity g_matrix4_identity ⟨3, -4⟩).2.2 j = true → i = j) :=
  TransformOriginTranslate_shift_single_axis
    ⟨⟨true, false, false⟩, 1, ⟨true, ⟨0, 0, 0⟩, ⟨0, 0, 1⟩, g_matrix4_identity⟩⟩
    (TransformOriginTranslate.Construct ⟨⟨0, 0, 0⟩⟩ g_matrix4_identity ⟨0, 0⟩
      ⟨⟨0, 0, 0⟩, ⟨1, 1, 1⟩⟩ ⟨0, 0, 0⟩)
    g_matrix4_identity g_matrix4_identity ⟨3, -4⟩ rfl

theorem TransformOriginTranslate_shift_example :
    (TransformOriginTranslate.Transform ⟨⟨true, false, false⟩, 1, ⟨true, ⟨0, 0, 0⟩, ⟨0, 0, 1⟩,
          g_matrix4_identity⟩⟩
        (TransformOriginTranslate.Construct ⟨⟨0, 0, 0⟩⟩ g_matrix4_identity ⟨0, 0⟩
          ⟨⟨0, 0, 0⟩, ⟨1, 1, 1⟩⟩ ⟨0, 0, 0⟩)
        g_matrix4_identity g_matrix4_identity ⟨3, -4⟩).2.1 = ⟨0, -4, 0⟩ ∧
    (List.finRange 3).map
      (TransformOriginTranslate.Transform ⟨⟨true, false, false⟩, 1, ⟨true, ⟨0, 0, 0⟩, ⟨0, 0, 1⟩,
          g_matrix4_identity⟩⟩
        (TransformOriginTranslate.Construct ⟨⟨0, 0, 0⟩⟩ g_matrix4_identity ⟨0, 0⟩
          ⟨⟨0, 0, 0⟩, ⟨1, 1, 1⟩⟩ ⟨0, 0, 0⟩)
        g_matrix4_identity g_matrix4_identity ⟨3, -4⟩).2.2 = [false, true, false] := by
  constructor <;> decide!

/-! ### std::less<CopiedString> with a StringRange (C30) -/

theorem string_compare_n_range (rs rest : List CChar) (hr : ∀ c ∈ rs, c ≠ 0) :
    ∀ cs : List CChar, (∀ c ∈ cs, c ≠ 0) →
    ∃ v w : Int,
      string_compare_n (cs ++ [0]) (rs ++ rest) rs.length = some v ∧
      string_compare (cs ++ [0]) (rs ++ [0]) = some w ∧
      (v < 0 ↔ w < 0) ∧ (v > 0 ↔ (w > 0 ∧ ¬ rs <+: cs)) := by
  induction rs with
  | nil =>
    intro cs hc
    cases cs with
    | nil =>
      refine ⟨0, 0, ?_, ?_, Iff.rfl, ?_⟩
      · simp [string_compare_n]
      · simp [string_compare]
      · simp
    | cons c cs =>
      have hc0 : c ≠ 0 := hc c (List.mem_cons_self _ _)
      refine ⟨0, (c : Int) - 0, ?_, ?_, ?_, ?_⟩
      · simp [string_compare_n]
      · simp [string_compare, hc0]
      · have : (0 : Int) < c := by exact_mod_cast Nat.pos_of_ne_zero hc0
        constructor <;> intro h <;> omega
      · simp
  | cons r rs ih =>
    intro cs hc
    have hr0 : r ≠ 0 := hr r (List.mem_cons_self _ _)
    have hrs : ∀ c ∈ rs, c ≠ 0 := fun c h => hr c (List.mem_cons_of_mem _ h)
    cases cs with
    | nil =>
      have hne : (0 : CChar) ≠ r := fun h => hr0 h.symm
      refine ⟨(0 : Int) - r, (0 : Int) - r, ?_, ?_, Iff.rfl, ?_⟩
      · simp [string_compare_n, hne]
      · simp [string_compare, hne]
      · have : (0 : Int) < r := by exact_mod_cast Nat.pos_of_ne_zero hr0
        constructor
        · intro h
          omega
        · intro h
          omega
    | cons c cs =>
      have hc0 : c ≠ 0 := hc c (List.mem_cons_self _ _)
      have hcs : ∀ d ∈ cs, d ≠ 0 := fun d h => hc d (List.mem_cons_of_mem _ h)
      by_cases hcr : c = r
      · subst hcr
        obtain ⟨v, w, h1, h2, h3, h4⟩ := ih hrs cs hcs
        refine ⟨v, w, ?_, ?_, h3, ?_⟩
        · simpa [string_compare_n, hc0] using h1
        · simpa [string_compare, hc0] using h2
        · rw [h4]
          simp [List.prefix_cons_inj]
      · refine ⟨(c : Int) - r, (c : Int) - r, ?_, ?_, Iff.rfl, ?_⟩
        · simp [string_compare_n, hcr]
        · simp [string_compare, hcr]
        · have hp : ¬ (r :: rs) <+: (c :: cs) := by
            intro h
            obtain ⟨t, ht⟩ := h
            simp only [List.cons_append, List.cons.injEq] at ht
            exact hcr ht.1.symm
          simp [hp]

theorem string_compare_swap (a : List CChar) :
    ∀ b : List CChar, string_compare b a = (string_compare a b).map fun w => -w := by
  induction a with
  | nil =>
    intro b
    cases b <;> simp [string_compare]
  | cons x as ih =>
    intro b
    cases b with
    | nil => simp [string_compare]
    | cons y bs =>
      by_cases hxy : x = y
      · subst hxy
        by_cases hx : x = 0
        · simp [string_compare, hx]
        · simpa [string_compare, hx] using ih bs
      · have hyx : ¬ y = x := fun h => hxy h.symm
        simp [string_compare, hxy, hyx]

/-- What the two heterogeneous overloads of `std::less<CopiedString>` compute, for a string
`s` and a range with the characters `rs` (neither holding a terminator; `rest` is what
follows the range in its buffer): `less( s, range )` is the homogeneous `s < rs`;
`less( range, s )` is the homogeneous `rs < s` except when `rs` is a prefix of `s`, where it
is false. -/
theorem less_StringRange_characterised (cs rs rest : List CChar) (hc : ∀ c ∈ cs, c ≠ 0)
    (hr : ∀ c ∈ rs, c ≠ 0) :
    less_CopiedString_StringRange (cs ++ [0]) ⟨rs ++ rest, rs.length⟩
      = less_CopiedString (cs ++ [0]) (rs ++ [0]) ∧
    ∃ b : Bool, less_CopiedString (rs ++ [0]) (cs ++ [0]) = some b ∧
      less_StringRange_CopiedString ⟨rs ++ rest, rs.length⟩ (cs ++ [0])
        = some (b && !decide (rs <+: cs)) := by
  obtain ⟨v, w, h1, h2, h3, h4⟩ := string_compare_n_range rs rest hr cs hc
  have h5 : string_compare (rs ++ [0]) (cs ++ [0]) = some (-w) := by
    rw [string_compare_swap, h2]
    rfl
  constructor
  · simp only [less_CopiedString_StringRange, less_CopiedString, string_less, h1, h2,
      Option.map_some', decide_eq_decide.mpr h3]
  · refine ⟨decide (-w < 0), ?_, ?_⟩
    · simp only [less_CopiedString, string_less, h5, Option.map_some']
    · simp only [less_StringRange_CopiedString, h1, Option.map_some', Option.some.injEq]
      by_cases hp : rs <+: cs
      · have hv : ¬ v > 0 := fun h => (h4.mp h).2 hp
        simp [hp, hv]
      · have hv : v > 0 ↔ -w < 0 := by
          rw [h4]
          constructor
          · intro h
            omega
          · intro h
            exact ⟨by omega, hp⟩
        simp [hp, decide_eq_decide.mpr hv]

/-- C30: for the string `"abc"` and the range with the two characters `"ab"` (in the buffer
`"ab"`, and also as the first two characters of the buffer `"abc"`), both heterogeneous
comparisons of `std::less<CopiedString>` return false, so the string and the range compare
equivalent; the homogeneous comparison has `"ab"` less than `"abc"`, as has the overload with
a `const char*`, and the string `"abc"` is not the string of the range's characters. -/
theorem less_StringRange_proper_prefix_equivalent :
    less_CopiedString_StringRange [97, 98, 99, 0] ⟨[97, 98, 0], 2⟩ = some false ∧
    less_StringRange_CopiedString ⟨[97, 98, 0], 2⟩ [97, 98, 99, 0] = some false ∧
    less_CopiedString_StringRange [97, 98, 99, 0] ⟨[97, 98, 99, 0], 2⟩ = some false ∧
    less_StringRange_CopiedString ⟨[97, 98, 99, 0], 2⟩ [97, 98, 99, 0] = some false ∧
    less_CopiedString (StringRange.chars ⟨[97, 98, 0], 2⟩) [97, 98, 99, 0] = some true ∧
    StringRange.chars ⟨[97, 98, 0], 2⟩ = [97, 98, 0] ∧
    StringRange.chars ⟨[97, 98, 99, 0], 2⟩ = [97, 98, 0] ∧
    [97, 98, 99, 0] ≠ StringRange.chars ⟨[97, 98, 0], 2⟩ := by
  decide

/-! ### BestPoint: the plane distance is guarded (C14) -/

theorem BestPoint_plane_distance_examples :
    BestPoint_offers (CMath.exactSqrt fun _ _ => 0) 0
      [⟨1, -1, 0, 1⟩, ⟨1, 1, 0, 1⟩, ⟨1, 0, 1, 1⟩] clipcull_t.eClipCullNone (some ⟨1, 0, 0, 1⟩)
      = [some (SelectionIntersection.make2 0 (1 / 2) (5 / 4)),
         some (SelectionIntersection.make2 0 0 1),
         some (SelectionIntersection.make2 0 (1 / 2) (5 / 4))] ∧
    BestPoint_offers (CMath.exactSqrt fun _ _ => 0) 0
      [⟨-1, -1, 2, 1⟩, ⟨1, -1, 2, 1⟩, ⟨0, 1, 2, 1⟩] clipcull_t.eClipCullNone none
      = [some (SelectionIntersection.hit 2 0 2)] := by
  constructor <;> decide!

/-! ### RotateManipulator::testSelect and the closest ring hit (C16) -/

theorem SelectionIntersection_lt_asymm (e : Bands) (a b : SelectionIntersection)
    (h : lt e a b = true) : lt e b a = false := by
  cases a with
  | invalid => simp [lt] at h
  | hit z d d2 =>
    cases b with
    | invalid => rfl
    | hit z' d' d2' =>
      have hd : |d' - d| = |d - d'| := abs_sub_comm _ _
      have hz : |z' - z| = |z - z'| := abs_sub_comm _ _
      simp only [lt, hd, hz] at h ⊢
      by_cases c1 : |d - d'| > e.distance
      · simp only [c1, if_true, decide_eq_true_eq] at h
        simp only [c1, if_true, decide_eq_false_iff_not, not_lt]
        exact le_of_lt h
      · simp only [c1, if_false] at h
        simp only [c1, if_false]
        by_cases c2 : |z - z'| > e.depth
        · simp only [c2, if_true, decide_eq_true_eq] at h
          simp only [c2, if_true, decide_eq_false_iff_not, not_lt]
          exact le_of_lt h
        · simp only [c2, if_false, decide_eq_true_eq] at h
          simp only [c2, if_false, decide_eq_false_iff_not, not_lt]
          exact le_of_lt h

theorem closestOf_cases (e : Bands) (is : List SelectionIntersection) :
    (closestOf e is = invalid ∧ ∀ x ∈ is, x.valid = false) ∨
    (closestOf e is ∈ is ∧ (closestOf e is).valid = true) := by
  induction is using List.reverseRecOn with
  | nil => left; simp [closestOf]
  | append_singleton l o ih =>
    have hc : closestOf e (l ++ [o]) = assign_if_closer e (closestOf e l) o := by
      simp [closestOf, List.foldl_append]
    rw [hc]
    unfold assign_if_closer SelectionIntersection_closer
    by_cases hlt : lt e o (closestOf e l) = true
    · rw [if_pos hlt]
      right
      refine ⟨by simp, ?_⟩
      cases o with
      | invalid => simp [lt] at hlt
      | hit _ _ _ => rfl
    · rw [if_neg hlt]
      rcases ih with ⟨h1, h2⟩ | ⟨h1, h2⟩
      · left
        refine ⟨h1, ?_⟩
        intro x hx
        rcases List.mem_append.1 hx with hx | hx
        · exact h2 x hx
        · simp only [List.mem_singleton] at hx
          subst hx
          cases x with
          | invalid => rfl
          | hit _ _ _ =>
            rw [h1] at hlt
            simp [lt] at hlt
      · right
        exact ⟨List.mem_append_left _ h1, h2⟩

theorem closestOf_minimal (e : Bands) (is : List SelectionIntersection)
    (hnt : ∀ a ∈ is, ∀ b ∈ is, ∀ c ∈ is,
      lt e a c = true → lt e a b = true ∨ lt e b c = true) :
    ∀ x ∈ is, lt e x (closestOf e is) = false := by
  induction is using List.reverseRecOn with
  | nil =>
    intro x hx
    simp at hx
  | append_singleton l o ih =>
    have hc : closestOf e (l ++ [o]) = assign_if_closer e (closestOf e l) o := by
      simp [closestOf, List.foldl_append]
    have ih2 := ih (fun a ha b hb c hc2 =>
      hnt a (List.mem_append_left _ ha) b (List.mem_append_left _ hb) c
        (List.mem_append_left _ hc2))
    have ho : o ∈ l ++ [o] := by simp
    rw [hc]
    unfold assign_if_closer SelectionIntersection_closer
    intro x hx
    by_cases hlt : lt e o (closestOf e l) = true
    · rw [if_pos hlt]
      rcases List.mem_append.1 hx with hx1 | hx1
      · by_contra hxo
        have hxo2 : lt e x o = true := by simpa using hxo
        rcases closestOf_cases e l with ⟨h1, h2⟩ | ⟨h1, h2⟩
        · have := h2 x hx1
          cases x with
          | invalid => simp [lt] at hxo2
          | hit _ _ _ => simp [valid] at this
        · rcases hnt x hx (closestOf e l) (List.mem_append_left _ h1) o ho hxo2 with h3 | h3
          · rw [ih2 x hx1] at h3
            exact absurd h3 (by decide)
          · rw [SelectionIntersection_lt_asymm e _ _ hlt] at h3
            exact absurd h3 (by decide)
      · simp only [List.mem_singleton] at hx1
        subst hx1
        by_contra hxx
        have hxx2 : lt e x x = true := by simpa using hxx
        have := SelectionIntersection_lt_asymm e x x hxx2
        rw [hxx2] at this
        exact absurd this (by decide)
    · rw [if_neg hlt]
      rcases List.mem_append.1 hx with hx1 | hx1
      · exact ih2 x hx1
      · simp only [List.mem_singleton] at hx1
        subst hx1
        simpa using hlt

/-- C16 (counterexample): ordering bands 0.25 / 2e-6 and the ring hits (depth, distance)
x = (0.1, 0.4), y = (0.2, 0.2), z = (0.5, 0.9), screen = (0.3, 0). The ordering is cyclic on them:
x is closer than y, y closer than screen, screen closer than x (and x closer than z), so every
ring hit has a valid ring hit that is closer and none is the closest. `testSelect` still selects
exactly one ring handle, and a ring hit closer than the selected one exists. -/
theorem RotateManipulator_testSelect_cyclic_hits :
    lt ⟨1 / 4, 1 / 500000⟩ (hit (1 / 10) (2 / 5) 0) (hit (1 / 5) (1 / 5) 0) = true ∧
    lt ⟨1 / 4, 1 / 500000⟩ (hit (1 / 5) (1 / 5) 0) (hit (3 / 10) 0 0) = true ∧
    lt ⟨1 / 4, 1 / 500000⟩ (hit (3 / 10) 0 0) (hit (1 / 10) (2 / 5) 0) = true ∧
    lt ⟨1 / 4, 1 / 500000⟩ (hit (1 / 10) (2 / 5) 0) (hit (1 / 2) (9 / 10) 0) = true ∧
    ∃ h h2 : Handle, h ≠ Handle.m_selectable_sphere ∧ h2 ≠ Handle.m_selectable_sphere ∧
      (∀ h1, (RotateManipulator.testSelect ⟨1 / 4, 1 / 500000⟩ 0
        ⟨c_modifierNone, 0, ⟨true, ⟨0, 0, 0⟩, ⟨0, 0, 1⟩, g_matrix4_identity⟩⟩
        ⟨⟨g_matrix4_identity, g_matrix4_identity, g_matrix4_identity, ⟨0, 0, 1⟩⟩,
          fun h => match h with
            | .m_selectable_x => hit (1 / 10) (2 / 5) 0
            | .m_selectable_y => hit (1 / 5) (1 / 5) 0
            | .m_selectable_z => hit (1 / 2) (9 / 10) 0
            | .m_selectable_screen => hit (3 / 10) 0 0
            | .m_selectable_sphere => invalid⟩
        ⟨false, false, false, false, false,
          ⟨g_matrix4_identity, g_matrix4_identity, g_matrix4_identity, ⟨1, 0, 0⟩⟩, ⟨1, 0, 0⟩,
          ⟨none⟩⟩).1.isSelected h1 = decide (h1 = h)) ∧
      lt ⟨1 / 4, 1 / 500000⟩
        ((fun h => match h with
            | Handle.m_selectable_x => hit (1 / 10) (2 / 5) 0
            | .m_selectable_y => hit (1 / 5) (1 / 5) 0
            | .m_selectable_z => hit (1 / 2) (9 / 10) 0
            | .m_selectable_screen => hit (3 / 10) 0 0
            | .m_selectable_sphere => invalid) h2)
        ((fun h => match h with
            | Handle.m_selectable_x => hit (1 / 10) (2 / 5) 0
            | .m_selectable_y => hit (1 / 5) (1 / 5) 0
            | .m_selectable_z => hit (1 / 2) (9 / 10) 0
            | .m_selectable_screen => hit (3 / 10) 0 0
            | .m_selectable_sphere => invalid) h) = true := by
  refine ⟨by decide!, by decide!, by decide!, by decide!,
    Handle.m_selectable_screen, Handle.m_selectable_y, by decide, by decide, ?_, by decide!⟩
  intro h1
  cases h1 <;> decide!

/-- C16 (amended): `RotateManipulator::testSelect` with no modifier held, from five unselected
handles. When no ring hit is valid, exactly the sphere handle ends selected and
`GetManipulatable()` is the free-rotate behaviour. When some ring hit is valid, exactly one ring
handle ends selected, its hit is valid, and `GetManipulatable()` is the axis-rotate behaviour
with the axis of that ring: X, Y, Z, or the pivot's screen axis; and when the ordering is a strict
weak ordering on the four ring hits (with `A < C`, every `B` has `A < B` or `B < C`), the selected
ring's hit is a closest one: no ring hit is closer. -/
theorem RotateManipulator_testSelect_selected (e : Bands) (d2 : ℚ) (g : Globals)
    (inp : TestSelectInput) (self : RotateManipulator) (hmod : g.g_modifiers = c_modifierNone)
    (hsel : ∀ h, self.isSelected h = false) :
    ((∀ h, h ≠ Handle.m_selectable_sphere → (inp.best h).valid = false) →
      (∀ h, (RotateManipulator.testSelect e d2 g inp self).1.isSelected h
          = decide (h = Handle.m_selectable_sphere)) ∧
      (RotateManipulator.testSelect e d2 g inp self).1.GetManipulatable
        = ManipulatableRef.m_free) ∧
    ((∃ h, h ≠ Handle.m_selectable_sphere ∧ (inp.best h).valid = true) →
      ∃ h, h ≠ Handle.m_selectable_sphere ∧ (inp.best h).valid = true ∧
        (∀ h1, (RotateManipulator.testSelect e d2 g inp self).1.isSelected h1 = decide (h1 = h)) ∧
        (RotateManipulator.testSelect e d2 g inp self).1.GetManipulatable
          = ManipulatableRef.m_axis
            (match h with
              | .m_selectable_x => g_vector3_axis_x
              | .m_selectable_y => g_vector3_axis_y
              | .m_selectable_z => g_vector3_axis_z
              | _ => inp.m_pivot.m_axis_screen) ∧
        ((∀ a ∈ [inp.best .m_selectable_x, inp.best .m_selectable_y, inp.best .m_selectable_z,
              inp.best .m_selectable_screen],
            ∀ b ∈ [inp.best .m_selectable_x, inp.best .m_selectable_y, inp.best .m_selectable_z,
              inp.best .m_selectable_screen],
            ∀ c ∈ [inp.best .m_selectable_x, inp.best .m_selectable_y, inp.best .m_selectable_z,
              inp.best .m_selectable_screen],
            lt e a c = true → lt e a b = true ∨ lt e b c = true) →
          ∀ h2, h2 ≠ Handle.m_selectable_sphere → lt e (inp.best h2) (inp.best h) = false)) := by
  have hold := RotateManipulator_testSelect_running_best e d2 g inp self hmod hsel
  refine ⟨hold.1, fun hex => ?_⟩
  obtain ⟨h, hne, hv, hc, hs, hg⟩ := hold.2 hex
  refine ⟨h, hne, hv, hs, hg, fun hnt h2 hne2 => ?_⟩
  rw [hc]
  apply closestOf_minimal e _ hnt
  cases h2 with
  | m_selectable_x => simp
  | m_selectable_y => simp
  | m_selectable_z => simp
  | m_selectable_screen => simp
  | m_selectable_sphere => exact absurd rfl hne2

/-- Witness for C16: bands 0.001 / 1e-6, the x ring hit at distance 1/4 and the y ring hit at
distance 1/10 (depth 1/2 both), z and screen missed; the ordering is a strict weak ordering on
these hits. -/
theorem RotateManipulator_testSelect_selected_witness :
    (⟨c_modifierNone, 0, ⟨true, ⟨0, 0, 0⟩, ⟨0, 0, 1⟩, g_matrix4_identity⟩⟩ : Globals).g_modifiers
      = c_modifierNone ∧
    (∀ h, RotateManipulator.isSelected
      ⟨false, false, false, false, false,
        ⟨g_matrix4_identity, g_matrix4_identity, g_matrix4_identity, ⟨1, 0, 0⟩⟩, ⟨1, 0, 0⟩,
        ⟨none⟩⟩ h = false) ∧
    (∀ a ∈ [hit (1 / 2) (1 / 4) 0, hit (1 / 2) (1 / 10) 0, invalid, invalid],
      ∀ b ∈ [hit (1 / 2) (1 / 4) 0, hit (1 / 2) (1 / 10) 0, invalid, invalid],
      ∀ c ∈ [hit (1 / 2) (1 / 4) 0, hit (1 / 2) (1 / 10) 0, invalid, invalid],
      lt ⟨1 / 1000, 1 / 1000000⟩ a c = true →
        lt ⟨1 / 1000, 1 / 1000000⟩ a b = true ∨ lt ⟨1 / 1000, 1 / 1000000⟩ b c = true) ∧
    ∃ h, h ≠ Handle.m_selectable_sphere ∧
      (∀ h1, (RotateManipulator.testSelect ⟨1 / 1000, 1 / 1000000⟩ 0
        ⟨c_modifierNone, 0, ⟨true, ⟨0, 0, 0⟩, ⟨0, 0, 1⟩, g_matrix4_identity⟩⟩
        ⟨⟨g_matrix4_identity, g_matrix4_identity, g_matrix4_identity, ⟨0, 0, 1⟩⟩,
          fun h => match h with
            | .m_selectable_x => SelectionIntersection.hit (1 / 2) (1 / 4) 0
            | .m_selectable_y => SelectionIntersection.hit (1 / 2) (1 / 10) 0
            | _ => SelectionIntersection.invalid⟩
        ⟨false, false, false, false, false,
          ⟨g_matrix4_identity, g_matrix4_identity, g_matrix4_identity, ⟨1, 0, 0⟩⟩, ⟨1, 0, 0⟩,
          ⟨none⟩⟩).1.isSelected h1 = decide (h1 = h)) ∧
      (RotateManipulator.testSelect ⟨1 / 1000, 1 / 1000000⟩ 0
        ⟨c_modifierNone, 0, ⟨true, ⟨0, 0, 0⟩, ⟨0, 0, 1⟩, g_matrix4_identity⟩⟩
        ⟨⟨g_matrix4_identity, g_matrix4_identity, g_matrix4_identity, ⟨0, 0, 1⟩⟩,
          fun h => match h with
            | .m_selectable_x => SelectionIntersection.hit (1 / 2) (1 / 4) 0
            | .m_selectable_y => SelectionIntersection.hit (1 / 2) (1 / 10) 0
            | _ => SelectionIntersection.invalid⟩
        ⟨false, false, false, false, false,
          ⟨g_matrix4_identity, g_matrix4_identity, g_matrix4_identity, ⟨1, 0, 0⟩⟩, ⟨1, 0, 0⟩,
          ⟨none⟩⟩).1.GetManipulatable
        = ManipulatableRef.m_axis
          (match h with
            | .m_selectable_x => g_vector3_axis_x
            | .m_selectable_y => g_vector3_axis_y
            | .m_selectable_z => g_vector3_axis_z
            | _ => ⟨0, 0, 1⟩) :=
  ⟨rfl, fun h => by cases h <;> rfl, by decide!,
    match (RotateManipulator_testSelect_selected ⟨1 / 1000, 1 / 1000000⟩ 0
      ⟨c_modifierNone, 0, ⟨true, ⟨0, 0, 0⟩, ⟨0, 0, 1⟩, g_matrix4_identity⟩⟩
      ⟨⟨g_matrix4_identity, g_matrix4_identity, g_matrix4_identity, ⟨0, 0, 1⟩⟩,
        fun h => match h with
          | .m_selectable_x => SelectionIntersection.hit (1 / 2) (1 / 4) 0
          | .m_selectable_y => SelectionIntersection.hit (1 / 2) (1 / 10) 0
          | _ => SelectionIntersection.invalid⟩
      ⟨false, false, false, false, false,
        ⟨g_matrix4_identity, g_matrix4_identity, g_matrix4_identity, ⟨1, 0, 0⟩⟩, ⟨1, 0, 0⟩,
        ⟨none⟩⟩
      rfl (fun h => by cases h <;> rfl)).2 ⟨.m_selectable_x, by decide, rfl⟩ with
    | ⟨h, hne, _, hsel, hget, _⟩ => ⟨h, hne, hsel, hget⟩⟩

theorem RotateManipulator_testSelect_example :
    (RotateManipulator.testSelect ⟨1 / 1000, 1 / 1000000⟩ 0
      ⟨c_modifierNone, 0, ⟨true, ⟨0, 0, 0⟩, ⟨0, 0, 1⟩, g_matrix4_identity⟩⟩
      ⟨⟨g_matrix4_identity, g_matrix4_identity, g_matrix4_identity, ⟨0, 0, 1⟩⟩,
        fun h => match h with
          | .m_selectable_x => SelectionIntersection.hit (1 / 2) (1 / 4) 0
          | .m_selectable_y => SelectionIntersection.hit (1 / 2) (1 / 10) 0
          | _ => SelectionIntersection.invalid⟩
      ⟨false, false, false, false, false,
        ⟨g_matrix4_identity, g_matrix4_identity, g_matrix4_identity, ⟨1, 0, 0⟩⟩, ⟨1, 0, 0⟩,
        ⟨none⟩⟩).1
      = ⟨false, true, false, false, false,
        ⟨g_matrix4_identity, g_matrix4_identity, g_matrix4_identity, ⟨0, 0, 1⟩⟩, ⟨0, 0, 1⟩,
        ⟨some (Handle.ptr .m_selectable_y)⟩⟩ := by
  decide!

/-! ### ScaleAxis: the object-space displacement (C9) -/

theorem translation_local2object_affine (v : Vector3) (m : Matrix4)
    (hxw : m.xw = 0) (hyw : m.yw = 0) (hzw : m.zw = 0) (htw : m.tw = 1)
    (hdet : matrix4_determinant m ≠ 0) :
    translation_local2object v m =
      ⟨m.xx * v.x + m.yx * v.y + m.zx * v.z,
       m.xy * v.x + m.yy * v.y + m.zy * v.z,
       m.xz * v.x + m.yz * v.y + m.zz * v.z⟩ := by
  obtain ⟨xx, xy, xz, xw, yx, yy, yz, yw, zx, zy, zz, zw, tx, ty, tz, tw⟩ := m
  obtain ⟨vx, vy, vz⟩ := v
  simp only at hxw hyw hzw htw
  subst hxw hyw hzw htw
  simp only [translation_local2object, matrix4_get_translation_vec3,
    matrix4_multiplied_by_matrix4, matrix4_translated_by_vec3, matrix4_translation_for_vec3,
    matrix4_transformed_vector4, matrix4_full_inverse, Vector3.mk.injEq]
  generalize hd : matrix4_determinant _ = det at hdet ⊢
  simp only [matrix4_determinant] at hd
  have hinv : det * det⁻¹ = 1 := mul_inv_cancel₀ hdet
  refine ⟨?_, ?_, ?_⟩
  · field_simp
    rw [← hd]
    ring
  · field_simp
    rw [← hd]
    ring
  · field_simp
    rw [← hd]
    ring

/-- C9: ScaleAxis with its axis set to the unit vector of axis `i`, no modifier held, captured
extent `E = m_chosen_extent[i] > 0.0625` and an invertible affine `manip2object`: `Transform`
emits a scale with `scale[i] = (E + d) / E` and `scale[j] = 1` on both other axes, where `d` is
`float_snapped` to the grid of component `i` of the object-space displacement, the linear part
of `manip2object` applied to the displacement from `m_start` (the point `Construct` stored) to
the current point on the axis. -/
theorem ScaleAxis_Transform_object_scale (cm : CMath) (g : Globals) (self : ScaleAxis)
    (manip2object device2manip : Matrix4) (device_point : DeviceVector) (i : Fin 3)
    (haxis : self.m_axis = g_vector3_axes i) (hmod : g.g_modifiers = c_modifierNone)
    (hE : self.m_chosen_extent.get i > 1 / 16)
    (haffine : manip2object.xw = 0 ∧ manip2object.yw = 0 ∧ manip2object.zw = 0 ∧
      manip2object.tw = 1)
    (hdet : matrix4_determinant manip2object ≠ 0) :
    ∃ scale : Vector3,
      (ScaleAxis.Transform cm g self manip2object device2manip device_point).2 = some scale ∧
      scale.get i =
        (self.m_chosen_extent.get i +
          float_snapped
            ((⟨manip2object.xx *
                  ((point_on_axis cm (g_vector3_axes i) device2manip device_point).x
                    - self.m_start.x)
                + manip2object.yx *
                  ((point_on_axis cm (g_vector3_axes i) device2manip device_point).y
                    - self.m_start.y)
                + manip2object.zx *
                  ((point_on_axis cm (g_vector3_axes i) device2manip device_point).z
                    - self.m_start.z),
               manip2object.xy *
                  ((point_on_axis cm (g_vector3_axes i) device2manip device_point).x
                    - self.m_start.x)
                + manip2object.yy *
                  ((point_on_axis cm (g_vector3_axes i) device2manip device_point).y
                    - self.m_start.y)
                + manip2object.zy *
                  ((point_on_axis cm (g_vector3_axes i) device2manip device_point).z
                    - self.m_start.z),
               manip2object.xz *
                  ((point_on_axis cm (g_vector3_axes i) device2manip device_point).x
                    - self.m_start.x)
                + manip2object.yz *
                  ((point_on_axis cm (g_vector3_axes i) device2manip device_point).y
                    - self.m_start.y)
                + manip2object.zz *
                  ((point_on_axis cm (g_vector3_axes i) device2manip device_point).z
                    - self.m_start.z)⟩ : Vector3).get i)
            g.GetSnapGridSize)
          / self.m_chosen_extent.get i ∧
      ∀ j : Fin 3, j ≠ i → scale.get j = 1 := by
  obtain ⟨scale, h1, h2, h3⟩ :=
    ScaleAxis_Transform_scale_local cm g self manip2object device2manip device_point i haxis hmod hE
  refine ⟨scale, h1, ?_, h3⟩
  rw [h2, vector3_snapped_get,
    translation_local2object_affine _ manip2object haffine.1 haffine.2.1 haffine.2.2.1
      haffine.2.2.2 hdet, haxis]
  rfl

/-- Witness for C9: bounds origin (0,0,0) extents (1,1,1), transform origin (0,0,0), grid 1, no
modifier; `Construct` on the ray that meets the X axis at X = 1 and `Transform` on the ray that
meets it at X = 2. With the identity `manip2object` the emitted scale is (2, 1, 1); with a
`manip2object` that scales by 3 (and translates by (5, 6, 7)) the object-space displacement is 3
and the emitted scale is (4, 1, 1). -/
theorem ScaleAxis_Transform_object_scale_witness :
    (ScaleAxis.Construct (CMath.exactSqrt fun _ _ => 0)
        ⟨c_modifierNone, 1, ⟨true, ⟨0, 0, 0⟩, ⟨0, 0, 1⟩, g_matrix4_identity⟩⟩
        ⟨⟨0, 0, 0⟩, g_vector3_axes 0, ⟨0, 0, 0⟩, ⟨⟨0, 0, 0⟩, ⟨0, 0, 0⟩⟩⟩
        ⟨2, 0, 0, 0,  0, 1, 0, 0,  0, 0, -1, 0,  0, 0, 4, 1⟩ ⟨1 / 2, 0⟩
        ⟨⟨0, 0, 0⟩, ⟨1, 1, 1⟩⟩ ⟨0, 0, 0⟩)
      = ⟨⟨1, 0, 0⟩, g_vector3_axes 0, ⟨1, 1, 1⟩, ⟨⟨0, 0, 0⟩, ⟨1, 1, 1⟩⟩⟩ ∧
    point_on_axis (CMath.exactSqrt fun _ _ => 0) (g_vector3_axes 0)
        ⟨2, 0, 0, 0,  0, 1, 0, 0,  0, 0, -1, 0,  0, 0, 4, 1⟩ ⟨1, 0⟩ = ⟨2, 0, 0⟩ ∧
    (ScaleAxis.Transform (CMath.exactSqrt fun _ _ => 0)
        ⟨c_modifierNone, 1, ⟨true, ⟨0, 0, 0⟩, ⟨0, 0, 1⟩, g_matrix4_identity⟩⟩
        ⟨⟨1, 0, 0⟩, g_vector3_axes 0, ⟨1, 1, 1⟩, ⟨⟨0, 0, 0⟩, ⟨1, 1, 1⟩⟩⟩
        g_matrix4_identity
        ⟨2, 0, 0, 0,  0, 1, 0, 0,  0, 0, -1, 0,  0, 0, 4, 1⟩ ⟨1, 0⟩).2 = some ⟨2, 1, 1⟩ ∧
    (ScaleAxis.Transform (CMath.exactSqrt fun _ _ => 0)
        ⟨c_modifierNone, 1, ⟨true, ⟨0, 0, 0⟩, ⟨0, 0, 1⟩, g_matrix4_identity⟩⟩
        ⟨⟨1, 0, 0⟩, g_vector3_axes 0, ⟨1, 1, 1⟩, ⟨⟨0, 0, 0⟩, ⟨1, 1, 1⟩⟩⟩
        ⟨3, 0, 0, 0,  0, 3, 0, 0,  0, 0, 3, 0,  5, 6, 7, 1⟩
        ⟨2, 0, 0, 0,  0, 1, 0, 0,  0, 0, -1, 0,  0, 0, 4, 1⟩ ⟨1, 0⟩).2 = some ⟨4, 1, 1⟩ ∧
    ∃ scale : Vector3,
      (ScaleAxis.Transform (CMath.exactSqrt fun _ _ => 0)
        ⟨c_modifierNone, 1, ⟨true, ⟨0, 0, 0⟩, ⟨0, 0, 1⟩, g_matrix4_identity⟩⟩
        ⟨⟨1, 0, 0⟩, g_vector3_axes 0, ⟨1, 1, 1⟩, ⟨⟨0, 0, 0⟩, ⟨1, 1, 1⟩⟩⟩
        ⟨3, 0, 0, 0,  0, 3, 0, 0,  0, 0, 3, 0,  5, 6, 7, 1⟩
        ⟨2, 0, 0, 0,  0, 1, 0, 0,  0, 0, -1, 0,  0, 0, 4, 1⟩ ⟨1, 0⟩).2 = some scale ∧
      ∀ j : Fin 3, j ≠ 0 → scale.get j = 1 :=
  ⟨by decide!, by decide!, by decide!, by decide!,
    (ScaleAxis_Transform_object_scale (CMath.exactSqrt fun _ _ => 0)
      ⟨c_modifierNone, 1, ⟨true, ⟨0, 0, 0⟩, ⟨0, 0, 1⟩, g_matrix4_identity⟩⟩
      ⟨⟨1, 0, 0⟩, g_vector3_axes 0, ⟨1, 1, 1⟩, ⟨⟨0, 0, 0⟩, ⟨1, 1, 1⟩⟩⟩
      ⟨3, 0, 0, 0,  0, 3, 0, 0,  0, 0, 3, 0,  5, 6, 7, 1⟩
      ⟨2, 0, 0, 0,  0, 1, 0, 0,  0, 0, -1, 0,  0, 0, 4, 1⟩ ⟨1, 0⟩ 0 rfl rfl (by decide!)
      ⟨rfl, rfl, rfl, rfl⟩ (by decide!)).imp
      fun _ h => ⟨h.1, h.2.2⟩⟩

/-! ### RotateAxis: the signed angle between start and current (C7) -/

theorem arccos_eq_two_arctan (x c : ℝ) (hx : 0 ≤ x) (hc : -1 < c)
    (h : x ^ 2 * (1 + c) = 1 - c) : Real.arccos c = 2 * Real.arctan x := by
  have h1 : 0 < 1 + c := by linarith
  have hcos : Real.cos (2 * Real.arctan x) = c := by
    rw [Real.cos_two_mul, Real.cos_sq_arctan]
    have h2 : (1 + x ^ 2) ≠ 0 := by positivity
    field_simp
    nlinarith
  have ht0 : 0 ≤ Real.arctan x := by
    rw [← Real.arctan_zero]
    exact Real.arctan_strictMono.monotone hx
  have ht1 : Real.arctan x < Real.pi / 2 := Real.arctan_lt_pi_div_two x
  rw [← hcos, Real.arccos_cos (by linarith) (by linarith)]

theorem float_snapped_near (f snap : ℚ) (h : 0 < snap) :
    |float_snapped f snap - f| ≤ snap / 2 := by
  have h0 : snap ≠ 0 := ne_of_gt h
  simp only [float_snapped, h0, if_false]
  have h1 : |f / snap - (round (f / snap) : ℚ)| ≤ 1 / 2 := abs_sub_round (f / snap)
  have h2 : (round (f / snap) : ℚ) * snap - f = -((f / snap - (round (f / snap) : ℚ)) * snap) := by
    field_simp
    ring
  rw [h2, abs_neg, abs_mul, abs_of_pos h]
  calc |f / snap - (round (f / snap) : ℚ)| * snap ≤ 1 / 2 * snap :=
        mul_le_mul_of_nonneg_right h1 (le_of_lt h)
    _ = snap / 2 := by ring

theorem vector3_unit_sums (a b : Vector3) (ha : vector3_dot a a = 1) (hb : vector3_dot b b = 1) :
    vector3_dot (vector3_subtracted a b) (vector3_subtracted a b) = 2 - 2 * vector3_dot a b ∧
    vector3_dot (vector3_added a b) (vector3_added a b) = 2 + 2 * vector3_dot a b := by
  simp only [vector3_dot, vector3_subtracted, vector3_added] at ha hb ⊢
  constructor
  · linear_combination ha + hb
  · linear_combination ha + hb

theorem angle_between_arccos (cm : CMath) (a b : Vector3)
    (ha : vector3_dot a a = 1) (hb : vector3_dot b b = 1)
    (hLm : 0 ≤ vector3_length cm (vector3_subtracted a b))
    (hLp : 0 < vector3_length cm (vector3_added a b))
    (hq : vector3_length cm (vector3_subtracted a b) ^ 2
          * vector3_dot (vector3_added a b) (vector3_added a b)
        = vector3_length cm (vector3_added a b) ^ 2
          * vector3_dot (vector3_subtracted a b) (vector3_subtracted a b))
    (ε : ℝ)
    (hat : |((cm.atan2 (vector3_length cm (vector3_subtracted a b))
            (vector3_length cm (vector3_added a b)) : ℚ) : ℝ)
          - Real.arctan ((vector3_length cm (vector3_subtracted a b)
              / vector3_length cm (vector3_added a b) : ℚ) : ℝ)| ≤ ε) :
    |((angle_between cm a b : ℚ) : ℝ) - Real.arccos ((vector3_dot a b : ℚ) : ℝ)| ≤ 2 * ε := by
  obtain ⟨e1, e2⟩ := vector3_unit_sums a b ha hb
  rw [e1, e2] at hq
  unfold angle_between
  generalize vector3_length cm (vector3_subtracted a b) = Lm at hLm hq hat ⊢
  generalize vector3_length cm (vector3_added a b) = Lp at hLp hq hat ⊢
  generalize hc : vector3_dot a b = c at hq e1 e2 ⊢
  have hp : 0 ≤ 2 + 2 * c := by
    rw [← e2]
    simp only [vector3_dot]
    nlinarith [mul_self_nonneg (vector3_added a b).x, mul_self_nonneg (vector3_added a b).y,
      mul_self_nonneg (vector3_added a b).z]
  have hLp2 : 0 < Lp ^ 2 := by positivity
  have hc1 : -1 < c := by
    rcases eq_or_lt_of_le hp with h | h
    · have h3 : Lp ^ 2 * (2 - 2 * c) = 0 := by
        rw [← hq, ← h]
        ring
      have h4 : c = -1 := by linarith
      rw [h4] at h3
      nlinarith
    · linarith
  have hx : (Lm / Lp) ^ 2 * (1 + c) = 1 - c := by
    have hne : Lp ≠ 0 := ne_of_gt hLp
    field_simp
    linear_combination (1 / 2 : ℚ) * hq
  have hxr : ((Lm / Lp : ℚ) : ℝ) ^ 2 * (1 + (c : ℝ)) = 1 - (c : ℝ) := by
    exact_mod_cast hx
  have hx0 : (0 : ℝ) ≤ ((Lm / Lp : ℚ) : ℝ) := by
    exact_mod_cast div_nonneg hLm (le_of_lt hLp)
  have hc1r : (-1 : ℝ) < (c : ℝ) := by exact_mod_cast hc1
  rw [arccos_eq_two_arctan _ _ hx0 hc1r hxr]
  push_cast
  have : (2 : ℝ) * (cm.atan2 Lm Lp : ℝ) - 2 * Real.arctan ((Lm : ℝ) / (Lp : ℝ))
      = 2 * ((cm.atan2 Lm Lp : ℝ) - Real.arctan ((Lm : ℝ) / (Lp : ℝ))) := by ring
  rw [this, abs_mul, abs_of_pos (by norm_num : (0 : ℝ) < 2)]
  push_cast at hat
  linarith

theorem constrain_to_axis_orthogonal (cm : CMath) (vec axis : Vector3)
    (haxis : vector3_dot axis axis = 1) :
    vector3_dot (constrain_to_axis cm vec axis) axis = 0 := by
  simp only [constrain_to_axis, vector3_normalised, vector3_scaled, vector3_added, vector3_dot]
    at haxis ⊢
  generalize (1 / vector3_length cm _) = k
  linear_combination
    (-(k * (vec.x * axis.x + vec.y * axis.y + vec.z * axis.z))) * haxis

/-- C7: `RotateAxis::Transform` with start vector `a = m_start` and current vector `b` (the
normalised vector that lines 296-304 compute from the device point), both unit vectors, `sqrt`
giving the quotient `|a - b| / |a + b|` exactly and `a + b` of non-zero length. The angle passed
with `m_axis` is `theta = +2 atan2( |a - b|, |a + b| )` when `m_axis . (a x b) > 0` and
`-2 atan2( |a - b|, |a + b| )` otherwise; if `atan2` is within `eps` of the arc tangent of that
quotient, `theta` is within `2 eps` of the signed angle `+-arccos( a . b )` between start and
current. Without shift `theta` itself is passed; with shift `float_snapped( theta, c_pi / 12 )`,
an integer multiple of `c_pi / 12` at most `c_pi / 24` from `theta`. On the sphere way, with a
unit `m_axis`, `b` is orthogonal to `m_axis`. -/
theorem RotateAxis_Transform_signed_angle (cm : CMath) (g : Globals) (self : RotateAxis)
    (manip2object device2manip : Matrix4) (device_point : DeviceVector) (b : Vector3)
    (hcur : b =
      if self.m_plane_way = true then
        vector3_normalised cm
          (vector3_subtracted
            (point_on_plane_of cm self.m_plane g.m_view.GetViewMatrix device_point)
            self.m_origin)
      else
        constrain_to_axis cm (point_on_sphere cm device2manip device_point self.m_radius)
          self.m_axis)
    (ha : vector3_dot self.m_start self.m_start = 1) (hb : vector3_dot b b = 1)
    (hLm : 0 ≤ vector3_length cm (vector3_subtracted self.m_start b))
    (hLp : 0 < vector3_length cm (vector3_added self.m_start b))
    (hq : vector3_length cm (vector3_subtracted self.m_start b) ^ 2
          * vector3_dot (vector3_added self.m_start b) (vector3_added self.m_start b)
        = vector3_length cm (vector3_added self.m_start b) ^ 2
          * vector3_dot (vector3_subtracted self.m_start b)
              (vector3_subtracted self.m_start b)) :
    ∃ theta : ℚ,
      theta =
        (if vector3_dot self.m_axis (vector3_cross self.m_start b) > 0 then
          2 * cm.atan2 (vector3_length cm (vector3_subtracted self.m_start b))
            (vector3_length cm (vector3_added self.m_start b))
         else
          -(2 * cm.atan2 (vector3_length cm (vector3_subtracted self.m_start b))
            (vector3_length cm (vector3_added self.m_start b)))) ∧
      (RotateAxis.Transform cm g self manip2object device2manip device_point).2 =
        Quaternion.for_axisangle self.m_axis
          (if g.g_modifiers.shift = true then float_snapped theta (c_pi / 12) else theta) ∧
      (∀ ε : ℝ,
        |((cm.atan2 (vector3_length cm (vector3_subtracted self.m_start b))
              (vector3_length cm (vector3_added self.m_start b)) : ℚ) : ℝ)
          - Real.arctan ((vector3_length cm (vector3_subtracted self.m_start b)
              / vector3_length cm (vector3_added self.m_start b) : ℚ) : ℝ)| ≤ ε →
        |(theta : ℝ) -
          (if vector3_dot self.m_axis (vector3_cross self.m_start b) > 0 then
            Real.arccos ((vector3_dot self.m_start b : ℚ) : ℝ)
           else -Real.arccos ((vector3_dot self.m_start b : ℚ) : ℝ))| ≤ 2 * ε) ∧
      (∃ k : ℤ, float_snapped theta (c_pi / 12) = k * (c_pi / 12)) ∧
      |float_snapped theta (c_pi / 12) - theta| ≤ c_pi / 24 ∧
      (self.m_plane_way = false → vector3_dot self.m_axis self.m_axis = 1 →
        vector3_dot b self.m_axis = 0) := by
  have hcur2 : RotateAxis.current cm g self device2manip device_point = b := by
    rw [hcur]
    rfl
  have htheta : angle_for_axis cm self.m_start b self.m_axis =
      (if vector3_dot self.m_axis (vector3_cross self.m_start b) > 0 then
          2 * cm.atan2 (vector3_length cm (vector3_subtracted self.m_start b))
            (vector3_length cm (vector3_added self.m_start b))
         else
          -(2 * cm.atan2 (vector3_length cm (vector3_subtracted self.m_start b))
            (vector3_length cm (vector3_added self.m_start b)))) := rfl
  have hpos : (0 : ℚ) < c_pi / 12 := by
    unfold c_pi
    norm_num
  refine ⟨angle_for_axis cm self.m_start b self.m_axis, htheta, ?_, ?_,
    float_snapped_multiple _ _ c_pi_twelfth_ne_zero, ?_, ?_⟩
  · unfold RotateAxis.Transform
    simp only [hcur2]
    split_ifs <;> rfl
  · intro ε hat
    have key := angle_between_arccos cm self.m_start b ha hb hLm hLp hq ε hat
    unfold angle_for_axis
    split_ifs with hs
    · exact key
    · push_cast
      rw [show -((angle_between cm self.m_start b : ℚ) : ℝ)
            - -Real.arccos ((vector3_dot self.m_start b : ℚ) : ℝ)
          = -(((angle_between cm self.m_start b : ℚ) : ℝ)
            - Real.arccos ((vector3_dot self.m_start b : ℚ) : ℝ)) by ring, abs_neg]
      exact key
  · have h := float_snapped_near (angle_for_axis cm self.m_start b self.m_axis) (c_pi / 12) hpos
    have e : c_pi / 12 / 2 = c_pi / 24 := by ring
    rw [e] at h
    exact h
  · intro hway haxis
    rw [hcur, hway]
    simp only [Bool.false_eq_true, if_false]
    exact constrain_to_axis_orthogonal cm _ self.m_axis haxis

/-- Witness for C7: axis Z, view along Z from (0, 0, 10) (the plane way), the drag started at the
device point (1/2, 0), which gives `m_start = (1, 0, 0)`, the current device point (0, 1/2), which
gives `b = (0, 1, 0)`; `atan2` returns `c_pi / 4` at the one pair it is called with, within 1e-20
of the arc tangent of 1. The angle passed is `c_pi / 2`, with and without shift, and
`-c_pi / 2` for the current device point (0, -1/2). -/
theorem RotateAxis_Transform_signed_angle_witness :
    RotateAxis.Construct (CMath.exactSqrt fun _ _ => c_pi / 4)
        ⟨c_modifierNone, 1, ⟨true, ⟨0, 0, 10⟩, ⟨0, 0, -1⟩, g_matrix4_identity⟩⟩
        ⟨⟨0, 0, 1⟩, ⟨0, 0, 0⟩, 64, false, ⟨0, 0, 0, 0⟩, ⟨0, 0, 0⟩⟩
        g_matrix4_identity ⟨1 / 2, 0⟩ ⟨⟨0, 0, 0⟩, ⟨1, 1, 1⟩⟩ ⟨0, 0, 0⟩
      = ⟨⟨0, 0, 1⟩, ⟨1, 0, 0⟩, 64, true, ⟨0, 0, 1, 0⟩, ⟨0, 0, 0⟩⟩ ∧
    (RotateAxis.Transform (CMath.exactSqrt fun _ _ => c_pi / 4)
        ⟨c_modifierNone, 1, ⟨true, ⟨0, 0, 10⟩, ⟨0, 0, -1⟩, g_matrix4_identity⟩⟩
        ⟨⟨0, 0, 1⟩, ⟨1, 0, 0⟩, 64, true, ⟨0, 0, 1, 0⟩, ⟨0, 0, 0⟩⟩
        g_matrix4_identity g_matrix4_identity ⟨0, 1 / 2⟩).2
      = Quaternion.for_axisangle ⟨0, 0, 1⟩ (c_pi / 2) ∧
    (RotateAxis.Transform (CMath.exactSqrt fun _ _ => c_pi / 4)
        ⟨⟨true, false, false⟩, 1, ⟨true, ⟨0, 0, 10⟩, ⟨0, 0, -1⟩, g_matrix4_identity⟩⟩
        ⟨⟨0, 0, 1⟩, ⟨1, 0, 0⟩, 64, true, ⟨0, 0, 1, 0⟩, ⟨0, 0, 0⟩⟩
        g_matrix4_identity g_matrix4_identity ⟨0, 1 / 2⟩).2
      = Quaternion.for_axisangle ⟨0, 0, 1⟩ (c_pi / 2) ∧
    (RotateAxis.Transform (CMath.exactSqrt fun _ _ => c_pi / 4)
        ⟨c_modifierNone, 1, ⟨true, ⟨0, 0, 10⟩, ⟨0, 0, -1⟩, g_matrix4_identity⟩⟩
        ⟨⟨0, 0, 1⟩, ⟨1, 0, 0⟩, 64, true, ⟨0, 0, 1, 0⟩, ⟨0, 0, 0⟩⟩
        g_matrix4_identity g_matrix4_identity ⟨0, -1 / 2⟩).2
      = Quaternion.for_axisangle ⟨0, 0, 1⟩ (-(c_pi / 2)) ∧
    |((c_pi / 4 : ℚ) : ℝ) - Real.arctan (((1 : ℚ) / 1 : ℚ) : ℝ)| ≤ 1 / 10 ^ 20 ∧
    ∃ theta : ℚ,
      (RotateAxis.Transform (CMath.exactSqrt fun _ _ => c_pi / 4)
        ⟨c_modifierNone, 1, ⟨true, ⟨0, 0, 10⟩, ⟨0, 0, -1⟩, g_matrix4_identity⟩⟩
        ⟨⟨0, 0, 1⟩, ⟨1, 0, 0⟩, 64, true, ⟨0, 0, 1, 0⟩, ⟨0, 0, 0⟩⟩
        g_matrix4_identity g_matrix4_identity ⟨0, 1 / 2⟩).2 =
        Quaternion.for_axisangle ⟨0, 0, 1⟩
          (if c_modifierNone.shift = true then float_snapped theta (c_pi / 12) else theta) ∧
      |float_snapped theta (c_pi / 12) - theta| ≤ c_pi / 24 := by
  refine ⟨by decide!, by decide!, by decide!, ?_, ?_, ?_⟩
  · decide!
  · have h1 := Real.pi_gt_d20
    have h2 := Real.pi_lt_d20
    have e : (((1 : ℚ) / 1 : ℚ) : ℝ) = 1 := by norm_num
    rw [e, Real.arctan_one]
    unfold c_pi
    push_cast
    rw [abs_le]
    constructor <;> norm_num at h1 h2 ⊢ <;> linarith
  · obtain ⟨theta, _, h2, _, _, h5, _⟩ :=
      RotateAxis_Transform_signed_angle (CMath.exactSqrt fun _ _ => c_pi / 4)
        ⟨c_modifierNone, 1, ⟨true, ⟨0, 0, 10⟩, ⟨0, 0, -1⟩, g_matrix4_identity⟩⟩
        ⟨⟨0, 0, 1⟩, ⟨1, 0, 0⟩, 64, true, ⟨0, 0, 1, 0⟩, ⟨0, 0, 0⟩⟩
        g_matrix4_identity g_matrix4_identity ⟨0, 1 / 2⟩ ⟨0, 1, 0⟩
        (by decide!) (by decide!) (by decide!) (by decide!) (by decide!) (by decide!)
    exact ⟨theta, h2, h5⟩

/-! ### DragNewBrush: the box with float operations (C27) -/

theorem DragNewBrush_cuboid_rounded_exact (m_0 diff : Vector3) :
    DragNewBrush.cuboid_rounded (fun x => x) m_0 diff =
      aabb_for_minmax (DragNewBrush.minmax m_0 diff).1 (DragNewBrush.minmax m_0 diff).2 := by
  rfl

theorem float32_round_examples :
    float32_round 60000 = 60000 ∧ float32_round (1 / 2 ^ 20) = 1 / 2 ^ 20 ∧
    float32_round (60000 + 1 / 2 ^ 20) = 60000 ∧ float32_round (60000 + 1 / 2 ^ 8) = 60000 + 1 / 2 ^ 8 ∧
    float32_round (16777217) = 16777216 ∧ float32_round (16777219) = 16777220 ∧
    float32_round (1 / 10) = 13421773 / 134217728 := by
  refine ⟨?_, ?_, ?_, ?_, ?_, ?_, ?_⟩ <;> decide!

/-- C27 (counterexample): grid size `2^-20`, snap grid size 0, anchor `m_0 = (0, 0, 60000)`, no
modifier, a top view scaled by `2^-17`, device point `(2^-14, 2^-15)`. The call leaves
`m_size = (8, 4, 2^-20)`, which has no zero component, and in exact arithmetic passes the box
with extents `(4, 2, 2^-21)`. `m_0` and `m_size` are `float` values, and with `float`
operations `maxs.z = 60000 + 2^-20` rounds to `60000 = mins.z`: the box passed has origin
`(4, 2, 60000)` and extents `(4, 2, 0)`. The same happens with grid size `1/8` at the anchor
`(0, 0, 2^21)`: `2^21 + 1/8` lies half way between two `float` values and rounds to `2^21`. -/
theorem DragNewBrush_float_zero_extent :
    (DragNewBrush.Transform (CMath.exactSqrt fun _ _ => 0) (1 / 2 ^ 20)
      ⟨1 / 2 ^ 17, 0, 0, 0, 0, 1 / 2 ^ 17, 0, 0, 0, 0, -1 / 2 ^ 17, 0, 0, 0, 0, 1⟩
      ⟨c_modifierNone, 0, ⟨false, ⟨0, 0, 0⟩, ⟨0, 0, -1⟩,
        ⟨1 / 2 ^ 17, 0, 0, 0, 0, 1 / 2 ^ 17, 0, 0, 0, 0, -1 / 2 ^ 17, 0, 0, 0, 0, 1⟩⟩⟩
      (DragNewBrush.Construct (1 / 2 ^ 20)
        (DragNewBrush.set0 ⟨⟨0, 0, 0⟩, ⟨0, 0, 0⟩, 0⟩ ⟨0, 0, 60000⟩))
      g_matrix4_identity g_matrix4_identity ⟨1 / 2 ^ 14, 1 / 2 ^ 15⟩)
      = (⟨⟨0, 0, 60000⟩, ⟨8, 4, 1 / 2 ^ 20⟩, 1 / 2 ^ 20⟩,
         some ⟨⟨4, 2, 60000 + 1 / 2 ^ 21⟩, ⟨4, 2, 1 / 2 ^ 21⟩⟩) ∧
    float32_round 60000 = 60000 ∧ float32_round 8 = 8 ∧ float32_round 4 = 4 ∧
    float32_round (1 / 2 ^ 20) = 1 / 2 ^ 20 ∧
    float32_round (60000 + 1 / 2 ^ 20) = 60000 ∧
    DragNewBrush.cuboid_rounded float32_round ⟨0, 0, 60000⟩ ⟨8, 4, 1 / 2 ^ 20⟩
      = ⟨⟨4, 2, 60000⟩, ⟨4, 2, 0⟩⟩ ∧
    (DragNewBrush.Transform (CMath.exactSqrt fun _ _ => 0) (1 / 8)
      ⟨1 / 2 ^ 17, 0, 0, 0, 0, 1 / 2 ^ 17, 0, 0, 0, 0, -1 / 2 ^ 17, 0, 0, 0, 0, 1⟩
      ⟨c_modifierNone, 1 / 8, ⟨false, ⟨0, 0, 0⟩, ⟨0, 0, -1⟩,
        ⟨1 / 2 ^ 17, 0, 0, 0, 0, 1 / 2 ^ 17, 0, 0, 0, 0, -1 / 2 ^ 17, 0, 0, 0, 0, 1⟩⟩⟩
      (DragNewBrush.Construct (1 / 8)
        (DragNewBrush.set0 ⟨⟨0, 0, 0⟩, ⟨0, 0, 0⟩, 0⟩ ⟨0, 0, 2 ^ 21⟩))
      g_matrix4_identity g_matrix4_identity ⟨1 / 2 ^ 14, 1 / 2 ^ 15⟩).1
      = ⟨⟨0, 0, 2 ^ 21⟩, ⟨8, 4, 1 / 8⟩, 1 / 8⟩ ∧
    float32_round (2 ^ 21) = 2 ^ 21 ∧ float32_round (1 / 8) = 1 / 8 ∧
    DragNewBrush.cuboid_rounded float32_round ⟨0, 0, 2 ^ 21⟩ ⟨8, 4, 1 / 8⟩
      = ⟨⟨4, 2, 2 ^ 21⟩, ⟨4, 2, 0⟩⟩ := by
  refine ⟨?_, ?_, ?_, ?_, ?_, ?_, ?_, ?_, ?_, ?_, ?_⟩ <;> decide!

end Radiant
